import Mathlib

/-!
BlueZ audio gateway, `audio/headset.c`.

A shallow embedding of the headset (HSP/HFP audio gateway) engine.

* C `int` fields are `Int`; pointers to channels, messages and callbacks are
  `Option Nat` handles (`none` is `NULL`).
* C strings are lists of bytes (`List Nat`) without the terminating NUL.
* The process-wide variables `ag`, `sco_hci` and `active_telephony_device`
  and the sessions of all devices live in one `World`; a device is named by
  a number and `World.hs dev` is `dev->headset`.
* Everything the engine does to its collaborators (D-Bus signals and replies,
  bytes written to the control channel, telephony requests, completion
  callbacks, asynchronous stages started) is appended to `World.trace` in
  program order.
* What the collaborators answer is read from an `Env` of oracles.
* `World.fault` is raised where the C code would dereference a null pointer
  or index outside `buf` or outside the indicator table.
* Allocation never fails, and a formatted response is shorter than
  `BUF_SIZE` (the `vsnprintf` in `headset_send` does not truncate).
-/

namespace Headset

/-! ## Constants -/

def DC_TIMEOUT : Nat := 3000
def RING_INTERVAL : Nat := 3000
/-- Number of indicator events that can be queued. -/
def EV_BUF_SIZE : Nat := 4
def BUF_SIZE : Nat := 1024
/-- The character `S`. -/
def HEADSET_GAIN_SPEAKER : Nat := 83
/-- The character `M`. -/
def HEADSET_GAIN_MICROPHONE : Nat := 77

def EIO : Int := 5
def EBUSY : Int := 16
def ENODEV : Int := 19
def EINVAL : Int := 22
def ENOSPC : Int := 28
def EISCONN : Int := 106

def G_IO_IN : Nat := 1
def G_IO_ERR : Nat := 8
def G_IO_HUP : Nat := 16
def G_IO_NVAL : Nat := 32

def HEADSET_SVCLASS_ID : Nat := 0x1108
def HANDSFREE_SVCLASS_ID : Nat := 0x111e

/-! ## Bytes and C library helpers -/

/-- The bytes of an ASCII string literal. -/
def bytes (s : String) : List Nat := s.toList.map Char.toNat

def CR : Nat := 13
def NUL : Nat := 0

/-- Decimal digits of `n`, most significant first, prepended to `acc`. -/
def dec_digits : Nat → Nat → List Nat → List Nat
  | 0, _, acc => acc
  | fuel + 1, n, acc =>
    if n / 10 = 0 then (48 + n % 10) :: acc
    else dec_digits fuel (n / 10) ((48 + n % 10) :: acc)

/-- The conversion `%u`. -/
def fmt_u (n : Nat) : List Nat := dec_digits (n + 1) n []

/-- The conversion `%d`. -/
def fmt_d (i : Int) : List Nat :=
  if i < 0 then 45 :: fmt_u i.natAbs else fmt_u i.natAbs

/-- The C-locale `isspace`. -/
def isspace (c : Nat) : Bool := c == 32 || (9 ≤ c && c ≤ 13)

def isdigit (c : Nat) : Bool := 48 ≤ c && c ≤ 57

/-- Value of the leading decimal digits of `s`, starting from `acc`. -/
def digits_value : Nat → List Nat → Nat
  | acc, [] => acc
  | acc, c :: r => if isdigit c then digits_value (acc * 10 + (c - 48)) r else acc

/-- The mathematical value `strtol`/`strtoul` read, before any clamping:
leading white space, an optional sign, then decimal digits (0 if none). -/
def strto_value (s : List Nat) : Int :=
  match s.dropWhile isspace with
  | 45 :: r => - (digits_value 0 r : Int)
  | 43 :: r => (digits_value 0 r : Int)
  | r => (digits_value 0 r : Int)

def LONG_MAX : Int := 2 ^ 63 - 1
def LONG_MIN : Int := - 2 ^ 63
def ULONG_MAX : Int := 2 ^ 64 - 1

/-- The call `strtol(s, NULL, 10)` with a 64-bit `long`: out-of-range values
are clamped. -/
def strtol (s : List Nat) : Int :=
  let v := strto_value s
  if v > LONG_MAX then LONG_MAX else if v < LONG_MIN then LONG_MIN else v

/-- The call `strtoul(s, NULL, 10)` with a 64-bit `unsigned long`: the
magnitude is clamped to `ULONG_MAX` and a minus sign negates modulo `2^64`. -/
def strtoul (s : List Nat) : Nat :=
  let v := strto_value s
  if v > ULONG_MAX ∨ v < - ULONG_MAX then ULONG_MAX.toNat
  else (v % 2 ^ 64).toNat

/-- Conversion of an integer to a 32-bit `int`. -/
def to_int32 (v : Int) : Int := (v + 2 ^ 31) % 2 ^ 32 - 2 ^ 31

/-- The call `atoi(s)`, which is `(int) strtol(s, NULL, 10)`. -/
def atoi (s : List Nat) : Int := to_int32 (strtol s)

/-- Split `s` at the byte `d` into at most `max` tokens, the last one holding
the remainder; `cur` is the token being collected, reversed. -/
def split_max (d : Nat) : Nat → List Nat → List Nat → List (List Nat)
  | 0, _, _ => []
  | 1, cur, s => [cur.reverse ++ s]
  | _ + 2, cur, [] => [cur.reverse]
  | n + 2, cur, c :: r =>
    if c = d then cur.reverse :: split_max d (n + 1) [] r else split_max d (n + 2) (c :: cur) r

/-- The call `g_strsplit(s, ",", max)`: the empty string gives no token. -/
def g_strsplit (s : List Nat) (max : Nat) : List (List Nat) :=
  if s = [] then [] else split_max 44 max [] s

/-! ## Data model -/

/-- The connection states, in the order of `str_state`. -/
inductive headset_state_t
  | HEADSET_STATE_DISCONNECTED
  | HEADSET_STATE_CONNECT_IN_PROGRESS
  | HEADSET_STATE_CONNECTED
  | HEADSET_STATE_PLAY_IN_PROGRESS
  | HEADSET_STATE_PLAYING
  deriving DecidableEq, Repr

open headset_state_t

/-- The integer value of a state of the enumeration. -/
def headset_state_t.toNat : headset_state_t → Nat
  | HEADSET_STATE_DISCONNECTED => 0
  | HEADSET_STATE_CONNECT_IN_PROGRESS => 1
  | HEADSET_STATE_CONNECTED => 2
  | HEADSET_STATE_PLAY_IN_PROGRESS => 3
  | HEADSET_STATE_PLAYING => 4

/-- One waiter of a pending operation. `cb` names the completion callback. -/
structure connect_cb where
  id : Nat
  cb : Nat
  cb_data : Nat
  deriving DecidableEq, Repr

structure pending_connect where
  msg : Option Nat
  call : Option Nat
  io : Option Nat
  err : Int
  target_state : headset_state_t
  callbacks : List connect_cb
  deriving DecidableEq, Repr

structure headset where
  hsp_handle : Nat
  hfp_handle : Nat
  rfcomm_ch : Int
  rfcomm : Option Nat
  tmp_rfcomm : Option Nat
  sco : Option Nat
  sco_id : Nat
  auto_dc : Bool
  ring_timer : Nat
  dc_timer : Nat
  buf : List Nat
  data_start : Int
  data_length : Int
  hfp_active : Bool
  search_hfp : Bool
  cli_active : Bool
  ph_number : Option (List Nat)
  type : Int
  state : headset_state_t
  pending : Option pending_connect
  sp_gain : Int
  mic_gain : Int
  hf_features : Nat
  lock : Nat
  deriving DecidableEq, Repr

/-- One entry of the indicator table supplied by the telephony back-end. -/
structure indicator where
  desc : List Nat
  range : List Nat
  val : Int
  deriving DecidableEq, Repr

/-- One slot of `ag.ev_buf`. -/
structure ev_slot where
  index : Int
  val : Int
  deriving DecidableEq, Repr

/-- The process-wide `ag` structure. -/
structure AG where
  telephony_ready : Bool
  features : Nat
  indicators : List indicator
  er_mode : Int
  er_ind : Int
  rh : Int
  ev_buf_active : Bool
  ev_buf : List ev_slot
  deriving DecidableEq, Repr

/-- The signals of `headset_signals`. -/
inductive Signal
  | Connected
  | Disconnected
  | AnswerRequested
  | Stopped
  | Playing
  | SpeakerGainChanged
  | MicrophoneGainChanged
  | CallTerminated
  deriving DecidableEq, Repr

/-- The requests driven into the telephony back-end. -/
inductive TelRequest
  | event_reporting_req (ind : Int)
  | answer_call_req
  | terminate_call_req
  | last_dialed_number_req
  | dial_number_req (number : List Nat)
  | transmit_dtmf_req (tone : Nat)
  | subscriber_number_req
  | response_and_hold_req (rh : Int)
  deriving DecidableEq, Repr

/-- The error replies of the control surface. -/
inductive DBusError
  | NotSupported
  | ConnectionAttemptFailed
  | ConnectAttemptFailed
  | NotConnected
  | InProgress
  | AlreadyConnected
  | NotReady
  | NotAvailable
  | InvalidArgument
  | Failed
  deriving DecidableEq, Repr

/-- A reply message: a method return with its arguments, or an error. -/
inductive Reply
  | method_return (args : List Nat)
  | error (e : DBusError)
  deriving DecidableEq, Repr

/-- The asynchronous stages of the transport collaborator. -/
inductive Stage
  | search_service
  | rfcomm_connect (ch : Int)
  | sco_connect
  deriving DecidableEq, Repr

/-- What the engine does to its collaborators. -/
inductive Out
  /-- A signal emitted with `g_dbus_emit_signal` on the device's path. -/
  | signal (dev : Nat) (s : Signal) (arg : Option Nat)
  /-- Bytes written to the control channel of the device. -/
  | wrote (dev : Nat) (data : List Nat)
  /-- A telephony request is entered. -/
  | tel_call (req : TelRequest)
  /-- The same telephony request returns. -/
  | tel_ret (req : TelRequest) (ret : Int)
  /-- A completion callback of a waiter is invoked. -/
  | callback (cb : Nat) (dev : Option Nat) (cb_data : Nat)
  /-- A reply sent to the caller that owns the message `msg`. -/
  | reply (msg : Nat) (r : Reply)
  /-- An asynchronous stage started for the device. -/
  | stage (dev : Nat) (s : Stage)
  /-- The call `g_idle_add(dummy_connect_complete, dev)`. -/
  | idle_add (dev : Nat)
  deriving DecidableEq, Repr

/-- What a telephony request does: the indicator events it reports through
`telephony_event_ind` while it runs (index and new value of the indicator,
which the back-end stores in its table before reporting), and its result. -/
structure TelReply where
  events : List (Nat × Int)
  ret : Int

/-- The answers of the collaborators.

* `wr n` decides the `n`-th call of `headset_send` that reaches `write`:
  `none` writes everything; `some (k, e)` fails with `errno = e + 1` after
  `k` bytes when `k` is less than the number of bytes to write.
* `tel n req` is what the `n`-th telephony request does.
* `bt n` is the result of the `n`-th attempt to start an asynchronous stage.
* `server_hfp` is `server_is_enabled(src, HANDSFREE_SVCLASS_ID)`.
* `three_way` is the mask `AG_FEATURE_THREE_WAY_CALLING` of `telephony.h`. -/
structure Env where
  wr : Nat → Option (Nat × Nat)
  tel : Nat → TelRequest → TelReply
  bt : Nat → Int
  server_hfp : Bool
  three_way : Nat

structure World where
  hs : Nat → headset
  ag : AG
  sco_hci : Bool
  active_telephony_device : Option Nat
  trace : List Out
  nsend : Nat
  ntel : Nat
  nbt : Nat
  nsrc : Nat
  fault : Bool

/-- Replace the session of `dev`. -/
def World.set_hs (w : World) (dev : Nat) (h : headset) : World :=
  { w with hs := Function.update w.hs dev h }

/-- Append one collaborator event. -/
def World.emit (w : World) (o : Out) : World :=
  { w with trace := w.trace ++ [o] }

/-- Raised where the C code dereferences a null pointer or leaves an array. -/
def World.raise_fault (w : World) : World := { w with fault := true }

/-- The initial value of `ag`. -/
def ag_init : AG :=
  { telephony_ready := false, features := 0, indicators := [], er_mode := 3,
    er_ind := 0, rh := -1, ev_buf_active := false,
    ev_buf := List.replicate EV_BUF_SIZE ⟨0, 0⟩ }

/-- A session as `headset_init` leaves it when no record is passed
(`g_new0` zeroes every other field). -/
def headset_new (search_hfp : Bool) : headset :=
  { hsp_handle := 0, hfp_handle := 0, rfcomm_ch := -1, rfcomm := none,
    tmp_rfcomm := none, sco := none, sco_id := 0, auto_dc := false,
    ring_timer := 0, dc_timer := 0, buf := List.replicate BUF_SIZE 0,
    data_start := 0, data_length := 0, hfp_active := false,
    search_hfp := search_hfp, cli_active := false, ph_number := none,
    type := 0, state := HEADSET_STATE_DISCONNECTED, pending := none,
    sp_gain := -1, mic_gain := -1, hf_features := 0, lock := 0 }

/-- The process at start-up, every device holding a fresh session. -/
def world_init (search_hfp : Bool) : World :=
  { hs := fun _ => headset_new search_hfp, ag := ag_init, sco_hci := true,
    active_telephony_device := none, trace := [], nsend := 0, ntel := 0,
    nbt := 0, nsrc := 0, fault := false }

/-! ## Sending to the peer -/

/-- The response `headset_send` formats is passed as `rsp`. Returns `-EIO`
without a control channel, the negated `errno` when a `write` fails, else 0. -/
def headset_send (env : Env) (w : World) (dev : Nat) (rsp : List Nat) : World × Int :=
  match (w.hs dev).rfcomm with
  | none => (w, - EIO)
  | some _ =>
    let w1 := { w with nsend := w.nsend + 1 }
    match env.wr w.nsend with
    | none => (w1.emit (.wrote dev rsp), 0)
    | some (k, e) =>
      if k < rsp.length then (w1.emit (.wrote dev (rsp.take k)), Int.negSucc e)
      else (w1.emit (.wrote dev rsp), 0)

def rsp_OK : List Nat := bytes "\r\nOK\r\n"
def rsp_ERROR : List Nat := bytes "\r\nERROR\r\n"
/-- The text `"\r\nOK\n\r"` several handlers send. -/
def rsp_OK_nr : List Nat := bytes "\r\nOK\n\r"

/-- The line `"\r\n+CIEV:%d,%d\r\n"`. -/
def rsp_CIEV (index val : Int) : List Nat :=
  bytes "\r\n+CIEV:" ++ fmt_d index ++ bytes "," ++ fmt_d val ++ bytes "\r\n"

/-! ## Indicator event buffer -/

/-- The value `ag.indicators[index].val` for an index inside the table.
Outside the table the C read is a fault, which `read_indicator` raises at
every place the value is read; 0 then stands for a value that cannot be read. -/
def indicator_val (ag : AG) (index : Nat) : Int :=
  match ag.indicators.get? index with
  | some i => i.val
  | none => 0

/-- The read of `ag.indicators[index]`: outside the table (the table is NULL
until the back-end is ready) the read leaves the array or dereferences a null
pointer, and the fault is raised. -/
def read_indicator (w : World) (index : Nat) : World :=
  if index < w.ag.indicators.length then w else w.raise_fault

/-- The loop of `buffer_event`: fill the first slot whose index is 0. -/
def buffer_event_loop (index : Int) (val : Int) : List ev_slot → Option (List ev_slot)
  | [] => none
  | s :: r =>
    if s.index = 0 then some (⟨index + 1, val⟩ :: r)
    else (buffer_event_loop index val r).map (fun r1 => s :: r1)

def buffer_event (w : World) (index : Nat) : World × Int :=
  match buffer_event_loop index (indicator_val w.ag index) w.ag.ev_buf with
  | some b =>
    let w1 := read_indicator w index
    ({ w1 with ag := { w1.ag with ev_buf := b } }, 0)
  | none => (w, -ENOSPC)

/-- The loop of `flush_events` from slot `i`, with `n` slots left to visit. -/
def flush_events_loop (env : Env) (dev : Nat) : Nat → Nat → World → World × Int
  | 0, _, w => (w, 0)
  | n + 1, i, w =>
    let s := w.ag.ev_buf.getD i ⟨0, 0⟩
    if s.index = 0 then (w, 0)
    else
      let r := headset_send env w dev (rsp_CIEV s.index s.val)
      if r.2 < 0 then r
      else
        let w1 := r.1
        flush_events_loop env dev n (i + 1)
          { w1 with ag := { w1.ag with ev_buf := w1.ag.ev_buf.set i { s with index := 0 } } }

def flush_events (env : Env) (w : World) : World × Int :=
  match w.active_telephony_device with
  | none => (w, -ENODEV)
  | some d => flush_events_loop env d EV_BUF_SIZE 0 w

def telephony_event_ind (env : Env) (w : World) (index : Nat) : World × Int :=
  match w.active_telephony_device with
  | none => (w, -ENODEV)
  | some d =>
    if (w.hs d).hfp_active = false then (w, -EINVAL)
    else if w.ag.er_ind = 0 then (w, -EINVAL)
    else if w.ag.ev_buf_active then buffer_event w index
    else
      headset_send env (read_indicator w index) d
        (rsp_CIEV ((index : Int) + 1) (indicator_val w.ag index))

/-! ## The telephony back-end -/

/-- The back-end stores a new indicator value in its table. -/
def set_indicator (ag : AG) (index : Nat) (val : Int) : AG :=
  match ag.indicators.get? index with
  | some i => { ag with indicators := ag.indicators.set index { i with val := val } }
  | none => ag

/-- The indicator events a telephony request reports while it runs. -/
def tel_events (env : Env) : List (Nat × Int) → World → World
  | [], w => w
  | e :: r, w =>
    tel_events env r (telephony_event_ind env { w with ag := set_indicator w.ag e.1 e.2 } e.1).1

/-- A call of one of the `telephony_*_req` functions. -/
def telephony_req (env : Env) (w : World) (req : TelRequest) : World × Int :=
  let r := env.tel w.ntel req
  let w1 := World.emit { w with ntel := w.ntel + 1 } (.tel_call req)
  let w2 := tel_events env r.events w1
  (w2.emit (.tel_ret req r.ret), r.ret)

/-! ## Connection state machine -/

def close_sco (w : World) (dev : Nat) : World :=
  let hs := w.hs dev
  match hs.sco with
  | some _ => w.set_hs dev { hs with sco_id := 0, sco := none }
  | none => w

def headset_close_rfcomm (w : World) (dev : Nat) : World :=
  let hs := w.hs dev
  let rfcomm := if hs.tmp_rfcomm.isSome then hs.tmp_rfcomm else hs.rfcomm
  let hs1 := if hs.ring_timer ≠ 0 then { hs with ring_timer := 0 } else hs
  let hs2 := if rfcomm.isSome then { hs1 with tmp_rfcomm := none, rfcomm := none } else hs1
  w.set_hs dev { hs2 with data_start := 0, data_length := 0 }

/-- The entry actions of the new state, before `hs->state` is assigned. -/
def headset_set_state_entry (env : Env) (w : World) (dev : Nat) : headset_state_t → World
  | HEADSET_STATE_DISCONNECTED =>
    let w1 := close_sco w dev
    let w2 := headset_close_rfcomm w1 dev
    let w3 := w2.emit (.signal dev .Disconnected none)
    let w4 := (telephony_req env w3 (.event_reporting_req 0)).1
    if w4.active_telephony_device = some dev then
      { w4 with active_telephony_device := none }
    else w4
  | HEADSET_STATE_CONNECT_IN_PROGRESS => w
  | HEADSET_STATE_CONNECTED =>
    let w1 := close_sco w dev
    if (w1.hs dev).state.toNat < HEADSET_STATE_CONNECTED.toNat then
      let w2 := w1.emit (.signal dev .Connected none)
      if w2.active_telephony_device = none then
        { w2 with active_telephony_device := some dev }
      else w2
    else if (w1.hs dev).state = HEADSET_STATE_PLAYING then
      w1.emit (.signal dev .Stopped none)
    else w1
  | HEADSET_STATE_PLAY_IN_PROGRESS => w
  | HEADSET_STATE_PLAYING =>
    let w1 := World.set_hs { w with nsrc := w.nsrc + 1 } dev
      { w.hs dev with sco_id := w.nsrc + 1 }
    let w2 := w1.emit (.signal dev .Playing none)
    let w3 :=
      if (w2.hs dev).sp_gain ≥ 0 then
        (headset_send env w2 dev
          (bytes "\r\n+VGS=" ++ fmt_u (w2.hs dev).sp_gain.toNat ++ bytes "\r\n")).1
      else w2
    if (w3.hs dev).mic_gain ≥ 0 then
      (headset_send env w3 dev
        (bytes "\r\n+VGM=" ++ fmt_u (w3.hs dev).mic_gain.toNat ++ bytes "\r\n")).1
    else w3

def headset_set_state (env : Env) (w : World) (dev : Nat) (state : headset_state_t) : World :=
  if (w.hs dev).state = state then w
  else
    let w1 := headset_set_state_entry env w dev state
    w1.set_hs dev { w1.hs dev with state := state }

/-! ## Pending operations -/

def pending_connect_complete (w : World) (cb : connect_cb) (dev : Nat) : World :=
  match (w.hs dev).pending with
  | none => w.raise_fault
  | some p =>
    if p.err ≠ 0 then w.emit (.callback cb.cb none cb.cb_data)
    else w.emit (.callback cb.cb (some dev) cb.cb_data)

def pending_connect_finalize (w : World) (dev : Nat) : World :=
  match (w.hs dev).pending with
  | none => w.raise_fault
  | some p =>
    let w1 := p.callbacks.foldl (fun a cb => pending_connect_complete a cb dev) w
    w1.set_hs dev { w1.hs dev with pending := none }

def pending_connect_init (hs : headset) (target_state : headset_state_t) : headset :=
  match hs.pending with
  | some p =>
    if p.target_state.toNat < target_state.toNat then
      { hs with pending := some { p with target_state := target_state } }
    else hs
  | none =>
    { hs with pending := some { msg := none, call := none, io := none, err := 0,
                                target_state := target_state, callbacks := [] } }

/-- Returns the session and `cb->id`. The counter `free_cb_id` is a local
variable initialised to 1 on every call, so its increment is lost. -/
def connect_cb_new (hs : headset) (target_state : headset_state_t) (func user_data : Nat) :
    headset × Nat :=
  let free_cb_id : Nat := 1
  let hs1 := pending_connect_init hs target_state
  let cb : connect_cb := { cb := func, cb_data := user_data, id := free_cb_id }
  match hs1.pending with
  | some p => ({ hs1 with pending := some { p with callbacks := p.callbacks ++ [cb] } }, cb.id)
  | none => (hs1, cb.id)

/-- Ask the transport collaborator to start an asynchronous stage. -/
def bt_start (env : Env) (w : World) (dev : Nat) (s : Stage) : World × Int :=
  let err := env.bt w.nbt
  let w1 := { w with nbt := w.nbt + 1 }
  if err < 0 then (w1, err) else (w1.emit (.stage dev s), err)

/-- The callback and its user data are `cb`; the third result is what is
stored through `cb_id`. -/
def sco_connect (env : Env) (w : World) (dev : Nat) (cb : Option (Nat × Nat)) :
    World × Int × Option Nat :=
  if (w.hs dev).state ≠ HEADSET_STATE_CONNECTED then (w, -EINVAL, none)
  else
    let r := bt_start env w dev .sco_connect
    if r.2 < 0 then (r.1, r.2, none)
    else
      let w1 := headset_set_state env r.1 dev HEADSET_STATE_PLAY_IN_PROGRESS
      let w2 := w1.set_hs dev (pending_connect_init (w1.hs dev) HEADSET_STATE_PLAYING)
      match cb with
      | some c =>
        let n := connect_cb_new (w2.hs dev) HEADSET_STATE_PLAYING c.1 c.2
        (w2.set_hs dev n.1, 0, some n.2)
      | none => (w2, 0, none)

/-- Send the reply `r` to the synchronous caller, if the pending operation
holds one. -/
def reply_pending (w : World) (dev : Nat) (r : Reply) : World :=
  match (w.hs dev).pending with
  | none => w.raise_fault
  | some p =>
    match p.msg with
    | some m => w.emit (.reply m r)
    | none => w

/-- Assign a field of the pending operation `p` of the session. -/
def update_pending (w : World) (dev : Nat) (f : pending_connect → pending_connect) : World :=
  match (w.hs dev).pending with
  | none => w.raise_fault
  | some p => w.set_hs dev { w.hs dev with pending := some (f p) }

def sco_connect_cb (env : Env) (w : World) (chan : Nat) (err : Int) (dev : Nat) : World :=
  if err < 0 then
    let w1 := reply_pending w dev (.error .ConnectionAttemptFailed)
    let w2 := pending_connect_finalize w1 dev
    if (w2.hs dev).rfcomm.isSome then headset_set_state env w2 dev HEADSET_STATE_CONNECTED
    else headset_set_state env w2 dev HEADSET_STATE_DISCONNECTED
  else
    let w1 := w.set_hs dev { w.hs dev with sco := some chan }
    let w2 := update_pending w1 dev (fun p => { p with io := none })
    let w3 := reply_pending w2 dev (.method_return [])
    let w4 := pending_connect_finalize w3 dev
    headset_set_state env w4 dev HEADSET_STATE_PLAYING

def hfp_slc_complete (env : Env) (w : World) (dev : Nat) : World :=
  let w1 := headset_set_state env w dev HEADSET_STATE_CONNECTED
  match (w1.hs dev).pending with
  | none => w1
  | some p =>
    let w2 := reply_pending w1 dev (.method_return [])
    if p.target_state = HEADSET_STATE_CONNECTED then pending_connect_finalize w2 dev
    else
      let r := sco_connect env w2 dev none
      let w3 := update_pending r.1 dev (fun q => { q with err := r.2.1 })
      if r.2.1 < 0 then pending_connect_finalize w3 dev else w3

/-! ## AT command handlers

Each handler receives the command line `buf` (a C string) and returns the
new world and its `int` result. -/

def supported_features (env : Env) (w : World) (dev : Nat) (buf : List Nat) : World × Int :=
  if buf.length < 9 then (w, -EINVAL)
  else
    let w1 := w.set_hs dev { w.hs dev with hf_features := strtoul (buf.drop 8) % 2 ^ 32 }
    let r := headset_send env w1 dev (bytes "\r\n+BRSF=" ++ fmt_u w1.ag.features ++ bytes "\r\n")
    if r.2 < 0 then r else headset_send env r.1 dev rsp_OK

/-- The entries of the `+CIND` range list, `first` telling whether the next
entry is the first one. -/
def indicator_ranges_loop : Bool → List indicator → List Nat
  | _, [] => []
  | first, i :: r =>
    (if first then bytes "(\"" else bytes ",(\"") ++ i.desc ++ bytes "\",(" ++ i.range
      ++ bytes "))" ++ indicator_ranges_loop false r

def indicator_ranges (indicators : List indicator) : List Nat :=
  bytes "\r\n+CIND:" ++ indicator_ranges_loop true indicators ++ bytes "\r\n"

def indicator_values_loop : Bool → List indicator → List Nat
  | _, [] => []
  | first, i :: r =>
    (if first then fmt_d i.val else bytes "," ++ fmt_d i.val) ++ indicator_values_loop false r

def indicator_values (indicators : List indicator) : List Nat :=
  bytes "\r\n+CIND:" ++ indicator_values_loop true indicators ++ bytes "\r\n"

def report_indicators (env : Env) (w : World) (dev : Nat) (buf : List Nat) : World × Int :=
  if buf.length < 8 then (w, -EINVAL)
  else
    let str :=
      if buf.getD 7 0 = 61 then indicator_ranges w.ag.indicators
      else indicator_values w.ag.indicators
    let r := headset_send env w dev str
    if r.2 < 0 then r else headset_send env r.1 dev rsp_OK

def event_reporting (env : Env) (w : World) (dev : Nat) (buf : List Nat) : World × Int :=
  if buf.length < 13 then (w, -EINVAL)
  else
    let tokens := g_strsplit (buf.drop 8) 5
    if tokens.length < 4 then (w, -EINVAL)
    else
      let w1 := { w with ag := { w.ag with er_mode := atoi (tokens.getD 0 []),
                                           er_ind := atoi (tokens.getD 3 []) } }
      if w1.ag.er_ind = 0 ∨ w1.ag.er_ind = 1 then
        let w2 := (telephony_req env w1 (.event_reporting_req w1.ag.er_ind)).1
        let r := headset_send env w2 dev rsp_OK
        if r.2 < 0 then r
        else if (r.1.hs dev).state ≠ HEADSET_STATE_CONNECT_IN_PROGRESS then (r.1, 0)
        else if r.1.ag.features &&& env.three_way ≠ 0 then (r.1, 0)
        else (hfp_slc_complete env r.1 dev, 0)
      else (w1, -EINVAL)

def call_hold (env : Env) (w : World) (dev : Nat) (_buf : List Nat) : World × Int :=
  let r := headset_send env w dev (bytes "\r\n+CHLD:(0,1,1x,2,2x,3,4)\r\n")
  if r.2 < 0 then r
  else
    let r1 := headset_send env r.1 dev rsp_OK
    if r1.2 < 0 then r1
    else if (r1.1.hs dev).state ≠ HEADSET_STATE_CONNECT_IN_PROGRESS then (r1.1, 0)
    else (hfp_slc_complete env r1.1 dev, 0)

/-- The statement `if (hs->ring_timer) { g_source_remove(...); hs->ring_timer = 0; }`. -/
def clear_ring_timer (w : World) (dev : Nat) : World :=
  if (w.hs dev).ring_timer ≠ 0 then w.set_hs dev { w.hs dev with ring_timer := 0 } else w

/-- The statement `if (hs->ph_number) { g_free(...); hs->ph_number = NULL; }`. -/
def clear_ph_number (w : World) (dev : Nat) : World :=
  if (w.hs dev).ph_number.isSome then w.set_hs dev { w.hs dev with ph_number := none } else w

def button_press (env : Env) (w : World) (dev : Nat) (_buf : List Nat) : World × Int :=
  let w1 := w.emit (.signal dev .AnswerRequested none)
  let w2 := clear_ring_timer w1 dev
  headset_send env w2 dev rsp_OK

def answer_call (env : Env) (w : World) (dev : Nat) (_buf : List Nat) : World × Int :=
  let w1 := { w with ag := { w.ag with ev_buf_active := true } }
  let r := telephony_req env w1 .answer_call_req
  if r.2 < 0 then ((headset_send env r.1 dev rsp_ERROR).1, 0)
  else
    let w2 := (flush_events env r.1).1
    let w3 := { w2 with ag := { w2.ag with ev_buf_active := false } }
    let w4 := clear_ring_timer w3 dev
    let w5 := clear_ph_number w4 dev
    headset_send env w5 dev rsp_OK

def terminate_call (env : Env) (w : World) (dev : Nat) (_buf : List Nat) : World × Int :=
  let w1 := { w with ag := { w.ag with ev_buf_active := true } }
  let r := telephony_req env w1 .terminate_call_req
  if r.2 < 0 then ((headset_send env r.1 dev rsp_ERROR).1, 0)
  else
    let w2 := (flush_events env r.1).1
    let w3 := { w2 with ag := { w2.ag with ev_buf_active := false } }
    let w4 := w3.emit (.signal dev .CallTerminated none)
    let w5 := clear_ph_number w4 dev
    let w6 := clear_ring_timer w5 dev
    headset_send env w6 dev rsp_OK_nr

def cli_notification (env : Env) (w : World) (dev : Nat) (buf : List Nat) : World × Int :=
  if buf.length < 9 then (w, -EINVAL)
  else
    let w1 := w.set_hs dev { w.hs dev with cli_active := decide (buf.getD 8 0 = 49) }
    headset_send env w1 dev rsp_OK

/-- The request is called with the value of the comparison `atoi(&buf[8]) < 0`
and the branch is taken when it returns non-zero. -/
def response_and_hold (env : Env) (w : World) (dev : Nat) (buf : List Nat) : World × Int :=
  if buf.length < 8 then (w, -EINVAL)
  else if buf.getD 7 0 = 61 then
    let r := telephony_req env w
      (.response_and_hold_req (if atoi (buf.drop 8) < 0 then 1 else 0))
    if r.2 ≠ 0 then ((headset_send env r.1 dev rsp_ERROR).1, 0)
    else headset_send env r.1 dev rsp_OK_nr
  else if w.ag.rh ≥ 0 then
    let w1 := (headset_send env w dev (bytes "\r\n+BTRH:" ++ fmt_d w.ag.rh ++ bytes "\r\n")).1
    headset_send env w1 dev rsp_OK_nr
  else headset_send env w dev rsp_OK_nr

def last_dialed_number (env : Env) (w : World) (dev : Nat) (_buf : List Nat) : World × Int :=
  let w1 := { w with ag := { w.ag with ev_buf_active := true } }
  let r := telephony_req env w1 .last_dialed_number_req
  if r.2 < 0 then ((headset_send env r.1 dev rsp_ERROR).1, 0)
  else
    let w2 := (flush_events env r.1).1
    let w3 := { w2 with ag := { w2.ag with ev_buf_active := false } }
    headset_send env w3 dev rsp_OK_nr

def dial_number (env : Env) (w : World) (dev : Nat) (buf : List Nat) : World × Int :=
  let w1 := { w with ag := { w.ag with ev_buf_active := true } }
  let r := telephony_req env w1 (.dial_number_req (buf.drop 3))
  if r.2 < 0 then ((headset_send env r.1 dev rsp_ERROR).1, 0)
  else
    let w2 := (flush_events env r.1).1
    let w3 := { w2 with ag := { w2.ag with ev_buf_active := false } }
    headset_send env w3 dev rsp_OK_nr

/-- The gain is `(dbus_uint16_t) strtol(&buf[7], NULL, 10)`. -/
def signal_gain_setting (env : Env) (w : World) (dev : Nat) (buf : List Nat) : World × Int :=
  if buf.length < 8 then (w, -EINVAL)
  else
    let gain : Int := strtol (buf.drop 7) % 2 ^ 16
    if gain > 15 then (w, -EINVAL)
    else if buf.getD 5 0 = HEADSET_GAIN_SPEAKER then
      if (w.hs dev).sp_gain = gain then headset_send env w dev rsp_OK
      else
        let w1 := w.set_hs dev { w.hs dev with sp_gain := gain }
        let w2 := w1.emit (.signal dev .SpeakerGainChanged (some gain.toNat))
        headset_send env w2 dev rsp_OK
    else if buf.getD 5 0 = HEADSET_GAIN_MICROPHONE then
      if (w.hs dev).mic_gain = gain then headset_send env w dev rsp_OK
      else
        let w1 := w.set_hs dev { w.hs dev with mic_gain := gain }
        let w2 := w1.emit (.signal dev .MicrophoneGainChanged (some gain.toNat))
        headset_send env w2 dev rsp_OK
    else (w, -EINVAL)

def dtmf_tone (env : Env) (w : World) (dev : Nat) (buf : List Nat) : World × Int :=
  if buf.length < 8 then (w, -EINVAL)
  else
    let r := telephony_req env w (.transmit_dtmf_req (buf.getD 7 0))
    if r.2 < 0 then ((headset_send env r.1 dev rsp_ERROR).1, 0)
    else headset_send env r.1 dev rsp_OK_nr

def subscriber_number (env : Env) (w : World) (dev : Nat) (_buf : List Nat) : World × Int :=
  let r := telephony_req env w .subscriber_number_req
  if r.2 < 0 then ((headset_send env r.1 dev rsp_ERROR).1, 0)
  else headset_send env r.1 dev rsp_OK_nr

/-- One entry of the dispatch table. -/
structure event where
  cmd : List Nat
  callback : Env → World → Nat → List Nat → World × Int

def event_callbacks : List event :=
  [ ⟨bytes "ATA", answer_call⟩,
    ⟨bytes "ATD", dial_number⟩,
    ⟨bytes "AT+VG", signal_gain_setting⟩,
    ⟨bytes "AT+BRSF", supported_features⟩,
    ⟨bytes "AT+CIND", report_indicators⟩,
    ⟨bytes "AT+CMER", event_reporting⟩,
    ⟨bytes "AT+CHLD", call_hold⟩,
    ⟨bytes "AT+CHUP", terminate_call⟩,
    ⟨bytes "AT+CKPD", button_press⟩,
    ⟨bytes "AT+CLIP", cli_notification⟩,
    ⟨bytes "AT+BTRH", response_and_hold⟩,
    ⟨bytes "AT+BLDN", last_dialed_number⟩,
    ⟨bytes "AT+VTS", dtmf_tone⟩,
    ⟨bytes "AT+CNUM", subscriber_number⟩ ]

/-- The loop of `handle_event` over the rest of the table; the test
`!strncmp(buf, ev->cmd, strlen(ev->cmd))` holds when `cmd` is a prefix of
`buf`. -/
def handle_event_loop (env : Env) (w : World) (dev : Nat) (buf : List Nat) :
    List event → World × Int
  | [] => (w, -EINVAL)
  | ev :: r =>
    if ev.cmd.isPrefixOf buf then ev.callback env w dev buf
    else handle_event_loop env w dev buf r

def handle_event (env : Env) (w : World) (dev : Nat) (buf : List Nat) : World × Int :=
  handle_event_loop env w dev buf event_callbacks

/-! ## The line framer -/

/-- The call `memcpy(&buf[off], src, n)`. -/
def memcpy_at (buf : List Nat) (off : Nat) (src : List Nat) : List Nat :=
  buf.take off ++ src ++ buf.drop (off + src.length)

/-- The call `strchr(s, c)` on the bytes from a position of `buf` on: the
offset of the first `c` before the first NUL. -/
def strchr : List Nat → Nat → Option Nat
  | [], _ => none
  | x :: r, c =>
    if x = c then some 0
    else if x = NUL then none
    else (strchr r c).map (fun k => k + 1)

/-- The C string that starts at a position of `buf`. -/
def c_string (l : List Nat) : List Nat := l.takeWhile (fun x => x ≠ NUL)

/-- The label `failed` of `rfcomm_io_cb`. -/
def rfcomm_io_failed (env : Env) (w : World) (dev : Nat) : World × Bool :=
  (headset_set_state env w dev HEADSET_STATE_DISCONNECTED, false)

/-- The reactor callback of the control channel. `rd` is the outcome of
`g_io_channel_read`: `none` for an error, else the bytes read. -/
def rfcomm_io_cb (env : Env) (w : World) (cond : Nat) (rd : Option (List Nat)) (dev : Nat) :
    World × Bool :=
  if cond &&& G_IO_NVAL ≠ 0 then (w, false)
  else if cond &&& (G_IO_ERR ||| G_IO_HUP) ≠ 0 then rfcomm_io_failed env w dev
  else
    match rd with
    | none => (w, true)
    | some data =>
      let hs := w.hs dev
      let free_space : Int := ((BUF_SIZE : Int) - hs.data_start - hs.data_length - 1) % 2 ^ 64
      if free_space < data.length then rfcomm_io_failed env w dev
      else
        let start := hs.data_start.toNat
        let len : Int := hs.data_length + data.length
        let buf1 := memcpy_at hs.buf start data
        let buf2 := buf1.set (hs.data_start + len).toNat NUL
        let w0 := w.set_hs dev { hs with buf := buf2, data_length := len }
        let w1 :=
          if 0 ≤ hs.data_start ∧ 0 ≤ hs.data_length ∧ hs.data_start + len < BUF_SIZE then w0
          else w0.raise_fault
        match strchr (buf2.drop start) CR with
        | none => (w1, true)
        | some k =>
          let cmd_len : Int := 1 + k
          let buf3 := buf2.set (start + k) NUL
          let w2 := w1.set_hs dev { w1.hs dev with buf := buf3 }
          let r := handle_event env w2 dev (c_string (buf3.drop start))
          let w3 := if r.2 = -EINVAL then (headset_send env r.1 dev rsp_ERROR).1 else r.1
          let hs3 := w3.hs dev
          let dl := hs3.data_length - cmd_len
          (w3.set_hs dev { hs3 with data_start := if dl = 0 then 0 else hs3.data_start + cmd_len,
                                    data_length := dl }, true)

def sco_cb (env : Env) (w : World) (cond : Nat) (dev : Nat) : World × Bool :=
  if cond &&& G_IO_NVAL ≠ 0 then (w, false)
  else (headset_set_state env w dev HEADSET_STATE_CONNECTED, false)

/-! ## Stage completions -/

/-- The label `failed` of `rfcomm_connect_cb`. -/
def rfcomm_connect_failed (env : Env) (w : World) (dev : Nat) : World :=
  let w1 := reply_pending w dev (.error .ConnectionAttemptFailed)
  let w2 := pending_connect_finalize w1 dev
  if (w2.hs dev).rfcomm.isSome then headset_set_state env w2 dev HEADSET_STATE_CONNECTED
  else headset_set_state env w2 dev HEADSET_STATE_DISCONNECTED

def rfcomm_connect_cb (env : Env) (w : World) (chan : Nat) (err : Int) (dev : Nat) : World :=
  if err < 0 then rfcomm_connect_failed env w dev
  else
    let w1 := w.set_hs dev { w.hs dev with rfcomm := some chan }
    let w2 := update_pending w1 dev (fun p => { p with io := none })
    let hfp := env.server_hfp && decide ((w2.hs dev).hfp_handle ≠ 0)
    let w3 := w2.set_hs dev { w2.hs dev with hfp_active := hfp }
    if hfp then w3
    else
      let w4 := headset_set_state env w3 dev HEADSET_STATE_CONNECTED
      match (w4.hs dev).pending with
      | none => w4.raise_fault
      | some p =>
        if p.target_state = HEADSET_STATE_PLAYING then
          let r := sco_connect env w4 dev none
          let w5 := update_pending r.1 dev (fun q => { q with err := r.2.1 })
          if r.2.1 < 0 then rfcomm_connect_failed env w5 dev else w5
        else
          let w5 := reply_pending w4 dev (.method_return [])
          pending_connect_finalize w5 dev

def get_records (env : Env) (w : World) (dev : Nat) (cb : Option (Nat × Nat)) :
    World × Int × Option Nat :=
  let w1 := headset_set_state env w dev HEADSET_STATE_CONNECT_IN_PROGRESS
  let w2 := w1.set_hs dev (pending_connect_init (w1.hs dev) HEADSET_STATE_CONNECTED)
  match cb with
  | some c =>
    let n := connect_cb_new (w2.hs dev) HEADSET_STATE_CONNECTED c.1 c.2
    let r := bt_start env (w2.set_hs dev n.1) dev .search_service
    (r.1, r.2, some n.2)
  | none =>
    let r := bt_start env w2 dev .search_service
    (r.1, r.2, none)

def rfcomm_connect (env : Env) (w : World) (dev : Nat) (cb : Option (Nat × Nat)) :
    World × Int × Option Nat :=
  if (w.hs dev).rfcomm_ch < 0 then get_records env w dev cb
  else
    let r := bt_start env w dev (.rfcomm_connect (w.hs dev).rfcomm_ch)
    if r.2 < 0 then (r.1, r.2, none)
    else
      let w1 := headset_set_state env r.1 dev HEADSET_STATE_CONNECT_IN_PROGRESS
      let w2 := w1.set_hs dev (pending_connect_init (w1.hs dev) HEADSET_STATE_CONNECTED)
      match cb with
      | some c =>
        let n := connect_cb_new (w2.hs dev) HEADSET_STATE_CONNECTED c.1 c.2
        (w2.set_hs dev n.1, 0, some n.2)
      | none => (w2, 0, none)

/-- What the discovery reports to `get_record_cb` besides `err`. -/
structure sdp_result where
  /-- The test `recs && recs->data`. -/
  has_record : Bool
  /-- The call `sdp_get_service_classes` does not fail. -/
  classes_ok : Bool
  /-- The first service class, when it is a 16-bit UUID. -/
  uuid16 : Option Nat
  /-- The field `record->handle`. -/
  handle : Nat
  /-- The call `sdp_get_access_protos` returns 0. -/
  protos_ok : Bool
  /-- The result of `sdp_get_proto_port(protos, RFCOMM_UUID)`. -/
  port : Int

/-- The label `failed` of `get_record_cb`. -/
def get_record_failed (env : Env) (w : World) (dev : Nat) : World :=
  headset_set_state env (pending_connect_finalize w dev) dev HEADSET_STATE_DISCONNECTED

/-- The label `failed_not_supported` of `get_record_cb`. -/
def get_record_failed_not_supported (env : Env) (w : World) (dev : Nat) : World :=
  let w1 := reply_pending w dev (.error .NotSupported)
  let w2 := update_pending w1 dev (fun p => { p with msg := none })
  get_record_failed env w2 dev

def get_record_cb (env : Env) (w : World) (recs : sdp_result) (err : Int) (dev : Nat) : World :=
  if err < 0 then get_record_failed_not_supported env w dev
  else if recs.has_record = false then get_record_failed_not_supported env w dev
  else if recs.classes_ok = false then get_record_failed_not_supported env w dev
  else
    match recs.uuid16 with
    | none => get_record_failed_not_supported env w dev
    | some uuid =>
      let hs := w.hs dev
      if hs.search_hfp = true ∧ uuid ≠ HANDSFREE_SVCLASS_ID then
        get_record_failed_not_supported env w dev
      else if hs.search_hfp = false ∧ uuid ≠ HEADSET_SVCLASS_ID then
        get_record_failed_not_supported env w dev
      else
        let hs1 := if hs.search_hfp then { hs with hfp_handle := recs.handle }
                   else { hs with hsp_handle := recs.handle }
        let w1 := w.set_hs dev hs1
        let ch : Int := if recs.protos_ok then recs.port else -1
        if ch = -1 then get_record_failed_not_supported env w1 dev
        else
          let w2 := w1.set_hs dev { w1.hs dev with rfcomm_ch := ch }
          let r := rfcomm_connect env w2 dev none
          if r.2.1 < 0 then
            let w3 := update_pending r.1 dev (fun p => { p with err := - r.2.1 })
            let w4 :=
              match (w3.hs dev).pending with
              | some p =>
                match p.msg with
                | some m => w3.emit (.reply m (.error .ConnectionAttemptFailed))
                | none => w3.raise_fault
              | none => w3
            get_record_failed env w4 dev
          else r.1

/-! ## Control surface: gains -/

def hs_get_speaker_gain (w : World) (dev : Nat) : Reply :=
  let hs := w.hs dev
  if hs.state.toNat < HEADSET_STATE_CONNECTED.toNat ∨ hs.sp_gain < 0 then .error .NotAvailable
  else .method_return [(hs.sp_gain % 2 ^ 16).toNat]

def hs_get_mic_gain (w : World) (dev : Nat) : Reply :=
  let hs := w.hs dev
  if hs.state.toNat < HEADSET_STATE_CONNECTED.toNat ∨ hs.mic_gain < 0 then .error .NotAvailable
  else .method_return [(hs.mic_gain % 2 ^ 16).toNat]

/-- The argument of the message is `arg`: `none` when `dbus_message_get_args`
fails, else a 16-bit unsigned value. The result `none` is a null reply. -/
def hs_set_gain (env : Env) (w : World) (dev : Nat) (arg : Option Nat) (type : Nat) :
    World × Option Reply :=
  let hs := w.hs dev
  if hs.state.toNat < HEADSET_STATE_CONNECTED.toNat then (w, some (.error .NotConnected))
  else
    match arg with
    | none => (w, none)
    | some gain =>
      if gain > 15 then (w, some (.error .InvalidArgument))
      else
        let r :=
          if hs.state ≠ HEADSET_STATE_PLAYING then (w, (0 : Int))
          else headset_send env w dev (bytes "\r\n+VG" ++ [type] ++ bytes "=" ++ fmt_u gain
                                        ++ bytes "\r\n")
        if r.2 < 0 then (r.1, some (.error .Failed))
        else if type = HEADSET_GAIN_SPEAKER then
          let w1 := r.1.set_hs dev { r.1.hs dev with sp_gain := gain }
          (w1.emit (.signal dev .SpeakerGainChanged (some gain)), some (.method_return []))
        else
          let w1 := r.1.set_hs dev { r.1.hs dev with mic_gain := gain }
          (w1.emit (.signal dev .MicrophoneGainChanged (some gain)), some (.method_return []))

def hs_set_speaker_gain (env : Env) (w : World) (dev : Nat) (arg : Option Nat) :
    World × Option Reply :=
  hs_set_gain env w dev arg HEADSET_GAIN_SPEAKER

def hs_set_mic_gain (env : Env) (w : World) (dev : Nat) (arg : Option Nat) :
    World × Option Reply :=
  hs_set_gain env w dev arg HEADSET_GAIN_MICROPHONE

/-! ## Stream requests -/

def headset_cancel_stream (env : Env) (w : World) (dev : Nat) (id : Nat) : World × Bool :=
  match (w.hs dev).pending with
  | none => (w, false)
  | some p =>
    match p.callbacks.find? (fun tmp => tmp.id = id) with
    | none => (w, false)
    | some cb =>
      let callbacks := p.callbacks.erase cb
      let w1 := w.set_hs dev { w.hs dev with pending := some { p with callbacks := callbacks } }
      if callbacks ≠ [] ∨ p.msg.isSome then (w1, true)
      else
        let w2 := pending_connect_finalize w1 dev
        if (w2.hs dev).auto_dc then
          if (w2.hs dev).rfcomm.isSome then
            (World.set_hs { w2 with nsrc := w2.nsrc + 1 } dev
              { w2.hs dev with dc_timer := w2.nsrc + 1 }, true)
          else (headset_set_state env w2 dev HEADSET_STATE_DISCONNECTED, true)
        else (w2, true)

def dummy_connect_complete (w : World) (dev : Nat) : World × Bool :=
  (pending_connect_finalize w dev, false)

/-- The completion callback `cb` is not null. Returns the waiter id, 0 on
failure. -/
def headset_request_stream (env : Env) (w : World) (dev : Nat) (cb user_data : Nat) :
    World × Nat :=
  let hs := w.hs dev
  if hs.rfcomm.isSome ∧ hs.sco.isSome then
    let n := connect_cb_new hs HEADSET_STATE_PLAYING cb user_data
    ((w.set_hs dev n.1).emit (.idle_add dev), n.2)
  else
    let w1 := if hs.dc_timer ≠ 0 then w.set_hs dev { hs with dc_timer := 0 } else w
    if (w1.hs dev).state = HEADSET_STATE_CONNECT_IN_PROGRESS then
      let n := connect_cb_new (w1.hs dev) HEADSET_STATE_PLAYING cb user_data
      (w1.set_hs dev n.1, n.2)
    else if (w1.hs dev).rfcomm = none then
      let r := rfcomm_connect env w1 dev (some (cb, user_data))
      if r.2.1 < 0 then (r.1, 0)
      else
        let w2 := r.1.set_hs dev { r.1.hs dev with auto_dc := true }
        (update_pending w2 dev (fun p => { p with target_state := HEADSET_STATE_PLAYING }),
          r.2.2.getD 0)
    else
      let r := sco_connect env w1 dev (some (cb, user_data))
      if r.2.1 < 0 then (r.1, 0)
      else
        (update_pending r.1 dev (fun p => { p with target_state := HEADSET_STATE_PLAYING }),
          r.2.2.getD 0)

/-! ## Concrete collaborators and worlds -/

/-- Collaborators that never fail: every write completes, every telephony
request returns 0 without reporting an event, every stage starts. -/
def env_ok : Env :=
  { wr := fun _ => none, tel := fun _ _ => ⟨[], 0⟩, bt := fun _ => 0, server_hfp := true,
    three_way := 1 }

/-- A session with an open control channel in the given state. -/
def headset_in (state : headset_state_t) : headset :=
  { headset_new true with rfcomm := some 1, state := state, hfp_active := true }

/-- The start-up world with device 0 Connected over an open control channel. -/
def w_conn : World := (world_init true).set_hs 0 (headset_in HEADSET_STATE_CONNECTED)

/-- The start-up world with device 0 Playing. -/
def w_playing : World :=
  (world_init true).set_hs 0 { headset_in HEADSET_STATE_PLAYING with sco := some 2 }

/-- Collaborators whose telephony requests each report one event, indicator 0
taking the value 1, and return `ret`. -/
def env_tel (ret : Int) : Env :=
  { env_ok with tel := fun _ _ => ⟨[(0, 1)], ret⟩ }

/-- Device 0 is Connected in HFP mode and selected, the peer has enabled
indicator reporting, and the indicator table holds one indicator. -/
def w_hfp : World :=
  { w_conn with
    active_telephony_device := some 0,
    ag := { ag_init with telephony_ready := true, er_ind := 1,
                         indicators := [⟨bytes "call", bytes "0,1", 0⟩] } }

/-- A pending operation towards `target` with a synchronous caller (message
5) and one waiter (id 1, callback 7, user data 9). -/
def pending_one (target : headset_state_t) : pending_connect :=
  { msg := some 5, call := none, io := none, err := 0, target_state := target,
    callbacks := [⟨1, 7, 9⟩] }

/-- Device 0 waits for the discovery or the RFCOMM connect to complete. -/
def w_connecting : World :=
  (world_init true).set_hs 0
    { headset_new true with state := HEADSET_STATE_CONNECT_IN_PROGRESS,
                            pending := some (pending_one HEADSET_STATE_PLAYING) }

/-- Device 0 waits for the SCO connect to complete. -/
def w_sco_connecting : World :=
  (world_init true).set_hs 0
    { headset_in HEADSET_STATE_PLAY_IN_PROGRESS with
      pending := some (pending_one HEADSET_STATE_PLAYING) }

/-- Device 0 after `Connect()` was accepted: ConnectInProgress, the caller
(message 5) held by the pending operation, no waiter yet. -/
def w_connect_called : World :=
  (world_init true).set_hs 0
    { headset_new true with
      state := HEADSET_STATE_CONNECT_IN_PROGRESS,
      pending := some { msg := some 5, call := none, io := none, err := 0,
                        target_state := HEADSET_STATE_CONNECTED, callbacks := [] } }

/-- A discovery that found nothing. -/
def sdp_none : sdp_result :=
  { has_record := false, classes_ok := false, uuid16 := none, handle := 0,
    protos_ok := false, port := 0 }

/-- Feed the chunks, in order, to `rfcomm_io_cb` as successful reads. -/
def feed_chunks (env : Env) (dev : Nat) : World → List (List Nat) → World
  | w, [] => w
  | w, c :: r => feed_chunks env dev (rfcomm_io_cb env w G_IO_IN (some c) dev).1 r

/-! ## Reading traces -/

/-- The signals of a trace, in order. -/
def signals_of : List Out → List (Nat × Signal × Option Nat)
  | [] => []
  | .signal d s a :: r => (d, s, a) :: signals_of r
  | _ :: r => signals_of r

/-- What was appended to the trace between `w` and `w1`. -/
def emitted (w w1 : World) : List Out := w1.trace.drop w.trace.length

/-- A run of state transitions, each a device and the state requested. -/
def run_transitions (env : Env) : World → List (Nat × headset_state_t) → World
  | w, [] => w
  | w, t :: r => run_transitions env (headset_set_state env w t.1 t.2) r

/-- The selection rule in the words of the specification: a session is
selected when it enters Connected from a lower state while none is selected,
the selection is cleared when the selected session enters Disconnected, and
it is otherwise kept. `old` is the state the session `d` leaves. -/
def active_selection_step (sel : Option Nat) (old : headset_state_t) (d : Nat)
    (s : headset_state_t) : Option Nat :=
  match sel with
  | none =>
    if s = HEADSET_STATE_CONNECTED ∧ old.toNat < HEADSET_STATE_CONNECTED.toNat then some d
    else none
  | some a =>
    if a = d ∧ s = HEADSET_STATE_DISCONNECTED ∧ old ≠ HEADSET_STATE_DISCONNECTED then none
    else some a

/-- The selection and the session states after a sequence of transitions,
by the rule of the specification. -/
def active_selection_run :
    Option Nat × (Nat → headset_state_t) → List (Nat × headset_state_t) →
      Option Nat × (Nat → headset_state_t)
  | c, [] => c
  | c, t :: r =>
    active_selection_run
      (active_selection_step c.1 (c.2 t.1) t.1 t.2, Function.update c.2 t.1 t.2) r

/-- Only bytes written to a peer: no signal, request, callback or reply. -/
def only_wrote (l : List Out) : Prop := ∀ o ∈ l, ∃ d b, o = Out.wrote d b

/-! ## Control surface: connection -/

/-- The message of the caller is `msg`. The result `none` is a null reply:
the answer is sent later, to the message kept in the pending operation. -/
def hs_connect (env : Env) (w : World) (dev : Nat) (msg : Nat) : World × Option Reply :=
  let hs := w.hs dev
  if hs.state = HEADSET_STATE_CONNECT_IN_PROGRESS then (w, some (.error .InProgress))
  else if hs.state.toNat > HEADSET_STATE_CONNECT_IN_PROGRESS.toNat then
    (w, some (.error .AlreadyConnected))
  else if hs.hfp_handle ≠ 0 ∧ w.ag.telephony_ready = false then (w, some (.error .NotReady))
  else
    let r := rfcomm_connect env w dev none
    if r.2.1 < 0 then (r.1, some (.error .ConnectAttemptFailed))
    else
      let w1 := r.1.set_hs dev { r.1.hs dev with auto_dc := false }
      (update_pending w1 dev (fun p => { p with msg := some msg }), none)

def hs_disconnect (env : Env) (w : World) (dev : Nat) : World × Option Reply :=
  if (w.hs dev).state = HEADSET_STATE_DISCONNECTED then (w, some (.error .NotConnected))
  else (headset_set_state env w dev HEADSET_STATE_DISCONNECTED, some (.method_return []))

/-! ## Reading traces, continued -/

/-- The completion callbacks invoked in a trace, in order. -/
def callbacks_of : List Out → List (Nat × Option Nat × Nat)
  | [] => []
  | .callback c d u :: r => (c, d, u) :: callbacks_of r
  | _ :: r => callbacks_of r

/-- The replies sent in a trace, in order. -/
def replies_of : List Out → List (Nat × Reply)
  | [] => []
  | .reply m x :: r => (m, x) :: replies_of r
  | _ :: r => replies_of r

/-- The asynchronous stages started in a trace, in order. -/
def stages_of : List Out → List (Nat × Stage)
  | [] => []
  | .stage d s :: r => (d, s) :: stages_of r
  | _ :: r => stages_of r

/-- What `rfcomm_io_cb` does with a line: hand it to `handle_event` and send
ERROR when the result is `-EINVAL`. -/
def dispatch_line (env : Env) (w : World) (dev : Nat) (line : List Nat) : World :=
  let r := handle_event env w dev line
  if r.2 = -EINVAL then (headset_send env r.1 dev rsp_ERROR).1 else r.1

/-- The input buffer of a session and its cursor. -/
def cursor (h : headset) : List Nat × Int × Int := (h.buf, h.data_start, h.data_length)

/-- Only signals, bytes written to a peer and telephony requests: no
completion callback, no reply, no stage started. -/
def no_coordination (l : List Out) : Prop :=
  callbacks_of l = [] ∧ replies_of l = [] ∧ stages_of l = []

/-- The world `v1` differs from `v` at most by bytes written to peers. -/
def peer_only (v v1 : World) : Prop :=
  v1.hs = v.hs ∧ v1.ag = v.ag ∧ v1.active_telephony_device = v.active_telephony_device ∧
    ∃ l, v1.trace = v.trace ++ l ∧ only_wrote l


/-- The fields of a session that no transition touches. -/
def kept_fields (h : headset) :=
  (h.pending, h.buf, h.sp_gain, h.mic_gain, h.hfp_active, h.hfp_handle, h.hsp_handle,
    h.auto_dc, h.rfcomm_ch, h.dc_timer, h.search_hfp, h.cli_active, h.ph_number,
    h.hf_features, h.lock)

/-- The fields of a session that only the entry into Disconnected touches. -/
def channel_fields (h : headset) :=
  (h.rfcomm, h.tmp_rfcomm, h.data_start, h.data_length, h.ring_timer)

/-- Collaborators that never fail, with the hands-free server disabled, so
that sessions are plain headset (HSP) sessions. -/
def env_hsp : Env := { env_ok with server_hfp := false }

/-- Collaborators that refuse to start any asynchronous stage. -/
def env_no_stage : Env := { env_ok with bt := fun _ => -1 }

/-- A discovery that found the headset service on RFCOMM channel 3. -/
def sdp_headset : sdp_result :=
  { has_record := true, classes_ok := true, uuid16 := some HEADSET_SVCLASS_ID,
    handle := 65537, protos_ok := true, port := 3 }

/-- Device 0 in HFP mode waits for the Service Level Connection: control
channel open, ConnectInProgress, the `Connect()` caller (message 5) and one
waiter held by a pending operation towards `target`; the peer has not yet
enabled indicator reporting. -/
def w_slc (target : headset_state_t) : World :=
  { (world_init true).set_hs 0
      { headset_in HEADSET_STATE_CONNECT_IN_PROGRESS with
        pending := some (pending_one target) } with
    ag := { ag_init with telephony_ready := true,
                         indicators := [⟨bytes "call", bytes "0,1", 0⟩] } }

/-- Every session has in `v1` the input buffer and cursor it has in `v`. -/
def cursors_kept (v v1 : World) : Prop := ∀ d, cursor (v1.hs d) = cursor (v.hs d)

/-- The world `w_hfp` before the peer enabled indicator reporting
(`er_mode = 3`, `er_ind = 0`, the initial values). -/
def w_hfp_quiet : World := { w_hfp with ag := { w_hfp.ag with er_ind := 0 } }

/-- A first stream request (callback 7) on the Disconnected device 0 of the
start-up world, whose RFCOMM channel is unknown: discovery starts. -/
def stream_requested : World × Nat := headset_request_stream env_hsp (world_init false) 0 7 9

/-- The discovery finds the headset service: the RFCOMM connect starts. -/
def stream_discovered : World := get_record_cb env_hsp stream_requested.1 sdp_headset 0 0

/-- The RFCOMM connect succeeds on channel handle 1: the session is Connected
and the SCO connect starts. -/
def stream_rfcomm_up : World := rfcomm_connect_cb env_hsp stream_discovered 1 0 0

/-- A second stream request (callback 8) while the SCO connect is in flight. -/
def stream_requested_again : World × Nat := headset_request_stream env_hsp stream_rfcomm_up 0 8 2

/-- The SCO connect succeeds on channel handle 2. -/
def stream_sco_up : World := sco_connect_cb env_hsp stream_requested_again.1 2 0 0

/-- The reply, if a caller is held, and then the waiters' notifications. -/
def completion_events (dev : Nat) (p : pending_connect) (r : Reply) : List Out :=
  (match p.msg with
   | some m => [Out.reply m r]
   | none => []) ++
  p.callbacks.map (fun cb =>
    Out.callback cb.cb (if p.err ≠ 0 then none else some dev) cb.cb_data)

/-- Device 0 waits for the RFCOMM connect to complete, the target being
Connected: one caller (message 5) and one waiter (callback 7, data 9). -/
def w_rfcomm_connecting : World :=
  (world_init true).set_hs 0
    { headset_new true with state := HEADSET_STATE_CONNECT_IN_PROGRESS,
                            pending := some (pending_one HEADSET_STATE_CONNECTED) }

/-! ## Control surface: audio and call indication -/

def hs_stop (env : Env) (w : World) (dev : Nat) : World × Option Reply :=
  if (w.hs dev).state.toNat < HEADSET_STATE_PLAY_IN_PROGRESS.toNat then
    (w, some (.error .NotConnected))
  else (headset_set_state env w dev HEADSET_STATE_CONNECTED, some (.method_return []))

/-- The line `"\r\n+CLIP:\"%s\",%d\r\n"`. -/
def rsp_CLIP (number : List Nat) (type : Int) : List Nat :=
  bytes "\r\n+CLIP:\"" ++ number ++ bytes "\"," ++ fmt_d type ++ bytes "\r\n"

def hs_ring (env : Env) (w : World) (dev : Nat) : World × Option Reply :=
  let hs := w.hs dev
  if hs.state.toNat < HEADSET_STATE_CONNECTED.toNat then (w, some (.error .NotConnected))
  else if hs.ring_timer ≠ 0 then (w, some (.method_return []))
  else
    let r := headset_send env w dev (bytes "\r\nRING\r\n")
    if r.2 < 0 then (r.1, some (.error .Failed))
    else
      let r1 :=
        match hs.cli_active, hs.ph_number with
        | true, some number => headset_send env r.1 dev (rsp_CLIP number hs.type)
        | _, _ => (r.1, (0 : Int))
      if r1.2 < 0 then (r1.1, some (.error .Failed))
      else
        (World.set_hs { r1.1 with nsrc := r1.1.nsrc + 1 } dev
          { r1.1.hs dev with ring_timer := r1.1.nsrc + 1 }, some (.method_return []))

def hs_cancel_call (w : World) (dev : Nat) : World × Option Reply :=
  if (w.hs dev).state.toNat < HEADSET_STATE_CONNECTED.toNat then
    (w, some (.error .NotConnected))
  else (clear_ring_timer w dev, some (.method_return []))

/-- The message of the caller is `msg`. The result `none` is a null reply:
the answer is sent later, to the message kept in the pending operation. -/
def hs_play (env : Env) (w : World) (dev : Nat) (msg : Nat) : World × Option Reply :=
  if w.sco_hci then (w, some (.error .NotAvailable))
  else
    match (w.hs dev).state with
    | HEADSET_STATE_DISCONNECTED => (w, some (.error .NotConnected))
    | HEADSET_STATE_CONNECT_IN_PROGRESS => (w, some (.error .NotConnected))
    | HEADSET_STATE_PLAY_IN_PROGRESS => (w, some (.error .InProgress))
    | HEADSET_STATE_PLAYING => (w, some (.error .AlreadyConnected))
    | HEADSET_STATE_CONNECTED =>
      let r := sco_connect env w dev none
      if r.2.1 < 0 then (r.1, some (.error .Failed))
      else (update_pending r.1 dev (fun p => { p with msg := some msg }), none)

/-- The configuration is `none` without a configuration file; else it holds
the value of `SCORouting` in the group `General`, `none` when the key cannot
be read. The result is `ag.features`. -/
def headset_config_init (w : World) (config : Option (Option (List Nat))) : World × Nat :=
  match config with
  | none => (w, w.ag.features)
  | some none => (w, w.ag.features)
  | some (some str) =>
    if str = bytes "PCM" then ({ w with sco_hci := false }, w.ag.features)
    else if str = bytes "HCI" then ({ w with sco_hci := true }, w.ag.features)
    else (w, w.ag.features)

/-! ## Coalesced requests -/

/-- The target of the pending operation of a session as a number, 0 when the
session has none. -/
def target_of (h : headset) : Nat :=
  match h.pending with
  | some p => p.target_state.toNat
  | none => 0

/-- The session `h1` has a pending operation whose target is the maximum of
the target in `h` and of `t`. -/
def raised (h h1 : headset) (t : headset_state_t) : Prop :=
  ∃ q, h1.pending = some q ∧ q.target_state.toNat = max (target_of h) t.toNat

/-- The calls that create the pending operation of a device or join it. -/
inductive request
  /-- The call `pending_connect_init(hs, target)`. -/
  | init (target : headset_state_t)
  /-- The call `connect_cb_new(hs, target, func, user_data)`. -/
  | cb_new (target : headset_state_t) (func user_data : Nat)
  /-- The call `rfcomm_connect(dev, cb, user_data, &id)`. -/
  | rfcomm (cb : Option (Nat × Nat))
  /-- The call `sco_connect(dev, cb, user_data, &id)`. -/
  | sco (cb : Option (Nat × Nat))
  /-- The call `headset_request_stream(dev, func, user_data)`. -/
  | stream (func user_data : Nat)

/-- The state a request asks for: its argument, Connected for the control
channel, Playing for the audio channel and for a stream. -/
def request.requested : request → headset_state_t
  | .init t => t
  | .cb_new t _ _ => t
  | .rfcomm _ => HEADSET_STATE_CONNECTED
  | .sco _ => HEADSET_STATE_PLAYING
  | .stream _ _ => HEADSET_STATE_PLAYING

/-- Run one request on the device; the flag tells whether it was taken (the
two `void` calls always are, the connects when they do not return an error,
the stream request when it returns an id). -/
def request.run (env : Env) (w : World) (dev : Nat) : request → World × Bool
  | .init t => (w.set_hs dev (pending_connect_init (w.hs dev) t), true)
  | .cb_new t f u => (w.set_hs dev (connect_cb_new (w.hs dev) t f u).1, true)
  | .rfcomm cb => ((rfcomm_connect env w dev cb).1, decide (0 ≤ (rfcomm_connect env w dev cb).2.1))
  | .sco cb => ((sco_connect env w dev cb).1, decide (0 ≤ (sco_connect env w dev cb).2.1))
  | .stream f u =>
    ((headset_request_stream env w dev f u).1,
      decide ((headset_request_stream env w dev f u).2 ≠ 0))

/-- Run the requests in order, taken or not. -/
def run_requests (env : Env) (dev : Nat) : List request → World → World
  | [], w => w
  | r :: rs, w => run_requests env dev rs (r.run env w dev).1

/-- The world `w_conn` after the configuration `SCORouting=PCM` was read. -/
def w_conn_pcm : World := (headset_config_init w_conn (some (some (bytes "PCM")))).1

/-! ## Reachable gains -/

/-- A stored gain is unset or in 0..15. -/
def gain_ok (g : Int) : Prop := g = -1 ∨ (0 ≤ g ∧ g ≤ 15)

def gains_ok (h : headset) : Prop := gain_ok h.sp_gain ∧ gain_ok h.mic_gain

/-- What acts on the gains of a session, and the state transitions that let a
session leave Disconnected. -/
inductive gain_step
  /-- The method `SetSpeakerGain` with its argument. -/
  | set_speaker (dev : Nat) (arg : Option Nat)
  /-- The method `SetMicrophoneGain` with its argument. -/
  | set_mic (dev : Nat) (arg : Option Nat)
  /-- The inbound line `AT+VG` followed by `rest`, dispatched by `handle_event`. -/
  | line (dev : Nat) (rest : List Nat)
  /-- The call `headset_set_state(dev, state)`. -/
  | transition (dev : Nat) (state : headset_state_t)

def gain_step.run (env : Env) (w : World) : gain_step → World
  | .set_speaker dev arg => (hs_set_speaker_gain env w dev arg).1
  | .set_mic dev arg => (hs_set_mic_gain env w dev arg).1
  | .line dev rest => (handle_event env w dev (bytes "AT+VG" ++ rest)).1
  | .transition dev state => headset_set_state env w dev state

def run_gain_steps (env : Env) : List gain_step → World → World
  | [], w => w
  | s :: r, w => run_gain_steps env r (s.run env w)

/-! ## Buffered indicator events -/

/-- The lines the specification asks for when the events `evs` (indicator and
new value) are reported in order: one `+CIEV` line per event, carrying the
number of the indicator plus one and the value the indicator has when the
event is reported. -/
def ciev_lines_spec (d : Nat) : AG → List (Nat × Int) → List Out
  | _, [] => []
  | ag, e :: r =>
    Out.wrote d (rsp_CIEV ((e.1 : Int) + 1) (indicator_val (set_indicator ag e.1 e.2) e.1)) ::
      ciev_lines_spec d (set_indicator ag e.1 e.2) r

/-- The slots that buffering the events `evs` in order fills. -/
def queued_slots : AG → List (Nat × Int) → List ev_slot
  | _, [] => []
  | ag, e :: r =>
    ⟨(e.1 : Int) + 1, indicator_val (set_indicator ag e.1 e.2) e.1⟩ ::
      queued_slots (set_indicator ag e.1 e.2) r

/-- Collaborators whose telephony requests fail without reporting an event. -/
def env_tel_fails : Env := { env_ok with tel := fun _ _ => ⟨[], -1⟩ }

/-- The world `w_hfp` after device 0, which had enabled indicator reporting,
entered Disconnected. -/
def w_hfp_left : World := headset_set_state env_ok w_hfp 0 HEADSET_STATE_DISCONNECTED

/-- Device 1 connects afterwards in HFP mode: its control channel is open and
its Service Level Connection is being set up. -/
def w_next_connecting : World :=
  w_hfp_left.set_hs 1 (headset_in HEADSET_STATE_CONNECT_IN_PROGRESS)

/-- The peer of device 1 asks `AT+CHLD=?` without having sent `AT+CMER`: the
Service Level Connection completes. -/
def w_next_connected : World := (handle_event env_ok w_next_connecting 1 (bytes "AT+CHLD=?")).1

/-! ## Scenarios of the control surface -/

/-- The caller 5 asks `Play()` on the Connected device 0, SCO routed over PCM. -/
def play_requested : World × Option Reply := hs_play env_ok w_conn_pcm 0 5

/-- Then `Stop()` is asked while the SCO connect is in flight. -/
def play_stopped : World × Option Reply := hs_stop env_ok play_requested.1 0

/-- Then the caller 6 asks `Play()`. -/
def play_requested_again : World × Option Reply := hs_play env_ok play_stopped.1 0 6

/-- The caller 5 asks `Connect()` on the Disconnected device 0 at start-up. -/
def connect_requested : World × Option Reply := hs_connect env_ok (world_init true) 0 5

/-- Then `Disconnect()` is asked while the discovery is in flight. -/
def connect_dropped : World × Option Reply := hs_disconnect env_ok connect_requested.1 0

/-- Then the caller 6 asks `Connect()`. -/
def connect_requested_again : World × Option Reply := hs_connect env_ok connect_dropped.1 0 6

/-- After `play_requested`, `Disconnect()` is asked while the SCO connect is in
flight. -/
def play_disconnected : World × Option Reply := hs_disconnect env_ok play_requested.1 0

/-- Then the SCO connect succeeds with the channel handle 2. -/
def play_disconnected_sco_up : World := sco_connect_cb env_ok play_disconnected.1 2 0 0

/-- The world `w_slc HEADSET_STATE_CONNECTED` with three-way calling in the
feature mask of the AG. -/
def w_slc_three_way : World :=
  { w_slc HEADSET_STATE_CONNECTED with
    ag := { (w_slc HEADSET_STATE_CONNECTED).ag with features := 1 } }

/-- The world `w_slc_three_way` with the pending operation a stream request
leaves behind: no caller, one waiter, the target being Playing. -/
def w_slc_stream : World :=
  w_slc_three_way.set_hs 0
    { headset_in HEADSET_STATE_CONNECT_IN_PROGRESS with
      pending := some { msg := none, call := none, io := none, err := 0,
                        target_state := HEADSET_STATE_PLAYING, callbacks := [⟨1, 7, 9⟩] } }

/-! ## Locks -/

/-- The value `~lock` of a lock mask, an `int` of 32 bits. -/
def lock_complement (lock : Nat) : Nat := 4294967295 ^^^ lock

def headset_lock (w : World) (dev : Nat) (lock : Nat) : World × Bool :=
  let hs := w.hs dev
  if hs.lock &&& lock ≠ 0 then (w, false)
  else (w.set_hs dev { hs with lock := hs.lock ||| lock }, true)

def headset_unlock (env : Env) (w : World) (dev : Nat) (lock : Nat) : World × Bool :=
  let hs := w.hs dev
  if hs.lock &&& lock = 0 then (w, false)
  else
    let w1 := w.set_hs dev { hs with lock := hs.lock &&& lock_complement lock }
    if (w1.hs dev).lock ≠ 0 then (w1, true)
    else
      let w2 :=
        if (w1.hs dev).state = HEADSET_STATE_PLAYING then
          headset_set_state env w1 dev HEADSET_STATE_CONNECTED
        else w1
      if (w2.hs dev).auto_dc then
        if (w2.hs dev).state = HEADSET_STATE_CONNECTED then
          (World.set_hs { w2 with nsrc := w2.nsrc + 1 } dev
            { w2.hs dev with dc_timer := w2.nsrc + 1 }, true)
        else (headset_set_state env w2 dev HEADSET_STATE_DISCONNECTED, true)
      else (w2, true)

/-! ## The Mediapad driver: key translation -/

def MP_KEY_MEDIA : Nat := 0x83
def MP_KEY_FFWD : Nat := 0xb5
def MP_KEY_REW : Nat := 0xb6
def MP_KEY_STOP : Nat := 0xb7
def MP_KEY_PLAY : Nat := 0xcd
def MP_KEY_MUTE : Nat := 0xe2
def MP_KEY_VOLUP : Nat := 0xe9
def MP_KEY_VOLDOWN : Nat := 0xea

/-- The constant `KEY_UNKNOWN` of `linux/input.h`. -/
def KEY_UNKNOWN : Nat := 240

/-- The two keymap tables: `mp_keymap` has two rows of 16 entries, `mp_keymap_m`
two rows of 8 entries, each entry a `uint8_t`. -/
structure mp_keymaps where
  mp_keymap : List (List Nat)
  mp_keymap_m : List (List Nat)
  deriving DecidableEq, Repr

/-- The tables have their declared shape. -/
def mp_keymaps.shaped (km : mp_keymaps) : Prop :=
  km.mp_keymap.length = 2 ∧ (∀ r ∈ km.mp_keymap, r.length = 16) ∧
  km.mp_keymap_m.length = 2 ∧ (∀ r ∈ km.mp_keymap_m, r.length = 8)

/-- The read `table[row][col]`, `none` when `col` is outside the row. -/
def table_get (table : List (List Nat)) (row : Nat) (col : Int) : Option Nat :=
  if col < 0 then none else (table.getD row []).get? col.toNat

/-- The write `table[row][col] = v`, `none` when `col` is outside the row. -/
def table_set (table : List (List Nat)) (row col v : Nat) : Option (List (List Nat)) :=
  if col < (table.getD row []).length then
    some (table.set row ((table.getD row []).set col v))
  else none

/-- The function `translate_key(mode, key)`; `none` is a read outside the rows
of the tables. -/
def translate_key (km : mp_keymaps) (mode key : Int) : Option Nat :=
  let row : Nat := if mode ≠ 0 then 1 else 0
  let k : Int := key % 256
  let media : Option Int :=
    if k > 0x82 then
      if k = MP_KEY_MEDIA then some 0
      else if k = MP_KEY_FFWD then some 1
      else if k = MP_KEY_STOP then some 2
      else if k = MP_KEY_PLAY then some 3
      else if k = MP_KEY_MUTE then some 4
      else if k = MP_KEY_VOLUP then some 5
      else if k = MP_KEY_VOLDOWN then some 6
      else none
    else none
  match media with
  | some i => table_get km.mp_keymap_m row i
  | none =>
    if key > 0x63 then some KEY_UNKNOWN
    else table_get km.mp_keymap row (key - 0x54)

/-- The statements of the else branch of `mp_dbus_bind_key`, which binds the
key when `dbus_message_get_args` has set no error, for the values of
`scancode`, `mode` and `key` (each a `uint32_t`). The result `none` is a write
outside the rows of the tables. -/
def mp_bind_key_update (km : mp_keymaps) (scancode mode key : Nat) : Option mp_keymaps :=
  let row : Nat := if mode ≠ 0 then 1 else 0
  let v : Nat := key % 256
  let media : Option Nat :=
    if scancode > 0x82 then
      if scancode = MP_KEY_MEDIA then some 0
      else if scancode = MP_KEY_FFWD then some 1
      else if scancode = MP_KEY_STOP then some 2
      else if scancode = MP_KEY_PLAY then some 3
      else if scancode = MP_KEY_MUTE then some 4
      else if scancode = MP_KEY_VOLUP then some 5
      else if scancode = MP_KEY_VOLDOWN then some 6
      else none
    else none
  let km_m : Option (List (List Nat)) :=
    match media with
    | some i => table_set km.mp_keymap_m row i v
    | none => some km.mp_keymap_m
  match km_m with
  | none => none
  | some m =>
    if scancode < 0x63 then
      (table_set km.mp_keymap row ((scancode + 2 ^ 32 - 0x54) % 2 ^ 32) v).map
        (fun t => { mp_keymap := t, mp_keymap_m := m })
    else some { mp_keymap := km.mp_keymap, mp_keymap_m := m }

/-- The type code `DBUS_TYPE_UINT32` of `dbus-protocol.h`, the character `u`. -/
def DBUS_TYPE_UINT32 : Nat := 117

/-- The library call `dbus_message_get_args(msg, &err, t1, &v1, t2, &v2, ...,
DBUS_TYPE_INVALID)` for arguments of basic types. `msg` lists the arguments of
the message, each with its type code and its value; the second argument lists
the type codes passed, in order. The values read are returned; the result is
`none` when the error is set, which happens when the message has no argument
left or the type of its argument is not the type code passed. -/
def dbus_message_get_args : List (Nat × Nat) → List Nat → Option (List Nat)
  | _, [] => some []
  | [], _ :: _ => none
  | (t, v) :: m, c :: r =>
    if t = c then (dbus_message_get_args m r).map (fun l => v :: l) else none

/-- The function `mp_dbus_bind_key` on the keymaps, for a message with the
arguments `msg`. Its call of `dbus_message_get_args` passes
`DBUS_TYPE_UINT32, &scancode, DBUS_TYPE_UINT32, &mode, &key, DBUS_TYPE_UINT32,
DBUS_TYPE_INVALID`: where the third type code belongs it passes the address of
`key`, which the callee reads as an `int`, here `key_addr`, and where the
third destination belongs it passes the number `DBUS_TYPE_UINT32`. When the
error is set, nothing is bound. When it is not, the callee has stored the
third value through the pointer `DBUS_TYPE_UINT32`: the result `none` is that
fault, and the else branch `mp_bind_key_update` is not reached. -/
def mp_dbus_bind_key (km : mp_keymaps) (msg : List (Nat × Nat)) (key_addr : Nat) :
    Option mp_keymaps :=
  match dbus_message_get_args msg [DBUS_TYPE_UINT32, DBUS_TYPE_UINT32, key_addr] with
  | none => some km
  | some _ => none

/-- The initial contents of `mp_keymap` and `mp_keymap_m`, the `KEY_*` constants
written with their values in `linux/input.h`: numeric row `KEY_KPSLASH`,
`KEY_KPASTERISK`, `KEY_KPMINUS`, `KEY_KPPLUS`, `KEY_KPENTER`, `KEY_1` .. `KEY_9`,
`KEY_0`, `KEY_DOT`; nav row `KEY_KPSLASH` .. `KEY_KPENTER`, `KEY_OPEN`,
`KEY_LEFTMETA`, `KEY_UNDO`, `KEY_LEFT`, `KEY_DOWN`, `KEY_RIGHT`, `KEY_BACK`,
`KEY_UP`, `KEY_FORWARD`, `KEY_0`, `KEY_DOT`; media rows `KEY_MEDIA`,
`KEY_NEXTSONG`, `KEY_PREVIOUSSONG`, `KEY_STOP`, `KEY_PLAYPAUSE`, `KEY_MUTE`,
`KEY_VOLUMEUP`, `KEY_VOLUMEDOWN`. -/
def mp_keymaps_init : mp_keymaps :=
  { mp_keymap :=
      [[98, 55, 74, 78, 96, 2, 3, 4, 5, 6, 7, 8, 9, 10, 11, 52],
       [98, 55, 74, 78, 96, 134, 125, 131, 105, 108, 106, 158, 103, 159, 11, 52]],
    mp_keymap_m :=
      [[226, 163, 165, 128, 164, 113, 115, 114],
       [226, 163, 165, 128, 164, 113, 115, 114]] }

/-- The framer cursor of a session lies inside its input buffer: `buf` has
`BUF_SIZE` bytes, `data_start` and `data_length` are not negative and
`data_start + data_length` leaves room for the terminating NUL. -/
def cursor_ok (h : headset) : Prop :=
  h.buf.length = BUF_SIZE ∧ 0 ≤ h.data_start ∧ 0 ≤ h.data_length ∧
  h.data_start + h.data_length ≤ (BUF_SIZE : Int) - 1

instance (h : headset) : Decidable (cursor_ok h) := by
  unfold cursor_ok
  infer_instance

/-- A run of `rfcomm_io_cb` calls, each the device, the condition and the
outcome of the read. -/
def run_io (env : Env) : World → List (Nat × Nat × Option (List Nat)) → World
  | w, [] => w
  | w, c :: r => run_io env (rfcomm_io_cb env w c.2.1 c.2.2 c.1).1 r

/-- The world `w_hfp` with a table of two indicators. -/
def w_hfp_two : World :=
  { w_hfp with ag := { w_hfp.ag with
      indicators := [⟨bytes "call", bytes "0,1", 0⟩, ⟨bytes "callsetup", bytes "0-3", 0⟩] } }

/-- Collaborators whose first telephony request reports three events
(indicator 0 becomes 1, indicator 1 becomes 1 and then 0) and whose later
requests report one (indicator 0 becomes 0), each returning 0; the second
write to the peer fails, every other write completes. -/
def env_flush_fails : Env :=
  { env_ok with
    wr := fun n => if n = 1 then some (0, 4) else none,
    tel := fun n _ => if n = 0 then ⟨[(0, 1), (1, 1), (1, 0)], 0⟩ else ⟨[(0, 0)], 0⟩ }

/-- The peer of device 0 sends `ATA`: the three events are queued, and the
flush stops at the write that fails. -/
def flush_failed : World := (handle_event env_flush_fails w_hfp_two 0 (bytes "ATA")).1

/-! ## Basic facts -/

@[simp] theorem set_hs_same (w : World) (dev : Nat) (h : headset) :
    (w.set_hs dev h).hs dev = h := by
  simp [World.set_hs]

theorem set_hs_other (w : World) (dev d : Nat) (h : headset) (hd : d ≠ dev) :
    (w.set_hs dev h).hs d = w.hs d := by
  simp [World.set_hs, Function.update_noteq hd]

@[simp] theorem set_hs_trace (w : World) (dev : Nat) (h : headset) :
    (w.set_hs dev h).trace = w.trace := rfl

@[simp] theorem set_hs_active (w : World) (dev : Nat) (h : headset) :
    (w.set_hs dev h).active_telephony_device = w.active_telephony_device := rfl

@[simp] theorem set_hs_ag (w : World) (dev : Nat) (h : headset) :
    (w.set_hs dev h).ag = w.ag := rfl

@[simp] theorem set_hs_nsend (w : World) (dev : Nat) (h : headset) :
    (w.set_hs dev h).nsend = w.nsend := rfl

@[simp] theorem emit_hs (w : World) (o : Out) : (w.emit o).hs = w.hs := rfl

@[simp] theorem emit_trace (w : World) (o : Out) : (w.emit o).trace = w.trace ++ [o] := rfl

@[simp] theorem emit_active (w : World) (o : Out) :
    (w.emit o).active_telephony_device = w.active_telephony_device := rfl

@[simp] theorem emit_ag (w : World) (o : Out) : (w.emit o).ag = w.ag := rfl

@[simp] theorem emit_nsend (w : World) (o : Out) : (w.emit o).nsend = w.nsend := rfl

theorem signals_of_append (a b : List Out) :
    signals_of (a ++ b) = signals_of a ++ signals_of b := by
  induction a with
  | nil => rfl
  | cons x r ih => cases x <;> simp [signals_of, ih]

theorem emitted_append (w w1 : World) (l : List Out) (h : w1.trace = w.trace ++ l) :
    emitted w w1 = l := by
  simp [emitted, h]

theorem signals_of_only_wrote (l : List Out) (h : only_wrote l) : signals_of l = [] := by
  induction l with
  | nil => rfl
  | cons x r ih =>
    obtain ⟨d, b, hx⟩ := h x (List.mem_cons_self _ _)
    subst hx
    simp only [signals_of]
    exact ih (fun o ho => h o (List.mem_cons_of_mem _ ho))

/-- What `headset_send` leaves untouched, and what it may append. -/
theorem headset_send_frame (env : Env) (w : World) (dev : Nat) (rsp : List Nat) :
    (headset_send env w dev rsp).1.hs = w.hs ∧
    (headset_send env w dev rsp).1.ag = w.ag ∧
    (headset_send env w dev rsp).1.active_telephony_device = w.active_telephony_device ∧
    ∃ l, (headset_send env w dev rsp).1.trace = w.trace ++ l ∧ only_wrote l := by
  unfold headset_send
  cases h : (w.hs dev).rfcomm with
  | none => exact ⟨rfl, rfl, rfl, [], by simp, by intro o ho; cases ho⟩
  | some c =>
    simp only []
    cases h2 : env.wr w.nsend with
    | none =>
      refine ⟨rfl, rfl, rfl, [Out.wrote dev rsp], rfl, ?_⟩
      intro o ho
      simp at ho
      exact ⟨dev, rsp, ho⟩
    | some ke =>
      obtain ⟨k, e⟩ := ke
      simp only []
      split
      · refine ⟨rfl, rfl, rfl, [Out.wrote dev (rsp.take k)], rfl, ?_⟩
        intro o ho
        simp at ho
        exact ⟨dev, _, ho⟩
      · refine ⟨rfl, rfl, rfl, [Out.wrote dev rsp], rfl, ?_⟩
        intro o ho
        simp at ho
        exact ⟨dev, rsp, ho⟩

theorem only_wrote_nil : only_wrote [] := by
  intro o ho
  cases ho

theorem only_wrote_append (a b : List Out) (ha : only_wrote a) (hb : only_wrote b) :
    only_wrote (a ++ b) := by
  intro o ho
  rcases List.mem_append.mp ho with h | h
  · exact ha o h
  · exact hb o h

theorem read_indicator_frame (w : World) (index : Nat) :
    (read_indicator w index).hs = w.hs ∧ (read_indicator w index).ag = w.ag ∧
    (read_indicator w index).active_telephony_device = w.active_telephony_device ∧
    (read_indicator w index).trace = w.trace ∧ (read_indicator w index).nsend = w.nsend ∧
    (read_indicator w index).ntel = w.ntel ∧ (read_indicator w index).nbt = w.nbt ∧
    (read_indicator w index).nsrc = w.nsrc ∧ (read_indicator w index).sco_hci = w.sco_hci := by
  unfold read_indicator
  split_ifs <;> exact ⟨rfl, rfl, rfl, rfl, rfl, rfl, rfl, rfl, rfl⟩

theorem read_indicator_inside (w : World) (index : Nat) (h : index < w.ag.indicators.length) :
    read_indicator w index = w := by
  unfold read_indicator
  rw [if_pos h]

theorem buffer_event_frame (w : World) (index : Nat) :
    (buffer_event w index).1.hs = w.hs ∧
    (buffer_event w index).1.active_telephony_device = w.active_telephony_device ∧
    (buffer_event w index).1.trace = w.trace := by
  obtain ⟨r1, _, r3, r4, _⟩ := read_indicator_frame w index
  unfold buffer_event
  split
  · exact ⟨r1, r3, r4⟩
  · exact ⟨rfl, rfl, rfl⟩

theorem telephony_event_ind_frame (env : Env) (w : World) (index : Nat) :
    (telephony_event_ind env w index).1.hs = w.hs ∧
    (telephony_event_ind env w index).1.active_telephony_device = w.active_telephony_device ∧
    ∃ l, (telephony_event_ind env w index).1.trace = w.trace ++ l ∧ only_wrote l := by
  unfold telephony_event_ind
  split
  · exact ⟨rfl, rfl, [], by simp, only_wrote_nil⟩
  · split
    · exact ⟨rfl, rfl, [], by simp, only_wrote_nil⟩
    · split
      · exact ⟨rfl, rfl, [], by simp, only_wrote_nil⟩
      · split
        · obtain ⟨h1, h2, h3⟩ := buffer_event_frame w index
          exact ⟨h1, h2, [], by simp [h3], only_wrote_nil⟩
        · obtain ⟨h1, _, h3, h4⟩ := headset_send_frame env (read_indicator w index) _
            (rsp_CIEV ((index : Int) + 1) (indicator_val w.ag index))
          obtain ⟨r1, _, r3, r4, _⟩ := read_indicator_frame w index
          rw [r1] at h1
          rw [r3] at h3
          rw [r4] at h4
          exact ⟨h1, h3, h4⟩

theorem tel_events_frame (env : Env) (evs : List (Nat × Int)) (w : World) :
    (tel_events env evs w).hs = w.hs ∧
    (tel_events env evs w).active_telephony_device = w.active_telephony_device ∧
    ∃ l, (tel_events env evs w).trace = w.trace ++ l ∧ only_wrote l := by
  induction evs generalizing w with
  | nil => exact ⟨rfl, rfl, [], by simp [tel_events], only_wrote_nil⟩
  | cons e r ih =>
    simp only [tel_events]
    obtain ⟨a1, a2, l1, a3, a4⟩ :=
      telephony_event_ind_frame env { w with ag := set_indicator w.ag e.1 e.2 } e.1
    obtain ⟨b1, b2, l2, b3, b4⟩ :=
      ih (telephony_event_ind env { w with ag := set_indicator w.ag e.1 e.2 } e.1).1
    refine ⟨by rw [b1, a1], by rw [b2, a2], l1 ++ l2, ?_, only_wrote_append _ _ a4 b4⟩
    rw [b3, a3, List.append_assoc]

/-- A telephony request touches no session and not the selection; it appends
its call, what the reported events write, and its return. -/
theorem telephony_req_frame (env : Env) (w : World) (req : TelRequest) :
    (telephony_req env w req).1.hs = w.hs ∧
    (telephony_req env w req).1.active_telephony_device = w.active_telephony_device ∧
    ∃ l, (telephony_req env w req).1.trace
        = w.trace ++ Out.tel_call req :: (l ++ [Out.tel_ret req (telephony_req env w req).2]) ∧
      only_wrote l := by
  unfold telephony_req
  simp only []
  obtain ⟨a1, a2, l, a3, a4⟩ := tel_events_frame env (env.tel w.ntel req).events
    (World.emit { w with ntel := w.ntel + 1 } (.tel_call req))
  refine ⟨?_, ?_, l, ?_, a4⟩
  · simp [a1]
  · simp [a2]
  · simp [a3]

theorem close_sco_frame (w : World) (dev : Nat) :
    (close_sco w dev).trace = w.trace ∧
    (close_sco w dev).active_telephony_device = w.active_telephony_device ∧
    ((close_sco w dev).hs dev).sco = none ∧
    ((close_sco w dev).hs dev).state = (w.hs dev).state ∧
    ((close_sco w dev).hs dev).rfcomm = (w.hs dev).rfcomm ∧
    ((close_sco w dev).hs dev).tmp_rfcomm = (w.hs dev).tmp_rfcomm ∧
    ((close_sco w dev).hs dev).ring_timer = (w.hs dev).ring_timer ∧
    ∀ d, d ≠ dev → (close_sco w dev).hs d = w.hs d := by
  unfold close_sco
  dsimp only
  split
  · simp only [set_hs_same, set_hs_trace, set_hs_active, true_and]
    intro d hd
    exact set_hs_other _ _ _ _ hd
  · simp_all

theorem headset_close_rfcomm_frame (w : World) (dev : Nat) :
    (headset_close_rfcomm w dev).trace = w.trace ∧
    (headset_close_rfcomm w dev).active_telephony_device = w.active_telephony_device ∧
    ((headset_close_rfcomm w dev).hs dev).sco = (w.hs dev).sco ∧
    ((headset_close_rfcomm w dev).hs dev).state = (w.hs dev).state ∧
    ((headset_close_rfcomm w dev).hs dev).rfcomm = none ∧
    ((headset_close_rfcomm w dev).hs dev).tmp_rfcomm = none ∧
    ((headset_close_rfcomm w dev).hs dev).ring_timer = 0 ∧
    ((headset_close_rfcomm w dev).hs dev).data_start = 0 ∧
    ((headset_close_rfcomm w dev).hs dev).data_length = 0 ∧
    ∀ d, d ≠ dev → (headset_close_rfcomm w dev).hs d = w.hs d := by
  unfold headset_close_rfcomm
  simp only [set_hs_same, set_hs_trace, set_hs_active, true_and]
  refine ⟨?_, ?_, ?_, ?_, ?_, ?_⟩
  · split_ifs <;> rfl
  · split_ifs <;> rfl
  · cases h1 : (w.hs dev).tmp_rfcomm <;> cases h2 : (w.hs dev).rfcomm <;>
      split_ifs <;> simp_all
  · cases h1 : (w.hs dev).tmp_rfcomm <;> cases h2 : (w.hs dev).rfcomm <;>
      split_ifs <;> simp_all
  · split_ifs <;> simp_all
  · intro d hd
    exact set_hs_other _ _ _ _ hd

/-! ## The connection state machine -/

theorem headset_set_state_same (env : Env) (w : World) (dev : Nat) :
    headset_set_state env w dev (w.hs dev).state = w := by
  simp [headset_set_state]

/-- The entry into Connected, spelled out. -/
theorem set_state_connected_eq (env : Env) (w : World) (dev : Nat)
    (h : (w.hs dev).state ≠ HEADSET_STATE_CONNECTED) :
    (headset_set_state env w dev HEADSET_STATE_CONNECTED).trace
      = w.trace ++
        (if (w.hs dev).state.toNat < HEADSET_STATE_CONNECTED.toNat then
          [Out.signal dev .Connected none]
        else if (w.hs dev).state = HEADSET_STATE_PLAYING then [Out.signal dev .Stopped none]
        else []) ∧
    ((headset_set_state env w dev HEADSET_STATE_CONNECTED).hs dev).state
      = HEADSET_STATE_CONNECTED ∧
    ((headset_set_state env w dev HEADSET_STATE_CONNECTED).hs dev).sco = none ∧
    ((headset_set_state env w dev HEADSET_STATE_CONNECTED).hs dev).rfcomm = (w.hs dev).rfcomm ∧
    ((headset_set_state env w dev HEADSET_STATE_CONNECTED).hs dev).tmp_rfcomm
      = (w.hs dev).tmp_rfcomm := by
  obtain ⟨c1, c2, c3, c4, c5, c6, c7, c8⟩ := close_sco_frame w dev
  simp only [headset_set_state, if_neg h, headset_set_state_entry, set_hs_same, set_hs_trace, c4]
  split_ifs <;> simp [c1, c3, c5, c6]

/-- C7: `headset_set_state(dev, s)` on a session already in state `s` leaves
the whole world (every session, the AG singleton, the selection, the trace of
signals and of bytes sent) as it was; and on a session in a state below
Connected, two calls of `headset_set_state(dev, Connected)` in a row emit
exactly one Connected signal, the second call being such a no-op. -/
theorem headset_set_state_idempotent (env : Env) (w : World) (dev : Nat)
    (h : (w.hs dev).state.toNat < HEADSET_STATE_CONNECTED.toNat) :
    (∀ (v : World) (d : Nat) (s : headset_state_t),
      (v.hs d).state = s → headset_set_state env v d s = v) ∧
    headset_set_state env (headset_set_state env w dev HEADSET_STATE_CONNECTED) dev
        HEADSET_STATE_CONNECTED
      = headset_set_state env w dev HEADSET_STATE_CONNECTED ∧
    emitted w (headset_set_state env (headset_set_state env w dev HEADSET_STATE_CONNECTED) dev
        HEADSET_STATE_CONNECTED)
      = [Out.signal dev .Connected none] := by
  have hne : (w.hs dev).state ≠ HEADSET_STATE_CONNECTED := by
    intro hc
    rw [hc] at h
    exact absurd h (by decide)
  obtain ⟨t1, t2, _⟩ := set_state_connected_eq env w dev hne
  have hsame : headset_set_state env (headset_set_state env w dev HEADSET_STATE_CONNECTED) dev
      HEADSET_STATE_CONNECTED = headset_set_state env w dev HEADSET_STATE_CONNECTED := by
    have := headset_set_state_same env (headset_set_state env w dev HEADSET_STATE_CONNECTED) dev
    rwa [t2] at this
  refine ⟨?_, hsame, ?_⟩
  · intro v d s hs
    subst hs
    exact headset_set_state_same env v d
  · rw [hsame]
    apply emitted_append
    rw [t1, if_pos h]

/-- C9: on a session that is not already Connected,
`headset_set_state(dev, Connected)` appends to the trace exactly the Connected
signal when the session was Disconnected or ConnectInProgress, exactly the
Stopped signal when it was Playing, and nothing when it was PlayInProgress;
afterwards the session is Connected without an audio channel, and `rfcomm`
and `tmp_rfcomm` are what they were. -/
theorem headset_set_state_connected_signal (env : Env) (w : World) (dev : Nat)
    (h : (w.hs dev).state ≠ HEADSET_STATE_CONNECTED) :
    emitted w (headset_set_state env w dev HEADSET_STATE_CONNECTED)
      = (match (w.hs dev).state with
         | HEADSET_STATE_DISCONNECTED => [Out.signal dev .Connected none]
         | HEADSET_STATE_CONNECT_IN_PROGRESS => [Out.signal dev .Connected none]
         | HEADSET_STATE_PLAYING => [Out.signal dev .Stopped none]
         | _ => []) ∧
    ((headset_set_state env w dev HEADSET_STATE_CONNECTED).hs dev).state
      = HEADSET_STATE_CONNECTED ∧
    ((headset_set_state env w dev HEADSET_STATE_CONNECTED).hs dev).sco = none ∧
    ((headset_set_state env w dev HEADSET_STATE_CONNECTED).hs dev).rfcomm = (w.hs dev).rfcomm ∧
    ((headset_set_state env w dev HEADSET_STATE_CONNECTED).hs dev).tmp_rfcomm
      = (w.hs dev).tmp_rfcomm := by
  obtain ⟨t1, t2, t3, t4, t5⟩ := set_state_connected_eq env w dev h
  refine ⟨?_, t2, t3, t4, t5⟩
  apply emitted_append
  rw [t1]
  cases hs : (w.hs dev).state <;> simp_all [headset_state_t.toNat]

/-- The entry into Disconnected, spelled out. -/
theorem set_state_disconnected_eq (env : Env) (w : World) (dev : Nat)
    (h : (w.hs dev).state ≠ HEADSET_STATE_DISCONNECTED) :
    (∃ l r, (headset_set_state env w dev HEADSET_STATE_DISCONNECTED).trace
        = w.trace ++ Out.signal dev .Disconnected none ::
            Out.tel_call (.event_reporting_req 0) ::
              (l ++ [Out.tel_ret (.event_reporting_req 0) r]) ∧ only_wrote l) ∧
    ((headset_set_state env w dev HEADSET_STATE_DISCONNECTED).hs dev).state
      = HEADSET_STATE_DISCONNECTED ∧
    ((headset_set_state env w dev HEADSET_STATE_DISCONNECTED).hs dev).sco = none ∧
    ((headset_set_state env w dev HEADSET_STATE_DISCONNECTED).hs dev).rfcomm = none ∧
    ((headset_set_state env w dev HEADSET_STATE_DISCONNECTED).hs dev).tmp_rfcomm = none ∧
    ((headset_set_state env w dev HEADSET_STATE_DISCONNECTED).hs dev).data_start = 0 ∧
    ((headset_set_state env w dev HEADSET_STATE_DISCONNECTED).hs dev).data_length = 0 ∧
    ((headset_set_state env w dev HEADSET_STATE_DISCONNECTED).hs dev).ring_timer = 0 ∧
    (headset_set_state env w dev HEADSET_STATE_DISCONNECTED).active_telephony_device
      = (if w.active_telephony_device = some dev then none else w.active_telephony_device) := by
  obtain ⟨c1, c2, c3, _, _, _, _, _⟩ := close_sco_frame w dev
  obtain ⟨r1, r2, r3, _, r5, r6, r7, r8, r9, _⟩ := headset_close_rfcomm_frame (close_sco w dev) dev
  obtain ⟨q1, q2, l, q3, q4⟩ := telephony_req_frame env
    ((headset_close_rfcomm (close_sco w dev) dev).emit (.signal dev .Disconnected none))
    (.event_reporting_req 0)
  have hact : (telephony_req env
      ((headset_close_rfcomm (close_sco w dev) dev).emit (.signal dev .Disconnected none))
      (.event_reporting_req 0)).1.active_telephony_device = w.active_telephony_device := by
    rw [q2, emit_active, r2, c2]
  have hhs : (telephony_req env
      ((headset_close_rfcomm (close_sco w dev) dev).emit (.signal dev .Disconnected none))
      (.event_reporting_req 0)).1.hs dev = (headset_close_rfcomm (close_sco w dev) dev).hs dev := by
    rw [q1, emit_hs]
  simp only [headset_set_state, if_neg h, headset_set_state_entry, hact]
  by_cases ha : w.active_telephony_device = some dev
  · simp only [if_pos ha, set_hs_same, set_hs_trace, set_hs_active]
    refine ⟨⟨l, (telephony_req env
      ((headset_close_rfcomm (close_sco w dev) dev).emit (.signal dev .Disconnected none))
      (.event_reporting_req 0)).2, ?_, q4⟩, ?_⟩
    · rw [q3, emit_trace, r1, c1]
      simp
    · rw [hhs, r3, c3, r5, r6, r7, r8, r9]
      simp
  · simp only [if_neg ha, set_hs_same, set_hs_trace, set_hs_active, hact]
    refine ⟨⟨l, (telephony_req env
      ((headset_close_rfcomm (close_sco w dev) dev).emit (.signal dev .Disconnected none))
      (.event_reporting_req 0)).2, ?_, q4⟩, ?_⟩
    · rw [q3, emit_trace, r1, c1]
      simp
    · rw [hhs, r3, c3, r5, r6, r7, r8, r9]
      simp

/-- C8: for a session in a state other than Disconnected,
`headset_set_state(dev, Disconnected)` ends in state Disconnected with `sco`,
`rfcomm` and `tmp_rfcomm` absent, `data_start = data_length = 0` and no ring
timer; the only signal it emits is one Disconnected signal of that device; it
calls `telephony_event_reporting_req(0)`; and the active-device selection is
cleared if this session held it and is otherwise what it was. -/
theorem headset_set_state_disconnected (env : Env) (w : World) (dev : Nat)
    (h : (w.hs dev).state ≠ HEADSET_STATE_DISCONNECTED) :
    ((headset_set_state env w dev HEADSET_STATE_DISCONNECTED).hs dev).state
      = HEADSET_STATE_DISCONNECTED ∧
    ((headset_set_state env w dev HEADSET_STATE_DISCONNECTED).hs dev).sco = none ∧
    ((headset_set_state env w dev HEADSET_STATE_DISCONNECTED).hs dev).rfcomm = none ∧
    ((headset_set_state env w dev HEADSET_STATE_DISCONNECTED).hs dev).tmp_rfcomm = none ∧
    ((headset_set_state env w dev HEADSET_STATE_DISCONNECTED).hs dev).data_start = 0 ∧
    ((headset_set_state env w dev HEADSET_STATE_DISCONNECTED).hs dev).data_length = 0 ∧
    ((headset_set_state env w dev HEADSET_STATE_DISCONNECTED).hs dev).ring_timer = 0 ∧
    signals_of (emitted w (headset_set_state env w dev HEADSET_STATE_DISCONNECTED))
      = [(dev, Signal.Disconnected, none)] ∧
    Out.tel_call (.event_reporting_req 0)
      ∈ emitted w (headset_set_state env w dev HEADSET_STATE_DISCONNECTED) ∧
    (w.active_telephony_device = some dev →
      (headset_set_state env w dev HEADSET_STATE_DISCONNECTED).active_telephony_device = none) ∧
    (w.active_telephony_device ≠ some dev →
      (headset_set_state env w dev HEADSET_STATE_DISCONNECTED).active_telephony_device
        = w.active_telephony_device) := by
  obtain ⟨⟨l, r, t1, t2⟩, s1, s2, s3, s4, s5, s6, s7, s8⟩ :=
    set_state_disconnected_eq env w dev h
  have he := emitted_append w _ _ t1
  refine ⟨s1, s2, s3, s4, s5, s6, s7, ?_, ?_, ?_, ?_⟩
  · rw [he]
    simp [signals_of, signals_of_append, signals_of_only_wrote l t2]
  · rw [he]
    simp
  · intro ha
    rw [s8, if_pos ha]
  · intro ha
    rw [s8, if_neg ha]

/-- The entry actions of a transition of `dev` touch no other session. -/
theorem headset_set_state_entry_other (env : Env) (w : World) (dev d : Nat)
    (s : headset_state_t) (hd : d ≠ dev) :
    (headset_set_state_entry env w dev s).hs d = w.hs d := by
  cases s with
  | HEADSET_STATE_DISCONNECTED =>
    obtain ⟨_, _, _, _, _, _, _, c8⟩ := close_sco_frame w dev
    obtain ⟨_, _, _, _, _, _, _, _, _, r10⟩ := headset_close_rfcomm_frame (close_sco w dev) dev
    obtain ⟨q1, _, _⟩ := telephony_req_frame env
      ((headset_close_rfcomm (close_sco w dev) dev).emit (.signal dev .Disconnected none))
      (.event_reporting_req 0)
    simp only [headset_set_state_entry]
    split_ifs
    · show (telephony_req env _ _).1.hs d = w.hs d
      rw [q1, emit_hs, r10 d hd, c8 d hd]
    · rw [q1, emit_hs, r10 d hd, c8 d hd]
  | HEADSET_STATE_CONNECT_IN_PROGRESS => rfl
  | HEADSET_STATE_CONNECTED =>
    obtain ⟨_, _, _, _, _, _, _, c8⟩ := close_sco_frame w dev
    simp only [headset_set_state_entry]
    split_ifs
    · show (close_sco w dev).hs d = w.hs d
      exact c8 d hd
    · simpa using c8 d hd
    · simpa using c8 d hd
    · exact c8 d hd
  | HEADSET_STATE_PLAY_IN_PROGRESS => rfl
  | HEADSET_STATE_PLAYING =>
    simp only [headset_set_state_entry]
    split_ifs <;>
      simp only [(headset_send_frame env _ dev _).1, emit_hs] <;>
      exact set_hs_other _ _ _ _ hd

/-- The session states after a transition: the session of `dev` is in the
requested state and every other session keeps its state. -/
theorem headset_set_state_states (env : Env) (w : World) (dev : Nat) (s : headset_state_t)
    (d : Nat) :
    ((headset_set_state env w dev s).hs d).state
      = Function.update (fun x => (w.hs x).state) dev s d := by
  by_cases hd : d = dev
  · subst hd
    simp only [Function.update_same]
    unfold headset_set_state
    split_ifs with h
    · exact h
    · simp
  · rw [Function.update_noteq hd]
    unfold headset_set_state
    split_ifs with h
    · rfl
    · rw [set_hs_other _ _ _ _ hd, headset_set_state_entry_other env w dev d s hd]

/-- One transition changes the selection by the rule of the specification. -/
theorem headset_set_state_active (env : Env) (w : World) (dev : Nat) (s : headset_state_t) :
    (headset_set_state env w dev s).active_telephony_device
      = active_selection_step w.active_telephony_device (w.hs dev).state dev s := by
  by_cases h : (w.hs dev).state = s
  · subst h
    rw [headset_set_state_same]
    cases ha : w.active_telephony_device <;>
      cases hs : (w.hs dev).state <;> simp [active_selection_step, headset_state_t.toNat]
  · cases s with
    | HEADSET_STATE_DISCONNECTED =>
      obtain ⟨_, _, _, _, _, _, _, _, s8⟩ := set_state_disconnected_eq env w dev h
      rw [s8]
      cases ha : w.active_telephony_device with
      | none => simp [active_selection_step]
      | some a =>
        by_cases had : a = dev
        · simp [active_selection_step, had, h]
        · simp [active_selection_step, had]
    | HEADSET_STATE_CONNECT_IN_PROGRESS =>
      simp only [headset_set_state, if_neg h, headset_set_state_entry, set_hs_active]
      cases ha : w.active_telephony_device <;> simp [active_selection_step]
    | HEADSET_STATE_CONNECTED =>
      obtain ⟨_, c2, _, c4, _⟩ := close_sco_frame w dev
      simp only [headset_set_state, if_neg h, headset_set_state_entry, set_hs_active, c4,
        emit_active, c2]
      by_cases h1 : (w.hs dev).state.toNat < HEADSET_STATE_CONNECTED.toNat
      · cases ha : w.active_telephony_device <;>
          simp [active_selection_step, h1, c2, ha]
      · simp only [if_neg h1]
        have h3 : (if (w.hs dev).state = HEADSET_STATE_PLAYING then
            (close_sco w dev).emit (Out.signal dev Signal.Stopped none)
            else close_sco w dev).active_telephony_device = w.active_telephony_device := by
          split_ifs <;> simp [c2]
        rw [h3]
        cases ha : w.active_telephony_device <;>
          simp [active_selection_step, h1]
    | HEADSET_STATE_PLAY_IN_PROGRESS =>
      simp only [headset_set_state, if_neg h, headset_set_state_entry, set_hs_active]
      cases ha : w.active_telephony_device <;> simp [active_selection_step]
    | HEADSET_STATE_PLAYING =>
      simp only [headset_set_state, if_neg h, headset_set_state_entry, set_hs_active]
      have key : ∀ v : World, ∀ r : List Nat,
          (headset_send env v dev r).1.active_telephony_device = v.active_telephony_device :=
        fun v r => (headset_send_frame env v dev r).2.2.1
      cases ha : w.active_telephony_device <;>
        split_ifs <;> simp [key, active_selection_step, ha]

/-- C10: over any sequence of state transitions on any sessions, starting
from any world, the active-device selection and the session states are the
ones the rule of the specification gives: the selection is set to a session
exactly when it enters Connected from a lower state while none is selected,
a present selection is never replaced, and it is cleared exactly when the
selected session enters Disconnected. -/
theorem active_selection_refines (env : Env) (w : World) (seq : List (Nat × headset_state_t)) :
    (run_transitions env w seq).active_telephony_device
      = (active_selection_run (w.active_telephony_device, fun d => (w.hs d).state) seq).1 ∧
    (fun d => ((run_transitions env w seq).hs d).state)
      = (active_selection_run (w.active_telephony_device, fun d => (w.hs d).state) seq).2 := by
  induction seq generalizing w with
  | nil => exact ⟨rfl, rfl⟩
  | cons t r ih =>
    simp only [run_transitions, active_selection_run]
    have h1 := headset_set_state_active env w t.1 t.2
    have h2 : (fun d => ((headset_set_state env w t.1 t.2).hs d).state)
        = Function.update (fun x => (w.hs x).state) t.1 t.2 := by
      funext d
      exact headset_set_state_states env w t.1 t.2 d
    have := ih (headset_set_state env w t.1 t.2)
    rw [h1, h2] at this
    exact this

/-! ## Gains -/

/-- C6: for a session in state Connected or PlayInProgress, or in Playing
when the write of the `+VGS`/`+VGM` line succeeds, and every `g` in 0..15,
`SetSpeakerGain(g)` returns a method return, `GetSpeakerGain()` right after
returns `g`, and the stored microphone gain is unchanged; and the same with
speaker and microphone exchanged. -/
theorem hs_set_gain_get_gain (env : Env) (w : World) (dev g : Nat) (hg : g ≤ 15)
    (hst : (w.hs dev).state = HEADSET_STATE_CONNECTED ∨
      (w.hs dev).state = HEADSET_STATE_PLAY_IN_PROGRESS ∨
      ((w.hs dev).state = HEADSET_STATE_PLAYING ∧
        ∀ t, t = HEADSET_GAIN_SPEAKER ∨ t = HEADSET_GAIN_MICROPHONE →
          0 ≤ (headset_send env w dev
                (bytes "\r\n+VG" ++ [t] ++ bytes "=" ++ fmt_u g ++ bytes "\r\n")).2)) :
    ((hs_set_speaker_gain env w dev (some g)).2 = some (.method_return []) ∧
      hs_get_speaker_gain (hs_set_speaker_gain env w dev (some g)).1 dev = .method_return [g] ∧
      ((hs_set_speaker_gain env w dev (some g)).1.hs dev).mic_gain = (w.hs dev).mic_gain) ∧
    ((hs_set_mic_gain env w dev (some g)).2 = some (.method_return []) ∧
      hs_get_mic_gain (hs_set_mic_gain env w dev (some g)).1 dev = .method_return [g] ∧
      ((hs_set_mic_gain env w dev (some g)).1.hs dev).sp_gain = (w.hs dev).sp_gain) := by
  have hlow : ¬ (w.hs dev).state.toNat < HEADSET_STATE_CONNECTED.toNat := by
    rcases hst with h | h | ⟨h, _⟩ <;> rw [h] <;> decide
  have hg2 : ¬ g > 15 := by omega
  have hmod : (((g : Int) % 2 ^ 16).toNat) = g := by omega
  have hnn : ¬ ((g : Int) < 0) := by omega
  have key : ∀ t : Nat, t = HEADSET_GAIN_SPEAKER ∨ t = HEADSET_GAIN_MICROPHONE →
      ¬ ((if (w.hs dev).state ≠ HEADSET_STATE_PLAYING then (w, (0 : Int))
          else headset_send env w dev (bytes "\r\n+VG" ++ [t] ++ bytes "=" ++ fmt_u g
                                        ++ bytes "\r\n")).2 < 0) ∧
      (if (w.hs dev).state ≠ HEADSET_STATE_PLAYING then (w, (0 : Int))
          else headset_send env w dev (bytes "\r\n+VG" ++ [t] ++ bytes "=" ++ fmt_u g
                                        ++ bytes "\r\n")).1.hs = w.hs := by
    intro t ht
    by_cases hp : (w.hs dev).state = HEADSET_STATE_PLAYING
    · have hs : 0 ≤ (headset_send env w dev
          (bytes "\r\n+VG" ++ [t] ++ bytes "=" ++ fmt_u g ++ bytes "\r\n")).2 := by
        rcases hst with h | h | ⟨_, h⟩
        · rw [h] at hp; cases hp
        · rw [h] at hp; cases hp
        · exact h t ht
      simp only [ne_eq, hp, not_true_eq_false, if_false]
      exact ⟨not_lt.mpr hs, (headset_send_frame env w dev _).1⟩
    · simp [hp]
  constructor
  · obtain ⟨k1, k2⟩ := key HEADSET_GAIN_SPEAKER (Or.inl rfl)
    simp only [hs_set_speaker_gain, hs_set_gain, if_neg hlow, if_neg hg2, if_neg k1, if_true,
      hs_get_speaker_gain, set_hs_same, emit_hs, k2, hnn, or_false, hmod]
    simp
  · obtain ⟨k1, k2⟩ := key HEADSET_GAIN_MICROPHONE (Or.inr rfl)
    have hne : ¬ (HEADSET_GAIN_MICROPHONE = HEADSET_GAIN_SPEAKER) := by decide
    simp only [hs_set_mic_gain, hs_set_gain, if_neg hlow, if_neg hg2, if_neg k1, if_neg hne,
      hs_get_mic_gain, set_hs_same, emit_hs, k2, hnn, or_false, hmod]
    simp

/-- Witness of C6: gain 7 on a Playing session whose writes succeed. -/
theorem hs_set_gain_get_gain_witness :
    (7 ≤ 15 ∧ (w_playing.hs 0).state = HEADSET_STATE_PLAYING) ∧
    (hs_set_speaker_gain env_ok w_playing 0 (some 7)).2 = some (.method_return []) ∧
    hs_get_speaker_gain (hs_set_speaker_gain env_ok w_playing 0 (some 7)).1 0
      = .method_return [7] ∧
    hs_get_mic_gain (hs_set_mic_gain env_ok w_playing 0 (some 7)).1 0 = .method_return [7] :=
  have h := hs_set_gain_get_gain env_ok w_playing 0 7 (by decide)
    (Or.inr (Or.inr ⟨by decide, fun t _ => by
      simp [headset_send, w_playing, headset_in, env_ok]⟩))
  ⟨⟨by decide, by decide⟩, h.1.1, h.1.2.1, h.2.2.1⟩

/-- Witness of C7 on device 0 of the start-up world, which is Disconnected. -/
theorem headset_set_state_idempotent_witness :
    ((world_init true).hs 0).state.toNat < HEADSET_STATE_CONNECTED.toNat ∧
    emitted (world_init true)
        (headset_set_state env_ok
          (headset_set_state env_ok (world_init true) 0 HEADSET_STATE_CONNECTED) 0
          HEADSET_STATE_CONNECTED)
      = [Out.signal 0 .Connected none] :=
  ⟨by decide, (headset_set_state_idempotent env_ok (world_init true) 0 (by decide)).2.2⟩

/-- Witness of C8 on the Playing device 0. -/
theorem headset_set_state_disconnected_witness :
    (w_playing.hs 0).state ≠ HEADSET_STATE_DISCONNECTED ∧
    ((headset_set_state env_ok w_playing 0 HEADSET_STATE_DISCONNECTED).hs 0).state
      = HEADSET_STATE_DISCONNECTED ∧
    ((headset_set_state env_ok w_playing 0 HEADSET_STATE_DISCONNECTED).hs 0).rfcomm = none ∧
    signals_of (emitted w_playing
        (headset_set_state env_ok w_playing 0 HEADSET_STATE_DISCONNECTED))
      = [(0, Signal.Disconnected, none)] :=
  have h := headset_set_state_disconnected env_ok w_playing 0 (by decide)
  ⟨by decide, h.1, h.2.2.1, h.2.2.2.2.2.2.2.1⟩

/-- Witness of C9 on the Playing device 0: Stopped is the one signal. -/
theorem headset_set_state_connected_signal_witness :
    (w_playing.hs 0).state ≠ HEADSET_STATE_CONNECTED ∧
    emitted w_playing (headset_set_state env_ok w_playing 0 HEADSET_STATE_CONNECTED)
      = [Out.signal 0 .Stopped none] ∧
    ((headset_set_state env_ok w_playing 0 HEADSET_STATE_CONNECTED).hs 0).sco = none :=
  have h := headset_set_state_connected_signal env_ok w_playing 0 (by decide)
  ⟨by decide, h.1, h.2.2.1⟩

theorem bytes_AT_VG : bytes "AT+VG" = [65, 84, 43, 86, 71] := by decide
theorem bytes_eq_sign : bytes "=" = [61] := by decide

theorem headset_send_ok (env : Env) (w : World) (dev : Nat) (rsp : List Nat)
    (hrf : (w.hs dev).rfcomm ≠ none) (hwr : env.wr w.nsend = none) :
    headset_send env w dev rsp
      = (World.emit { w with nsend := w.nsend + 1 } (.wrote dev rsp), 0) := by
  unfold headset_send
  cases h : (w.hs dev).rfcomm with
  | none => exact absurd h hrf
  | some c => simp [hwr]

/-- C5, amended: for a line `AT+VG<c>=<arg>` with `c` one of `S` and `M`, let
`v` be the value `strtol` reads from `<arg>`. If `<arg>` is not empty and `v`
is in 0..15, then, with the control channel open and the write succeeding,
the handler returns 0, the selected gain becomes `v`, the other gain is
unchanged and the last thing done is to send OK. If `<arg>` is empty, or `v`
is in 16..65535 or in -65520..-1, the handler returns `-EINVAL` and the world
is unchanged: no signal, nothing sent, both gains as before. -/
theorem signal_gain_setting_range (env : Env) (w : World) (dev c : Nat) (arg : List Nat)
    (hc : c = HEADSET_GAIN_SPEAKER ∨ c = HEADSET_GAIN_MICROPHONE) :
    (arg ≠ [] → 0 ≤ strtol arg → strtol arg ≤ 15 →
      (w.hs dev).rfcomm ≠ none → env.wr w.nsend = none →
      (signal_gain_setting env w dev (bytes "AT+VG" ++ [c] ++ bytes "=" ++ arg)).2 = 0 ∧
      ((signal_gain_setting env w dev (bytes "AT+VG" ++ [c] ++ bytes "=" ++ arg)).1.hs dev).sp_gain
        = (if c = HEADSET_GAIN_SPEAKER then strtol arg else (w.hs dev).sp_gain) ∧
      ((signal_gain_setting env w dev (bytes "AT+VG" ++ [c] ++ bytes "=" ++ arg)).1.hs dev).mic_gain
        = (if c = HEADSET_GAIN_MICROPHONE then strtol arg else (w.hs dev).mic_gain) ∧
      (emitted w (signal_gain_setting env w dev (bytes "AT+VG" ++ [c] ++ bytes "=" ++ arg)).1).getLast?
        = some (Out.wrote dev rsp_OK)) ∧
    ((arg = [] ∨ (16 ≤ strtol arg ∧ strtol arg ≤ 65535) ∨
        (-65520 ≤ strtol arg ∧ strtol arg ≤ -1)) →
      signal_gain_setting env w dev (bytes "AT+VG" ++ [c] ++ bytes "=" ++ arg) = (w, -EINVAL)) := by
  have hlen : (bytes "AT+VG" ++ [c] ++ bytes "=" ++ arg).length = 7 + arg.length := by
    simp [bytes_AT_VG, bytes_eq_sign]; omega
  have hdrop : (bytes "AT+VG" ++ [c] ++ bytes "=" ++ arg).drop 7 = arg := by
    simp [bytes_AT_VG, bytes_eq_sign]
  have hget : (bytes "AT+VG" ++ [c] ++ bytes "=" ++ arg).getD 5 0 = c := by
    simp [bytes_AT_VG, bytes_eq_sign]
  have hSM : ¬ (HEADSET_GAIN_MICROPHONE = HEADSET_GAIN_SPEAKER) := by decide
  constructor
  · intro hne h0 h15 hrf hwr
    have hl : ¬ (7 + arg.length < 8) := by
      cases arg with
      | nil => exact absurd rfl hne
      | cons a r => simp; omega
    have hgain : strtol arg % 2 ^ 16 = strtol arg := by
      norm_num
      omega
    have hgt : ¬ (strtol arg > 15) := by omega
    simp only [signal_gain_setting, hlen, hdrop, hget, if_neg hl, hgain, if_neg hgt]
    rcases hc with hc | hc
    · subst hc
      simp only [if_true, if_neg (Ne.symm hSM)]
      by_cases hs : (w.hs dev).sp_gain = strtol arg
      · rw [if_pos hs, headset_send_ok env w dev _ hrf hwr]
        simp [emitted, hs]
      · rw [if_neg hs, headset_send_ok env _ dev _ (by simpa using hrf) (by simpa using hwr)]
        simp [emitted]
    · subst hc
      simp only [if_true, if_neg hSM]
      by_cases hs : (w.hs dev).mic_gain = strtol arg
      · rw [if_pos hs, headset_send_ok env w dev _ hrf hwr]
        simp [emitted, hs]
      · rw [if_neg hs, headset_send_ok env _ dev _ (by simpa using hrf) (by simpa using hwr)]
        simp [emitted]
  · intro h
    rcases h with h | h | h
    · subst h
      simp [signal_gain_setting, bytes_AT_VG, bytes_eq_sign]
    · have hgt : strtol arg % 2 ^ 16 > 15 := by
        norm_num
        omega
      simp only [signal_gain_setting, hdrop, if_pos hgt]
      simp
    · have hgt : strtol arg % 2 ^ 16 > 15 := by
        norm_num
        omega
      simp only [signal_gain_setting, hdrop, if_pos hgt]
      simp

/-- Witness of the amended C5: `AT+VGS=7` sets the speaker gain to 7, and
`AT+VGS=16` is rejected without any change. -/
theorem signal_gain_setting_range_witness :
    (HEADSET_GAIN_SPEAKER = HEADSET_GAIN_SPEAKER ∨
      HEADSET_GAIN_SPEAKER = HEADSET_GAIN_MICROPHONE) ∧
    (bytes "7" ≠ [] ∧ 0 ≤ strtol (bytes "7") ∧ strtol (bytes "7") ≤ 15 ∧
      (w_conn.hs 0).rfcomm ≠ none ∧ env_ok.wr w_conn.nsend = none) ∧
    ((signal_gain_setting env_ok w_conn 0
        (bytes "AT+VG" ++ [HEADSET_GAIN_SPEAKER] ++ bytes "=" ++ bytes "7")).1.hs 0).sp_gain
      = strtol (bytes "7") ∧
    (16 ≤ strtol (bytes "16") ∧ strtol (bytes "16") ≤ 65535) ∧
    signal_gain_setting env_ok w_conn 0
        (bytes "AT+VG" ++ [HEADSET_GAIN_SPEAKER] ++ bytes "=" ++ bytes "16")
      = (w_conn, -EINVAL) :=
  ⟨Or.inl rfl,
    ⟨by decide, by decide, by decide, by decide, rfl⟩,
    ((signal_gain_setting_range env_ok w_conn 0 HEADSET_GAIN_SPEAKER (bytes "7")
        (Or.inl rfl)).1 (by decide) (by decide) (by decide) (by decide) rfl).2.1,
    ⟨by decide, by decide⟩,
    (signal_gain_setting_range env_ok w_conn 0 HEADSET_GAIN_SPEAKER (bytes "16")
        (Or.inl rfl)).2 (Or.inr (Or.inl ⟨by decide, by decide⟩))⟩

/-- Counterexample to C5 as stated: the non-numeric argument of `AT+VGS=abc`
is read as 0, so no error is returned, the speaker gain goes from unset to 0,
SpeakerGainChanged is emitted and OK is sent. -/
theorem signal_gain_setting_nonnumeric_accepted :
    (signal_gain_setting env_ok w_conn 0 (bytes "AT+VGS=abc")).2 = 0 ∧
    (w_conn.hs 0).sp_gain = -1 ∧
    ((signal_gain_setting env_ok w_conn 0 (bytes "AT+VGS=abc")).1.hs 0).sp_gain = 0 ∧
    (signal_gain_setting env_ok w_conn 0 (bytes "AT+VGS=abc")).1.trace
      = [Out.signal 0 .SpeakerGainChanged (some 0), Out.wrote 0 rsp_OK] := by
  decide

/-! ## Divergences from the specification -/

/-- C1: the line `AT+BRSF=20` sent in one chunk reaches the supported-features
handler (the peer's features become 20 and `+BRSF` and OK are sent); sent as
the chunks `AT+BR` and `SF=20\r` to the same session, the second chunk
overwrites the first in `buf`, the line dispatched is `SF=20`, ERROR is sent
and the supported-features handler does not run. -/
theorem rfcomm_io_cb_split_line_overwritten :
    (feed_chunks env_ok 0 w_conn [bytes "AT+BRSF=20\r"]).trace
      = [Out.wrote 0 (bytes "\r\n+BRSF=0\r\n"), Out.wrote 0 rsp_OK] ∧
    ((feed_chunks env_ok 0 w_conn [bytes "AT+BRSF=20\r"]).hs 0).hf_features = 20 ∧
    (feed_chunks env_ok 0 w_conn [bytes "AT+BR"]).trace = [] ∧
    ((feed_chunks env_ok 0 w_conn [bytes "AT+BR"]).hs 0).data_length = 5 ∧
    (feed_chunks env_ok 0 w_conn [bytes "AT+BR", bytes "SF=20\r"]).trace
      = [Out.wrote 0 rsp_ERROR] ∧
    ((feed_chunks env_ok 0 w_conn [bytes "AT+BR", bytes "SF=20\r"]).hs 0).hf_features = 0 ∧
    ((feed_chunks env_ok 0 w_conn [bytes "AT+BR", bytes "SF=20\r"]).hs 0).buf.take 6
      = bytes "SF=20" ++ [NUL] ∧
    ((feed_chunks env_ok 0 w_conn [bytes "AT+BR", bytes "SF=20\r"]).hs 0).data_start = 6 ∧
    ((feed_chunks env_ok 0 w_conn [bytes "AT+BR", bytes "SF=20\r"]).hs 0).data_length = 5 := by
  decide

/-- C2: a pending operation with `err = 0` and one waiter (callback 7, user
data 9); when the SCO connect, the RFCOMM connect or the discovery reports
the error -111, the waiter's callback is invoked once with the device 0, not
with a null device, and the pending operation is destroyed. -/
theorem stage_failure_notifies_with_device :
    (sco_connect_cb env_ok w_sco_connecting 2 (-111) 0).trace
      = [Out.reply 5 (.error .ConnectionAttemptFailed), Out.callback 7 (some 0) 9] ∧
    ((sco_connect_cb env_ok w_sco_connecting 2 (-111) 0).hs 0).pending = none ∧
    (rfcomm_connect_cb env_ok w_connecting 2 (-111) 0).trace.take 2
      = [Out.reply 5 (.error .ConnectionAttemptFailed), Out.callback 7 (some 0) 9] ∧
    Out.callback 7 none 9 ∉ (rfcomm_connect_cb env_ok w_connecting 2 (-111) 0).trace ∧
    ((rfcomm_connect_cb env_ok w_connecting 2 (-111) 0).hs 0).pending = none ∧
    (get_record_cb env_ok w_connecting sdp_none (-111) 0).trace.take 2
      = [Out.reply 5 (.error .NotSupported), Out.callback 7 (some 0) 9] ∧
    Out.callback 7 none 9 ∉ (get_record_cb env_ok w_connecting sdp_none (-111) 0).trace ∧
    ((get_record_cb env_ok w_connecting sdp_none (-111) 0).hs 0).pending = none := by
  decide

/-- C3: every waiter gets the id 1. Two stream requests on a session that is
ConnectInProgress, by a first caller (callback 7) and a second caller
(callback 8), both return the id 1, and `headset_cancel_stream` with the id
returned to the second caller removes the first caller's waiter and keeps the
second caller's. -/
theorem connect_cb_new_ids_collide :
    (∀ (hs : headset) (t : headset_state_t) (func user_data : Nat),
      (connect_cb_new hs t func user_data).2 = 1) ∧
    (headset_request_stream env_ok w_connect_called 0 7 9).2 = 1 ∧
    (headset_request_stream env_ok
        (headset_request_stream env_ok w_connect_called 0 7 9).1 0 8 2).2 = 1 ∧
    (((headset_request_stream env_ok
        (headset_request_stream env_ok w_connect_called 0 7 9).1 0 8 2).1.hs 0).pending.map
        pending_connect.callbacks) = some [⟨1, 7, 9⟩, ⟨1, 8, 2⟩] ∧
    (((headset_cancel_stream env_ok
        (headset_request_stream env_ok
          (headset_request_stream env_ok w_connect_called 0 7 9).1 0 8 2).1 0
        (headset_request_stream env_ok
          (headset_request_stream env_ok w_connect_called 0 7 9).1 0 8 2).2).1.hs 0).pending.map
        pending_connect.callbacks) = some [⟨1, 8, 2⟩] := by
  refine ⟨?_, by decide, by decide, by decide, by decide⟩
  intro hs t func user_data
  unfold connect_cb_new
  dsimp only
  split <;> rfl

/-- C4: an indicator event is reported while the telephony request of `ATA`,
`AT+CHUP`, `AT+BLDN` or `ATD` is in flight. When the request succeeds the
`+CIEV` line is written after it returns and before OK; when it fails only
ERROR is written, the event stays in the queue and the AG stays in buffering
mode. -/
theorem failed_request_keeps_events_buffered :
    (answer_call (env_tel 0) w_hfp 0 (bytes "ATA")).1.trace
      = [Out.tel_call .answer_call_req, Out.tel_ret .answer_call_req 0,
         Out.wrote 0 (bytes "\r\n+CIEV:1,1\r\n"), Out.wrote 0 rsp_OK] ∧
    (answer_call (env_tel (-1)) w_hfp 0 (bytes "ATA")).1.trace
      = [Out.tel_call .answer_call_req, Out.tel_ret .answer_call_req (-1),
         Out.wrote 0 rsp_ERROR] ∧
    (answer_call (env_tel (-1)) w_hfp 0 (bytes "ATA")).1.ag.ev_buf
      = [⟨1, 1⟩, ⟨0, 0⟩, ⟨0, 0⟩, ⟨0, 0⟩] ∧
    (answer_call (env_tel (-1)) w_hfp 0 (bytes "ATA")).1.ag.ev_buf_active = true ∧
    (terminate_call (env_tel (-1)) w_hfp 0 (bytes "AT+CHUP")).1.trace
      = [Out.tel_call .terminate_call_req, Out.tel_ret .terminate_call_req (-1),
         Out.wrote 0 rsp_ERROR] ∧
    (last_dialed_number (env_tel (-1)) w_hfp 0 (bytes "AT+BLDN")).1.trace
      = [Out.tel_call .last_dialed_number_req, Out.tel_ret .last_dialed_number_req (-1),
         Out.wrote 0 rsp_ERROR] ∧
    (dial_number (env_tel (-1)) w_hfp 0 (bytes "ATD123;")).1.trace
      = [Out.tel_call (.dial_number_req (bytes "123;")),
         Out.tel_ret (.dial_number_req (bytes "123;")) (-1), Out.wrote 0 rsp_ERROR] := by
  decide


/-! ## Dispatch -/

/-- The loop of `handle_event` runs the first entry whose command is a prefix
of the line. -/
theorem handle_event_loop_find (env : Env) (w : World) (dev : Nat) (buf : List Nat)
    (l : List event) :
    handle_event_loop env w dev buf l
      = (match l.find? (fun ev => ev.cmd.isPrefixOf buf) with
         | some ev => ev.callback env w dev buf
         | none => (w, -EINVAL)) := by
  induction l with
  | nil => rfl
  | cons e r ih =>
    by_cases h : e.cmd.isPrefixOf buf = true
    · simp [handle_event_loop, List.find?, h]
    · simp only [handle_event_loop, List.find?, h]
      simpa using ih

/-- A list of entries without a matching one gives `-EINVAL`. -/
theorem handle_event_loop_none (env : Env) (w : World) (dev : Nat) (buf : List Nat)
    (l : List event) (h : ∀ ev ∈ l, ¬ ev.cmd <+: buf) :
    handle_event_loop env w dev buf l = (w, -EINVAL) := by
  induction l with
  | nil => rfl
  | cons e r ih =>
    have he : ¬ (e.cmd.isPrefixOf buf = true) := by
      rw [List.isPrefixOf_iff_prefix]
      exact h e (List.mem_cons_self _ _)
    simp only [handle_event_loop, he]
    exact ih (fun ev hev => h ev (List.mem_cons_of_mem _ hev))

/-- A list of entries whose only matching one is `ev` runs `ev`. -/
theorem handle_event_loop_unique (env : Env) (w : World) (dev : Nat) (buf : List Nat)
    (ev : event) (l : List event) (hmem : ev ∈ l) (hpre : ev.cmd <+: buf)
    (huniq : ∀ e ∈ l, e.cmd <+: buf → e = ev) :
    handle_event_loop env w dev buf l = ev.callback env w dev buf := by
  induction l with
  | nil => cases hmem
  | cons e r ih =>
    by_cases he : e.cmd.isPrefixOf buf = true
    · have : e = ev := huniq e (List.mem_cons_self _ _) (List.isPrefixOf_iff_prefix.mp he)
      subst this
      simp [handle_event_loop, he]
    · simp only [handle_event_loop, he]
      have hne : ev ∈ r := by
        rcases List.mem_cons.mp hmem with h | h
        · subst h
          exact absurd (List.isPrefixOf_iff_prefix.mpr hpre) he
        · exact h
      exact ih hne (fun x hx => huniq x (List.mem_cons_of_mem _ hx))

/-- No command of the table is a prefix of another command of the table. -/
theorem event_cmds_prefix_free :
    ∀ c1 ∈ event_callbacks.map event.cmd, ∀ c2 ∈ event_callbacks.map event.cmd,
      c1.isPrefixOf c2 = true → c1 = c2 := by
  decide

theorem event_cmds_nodup : (event_callbacks.map event.cmd).Nodup := by
  decide

/-- Two entries of the table of which one command is a prefix of the other
are the same entry. -/
theorem event_callbacks_prefix_free (e1 e2 : event) (h1 : e1 ∈ event_callbacks)
    (h2 : e2 ∈ event_callbacks) (h : e1.cmd <+: e2.cmd) : e1 = e2 := by
  have hc : e1.cmd = e2.cmd :=
    event_cmds_prefix_free e1.cmd (List.mem_map_of_mem _ h1) e2.cmd (List.mem_map_of_mem _ h2)
      (List.isPrefixOf_iff_prefix.mpr h)
  exact List.inj_on_of_nodup_map event_cmds_nodup h1 h2 hc

/-- At most one entry of the table matches a line. -/
theorem event_callbacks_match_unique (buf : List Nat) (e1 e2 : event)
    (h1 : e1 ∈ event_callbacks) (h2 : e2 ∈ event_callbacks)
    (p1 : e1.cmd <+: buf) (p2 : e2.cmd <+: buf) : e1 = e2 := by
  rcases Nat.le_total e1.cmd.length e2.cmd.length with hl | hl
  · exact event_callbacks_prefix_free e1 e2 h1 h2 (List.prefix_of_prefix_length_le p1 p2 hl)
  · exact (event_callbacks_prefix_free e2 e1 h2 h1 (List.prefix_of_prefix_length_le p2 p1 hl)).symm

/-- C13: for every line, `handle_event` runs the handler of the earliest entry
of `event_callbacks` whose command is a prefix of the line (bytes compared as
they are), on the whole line, and returns its result, and returns `-EINVAL`
without running a handler when there is none; no command of the table is a
prefix of the command of another entry, so an entry that matches is the only
one that does, it is the one run, and the same handler runs and the same
result is returned for every reordering of the table. -/
theorem handle_event_earliest_match (env : Env) (w : World) (dev : Nat) (buf : List Nat) :
    handle_event env w dev buf
      = (match event_callbacks.find? (fun ev => ev.cmd.isPrefixOf buf) with
         | some ev => ev.callback env w dev buf
         | none => (w, -EINVAL)) ∧
    (∀ e1 ∈ event_callbacks, ∀ e2 ∈ event_callbacks, e1.cmd <+: e2.cmd → e1 = e2) ∧
    (∀ ev ∈ event_callbacks, ev.cmd <+: buf →
      (∀ e ∈ event_callbacks, e.cmd <+: buf → e = ev) ∧
      handle_event env w dev buf = ev.callback env w dev buf) ∧
    (∀ l : List event, l.Perm event_callbacks →
      handle_event_loop env w dev buf l = handle_event env w dev buf) := by
  refine ⟨handle_event_loop_find env w dev buf event_callbacks,
    fun e1 h1 e2 h2 h => event_callbacks_prefix_free e1 e2 h1 h2 h, ?_, ?_⟩
  · intro ev hev hpre
    have hu : ∀ e ∈ event_callbacks, e.cmd <+: buf → e = ev :=
      fun e he hp => event_callbacks_match_unique buf e ev he hev hp hpre
    exact ⟨hu, handle_event_loop_unique env w dev buf ev event_callbacks hev hpre hu⟩
  · intro l hl
    by_cases hex : ∃ ev ∈ event_callbacks, ev.cmd <+: buf
    · obtain ⟨ev, hev, hpre⟩ := hex
      have hu : ∀ e ∈ event_callbacks, e.cmd <+: buf → e = ev :=
        fun e he hp => event_callbacks_match_unique buf e ev he hev hp hpre
      have h1 := handle_event_loop_unique env w dev buf ev event_callbacks hev hpre hu
      have h2 := handle_event_loop_unique env w dev buf ev l (hl.mem_iff.mpr hev) hpre
        (fun e he hp => hu e (hl.mem_iff.mp he) hp)
      rw [h2]
      exact h1.symm
    · have hno : ∀ ev ∈ event_callbacks, ¬ ev.cmd <+: buf :=
        fun ev hev hp => hex ⟨ev, hev, hp⟩
      have h1 := handle_event_loop_none env w dev buf event_callbacks hno
      have h2 := handle_event_loop_none env w dev buf l
        (fun ev hev => hno ev (hl.mem_iff.mp hev))
      rw [h2]
      exact h1.symm


/-- Witness of C13: `AT+BRSF=20` runs the supported-features handler. -/
theorem handle_event_earliest_match_witness :
    (⟨bytes "AT+BRSF", supported_features⟩ : event) ∈ event_callbacks ∧
    bytes "AT+BRSF" <+: bytes "AT+BRSF=20" ∧
    handle_event env_ok w_conn 0 (bytes "AT+BRSF=20")
      = supported_features env_ok w_conn 0 (bytes "AT+BRSF=20") :=
  have hm : (⟨bytes "AT+BRSF", supported_features⟩ : event) ∈ event_callbacks := by
    simp [event_callbacks]
  have hp : bytes "AT+BRSF" <+: bytes "AT+BRSF=20" := by decide
  ⟨hm, hp,
    ((handle_event_earliest_match env_ok w_conn 0 (bytes "AT+BRSF=20")).2.2.1
      ⟨bytes "AT+BRSF", supported_features⟩ hm hp).2⟩


/-! ## Traces of the state machine and of pending operations -/

theorem callbacks_of_append (a b : List Out) :
    callbacks_of (a ++ b) = callbacks_of a ++ callbacks_of b := by
  induction a with
  | nil => rfl
  | cons x r ih => cases x <;> simp [callbacks_of, ih]

theorem replies_of_append (a b : List Out) :
    replies_of (a ++ b) = replies_of a ++ replies_of b := by
  induction a with
  | nil => rfl
  | cons x r ih => cases x <;> simp [replies_of, ih]

theorem stages_of_append (a b : List Out) :
    stages_of (a ++ b) = stages_of a ++ stages_of b := by
  induction a with
  | nil => rfl
  | cons x r ih => cases x <;> simp [stages_of, ih]

theorem no_coordination_nil : no_coordination [] := ⟨rfl, rfl, rfl⟩

theorem no_coordination_append (a b : List Out) (ha : no_coordination a)
    (hb : no_coordination b) : no_coordination (a ++ b) := by
  obtain ⟨a1, a2, a3⟩ := ha
  obtain ⟨b1, b2, b3⟩ := hb
  refine ⟨?_, ?_, ?_⟩
  · rw [callbacks_of_append, a1, b1]; rfl
  · rw [replies_of_append, a2, b2]; rfl
  · rw [stages_of_append, a3, b3]; rfl

theorem no_coordination_only_wrote (l : List Out) (h : only_wrote l) : no_coordination l := by
  induction l with
  | nil => exact no_coordination_nil
  | cons x r ih =>
    obtain ⟨d, b, hx⟩ := h x (List.mem_cons_self _ _)
    subst hx
    have := ih (fun o ho => h o (List.mem_cons_of_mem _ ho))
    exact ⟨this.1, this.2.1, this.2.2⟩

theorem no_coordination_signal (d : Nat) (s : Signal) (a : Option Nat) :
    no_coordination [Out.signal d s a] := ⟨rfl, rfl, rfl⟩

theorem no_coordination_tel_call (r : TelRequest) : no_coordination [Out.tel_call r] :=
  ⟨rfl, rfl, rfl⟩

theorem no_coordination_tel_ret (r : TelRequest) (x : Int) :
    no_coordination [Out.tel_ret r x] := ⟨rfl, rfl, rfl⟩

theorem peer_only_refl (v : World) : peer_only v v :=
  ⟨rfl, rfl, rfl, [], by simp, only_wrote_nil⟩

theorem peer_only_trans (a b c : World) (h1 : peer_only a b) (h2 : peer_only b c) :
    peer_only a c := by
  obtain ⟨a1, a2, a3, l1, a4, a5⟩ := h1
  obtain ⟨b1, b2, b3, l2, b4, b5⟩ := h2
  refine ⟨by rw [b1, a1], by rw [b2, a2], by rw [b3, a3], l1 ++ l2, ?_,
    only_wrote_append _ _ a5 b5⟩
  rw [b4, a4, List.append_assoc]

theorem peer_only_send (env : Env) (v : World) (dev : Nat) (r : List Nat) :
    peer_only v (headset_send env v dev r).1 :=
  headset_send_frame env v dev r

theorem peer_only_send_if (env : Env) (v : World) (dev : Nat) (c : Prop) [Decidable c]
    (r : List Nat) : peer_only v (if c then (headset_send env v dev r).1 else v) := by
  by_cases hc : c
  · simp only [hc, if_true]
    exact peer_only_send env v dev r
  · simp only [hc, if_false]
    exact peer_only_refl v

/-- The entry into Playing: the watch of the audio channel is stored, the
Playing signal is emitted and the gain lines are written. -/
theorem set_state_entry_playing (env : Env) (w : World) (dev : Nat) :
    peer_only
      ((World.set_hs { w with nsrc := w.nsrc + 1 } dev
        { w.hs dev with sco_id := w.nsrc + 1 }).emit (.signal dev .Playing none))
      (headset_set_state_entry env w dev HEADSET_STATE_PLAYING) := by
  unfold headset_set_state_entry
  exact peer_only_trans _ _ _ (peer_only_send_if env _ dev _ _) (peer_only_send_if env _ dev _ _)

/-- What a transition appends to the trace holds no callback, reply or stage. -/
theorem headset_set_state_emits (env : Env) (w : World) (dev : Nat) (s : headset_state_t) :
    ∃ l, (headset_set_state env w dev s).trace = w.trace ++ l ∧ no_coordination l := by
  by_cases h : (w.hs dev).state = s
  · subst h
    rw [headset_set_state_same]
    exact ⟨[], by simp, no_coordination_nil⟩
  · cases s with
    | HEADSET_STATE_DISCONNECTED =>
      obtain ⟨⟨l, r, t1, t2⟩, _⟩ := set_state_disconnected_eq env w dev h
      refine ⟨_, t1, ?_⟩
      have e : Out.signal dev Signal.Disconnected none ::
          Out.tel_call (TelRequest.event_reporting_req 0) ::
            (l ++ [Out.tel_ret (TelRequest.event_reporting_req 0) r])
          = [Out.signal dev Signal.Disconnected none] ++
            ([Out.tel_call (TelRequest.event_reporting_req 0)] ++
              (l ++ [Out.tel_ret (TelRequest.event_reporting_req 0) r])) := rfl
      rw [e]
      exact no_coordination_append _ _ (no_coordination_signal _ _ _)
        (no_coordination_append _ _ (no_coordination_tel_call _)
          (no_coordination_append _ _ (no_coordination_only_wrote l t2)
            (no_coordination_tel_ret _ _)))
    | HEADSET_STATE_CONNECT_IN_PROGRESS =>
      exact ⟨[], by simp [headset_set_state, h, headset_set_state_entry], no_coordination_nil⟩
    | HEADSET_STATE_CONNECTED =>
      obtain ⟨t1, _⟩ := set_state_connected_eq env w dev h
      refine ⟨_, t1, ?_⟩
      split_ifs
      · exact no_coordination_signal _ _ _
      · exact no_coordination_signal _ _ _
      · exact no_coordination_nil
    | HEADSET_STATE_PLAY_IN_PROGRESS =>
      exact ⟨[], by simp [headset_set_state, h, headset_set_state_entry], no_coordination_nil⟩
    | HEADSET_STATE_PLAYING =>
      obtain ⟨_, _, _, l, e, hl⟩ := set_state_entry_playing env w dev
      refine ⟨[Out.signal dev .Playing none] ++ l, ?_,
        no_coordination_append _ _ (no_coordination_signal _ _ _)
          (no_coordination_only_wrote l hl)⟩
      simp only [headset_set_state, if_neg h, set_hs_trace, e]
      simp


theorem close_sco_kept (w : World) (dev : Nat) :
    kept_fields ((close_sco w dev).hs dev) = kept_fields (w.hs dev) ∧
    channel_fields ((close_sco w dev).hs dev) = channel_fields (w.hs dev) := by
  unfold close_sco
  dsimp only
  split <;> simp [kept_fields, channel_fields]

theorem headset_close_rfcomm_kept (w : World) (dev : Nat) :
    kept_fields ((headset_close_rfcomm w dev).hs dev) = kept_fields (w.hs dev) := by
  unfold headset_close_rfcomm
  simp only [set_hs_same, kept_fields]
  split_ifs <;> rfl

theorem headset_set_state_kept (env : Env) (w : World) (dev : Nat) (s : headset_state_t) :
    kept_fields ((headset_set_state env w dev s).hs dev) = kept_fields (w.hs dev) ∧
    (s ≠ HEADSET_STATE_DISCONNECTED →
      channel_fields ((headset_set_state env w dev s).hs dev) = channel_fields (w.hs dev)) := by
  by_cases h : (w.hs dev).state = s
  · subst h
    rw [headset_set_state_same]
    exact ⟨rfl, fun _ => rfl⟩
  · simp only [headset_set_state, if_neg h, set_hs_same]
    cases s with
    | HEADSET_STATE_DISCONNECTED =>
      refine ⟨?_, fun hc => absurd rfl hc⟩
      obtain ⟨q1, _, _⟩ := telephony_req_frame env
        ((headset_close_rfcomm (close_sco w dev) dev).emit (.signal dev .Disconnected none))
        (.event_reporting_req 0)
      have e : (headset_set_state_entry env w dev HEADSET_STATE_DISCONNECTED).hs dev
          = (headset_close_rfcomm (close_sco w dev) dev).hs dev := by
        simp only [headset_set_state_entry]
        split_ifs
        · show (telephony_req env _ _).1.hs dev = _
          rw [q1, emit_hs]
        · rw [q1, emit_hs]
      show kept_fields { (headset_set_state_entry env w dev HEADSET_STATE_DISCONNECTED).hs dev
        with state := HEADSET_STATE_DISCONNECTED } = _
      rw [e]
      have k1 := headset_close_rfcomm_kept (close_sco w dev) dev
      have k2 := (close_sco_kept w dev).1
      rw [← k2, ← k1]
      rfl
    | HEADSET_STATE_CONNECT_IN_PROGRESS => exact ⟨rfl, fun _ => rfl⟩
    | HEADSET_STATE_CONNECTED =>
      have e : (headset_set_state_entry env w dev HEADSET_STATE_CONNECTED).hs dev
          = (close_sco w dev).hs dev := by
        simp only [headset_set_state_entry]
        split_ifs <;> rfl
      have k := close_sco_kept w dev
      constructor
      · show kept_fields { (headset_set_state_entry env w dev HEADSET_STATE_CONNECTED).hs dev
          with state := HEADSET_STATE_CONNECTED } = _
        rw [e, ← k.1]
        rfl
      · intro _
        show channel_fields { (headset_set_state_entry env w dev HEADSET_STATE_CONNECTED).hs dev
          with state := HEADSET_STATE_CONNECTED } = _
        rw [e, ← k.2]
        rfl
    | HEADSET_STATE_PLAY_IN_PROGRESS => exact ⟨rfl, fun _ => rfl⟩
    | HEADSET_STATE_PLAYING =>
      obtain ⟨e, _⟩ := set_state_entry_playing env w dev
      constructor
      · show kept_fields { (headset_set_state_entry env w dev HEADSET_STATE_PLAYING).hs dev
          with state := HEADSET_STATE_PLAYING } = _
        rw [e]
        simp [kept_fields]
      · intro _
        show channel_fields { (headset_set_state_entry env w dev HEADSET_STATE_PLAYING).hs dev
          with state := HEADSET_STATE_PLAYING } = _
        rw [e]
        simp [channel_fields]


theorem headset_set_state_other (env : Env) (w : World) (dev d : Nat) (s : headset_state_t)
    (hd : d ≠ dev) : (headset_set_state env w dev s).hs d = w.hs d := by
  unfold headset_set_state
  split_ifs
  · rfl
  · rw [set_hs_other _ _ _ _ hd, headset_set_state_entry_other env w dev d s hd]

/-- The notification a waiter receives when the pending operation `p` of
`dev` is finalized. -/
theorem pending_complete_fold (dev : Nat) (p : pending_connect) (l : List connect_cb)
    (v : World) (hp : (v.hs dev).pending = some p) :
    l.foldl (fun a cb => pending_connect_complete a cb dev) v
      = { v with trace := v.trace ++ l.map (fun cb =>
            Out.callback cb.cb (if p.err ≠ 0 then none else some dev) cb.cb_data) } := by
  induction l generalizing v with
  | nil => simp
  | cons c r ih =>
    simp only [List.foldl_cons, List.map_cons]
    have e : pending_connect_complete v c dev
        = v.emit (Out.callback c.cb (if p.err ≠ 0 then none else some dev) c.cb_data) := by
      unfold pending_connect_complete
      rw [hp]
      dsimp only
      split_ifs <;> rfl
    rw [e, ih _ (by simpa using hp)]
    simp [World.emit]

/-- Finalizing notifies the waiters in order and removes the pending
operation; nothing else changes. -/
theorem pending_connect_finalize_eq (w : World) (dev : Nat) (p : pending_connect)
    (hp : (w.hs dev).pending = some p) :
    pending_connect_finalize w dev
      = World.set_hs
          { w with trace := w.trace ++ p.callbacks.map (fun cb =>
              Out.callback cb.cb (if p.err ≠ 0 then none else some dev) cb.cb_data) }
          dev { w.hs dev with pending := none } := by
  unfold pending_connect_finalize
  rw [hp]
  dsimp only
  rw [pending_complete_fold dev p p.callbacks w hp]

/-- The waiter found by id is the first that carries it, and erasing it
keeps the others in order. -/
theorem find_erase_split (l : List connect_cb) (id : Nat) (c : connect_cb)
    (h : l.find? (fun tmp => tmp.id = id) = some c) :
    ∃ l1 l2, l = l1 ++ c :: l2 ∧ c.id = id ∧ (∀ x ∈ l1, x.id ≠ id) ∧ l.erase c = l1 ++ l2 := by
  induction l with
  | nil => simp at h
  | cons a r ih =>
    by_cases ha : a.id = id
    · have : a = c := by simpa [List.find?, ha] using h
      subst this
      exact ⟨[], r, rfl, ha, by simp, by simp⟩
    · have h' : r.find? (fun tmp => tmp.id = id) = some c := by
        simpa [List.find?, ha] using h
      obtain ⟨l1, l2, e1, e2, e3, e4⟩ := ih h'
      have hne : a ≠ c := by
        intro hac
        rw [hac] at ha
        exact ha e2
      refine ⟨a :: l1, l2, by rw [e1]; rfl, e2, ?_, ?_⟩
      · intro x hx
        rcases List.mem_cons.mp hx with hx | hx
        · rw [hx]; exact ha
        · exact e3 x hx
      · rw [List.erase_cons_tail (by simpa using hne), e4]
        rfl


/-! ## Cancelling a stream request -/

/-- C20: `headset_cancel_stream(dev, id)` returns FALSE and leaves the world
as it was when the session has no pending operation or no waiter carries
`id`. When a waiter carries `id`, it returns TRUE, invokes no callback, and
removes the first such waiter, the others keeping their order; the pending
operation stays, with the remaining waiters, when a waiter or a synchronous
caller remains, and is destroyed when neither remains. -/
theorem headset_cancel_stream_removes_one (env : Env) (w : World) (dev id : Nat) :
    ((w.hs dev).pending = none → headset_cancel_stream env w dev id = (w, false)) ∧
    (∀ p, (w.hs dev).pending = some p → (∀ c ∈ p.callbacks, c.id ≠ id) →
      headset_cancel_stream env w dev id = (w, false)) ∧
    (∀ p, (w.hs dev).pending = some p → (∃ c ∈ p.callbacks, c.id = id) →
      ∃ l1 c l2, p.callbacks = l1 ++ c :: l2 ∧ c.id = id ∧ (∀ x ∈ l1, x.id ≠ id) ∧
        (headset_cancel_stream env w dev id).2 = true ∧
        callbacks_of (emitted w (headset_cancel_stream env w dev id).1) = [] ∧
        ((l1 ++ l2 ≠ [] ∨ p.msg ≠ none) →
          ((headset_cancel_stream env w dev id).1.hs dev).pending
            = some { p with callbacks := l1 ++ l2 }) ∧
        ((l1 ++ l2 = [] ∧ p.msg = none) →
          ((headset_cancel_stream env w dev id).1.hs dev).pending = none)) := by
  refine ⟨?_, ?_, ?_⟩
  · intro hp
    simp [headset_cancel_stream, hp]
  · intro p hp hno
    have hf : p.callbacks.find? (fun tmp => decide (tmp.id = id)) = none := by
      rw [List.find?_eq_none]
      intro x hx
      simpa using hno x hx
    simp [headset_cancel_stream, hp, hf]
  · intro p hp hex
    cases hf : p.callbacks.find? (fun tmp => decide (tmp.id = id)) with
    | none =>
      rw [List.find?_eq_none] at hf
      obtain ⟨c, hc, hid⟩ := hex
      exact absurd hid (by simpa using hf c hc)
    | some c0 =>
      obtain ⟨l1, l2, e1, e2, e3, e4⟩ := find_erase_split p.callbacks id c0 hf
      refine ⟨l1, c0, l2, e1, e2, e3, ?_⟩
      unfold headset_cancel_stream
      rw [hp]
      dsimp only
      rw [hf]
      dsimp only
      rw [e4]
      by_cases hk : l1 ++ l2 ≠ [] ∨ p.msg.isSome = true
      · rw [if_pos hk]
        refine ⟨rfl, by simp [emitted, callbacks_of], fun _ => by simp, ?_⟩
        rintro ⟨h1, h2⟩
        rcases hk with hk | hk
        · exact absurd h1 hk
        · rw [h2] at hk
          cases hk
      · rw [if_neg hk]
        have hk1 : l1 ++ l2 = [] := by
          by_contra hc
          exact hk (Or.inl hc)
        have hk2 : p.msg = none := by
          cases hm : p.msg with
          | none => rfl
          | some m => exact absurd (Or.inr (by simp [hm])) hk
        have hfin := pending_connect_finalize_eq
          (w.set_hs dev { w.hs dev with pending := some { p with callbacks := l1 ++ l2 } }) dev
          { p with callbacks := l1 ++ l2 } (by simp)
        rw [hfin]
        simp only [hk1, List.map_nil, List.append_nil, set_hs_trace, set_hs_same]
        have hnot : ¬ ([] ≠ ([] : List connect_cb) ∨ p.msg ≠ none) := by
          simp [hk2]
        split_ifs with ha hr
        · refine ⟨rfl, by simp [emitted, callbacks_of], fun hc => ?_, fun _ => by simp⟩
          rcases hc with hc | hc
          · exact absurd rfl hc
          · exact absurd hk2 hc
        · obtain ⟨l, t, n⟩ := headset_set_state_emits env
            (World.set_hs
              { hs := (w.set_hs dev { w.hs dev with pending := some { p with callbacks := [] } }).hs,
                ag := w.ag, sco_hci := w.sco_hci,
                active_telephony_device := w.active_telephony_device,
                trace := w.trace, nsend := w.nsend, ntel := w.ntel, nbt := w.nbt,
                nsrc := w.nsrc, fault := w.fault }
              dev { w.hs dev with pending := none }) dev HEADSET_STATE_DISCONNECTED
          have k := (headset_set_state_kept env
            (World.set_hs
              { hs := (w.set_hs dev { w.hs dev with pending := some { p with callbacks := [] } }).hs,
                ag := w.ag, sco_hci := w.sco_hci,
                active_telephony_device := w.active_telephony_device,
                trace := w.trace, nsend := w.nsend, ntel := w.ntel, nbt := w.nbt,
                nsrc := w.nsrc, fault := w.fault }
              dev { w.hs dev with pending := none }) dev HEADSET_STATE_DISCONNECTED).1
          refine ⟨rfl, ?_, fun hc => ?_, fun _ => ?_⟩
          · have := emitted_append w _ l t
            simp only [World.set_hs] at this ⊢
            rw [this]
            exact n.1
          · rcases hc with hc | hc
            · exact absurd rfl hc
            · exact absurd hk2 hc
          · have := congrArg (fun x => x.1) k
            simpa [kept_fields] using this
        · refine ⟨rfl, by simp [emitted, callbacks_of], fun hc => ?_, fun _ => by simp⟩
          rcases hc with hc | hc
          · exact absurd rfl hc
          · exact absurd hk2 hc


/-- Witness of C20: cancelling id 1 on the pending operation of
`w_connecting`, which holds one waiter with that id and a synchronous caller. -/
theorem headset_cancel_stream_removes_one_witness :
    (w_connecting.hs 0).pending = some (pending_one HEADSET_STATE_PLAYING) ∧
    (∃ c ∈ (pending_one HEADSET_STATE_PLAYING).callbacks, c.id = 1) ∧
    (headset_cancel_stream env_ok w_connecting 0 1).2 = true :=
  ⟨rfl, ⟨⟨1, 7, 9⟩, by decide, rfl⟩,
    match (headset_cancel_stream_removes_one env_ok w_connecting 0 1).2.2
        (pending_one HEADSET_STATE_PLAYING) rfl ⟨⟨1, 7, 9⟩, by decide, rfl⟩ with
    | ⟨_, _, _, _, _, _, h, _⟩ => h⟩


/-! ## The line framer -/

/-- C11: for a session that is not Disconnected and whose cursor is within
the buffer (`0 <= data_start`, `0 <= data_length`,
`data_start + data_length <= BUF_SIZE - 1`), a chunk longer than the free
space `BUF_SIZE - data_start - data_length - 1` makes `rfcomm_io_cb` do
exactly what `headset_set_state(dev, Disconnected)` does and return FALSE: no
line is dispatched, the session is Disconnected, `rfcomm` and `tmp_rfcomm`
are absent and `data_start = data_length = 0`. A chunk that is not longer
than the free space makes it return TRUE: it is not rejected. -/
theorem rfcomm_io_cb_overflow (env : Env) (w : World) (dev cond : Nat) (data : List Nat)
    (hnval : cond &&& G_IO_NVAL = 0) (herr : cond &&& (G_IO_ERR ||| G_IO_HUP) = 0)
    (hst : (w.hs dev).state ≠ HEADSET_STATE_DISCONNECTED)
    (h0 : 0 ≤ (w.hs dev).data_start) (h1 : 0 ≤ (w.hs dev).data_length)
    (h2 : (w.hs dev).data_start + (w.hs dev).data_length ≤ (BUF_SIZE : Int) - 1) :
    ((BUF_SIZE : Int) - (w.hs dev).data_start - (w.hs dev).data_length - 1 < data.length →
      rfcomm_io_cb env w cond (some data) dev
        = (headset_set_state env w dev HEADSET_STATE_DISCONNECTED, false) ∧
      ((rfcomm_io_cb env w cond (some data) dev).1.hs dev).state
        = HEADSET_STATE_DISCONNECTED ∧
      ((rfcomm_io_cb env w cond (some data) dev).1.hs dev).rfcomm = none ∧
      ((rfcomm_io_cb env w cond (some data) dev).1.hs dev).tmp_rfcomm = none ∧
      ((rfcomm_io_cb env w cond (some data) dev).1.hs dev).data_start = 0 ∧
      ((rfcomm_io_cb env w cond (some data) dev).1.hs dev).data_length = 0) ∧
    ((data.length : Int) ≤ (BUF_SIZE : Int) - (w.hs dev).data_start - (w.hs dev).data_length - 1 →
      (rfcomm_io_cb env w cond (some data) dev).2 = true) := by
  have hfree : ((BUF_SIZE : Int) - (w.hs dev).data_start - (w.hs dev).data_length - 1) % 2 ^ 64
      = (BUF_SIZE : Int) - (w.hs dev).data_start - (w.hs dev).data_length - 1 := by
    apply Int.emod_eq_of_lt
    · omega
    · have : (BUF_SIZE : Int) = 1024 := rfl
      rw [this]
      norm_num
      omega
  constructor
  · intro hbig
    have e : rfcomm_io_cb env w cond (some data) dev
        = (headset_set_state env w dev HEADSET_STATE_DISCONNECTED, false) := by
      unfold rfcomm_io_cb
      simp only [hnval, herr, ne_eq, not_true_eq_false, if_false, hfree, if_pos hbig,
        rfcomm_io_failed]
    obtain ⟨_, s1, _, s3, s4, s5, s6, _⟩ := set_state_disconnected_eq env w dev hst
    rw [e]
    exact ⟨rfl, s1, s3, s4, s5, s6⟩
  · intro hfit
    have hn : ¬ ((BUF_SIZE : Int) - (w.hs dev).data_start - (w.hs dev).data_length - 1
        < data.length) := not_lt.mpr hfit
    unfold rfcomm_io_cb
    simp only [hnval, herr, ne_eq, not_true_eq_false, if_false, hfree, if_neg hn]
    split <;> rfl

/-- Witness of C11: on the Connected device 0, which holds five bytes, a
chunk of 1019 bytes overflows. -/
theorem rfcomm_io_cb_overflow_witness :
    ((feed_chunks env_ok 0 w_conn [bytes "AT+BR"]).hs 0).state ≠ HEADSET_STATE_DISCONNECTED ∧
    ((feed_chunks env_ok 0 w_conn [bytes "AT+BR"]).hs 0).data_start = 0 ∧
    ((feed_chunks env_ok 0 w_conn [bytes "AT+BR"]).hs 0).data_length = 5 ∧
    (rfcomm_io_cb env_ok (feed_chunks env_ok 0 w_conn [bytes "AT+BR"]) G_IO_IN
        (some (List.replicate 1019 65)) 0).2 = false ∧
    ((rfcomm_io_cb env_ok (feed_chunks env_ok 0 w_conn [bytes "AT+BR"]) G_IO_IN
        (some (List.replicate 1019 65)) 0).1.hs 0).rfcomm = none :=
  have hs : ((feed_chunks env_ok 0 w_conn [bytes "AT+BR"]).hs 0).data_start = 0 := by decide
  have hl : ((feed_chunks env_ok 0 w_conn [bytes "AT+BR"]).hs 0).data_length = 5 := by decide
  have h := (rfcomm_io_cb_overflow env_ok (feed_chunks env_ok 0 w_conn [bytes "AT+BR"]) 0
    G_IO_IN (List.replicate 1019 65) (by decide) (by decide) (by decide)
    (by rw [hs]) (by rw [hl]; decide) (by rw [hs, hl]; decide)).1
    (by rw [hs, hl, List.length_replicate]; decide)
  ⟨by decide, hs, hl, by rw [h.1], h.2.2.1⟩


theorem strchr_first (l r : List Nat) (c : Nat) (h : ∀ x ∈ l, x ≠ c ∧ x ≠ NUL) :
    strchr (l ++ c :: r) c = some l.length := by
  induction l with
  | nil => simp [strchr]
  | cons a t ih =>
    have ha := h a (List.mem_cons_self _ _)
    have := ih (fun x hx => h x (List.mem_cons_of_mem _ hx))
    simp [strchr, ha.1, ha.2, this]

theorem strchr_nul_first (l : List Nat) (c : Nat) (hc : c ≠ NUL) :
    strchr (NUL :: l) c = none := by
  simp [strchr, Ne.symm hc]

theorem c_string_first (l r : List Nat) (h : ∀ x ∈ l, x ≠ NUL) :
    c_string (l ++ NUL :: r) = l := by
  induction l with
  | nil => simp [c_string]
  | cons a t ih =>
    have ha := h a (List.mem_cons_self _ _)
    have := ih (fun x hx => h x (List.mem_cons_of_mem _ hx))
    simp only [c_string] at this ⊢
    rw [List.cons_append, List.takeWhile_cons, this]
    simp [ha]

/-- The buffer after a chunk was copied to its start and terminated. -/
theorem buffer_after_copy (buf data : List Nat) (hlen : buf.length = BUF_SIZE)
    (hfit : data.length ≤ BUF_SIZE - 1) :
    (memcpy_at buf 0 data).set data.length NUL
      = data ++ NUL :: buf.drop (data.length + 1) := by
  have hlt : data.length < buf.length := by
    rw [hlen]
    have : BUF_SIZE = 1024 := rfl
    omega
  unfold memcpy_at
  simp only [List.take_zero, List.nil_append, Nat.zero_add]
  rw [List.set_append_right _ _ (Nat.le_refl _), Nat.sub_self]
  congr 1
  rw [List.drop_eq_getElem_cons hlt]
  rfl


theorem set_hs_set_hs (w : World) (dev : Nat) (a b : headset) :
    (w.set_hs dev a).set_hs dev b = w.set_hs dev b := by
  simp [World.set_hs]

/-- A chunk received into an empty buffer whose first carriage return comes
after the bytes `line`: the buffer holds the chunk with NUL in place of that
carriage return, `line` is dispatched, and the cursor moves past it. -/
theorem rfcomm_io_cb_first_line (env : Env) (w : World) (dev cond : Nat) (line rest : List Nat)
    (hnval : cond &&& G_IO_NVAL = 0) (herr : cond &&& (G_IO_ERR ||| G_IO_HUP) = 0)
    (hds : (w.hs dev).data_start = 0) (hdl : (w.hs dev).data_length = 0)
    (hlen : (w.hs dev).buf.length = BUF_SIZE)
    (hline : ∀ x ∈ line, x ≠ CR ∧ x ≠ NUL)
    (hfit : (line ++ CR :: rest).length ≤ BUF_SIZE - 1) :
    rfcomm_io_cb env w cond (some (line ++ CR :: rest)) dev
      = (let w3 := dispatch_line env
            (w.set_hs dev
              { w.hs dev with
                buf := line ++ NUL :: rest ++
                  NUL :: (w.hs dev).buf.drop ((line ++ CR :: rest).length + 1),
                data_length := ((line ++ CR :: rest).length : Int) })
            dev line
         let dl := (w3.hs dev).data_length - (1 + (line.length : Int))
         w3.set_hs dev
           { w3.hs dev with
             data_start := if dl = 0 then 0 else (w3.hs dev).data_start + (1 + (line.length : Int)),
             data_length := dl }, true) := by
  have hB : (BUF_SIZE : Int) = 1024 := rfl
  have hB' : BUF_SIZE = 1024 := rfl
  have hfree : ¬ (((BUF_SIZE : Int) - 0 - 0 - 1) % 2 ^ 64
      < ((line ++ CR :: rest).length : Int)) := by
    rw [hB]
    norm_num
    have := hfit
    rw [hB'] at this
    simp at this
    omega
  have hin : (0 : Int) ≤ 0 ∧ (0 : Int) ≤ 0 ∧
      (0 : Int) + (0 + ((line ++ CR :: rest).length : Int)) < (BUF_SIZE : Int) := by
    refine ⟨le_refl _, le_refl _, ?_⟩
    rw [hB]
    have := hfit
    rw [hB'] at this
    omega
  have hbuf2 := buffer_after_copy (w.hs dev).buf (line ++ CR :: rest) hlen hfit
  have hchr : strchr (line ++ CR :: rest ++ NUL ::
      (w.hs dev).buf.drop ((line ++ CR :: rest).length + 1)) CR = some line.length := by
    rw [List.append_assoc, List.cons_append]
    exact strchr_first line _ CR hline
  have hbuf3 : (line ++ CR :: rest ++ NUL ::
      (w.hs dev).buf.drop ((line ++ CR :: rest).length + 1)).set line.length NUL
      = line ++ NUL :: rest ++ NUL ::
          (w.hs dev).buf.drop ((line ++ CR :: rest).length + 1) := by
    rw [List.append_assoc, List.cons_append, List.set_append_right _ _ (Nat.le_refl _),
      Nat.sub_self]
    simp
  have hstr : c_string (line ++ NUL :: rest ++ NUL ::
      (w.hs dev).buf.drop ((line ++ CR :: rest).length + 1)) = line := by
    rw [List.append_assoc, List.cons_append]
    exact c_string_first line _ (fun x hx => (hline x hx).2)
  unfold rfcomm_io_cb
  simp only [hnval, herr, ne_eq, not_true_eq_false, if_false, hds, hdl, if_neg hfree]
  simp only [Int.toNat_zero, Nat.zero_add, Int.zero_add, List.drop_zero, zero_add]
  have hin' : (0 : Int) ≤ 0 ∧ (0 : Int) ≤ 0 ∧
      ((line ++ CR :: rest).length : Int) < (BUF_SIZE : Int) := by
    refine ⟨le_refl _, le_refl _, ?_⟩
    have := hin.2.2
    omega
  simp only [Int.toNat_ofNat, hbuf2, hchr, if_pos hin', hbuf3, hstr, set_hs_same, set_hs_set_hs,
    dispatch_line]


/-! ## Handlers leave the input buffer alone -/

theorem cursors_kept_refl (v : World) : cursors_kept v v := fun _ => rfl

theorem cursors_kept_trans (a b c : World) (h1 : cursors_kept a b) (h2 : cursors_kept b c) :
    cursors_kept a c := fun d => (h2 d).trans (h1 d)

theorem cursors_kept_of_hs (v v1 : World) (h : v1.hs = v.hs) : cursors_kept v v1 := by
  intro d
  rw [h]

theorem cursors_kept_set_hs (v : World) (dev : Nat) (h : headset)
    (hc : cursor h = cursor (v.hs dev)) : cursors_kept v (v.set_hs dev h) := by
  intro d
  by_cases hd : d = dev
  · subst hd
    rw [set_hs_same, hc]
  · rw [set_hs_other _ _ _ _ hd]

theorem cursors_kept_send (env : Env) (v : World) (dev : Nat) (r : List Nat) :
    cursors_kept v (headset_send env v dev r).1 :=
  cursors_kept_of_hs _ _ (headset_send_frame env v dev r).1

theorem cursors_kept_telephony_req (env : Env) (v : World) (req : TelRequest) :
    cursors_kept v (telephony_req env v req).1 :=
  cursors_kept_of_hs _ _ (telephony_req_frame env v req).1

theorem flush_events_loop_hs (env : Env) (dev n i : Nat) (v : World) :
    (flush_events_loop env dev n i v).1.hs = v.hs := by
  induction n generalizing i v with
  | zero => rfl
  | succ n ih =>
    simp only [flush_events_loop]
    split_ifs
    · rfl
    · exact (headset_send_frame env v dev _).1
    · rw [ih]
      exact (headset_send_frame env v dev _).1

theorem cursors_kept_flush_events (env : Env) (v : World) :
    cursors_kept v (flush_events env v).1 := by
  apply cursors_kept_of_hs
  unfold flush_events
  split
  · rfl
  · exact flush_events_loop_hs env _ _ _ v

theorem cursors_kept_set_state (env : Env) (v : World) (dev : Nat) (s : headset_state_t)
    (hs : s ≠ HEADSET_STATE_DISCONNECTED) : cursors_kept v (headset_set_state env v dev s) := by
  intro d
  by_cases hd : d = dev
  · subst hd
    obtain ⟨k1, k2⟩ := headset_set_state_kept env v d s
    have k2 := k2 hs
    simp only [kept_fields, channel_fields, Prod.mk.injEq] at k1 k2
    simp only [cursor, Prod.mk.injEq]
    exact ⟨k1.2.1, k2.2.2.1, k2.2.2.2.1⟩
  · rw [headset_set_state_other env v dev d s hd]

theorem cursors_kept_raise_fault (v : World) : cursors_kept v v.raise_fault := fun _ => rfl

theorem cursors_kept_emit (v : World) (o : Out) : cursors_kept v (v.emit o) := fun _ => rfl

theorem cursors_kept_finalize (v : World) (dev : Nat) :
    cursors_kept v (pending_connect_finalize v dev) := by
  cases hp : (v.hs dev).pending with
  | none =>
    unfold pending_connect_finalize
    rw [hp]
    exact cursors_kept_raise_fault v
  | some p =>
    rw [pending_connect_finalize_eq v dev p hp]
    intro d
    by_cases hd : d = dev
    · subst hd
      rw [set_hs_same]
      rfl
    · rw [set_hs_other _ _ _ _ hd]

theorem cursors_kept_reply_pending (v : World) (dev : Nat) (r : Reply) :
    cursors_kept v (reply_pending v dev r) := by
  unfold reply_pending
  split
  · exact cursors_kept_raise_fault v
  · split
    · exact cursors_kept_emit v _
    · exact cursors_kept_refl v

theorem cursors_kept_update_pending (v : World) (dev : Nat)
    (f : pending_connect → pending_connect) : cursors_kept v (update_pending v dev f) := by
  unfold update_pending
  split
  · exact cursors_kept_raise_fault v
  · exact cursors_kept_set_hs v dev _ rfl

theorem cursors_kept_bt_start (env : Env) (v : World) (dev : Nat) (s : Stage) :
    cursors_kept v (bt_start env v dev s).1 := by
  unfold bt_start
  dsimp only
  split_ifs <;> exact fun _ => rfl

theorem pending_connect_init_cursor (h : headset) (t : headset_state_t) :
    cursor (pending_connect_init h t) = cursor h := by
  unfold pending_connect_init
  split
  · split_ifs <;> rfl
  · rfl

theorem connect_cb_new_cursor (h : headset) (t : headset_state_t) (f u : Nat) :
    cursor (connect_cb_new h t f u).1 = cursor h := by
  unfold connect_cb_new
  dsimp only
  split
  · exact pending_connect_init_cursor h t
  · exact pending_connect_init_cursor h t

theorem cursors_kept_sco_connect (env : Env) (v : World) (dev : Nat) (cb : Option (Nat × Nat)) :
    cursors_kept v (sco_connect env v dev cb).1 := by
  unfold sco_connect
  dsimp only
  split_ifs
  · exact cursors_kept_refl v
  · exact cursors_kept_bt_start env v dev _
  · have h1 := cursors_kept_bt_start env v dev .sco_connect
    have h2 := cursors_kept_set_state env (bt_start env v dev .sco_connect).1 dev
      HEADSET_STATE_PLAY_IN_PROGRESS (by decide)
    have h3 := cursors_kept_set_hs
      (headset_set_state env (bt_start env v dev .sco_connect).1 dev
        HEADSET_STATE_PLAY_IN_PROGRESS) dev
      (pending_connect_init ((headset_set_state env (bt_start env v dev .sco_connect).1 dev
        HEADSET_STATE_PLAY_IN_PROGRESS).hs dev) HEADSET_STATE_PLAYING)
      (pending_connect_init_cursor _ _)
    have h123 := cursors_kept_trans _ _ _ (cursors_kept_trans _ _ _ h1 h2) h3
    cases cb with
    | none => exact h123
    | some c =>
      refine cursors_kept_trans _ _ _ h123 ?_
      apply cursors_kept_set_hs
      rw [connect_cb_new_cursor]

theorem cursors_kept_hfp_slc_complete (env : Env) (v : World) (dev : Nat) :
    cursors_kept v (hfp_slc_complete env v dev) := by
  have h1 := cursors_kept_set_state env v dev HEADSET_STATE_CONNECTED (by decide)
  unfold hfp_slc_complete
  dsimp only
  split
  · exact h1
  · have h2 := cursors_kept_trans _ _ _ h1
      (cursors_kept_reply_pending (headset_set_state env v dev HEADSET_STATE_CONNECTED) dev
        (.method_return []))
    split_ifs
    · exact cursors_kept_trans _ _ _ h2 (cursors_kept_finalize _ dev)
    · exact cursors_kept_trans _ _ _
        (cursors_kept_trans _ _ _
          (cursors_kept_trans _ _ _ h2 (cursors_kept_sco_connect env _ dev none))
          (cursors_kept_update_pending _ dev _))
        (cursors_kept_finalize _ dev)
    · exact cursors_kept_trans _ _ _
        (cursors_kept_trans _ _ _ h2 (cursors_kept_sco_connect env _ dev none))
        (cursors_kept_update_pending _ dev _)


theorem cursors_kept_with_ag (v : World) (a : AG) : cursors_kept v { v with ag := a } :=
  fun _ => rfl

theorem cursors_kept_clear_ring_timer (v : World) (dev : Nat) :
    cursors_kept v (clear_ring_timer v dev) := by
  unfold clear_ring_timer
  split_ifs
  · exact cursors_kept_set_hs v dev _ rfl
  · exact cursors_kept_refl v

theorem cursors_kept_clear_ph_number (v : World) (dev : Nat) :
    cursors_kept v (clear_ph_number v dev) := by
  unfold clear_ph_number
  split_ifs
  · exact cursors_kept_set_hs v dev _ rfl
  · exact cursors_kept_refl v

theorem cursors_kept_supported_features (env : Env) (w : World) (dev : Nat) (buf : List Nat) :
    cursors_kept w (supported_features env w dev buf).1 := by
  unfold supported_features
  dsimp only
  (try split_ifs) <;>
  repeat' first
    | with_reducible exact cursors_kept_refl _
    | with_reducible refine cursors_kept_trans _ _ _ ?_ (cursors_kept_send _ _ _ _)
    | with_reducible refine cursors_kept_trans _ _ _ ?_ (cursors_kept_telephony_req _ _ _)
    | with_reducible refine cursors_kept_trans _ _ _ ?_ (cursors_kept_flush_events _ _)
    | with_reducible refine cursors_kept_trans _ _ _ ?_ (cursors_kept_clear_ring_timer _ _)
    | with_reducible refine cursors_kept_trans _ _ _ ?_ (cursors_kept_clear_ph_number _ _)
    | with_reducible refine cursors_kept_trans _ _ _ ?_ (cursors_kept_emit _ _)
    | with_reducible refine cursors_kept_trans _ _ _ ?_ (cursors_kept_hfp_slc_complete _ _ _)
    | with_reducible refine cursors_kept_trans _ _ _ ?_ (cursors_kept_set_hs _ _ _ ?_)
    | (show cursor _ = cursor _; exact rfl)

theorem cursors_kept_report_indicators (env : Env) (w : World) (dev : Nat) (buf : List Nat) :
    cursors_kept w (report_indicators env w dev buf).1 := by
  unfold report_indicators
  dsimp only
  (try split_ifs) <;>
  repeat' first
    | with_reducible exact cursors_kept_refl _
    | with_reducible refine cursors_kept_trans _ _ _ ?_ (cursors_kept_send _ _ _ _)
    | with_reducible refine cursors_kept_trans _ _ _ ?_ (cursors_kept_telephony_req _ _ _)
    | with_reducible refine cursors_kept_trans _ _ _ ?_ (cursors_kept_flush_events _ _)
    | with_reducible refine cursors_kept_trans _ _ _ ?_ (cursors_kept_clear_ring_timer _ _)
    | with_reducible refine cursors_kept_trans _ _ _ ?_ (cursors_kept_clear_ph_number _ _)
    | with_reducible refine cursors_kept_trans _ _ _ ?_ (cursors_kept_emit _ _)
    | with_reducible refine cursors_kept_trans _ _ _ ?_ (cursors_kept_hfp_slc_complete _ _ _)
    | with_reducible refine cursors_kept_trans _ _ _ ?_ (cursors_kept_set_hs _ _ _ ?_)
    | (show cursor _ = cursor _; exact rfl)

theorem cursors_kept_call_hold (env : Env) (w : World) (dev : Nat) (buf : List Nat) :
    cursors_kept w (call_hold env w dev buf).1 := by
  unfold call_hold
  dsimp only
  (try split_ifs) <;>
  repeat' first
    | with_reducible exact cursors_kept_refl _
    | with_reducible refine cursors_kept_trans _ _ _ ?_ (cursors_kept_send _ _ _ _)
    | with_reducible refine cursors_kept_trans _ _ _ ?_ (cursors_kept_telephony_req _ _ _)
    | with_reducible refine cursors_kept_trans _ _ _ ?_ (cursors_kept_flush_events _ _)
    | with_reducible refine cursors_kept_trans _ _ _ ?_ (cursors_kept_clear_ring_timer _ _)
    | with_reducible refine cursors_kept_trans _ _ _ ?_ (cursors_kept_clear_ph_number _ _)
    | with_reducible refine cursors_kept_trans _ _ _ ?_ (cursors_kept_emit _ _)
    | with_reducible refine cursors_kept_trans _ _ _ ?_ (cursors_kept_hfp_slc_complete _ _ _)
    | with_reducible refine cursors_kept_trans _ _ _ ?_ (cursors_kept_set_hs _ _ _ ?_)
    | (show cursor _ = cursor _; exact rfl)

theorem cursors_kept_button_press (env : Env) (w : World) (dev : Nat) (buf : List Nat) :
    cursors_kept w (button_press env w dev buf).1 := by
  unfold button_press
  dsimp only
  (try split_ifs) <;>
  repeat' first
    | with_reducible exact cursors_kept_refl _
    | with_reducible refine cursors_kept_trans _ _ _ ?_ (cursors_kept_send _ _ _ _)
    | with_reducible refine cursors_kept_trans _ _ _ ?_ (cursors_kept_telephony_req _ _ _)
    | with_reducible refine cursors_kept_trans _ _ _ ?_ (cursors_kept_flush_events _ _)
    | with_reducible refine cursors_kept_trans _ _ _ ?_ (cursors_kept_clear_ring_timer _ _)
    | with_reducible refine cursors_kept_trans _ _ _ ?_ (cursors_kept_clear_ph_number _ _)
    | with_reducible refine cursors_kept_trans _ _ _ ?_ (cursors_kept_emit _ _)
    | with_reducible refine cursors_kept_trans _ _ _ ?_ (cursors_kept_hfp_slc_complete _ _ _)
    | with_reducible refine cursors_kept_trans _ _ _ ?_ (cursors_kept_set_hs _ _ _ ?_)
    | (show cursor _ = cursor _; exact rfl)

theorem cursors_kept_cli_notification (env : Env) (w : World) (dev : Nat) (buf : List Nat) :
    cursors_kept w (cli_notification env w dev buf).1 := by
  unfold cli_notification
  dsimp only
  (try split_ifs) <;>
  repeat' first
    | with_reducible exact cursors_kept_refl _
    | with_reducible refine cursors_kept_trans _ _ _ ?_ (cursors_kept_send _ _ _ _)
    | with_reducible refine cursors_kept_trans _ _ _ ?_ (cursors_kept_telephony_req _ _ _)
    | with_reducible refine cursors_kept_trans _ _ _ ?_ (cursors_kept_flush_events _ _)
    | with_reducible refine cursors_kept_trans _ _ _ ?_ (cursors_kept_clear_ring_timer _ _)
    | with_reducible refine cursors_kept_trans _ _ _ ?_ (cursors_kept_clear_ph_number _ _)
    | with_reducible refine cursors_kept_trans _ _ _ ?_ (cursors_kept_emit _ _)
    | with_reducible refine cursors_kept_trans _ _ _ ?_ (cursors_kept_hfp_slc_complete _ _ _)
    | with_reducible refine cursors_kept_trans _ _ _ ?_ (cursors_kept_set_hs _ _ _ ?_)
    | (show cursor _ = cursor _; exact rfl)

theorem cursors_kept_response_and_hold (env : Env) (w : World) (dev : Nat) (buf : List Nat) :
    cursors_kept w (response_and_hold env w dev buf).1 := by
  unfold response_and_hold
  dsimp only
  (try split_ifs) <;>
  repeat' first
    | with_reducible exact cursors_kept_refl _
    | with_reducible refine cursors_kept_trans _ _ _ ?_ (cursors_kept_send _ _ _ _)
    | with_reducible refine cursors_kept_trans _ _ _ ?_ (cursors_kept_telephony_req _ _ _)
    | with_reducible refine cursors_kept_trans _ _ _ ?_ (cursors_kept_flush_events _ _)
    | with_reducible refine cursors_kept_trans _ _ _ ?_ (cursors_kept_clear_ring_timer _ _)
    | with_reducible refine cursors_kept_trans _ _ _ ?_ (cursors_kept_clear_ph_number _ _)
    | with_reducible refine cursors_kept_trans _ _ _ ?_ (cursors_kept_emit _ _)
    | with_reducible refine cursors_kept_trans _ _ _ ?_ (cursors_kept_hfp_slc_complete _ _ _)
    | with_reducible refine cursors_kept_trans _ _ _ ?_ (cursors_kept_set_hs _ _ _ ?_)
    | (show cursor _ = cursor _; exact rfl)

theorem cursors_kept_signal_gain_setting (env : Env) (w : World) (dev : Nat) (buf : List Nat) :
    cursors_kept w (signal_gain_setting env w dev buf).1 := by
  unfold signal_gain_setting
  dsimp only
  (try split_ifs) <;>
  repeat' first
    | with_reducible exact cursors_kept_refl _
    | with_reducible refine cursors_kept_trans _ _ _ ?_ (cursors_kept_send _ _ _ _)
    | with_reducible refine cursors_kept_trans _ _ _ ?_ (cursors_kept_telephony_req _ _ _)
    | with_reducible refine cursors_kept_trans _ _ _ ?_ (cursors_kept_flush_events _ _)
    | with_reducible refine cursors_kept_trans _ _ _ ?_ (cursors_kept_clear_ring_timer _ _)
    | with_reducible refine cursors_kept_trans _ _ _ ?_ (cursors_kept_clear_ph_number _ _)
    | with_reducible refine cursors_kept_trans _ _ _ ?_ (cursors_kept_emit _ _)
    | with_reducible refine cursors_kept_trans _ _ _ ?_ (cursors_kept_hfp_slc_complete _ _ _)
    | with_reducible refine cursors_kept_trans _ _ _ ?_ (cursors_kept_set_hs _ _ _ ?_)
    | (show cursor _ = cursor _; exact rfl)

theorem cursors_kept_dtmf_tone (env : Env) (w : World) (dev : Nat) (buf : List Nat) :
    cursors_kept w (dtmf_tone env w dev buf).1 := by
  unfold dtmf_tone
  dsimp only
  (try split_ifs) <;>
  repeat' first
    | with_reducible exact cursors_kept_refl _
    | with_reducible refine cursors_kept_trans _ _ _ ?_ (cursors_kept_send _ _ _ _)
    | with_reducible refine cursors_kept_trans _ _ _ ?_ (cursors_kept_telephony_req _ _ _)
    | with_reducible refine cursors_kept_trans _ _ _ ?_ (cursors_kept_flush_events _ _)
    | with_reducible refine cursors_kept_trans _ _ _ ?_ (cursors_kept_clear_ring_timer _ _)
    | with_reducible refine cursors_kept_trans _ _ _ ?_ (cursors_kept_clear_ph_number _ _)
    | with_reducible refine cursors_kept_trans _ _ _ ?_ (cursors_kept_emit _ _)
    | with_reducible refine cursors_kept_trans _ _ _ ?_ (cursors_kept_hfp_slc_complete _ _ _)
    | with_reducible refine cursors_kept_trans _ _ _ ?_ (cursors_kept_set_hs _ _ _ ?_)
    | (show cursor _ = cursor _; exact rfl)

theorem cursors_kept_subscriber_number (env : Env) (w : World) (dev : Nat) (buf : List Nat) :
    cursors_kept w (subscriber_number env w dev buf).1 := by
  unfold subscriber_number
  dsimp only
  (try split_ifs) <;>
  repeat' first
    | with_reducible exact cursors_kept_refl _
    | with_reducible refine cursors_kept_trans _ _ _ ?_ (cursors_kept_send _ _ _ _)
    | with_reducible refine cursors_kept_trans _ _ _ ?_ (cursors_kept_telephony_req _ _ _)
    | with_reducible refine cursors_kept_trans _ _ _ ?_ (cursors_kept_flush_events _ _)
    | with_reducible refine cursors_kept_trans _ _ _ ?_ (cursors_kept_clear_ring_timer _ _)
    | with_reducible refine cursors_kept_trans _ _ _ ?_ (cursors_kept_clear_ph_number _ _)
    | with_reducible refine cursors_kept_trans _ _ _ ?_ (cursors_kept_emit _ _)
    | with_reducible refine cursors_kept_trans _ _ _ ?_ (cursors_kept_hfp_slc_complete _ _ _)
    | with_reducible refine cursors_kept_trans _ _ _ ?_ (cursors_kept_set_hs _ _ _ ?_)
    | (show cursor _ = cursor _; exact rfl)

theorem cursors_kept_answer_call (env : Env) (w : World) (dev : Nat) (buf : List Nat) :
    cursors_kept w (answer_call env w dev buf).1 := by
  unfold answer_call
  dsimp only
  (try split_ifs) <;>
  repeat' first
    | with_reducible exact cursors_kept_refl _
    | with_reducible refine cursors_kept_trans _ _ _ ?_ (cursors_kept_send _ _ _ _)
    | with_reducible refine cursors_kept_trans _ _ _ ?_ (cursors_kept_telephony_req _ _ _)
    | with_reducible refine cursors_kept_trans _ _ _ ?_ (cursors_kept_flush_events _ _)
    | with_reducible refine cursors_kept_trans _ _ _ ?_ (cursors_kept_clear_ring_timer _ _)
    | with_reducible refine cursors_kept_trans _ _ _ ?_ (cursors_kept_clear_ph_number _ _)
    | with_reducible refine cursors_kept_trans _ _ _ ?_ (cursors_kept_emit _ _)
    | with_reducible refine cursors_kept_trans _ _ _ ?_ (cursors_kept_hfp_slc_complete _ _ _)
    | with_reducible refine cursors_kept_trans _ _ _ ?_ (cursors_kept_set_hs _ _ _ ?_)
    | (show cursor _ = cursor _; exact rfl)
    | with_reducible exact cursors_kept_with_ag _ _
    | with_reducible refine cursors_kept_trans _ _ _ ?_ (cursors_kept_with_ag _ _)

theorem cursors_kept_terminate_call (env : Env) (w : World) (dev : Nat) (buf : List Nat) :
    cursors_kept w (terminate_call env w dev buf).1 := by
  unfold terminate_call
  dsimp only
  (try split_ifs) <;>
  repeat' first
    | with_reducible exact cursors_kept_refl _
    | with_reducible refine cursors_kept_trans _ _ _ ?_ (cursors_kept_send _ _ _ _)
    | with_reducible refine cursors_kept_trans _ _ _ ?_ (cursors_kept_telephony_req _ _ _)
    | with_reducible refine cursors_kept_trans _ _ _ ?_ (cursors_kept_flush_events _ _)
    | with_reducible refine cursors_kept_trans _ _ _ ?_ (cursors_kept_clear_ring_timer _ _)
    | with_reducible refine cursors_kept_trans _ _ _ ?_ (cursors_kept_clear_ph_number _ _)
    | with_reducible refine cursors_kept_trans _ _ _ ?_ (cursors_kept_emit _ _)
    | with_reducible refine cursors_kept_trans _ _ _ ?_ (cursors_kept_hfp_slc_complete _ _ _)
    | with_reducible refine cursors_kept_trans _ _ _ ?_ (cursors_kept_set_hs _ _ _ ?_)
    | (show cursor _ = cursor _; exact rfl)
    | with_reducible exact cursors_kept_with_ag _ _
    | with_reducible refine cursors_kept_trans _ _ _ ?_ (cursors_kept_with_ag _ _)

theorem cursors_kept_last_dialed_number (env : Env) (w : World) (dev : Nat) (buf : List Nat) :
    cursors_kept w (last_dialed_number env w dev buf).1 := by
  unfold last_dialed_number
  dsimp only
  (try split_ifs) <;>
  repeat' first
    | with_reducible exact cursors_kept_refl _
    | with_reducible refine cursors_kept_trans _ _ _ ?_ (cursors_kept_send _ _ _ _)
    | with_reducible refine cursors_kept_trans _ _ _ ?_ (cursors_kept_telephony_req _ _ _)
    | with_reducible refine cursors_kept_trans _ _ _ ?_ (cursors_kept_flush_events _ _)
    | with_reducible refine cursors_kept_trans _ _ _ ?_ (cursors_kept_clear_ring_timer _ _)
    | with_reducible refine cursors_kept_trans _ _ _ ?_ (cursors_kept_clear_ph_number _ _)
    | with_reducible refine cursors_kept_trans _ _ _ ?_ (cursors_kept_emit _ _)
    | with_reducible refine cursors_kept_trans _ _ _ ?_ (cursors_kept_hfp_slc_complete _ _ _)
    | with_reducible refine cursors_kept_trans _ _ _ ?_ (cursors_kept_set_hs _ _ _ ?_)
    | (show cursor _ = cursor _; exact rfl)
    | with_reducible exact cursors_kept_with_ag _ _
    | with_reducible refine cursors_kept_trans _ _ _ ?_ (cursors_kept_with_ag _ _)

theorem cursors_kept_dial_number (env : Env) (w : World) (dev : Nat) (buf : List Nat) :
    cursors_kept w (dial_number env w dev buf).1 := by
  unfold dial_number
  dsimp only
  (try split_ifs) <;>
  repeat' first
    | with_reducible exact cursors_kept_refl _
    | with_reducible refine cursors_kept_trans _ _ _ ?_ (cursors_kept_send _ _ _ _)
    | with_reducible refine cursors_kept_trans _ _ _ ?_ (cursors_kept_telephony_req _ _ _)
    | with_reducible refine cursors_kept_trans _ _ _ ?_ (cursors_kept_flush_events _ _)
    | with_reducible refine cursors_kept_trans _ _ _ ?_ (cursors_kept_clear_ring_timer _ _)
    | with_reducible refine cursors_kept_trans _ _ _ ?_ (cursors_kept_clear_ph_number _ _)
    | with_reducible refine cursors_kept_trans _ _ _ ?_ (cursors_kept_emit _ _)
    | with_reducible refine cursors_kept_trans _ _ _ ?_ (cursors_kept_hfp_slc_complete _ _ _)
    | with_reducible refine cursors_kept_trans _ _ _ ?_ (cursors_kept_set_hs _ _ _ ?_)
    | (show cursor _ = cursor _; exact rfl)
    | with_reducible exact cursors_kept_with_ag _ _
    | with_reducible refine cursors_kept_trans _ _ _ ?_ (cursors_kept_with_ag _ _)

theorem cursors_kept_event_reporting (env : Env) (w : World) (dev : Nat) (buf : List Nat) :
    cursors_kept w (event_reporting env w dev buf).1 := by
  unfold event_reporting
  dsimp only
  (try split_ifs) <;>
  repeat' first
    | with_reducible exact cursors_kept_refl _
    | with_reducible refine cursors_kept_trans _ _ _ ?_ (cursors_kept_send _ _ _ _)
    | with_reducible refine cursors_kept_trans _ _ _ ?_ (cursors_kept_telephony_req _ _ _)
    | with_reducible refine cursors_kept_trans _ _ _ ?_ (cursors_kept_flush_events _ _)
    | with_reducible refine cursors_kept_trans _ _ _ ?_ (cursors_kept_clear_ring_timer _ _)
    | with_reducible refine cursors_kept_trans _ _ _ ?_ (cursors_kept_clear_ph_number _ _)
    | with_reducible refine cursors_kept_trans _ _ _ ?_ (cursors_kept_emit _ _)
    | with_reducible refine cursors_kept_trans _ _ _ ?_ (cursors_kept_hfp_slc_complete _ _ _)
    | with_reducible refine cursors_kept_trans _ _ _ ?_ (cursors_kept_set_hs _ _ _ ?_)
    | (show cursor _ = cursor _; exact rfl)
    | with_reducible exact cursors_kept_with_ag _ _
    | with_reducible refine cursors_kept_trans _ _ _ ?_ (cursors_kept_with_ag _ _)


theorem cursors_kept_event_callbacks (ev : event) (hev : ev ∈ event_callbacks) (env : Env)
    (w : World) (dev : Nat) (buf : List Nat) : cursors_kept w (ev.callback env w dev buf).1 := by
  simp only [event_callbacks, List.mem_cons, List.mem_singleton, List.not_mem_nil,
    or_false] at hev
  rcases hev with h | h | h | h | h | h | h | h | h | h | h | h | h | h <;> subst h
  · exact cursors_kept_answer_call env w dev buf
  · exact cursors_kept_dial_number env w dev buf
  · exact cursors_kept_signal_gain_setting env w dev buf
  · exact cursors_kept_supported_features env w dev buf
  · exact cursors_kept_report_indicators env w dev buf
  · exact cursors_kept_event_reporting env w dev buf
  · exact cursors_kept_call_hold env w dev buf
  · exact cursors_kept_terminate_call env w dev buf
  · exact cursors_kept_button_press env w dev buf
  · exact cursors_kept_cli_notification env w dev buf
  · exact cursors_kept_response_and_hold env w dev buf
  · exact cursors_kept_last_dialed_number env w dev buf
  · exact cursors_kept_dtmf_tone env w dev buf
  · exact cursors_kept_subscriber_number env w dev buf

/-- No handler touches the input buffer or its cursor, of any session. -/
theorem cursors_kept_handle_event (env : Env) (w : World) (dev : Nat) (buf : List Nat) :
    cursors_kept w (handle_event env w dev buf).1 := by
  unfold handle_event
  rw [handle_event_loop_find env w dev buf event_callbacks]
  cases hf : event_callbacks.find? (fun ev => ev.cmd.isPrefixOf buf) with
  | none => exact cursors_kept_refl w
  | some ev => exact cursors_kept_event_callbacks ev (List.mem_of_find?_eq_some hf) env w dev buf

theorem cursors_kept_dispatch_line (env : Env) (w : World) (dev : Nat) (line : List Nat) :
    cursors_kept w (dispatch_line env w dev line) := by
  unfold dispatch_line
  dsimp only
  split_ifs
  · exact cursors_kept_trans _ _ _ (cursors_kept_handle_event env w dev line)
      (cursors_kept_send env _ dev _)
  · exact cursors_kept_handle_event env w dev line


/-- C12, amended: a chunk received into an empty input buffer
(`data_start = data_length = 0`) that fits the buffer and whose first carriage
return comes after the bytes `line`, none of them NUL, makes one call of
`rfcomm_io_cb` dispatch exactly one line, `line` without its terminator,
whatever follows the carriage return; the bytes `rest` after that carriage
return, later lines included, stay in the buffer behind the cursor
(`data_start` after the terminator and `data_length` their number, both 0
when there is none). -/
theorem rfcomm_io_cb_one_line (env : Env) (w : World) (dev cond : Nat) (line rest : List Nat)
    (hnval : cond &&& G_IO_NVAL = 0) (herr : cond &&& (G_IO_ERR ||| G_IO_HUP) = 0)
    (hds : (w.hs dev).data_start = 0) (hdl : (w.hs dev).data_length = 0)
    (hlen : (w.hs dev).buf.length = BUF_SIZE)
    (hline : ∀ x ∈ line, x ≠ CR ∧ x ≠ NUL)
    (hfit : (line ++ CR :: rest).length ≤ BUF_SIZE - 1) :
    ∃ w2 : World,
      w2 = w.set_hs dev
        { w.hs dev with
          buf := line ++ NUL :: rest ++
            NUL :: (w.hs dev).buf.drop ((line ++ CR :: rest).length + 1),
          data_length := ((line ++ CR :: rest).length : Int) } ∧
      rfcomm_io_cb env w cond (some (line ++ CR :: rest)) dev
        = ((dispatch_line env w2 dev line).set_hs dev
            { (dispatch_line env w2 dev line).hs dev with
              data_start := if rest = [] then 0 else (line.length : Int) + 1,
              data_length := (rest.length : Int) }, true) ∧
      (((rfcomm_io_cb env w cond (some (line ++ CR :: rest)) dev).1.hs dev).buf.drop
          (line.length + 1)).take rest.length = rest := by
  refine ⟨_, rfl, ?_⟩
  have hfirst := rfcomm_io_cb_first_line env w dev cond line rest hnval herr hds hdl hlen hline hfit
  have hk := cursors_kept_dispatch_line env
    (w.set_hs dev
      { w.hs dev with
        buf := line ++ NUL :: rest ++
          NUL :: (w.hs dev).buf.drop ((line ++ CR :: rest).length + 1),
        data_length := ((line ++ CR :: rest).length : Int) }) dev line dev
  simp only [cursor, set_hs_same, Prod.mk.injEq] at hk
  obtain ⟨k1, k2, k3⟩ := hk
  have hdl' : ((line ++ CR :: rest).length : Int) - (1 + (line.length : Int))
      = (rest.length : Int) := by
    simp
    omega
  have hz : ((rest.length : Int) = 0) ↔ rest = [] := by
    constructor
    · intro h
      exact List.length_eq_zero.mp (by exact_mod_cast h)
    · intro h
      rw [h]
      rfl
  rw [hfirst]
  dsimp only
  rw [k2, k3, hds, hdl']
  refine ⟨?_, ?_⟩
  · congr 2
    by_cases hr : rest = []
    · simp [hr]
    · have : ¬ ((rest.length : Int) = 0) := fun h => hr (hz.mp h)
      simp [hr, this]
      omega
  · rw [set_hs_same]
    show (List.drop (line.length + 1) (dispatch_line env _ dev line |>.hs dev).buf).take
      rest.length = rest
    rw [hds] at k1
    rw [k1]
    rw [List.append_assoc, List.cons_append, List.drop_append]
    simp


theorem w_hfp_buf_length : (w_hfp.hs 0).buf.length = BUF_SIZE := by
  simp [w_hfp, w_conn, headset_in, headset_new, World.set_hs, world_init]

/-- Witness of the amended C12: the chunk `AT+CKPD=200\rAT+CHUP\r` on the
empty buffer of device 0 in `w_hfp`; the line is `AT+CKPD=200` and the bytes
`AT+CHUP\r` stay in the buffer. -/
theorem rfcomm_io_cb_one_line_witness :
    ((w_hfp.hs 0).data_start = 0 ∧ (w_hfp.hs 0).data_length = 0 ∧
      (w_hfp.hs 0).buf.length = BUF_SIZE ∧
      (∀ x ∈ bytes "AT+CKPD=200", x ≠ CR ∧ x ≠ NUL) ∧
      (bytes "AT+CKPD=200" ++ CR :: bytes "AT+CHUP\r").length ≤ BUF_SIZE - 1) ∧
    (((rfcomm_io_cb env_ok w_hfp G_IO_IN
        (some (bytes "AT+CKPD=200" ++ CR :: bytes "AT+CHUP\r")) 0).1.hs 0).buf.drop
          ((bytes "AT+CKPD=200").length + 1)).take (bytes "AT+CHUP\r").length
      = bytes "AT+CHUP\r" :=
  ⟨⟨by decide, by decide, w_hfp_buf_length, by decide, by decide⟩,
    match rfcomm_io_cb_one_line env_ok w_hfp 0 G_IO_IN (bytes "AT+CKPD=200")
        (bytes "AT+CHUP\r") (by decide) (by decide) (by decide) (by decide) w_hfp_buf_length
        (by decide) (by decide) with
    | ⟨_, _, _, h⟩ => h⟩

/-- Counterexample to C12 as stated: the chunk `AT+CKPD=200\rAT+CHUP\r`
leaves two carriage returns in the buffered data, and one call of
`rfcomm_io_cb` dispatches only `AT+CKPD=200`: AnswerRequested and OK are the
whole trace, `AT+CHUP` is not handled, and its eight bytes stay in the buffer
until a later call (here an empty read) dispatches them. A chunk that starts
with a NUL byte is not scanned beyond it: nothing is dispatched. -/
theorem rfcomm_io_cb_second_line_waits :
    (feed_chunks env_ok 0 w_hfp [bytes "AT+CKPD=200\rAT+CHUP\r"]).trace
      = [Out.signal 0 .AnswerRequested none, Out.wrote 0 rsp_OK] ∧
    ((feed_chunks env_ok 0 w_hfp [bytes "AT+CKPD=200\rAT+CHUP\r"]).hs 0).data_start = 12 ∧
    ((feed_chunks env_ok 0 w_hfp [bytes "AT+CKPD=200\rAT+CHUP\r"]).hs 0).data_length = 8 ∧
    (feed_chunks env_ok 0 w_hfp [bytes "AT+CKPD=200\rAT+CHUP\r", []]).trace
      = [Out.signal 0 .AnswerRequested none, Out.wrote 0 rsp_OK,
         Out.tel_call .terminate_call_req, Out.tel_ret .terminate_call_req 0,
         Out.signal 0 .CallTerminated none, Out.wrote 0 rsp_OK_nr] ∧
    (feed_chunks env_ok 0 w_hfp [NUL :: bytes "AT+CHUP\r"]).trace = [] := by
  decide

/-! ## Unrecognised lines -/

/-- C14: for a line of which no command of `event_callbacks` is a prefix (the
empty line and `at+brsf=20` are such lines), `handle_event` runs no handler:
it returns `-EINVAL` and the world as it was. When such a line arrives,
terminated by a carriage return, in a chunk received into an empty input
buffer of a session whose control channel is open and the write succeeds,
`rfcomm_io_cb` sends exactly `"\r\nERROR\r\n"` and nothing else happens: the
state, `rfcomm`, `tmp_rfcomm`, `sco`, both gains and the AG are unchanged, and
TRUE is returned. -/
theorem unrecognized_line_error (env : Env) (w : World) (dev : Nat) (line : List Nat)
    (hno : ∀ ev ∈ event_callbacks, ¬ ev.cmd <+: line) :
    ((∀ ev ∈ event_callbacks, ¬ ev.cmd <+: ([] : List Nat)) ∧
      (∀ ev ∈ event_callbacks, ¬ ev.cmd <+: bytes "at+brsf=20")) ∧
    handle_event env w dev line = (w, -EINVAL) ∧
    (∀ (cond : Nat) (rest : List Nat),
      cond &&& G_IO_NVAL = 0 → cond &&& (G_IO_ERR ||| G_IO_HUP) = 0 →
      (w.hs dev).data_start = 0 → (w.hs dev).data_length = 0 →
      (w.hs dev).buf.length = BUF_SIZE →
      (∀ x ∈ line, x ≠ CR ∧ x ≠ NUL) →
      (line ++ CR :: rest).length ≤ BUF_SIZE - 1 →
      (w.hs dev).rfcomm ≠ none → env.wr w.nsend = none →
      (rfcomm_io_cb env w cond (some (line ++ CR :: rest)) dev).2 = true ∧
      emitted w (rfcomm_io_cb env w cond (some (line ++ CR :: rest)) dev).1
        = [Out.wrote dev rsp_ERROR] ∧
      ((rfcomm_io_cb env w cond (some (line ++ CR :: rest)) dev).1.hs dev).state
        = (w.hs dev).state ∧
      ((rfcomm_io_cb env w cond (some (line ++ CR :: rest)) dev).1.hs dev).rfcomm
        = (w.hs dev).rfcomm ∧
      ((rfcomm_io_cb env w cond (some (line ++ CR :: rest)) dev).1.hs dev).tmp_rfcomm
        = (w.hs dev).tmp_rfcomm ∧
      ((rfcomm_io_cb env w cond (some (line ++ CR :: rest)) dev).1.hs dev).sco
        = (w.hs dev).sco ∧
      ((rfcomm_io_cb env w cond (some (line ++ CR :: rest)) dev).1.hs dev).sp_gain
        = (w.hs dev).sp_gain ∧
      ((rfcomm_io_cb env w cond (some (line ++ CR :: rest)) dev).1.hs dev).mic_gain
        = (w.hs dev).mic_gain ∧
      (rfcomm_io_cb env w cond (some (line ++ CR :: rest)) dev).1.ag = w.ag) := by
  have hev : ∀ v : World, handle_event env v dev line = (v, -EINVAL) :=
    fun v => handle_event_loop_none env v dev line event_callbacks hno
  refine ⟨⟨by decide, by decide⟩, hev w, ?_⟩
  intro cond rest hnval herr hds hdl hlen hline hfit hrf hwr
  rw [rfcomm_io_cb_first_line env w dev cond line rest hnval herr hds hdl hlen hline hfit]
  simp only [dispatch_line, hev, if_true]
  rw [headset_send_ok env _ dev _ (by simpa using hrf) (by simpa using hwr)]
  simp [emitted]


theorem w_conn_buf_length : (w_conn.hs 0).buf.length = BUF_SIZE := by
  simp [w_conn, headset_in, headset_new, World.set_hs, world_init]

/-- Witness of C14: the lower-case line `at+brsf=20` on the Connected
device 0. -/
theorem unrecognized_line_error_witness :
    (∀ ev ∈ event_callbacks, ¬ ev.cmd <+: bytes "at+brsf=20") ∧
    handle_event env_ok w_conn 0 (bytes "at+brsf=20") = (w_conn, -EINVAL) ∧
    emitted w_conn (rfcomm_io_cb env_ok w_conn G_IO_IN
        (some (bytes "at+brsf=20" ++ CR :: [])) 0).1
      = [Out.wrote 0 rsp_ERROR] ∧
    ((rfcomm_io_cb env_ok w_conn G_IO_IN
        (some (bytes "at+brsf=20" ++ CR :: [])) 0).1.hs 0).state = (w_conn.hs 0).state :=
  have h := unrecognized_line_error env_ok w_conn 0 (bytes "at+brsf=20") (by decide)
  have h2 := h.2.2 G_IO_IN [] (by decide) (by decide) (by decide) (by decide) w_conn_buf_length
    (by decide) (by decide) (by decide) rfl
  ⟨by decide, h.2.1, h2.2.1, h2.2.2.1⟩


/-! ## Divergences from the specification, continued -/

/-- C15: on an AG with `er_mode = 3` and `er_ind = 0`, the line
`AT+CMER=1,0,0,2` is rejected with `-EINVAL` and yet leaves `er_mode = 1` and
`er_ind = 2`; an indicator event that was dropped before the line is written
to the peer after it. The lines rejected for their length or their number of
fields leave both values as they were. -/
theorem event_reporting_rejected_line_stored :
    (w_hfp_quiet.ag.er_mode = 3 ∧ w_hfp_quiet.ag.er_ind = 0) ∧
    (event_reporting env_ok w_hfp_quiet 0 (bytes "AT+CMER=1,0,0,2")).2 = -EINVAL ∧
    (event_reporting env_ok w_hfp_quiet 0 (bytes "AT+CMER=1,0,0,2")).1.ag.er_mode = 1 ∧
    (event_reporting env_ok w_hfp_quiet 0 (bytes "AT+CMER=1,0,0,2")).1.ag.er_ind = 2 ∧
    (event_reporting env_ok w_hfp_quiet 0 (bytes "AT+CMER=1,0,0,2")).1.trace = [] ∧
    (telephony_event_ind env_ok w_hfp_quiet 0).1.trace = [] ∧
    (telephony_event_ind env_ok
        (event_reporting env_ok w_hfp_quiet 0 (bytes "AT+CMER=1,0,0,2")).1 0).1.trace
      = [Out.wrote 0 (bytes "\r\n+CIEV:1,0\r\n")] ∧
    (event_reporting env_ok w_hfp_quiet 0 (bytes "AT+CMER=1,2")).2 = -EINVAL ∧
    (event_reporting env_ok w_hfp_quiet 0 (bytes "AT+CMER=1,2")).1.ag = w_hfp_quiet.ag ∧
    (event_reporting env_ok w_hfp_quiet 0 (bytes "AT+CMER=1,0,22222")).2 = -EINVAL ∧
    (event_reporting env_ok w_hfp_quiet 0 (bytes "AT+CMER=1,0,22222")).1.ag = w_hfp_quiet.ag := by
  decide

/-- C18: a stream request on a session that is ConnectInProgress is coalesced
(no stage started, the callback appended, a non-zero id returned), but a
stream request on a session that is PlayInProgress returns 0 and registers
nothing. Two stream requests on a Disconnected session, the second one issued
while the SCO connect is in flight: one discovery, one RFCOMM connect and one
SCO connect are started, and on the outcome only the first caller's callback
is invoked. -/
theorem request_stream_in_play_in_progress_refused :
    (stream_requested.2 = 1 ∧
      (stream_requested.1.hs 0).state = HEADSET_STATE_CONNECT_IN_PROGRESS) ∧
    ((headset_request_stream env_hsp stream_requested.1 0 8 2).2 = 1 ∧
      (headset_request_stream env_hsp stream_requested.1 0 8 2).1.trace
        = stream_requested.1.trace ∧
      ((headset_request_stream env_hsp stream_requested.1 0 8 2).1.hs 0).pending.map
          pending_connect.callbacks = some [⟨1, 7, 9⟩, ⟨1, 8, 2⟩]) ∧
    ((stream_rfcomm_up.hs 0).state = HEADSET_STATE_PLAY_IN_PROGRESS ∧
      (stream_rfcomm_up.hs 0).pending.map pending_connect.callbacks = some [⟨1, 7, 9⟩]) ∧
    (stream_requested_again.2 = 0 ∧
      (stream_requested_again.1.hs 0).pending.map pending_connect.callbacks
        = some [⟨1, 7, 9⟩]) ∧
    (stages_of stream_sco_up.trace
        = [(0, Stage.search_service), (0, Stage.rfcomm_connect 3), (0, Stage.sco_connect)] ∧
      callbacks_of stream_sco_up.trace = [(7, some 0, 9)] ∧
      (stream_sco_up.hs 0).state = HEADSET_STATE_PLAYING ∧
      (stream_sco_up.hs 0).pending = none) := by
  decide


/-! ## Stage completions -/

theorem update_pending_some (w : World) (dev : Nat) (f : pending_connect → pending_connect)
    (p : pending_connect) (hp : (w.hs dev).pending = some p) :
    update_pending w dev f = w.set_hs dev { w.hs dev with pending := some (f p) } := by
  unfold update_pending
  rw [hp]

theorem reply_pending_some (w : World) (dev : Nat) (r : Reply) (p : pending_connect)
    (hp : (w.hs dev).pending = some p) :
    reply_pending w dev r
      = (match p.msg with
         | some m => w.emit (.reply m r)
         | none => w) := by
  unfold reply_pending
  rw [hp]

/-- Replying to the caller and finalizing: the reply, then the notifications,
and the pending operation is gone; nothing else changes. -/
theorem reply_and_finalize (w : World) (dev : Nat) (r : Reply) (p : pending_connect)
    (hp : (w.hs dev).pending = some p) :
    pending_connect_finalize (reply_pending w dev r) dev
      = World.set_hs { w with trace := w.trace ++ completion_events dev p r } dev
          { w.hs dev with pending := none } := by
  rw [reply_pending_some w dev r p hp]
  cases hm : p.msg with
  | none =>
    dsimp only
    rw [pending_connect_finalize_eq w dev p hp]
    simp [completion_events, hm]
  | some m =>
    dsimp only
    rw [pending_connect_finalize_eq (w.emit (.reply m r)) dev p (by simpa using hp)]
    simp [completion_events, hm, World.emit, World.set_hs]

theorem callbacks_of_map_callback (l : List connect_cb) (d : Option Nat) :
    callbacks_of (l.map (fun cb => Out.callback cb.cb d cb.cb_data))
      = l.map (fun cb => (cb.cb, d, cb.cb_data)) := by
  induction l with
  | nil => rfl
  | cons a r ih => simp [callbacks_of, ih]

theorem replies_of_map_callback (l : List connect_cb) (d : Option Nat) :
    replies_of (l.map (fun cb => Out.callback cb.cb d cb.cb_data)) = [] := by
  induction l with
  | nil => rfl
  | cons a r ih => simp [replies_of, ih]

theorem signals_of_map_callback (l : List connect_cb) (d : Option Nat) :
    signals_of (l.map (fun cb => Out.callback cb.cb d cb.cb_data)) = [] := by
  induction l with
  | nil => rfl
  | cons a r ih => simp [signals_of, ih]

theorem stages_of_map_callback (l : List connect_cb) (d : Option Nat) :
    stages_of (l.map (fun cb => Out.callback cb.cb d cb.cb_data)) = [] := by
  induction l with
  | nil => rfl
  | cons a r ih => simp [stages_of, ih]

theorem completion_events_read (dev : Nat) (p : pending_connect) (r : Reply) :
    callbacks_of (completion_events dev p r)
      = p.callbacks.map (fun cb => (cb.cb, (if p.err ≠ 0 then none else some dev), cb.cb_data)) ∧
    replies_of (completion_events dev p r)
      = (match p.msg with
         | some m => [(m, r)]
         | none => []) ∧
    signals_of (completion_events dev p r) = [] ∧
    stages_of (completion_events dev p r) = [] := by
  unfold completion_events
  rw [callbacks_of_append, replies_of_append, signals_of_append, stages_of_append,
    callbacks_of_map_callback, replies_of_map_callback, signals_of_map_callback,
    stages_of_map_callback]
  cases p.msg <;> simp [callbacks_of, replies_of, signals_of, stages_of]


theorem headset_set_state_pending (env : Env) (w : World) (dev : Nat) (s : headset_state_t) :
    ((headset_set_state env w dev s).hs dev).pending = (w.hs dev).pending := by
  have k := (headset_set_state_kept env w dev s).1
  simp only [kept_fields, Prod.mk.injEq] at k
  exact k.1

theorem headset_set_state_state (env : Env) (w : World) (dev : Nat) (s : headset_state_t) :
    ((headset_set_state env w dev s).hs dev).state = s := by
  rw [headset_set_state_states]
  simp

/-- C19: a pending operation `p` with `err = 0` (as every pending operation
that is waiting for a stage has it). When the SCO connect succeeds with target
Playing, or the RFCOMM connect of a session that is not an HFP session succeeds
with target Connected, the callbacks invoked are exactly those of the waiters
of `p`, once each, in the order of the list, with the device; the replies sent
are exactly one method return to the synchronous caller if `p` holds one;
afterwards the session has no pending operation and is in the target state. -/
theorem stage_success_notifies_waiters (env : Env) (w : World) (dev chan : Nat) (err : Int)
    (p : pending_connect) (hp : (w.hs dev).pending = some p) (hperr : p.err = 0)
    (hok : ¬ err < 0) :
    (p.target_state = HEADSET_STATE_PLAYING →
      callbacks_of (emitted w (sco_connect_cb env w chan err dev))
        = p.callbacks.map (fun cb => (cb.cb, some dev, cb.cb_data)) ∧
      replies_of (emitted w (sco_connect_cb env w chan err dev))
        = (match p.msg with
           | some m => [(m, Reply.method_return [])]
           | none => []) ∧
      ((sco_connect_cb env w chan err dev).hs dev).pending = none ∧
      ((sco_connect_cb env w chan err dev).hs dev).state = p.target_state) ∧
    (p.target_state = HEADSET_STATE_CONNECTED →
      (env.server_hfp && decide ((w.hs dev).hfp_handle ≠ 0)) = false →
      callbacks_of (emitted w (rfcomm_connect_cb env w chan err dev))
        = p.callbacks.map (fun cb => (cb.cb, some dev, cb.cb_data)) ∧
      replies_of (emitted w (rfcomm_connect_cb env w chan err dev))
        = (match p.msg with
           | some m => [(m, Reply.method_return [])]
           | none => []) ∧
      ((rfcomm_connect_cb env w chan err dev).hs dev).pending = none ∧
      ((rfcomm_connect_cb env w chan err dev).hs dev).state = p.target_state) := by
  constructor
  · intro ht
    have e1 : update_pending (w.set_hs dev { w.hs dev with sco := some chan }) dev
        (fun q => { q with io := none })
        = w.set_hs dev { w.hs dev with sco := some chan, pending := some { p with io := none } } := by
      rw [update_pending_some _ dev _ p (by simpa using hp)]
      simp [set_hs_set_hs]
    have e2 := reply_and_finalize
      (w.set_hs dev { w.hs dev with sco := some chan, pending := some { p with io := none } })
      dev (.method_return []) { p with io := none } (by simp)
    obtain ⟨l, t, n⟩ := headset_set_state_emits env
      (pending_connect_finalize (reply_pending
        (w.set_hs dev { w.hs dev with sco := some chan, pending := some { p with io := none } })
        dev (.method_return [])) dev) dev HEADSET_STATE_PLAYING
    have hcb := completion_events_read dev { p with io := none } (.method_return [])
    have hres : sco_connect_cb env w chan err dev
        = headset_set_state env
            (pending_connect_finalize (reply_pending
              (w.set_hs dev
                { w.hs dev with sco := some chan, pending := some { p with io := none } })
              dev (.method_return [])) dev) dev HEADSET_STATE_PLAYING := by
      unfold sco_connect_cb
      rw [if_neg hok]
      dsimp only
      rw [e1]
    rw [hres]
    refine ⟨?_, ?_, ?_, ?_⟩
    · rw [emitted_append w _ (completion_events dev { p with io := none } (.method_return []) ++ l)
        (by rw [t, e2]; simp)]
      rw [callbacks_of_append, hcb.1, n.1]
      simp [hperr]
    · rw [emitted_append w _ (completion_events dev { p with io := none } (.method_return []) ++ l)
        (by rw [t, e2]; simp)]
      rw [replies_of_append, hcb.2.1, n.2.1]
      simp
    · rw [headset_set_state_pending, e2]
      simp
    · rw [headset_set_state_state, ht]
  · intro ht hhfp
    have hh : (env.server_hfp && decide (¬ (w.hs dev).hfp_handle = 0)) = false := by
      simpa using hhfp
    have e1 : update_pending (w.set_hs dev { w.hs dev with rfcomm := some chan }) dev
        (fun q => { q with io := none })
        = w.set_hs dev
            { w.hs dev with rfcomm := some chan, pending := some { p with io := none } } := by
      rw [update_pending_some _ dev _ p (by simpa using hp)]
      simp [set_hs_set_hs]
    have hres : rfcomm_connect_cb env w chan err dev
        = pending_connect_finalize (reply_pending
            (headset_set_state env
              (w.set_hs dev
                { w.hs dev with rfcomm := some chan, pending := some { p with io := none },
                                hfp_active := false })
              dev HEADSET_STATE_CONNECTED) dev (.method_return [])) dev := by
      unfold rfcomm_connect_cb
      rw [if_neg hok]
      dsimp only
      rw [e1]
      simp only [set_hs_same, set_hs_set_hs, ne_eq, hh, Bool.false_eq_true, if_false]
      rw [headset_set_state_pending]
      simp [ht]
    obtain ⟨l, t, n⟩ := headset_set_state_emits env
      (w.set_hs dev
        { w.hs dev with rfcomm := some chan, pending := some { p with io := none },
                        hfp_active := false })
      dev HEADSET_STATE_CONNECTED
    have e2 := reply_and_finalize
      (headset_set_state env
        (w.set_hs dev
          { w.hs dev with rfcomm := some chan, pending := some { p with io := none },
                          hfp_active := false })
        dev HEADSET_STATE_CONNECTED)
      dev (.method_return []) { p with io := none }
      (by rw [headset_set_state_pending]; simp)
    have hcb := completion_events_read dev { p with io := none } (.method_return [])
    rw [hres, e2]
    refine ⟨?_, ?_, ?_, ?_⟩
    · rw [emitted_append w _ (l ++ completion_events dev { p with io := none } (.method_return []))
        (by simp [t])]
      rw [callbacks_of_append, hcb.1, n.1]
      simp [hperr]
    · rw [emitted_append w _ (l ++ completion_events dev { p with io := none } (.method_return []))
        (by simp [t])]
      rw [replies_of_append, hcb.2.1, n.2.1]
      simp
    · simp
    · simp [headset_set_state_state, ht]

theorem stage_success_notifies_waiters_witness :
    ((w_sco_connecting.hs 0).pending = some (pending_one HEADSET_STATE_PLAYING) ∧
      (pending_one HEADSET_STATE_PLAYING).err = 0 ∧ ¬ (0 : Int) < 0 ∧
      (pending_one HEADSET_STATE_PLAYING).target_state = HEADSET_STATE_PLAYING ∧
      callbacks_of (emitted w_sco_connecting (sco_connect_cb env_ok w_sco_connecting 2 0 0))
        = [(7, some 0, 9)] ∧
      replies_of (emitted w_sco_connecting (sco_connect_cb env_ok w_sco_connecting 2 0 0))
        = [(5, Reply.method_return [])] ∧
      ((sco_connect_cb env_ok w_sco_connecting 2 0 0).hs 0).pending = none ∧
      ((sco_connect_cb env_ok w_sco_connecting 2 0 0).hs 0).state = HEADSET_STATE_PLAYING) ∧
    ((w_rfcomm_connecting.hs 0).pending = some (pending_one HEADSET_STATE_CONNECTED) ∧
      (pending_one HEADSET_STATE_CONNECTED).target_state = HEADSET_STATE_CONNECTED ∧
      (env_ok.server_hfp && decide ((w_rfcomm_connecting.hs 0).hfp_handle ≠ 0)) = false ∧
      callbacks_of
          (emitted w_rfcomm_connecting (rfcomm_connect_cb env_ok w_rfcomm_connecting 2 0 0))
        = [(7, some 0, 9)] ∧
      replies_of
          (emitted w_rfcomm_connecting (rfcomm_connect_cb env_ok w_rfcomm_connecting 2 0 0))
        = [(5, Reply.method_return [])] ∧
      ((rfcomm_connect_cb env_ok w_rfcomm_connecting 2 0 0).hs 0).pending = none ∧
      ((rfcomm_connect_cb env_ok w_rfcomm_connecting 2 0 0).hs 0).state
        = HEADSET_STATE_CONNECTED) :=
  ⟨⟨by decide, by decide, by decide, by decide,
    (stage_success_notifies_waiters env_ok w_sco_connecting 0 2 0
      (pending_one HEADSET_STATE_PLAYING) (by decide) (by decide) (by decide)).1 (by decide)⟩,
   ⟨by decide, by decide, by decide,
    (stage_success_notifies_waiters env_ok w_rfcomm_connecting 0 2 0
      (pending_one HEADSET_STATE_CONNECTED) (by decide) (by decide) (by decide)).2
      (by decide) (by decide)⟩⟩


theorem pending_connect_init_fields (h : headset) (t : headset_state_t) :
    (∃ p, (pending_connect_init h t).pending = some p) ∧
    (pending_connect_init h t).state = h.state ∧
    (pending_connect_init h t).rfcomm = h.rfcomm := by
  unfold pending_connect_init
  split
  · split_ifs
    · exact ⟨⟨_, rfl⟩, rfl, rfl⟩
    · exact ⟨⟨_, by assumption⟩, rfl, rfl⟩
  · exact ⟨⟨_, rfl⟩, rfl, rfl⟩

theorem bt_start_hs (env : Env) (v : World) (dev : Nat) (s : Stage) :
    (bt_start env v dev s).1.hs = v.hs := by
  unfold bt_start
  dsimp only
  split_ifs <;> rfl

theorem headset_set_state_rfcomm (env : Env) (w : World) (dev : Nat) (s : headset_state_t)
    (h : s ≠ HEADSET_STATE_DISCONNECTED) :
    ((headset_set_state env w dev s).hs dev).rfcomm = (w.hs dev).rfcomm := by
  have k := (headset_set_state_kept env w dev s).2 h
  simp only [channel_fields, Prod.mk.injEq] at k
  exact k.1

/-- A control-channel connect started without a waiter and accepted leaves the
session in ConnectInProgress with a pending operation and the channel as it
was. -/
theorem rfcomm_connect_accepted (env : Env) (w : World) (dev : Nat)
    (h : ¬ (rfcomm_connect env w dev none).2.1 < 0) :
    ((rfcomm_connect env w dev none).1.hs dev).state = HEADSET_STATE_CONNECT_IN_PROGRESS ∧
    (∃ p, ((rfcomm_connect env w dev none).1.hs dev).pending = some p) ∧
    ((rfcomm_connect env w dev none).1.hs dev).rfcomm = (w.hs dev).rfcomm := by
  unfold rfcomm_connect at h ⊢
  split_ifs at h ⊢ with h1
  · unfold get_records
    dsimp only
    rw [bt_start_hs]
    simp only [set_hs_same]
    obtain ⟨a, b, c⟩ := pending_connect_init_fields
      ((headset_set_state env w dev HEADSET_STATE_CONNECT_IN_PROGRESS).hs dev)
      HEADSET_STATE_CONNECTED
    refine ⟨?_, a, ?_⟩
    · rw [b, headset_set_state_state]
    · rw [c, headset_set_state_rfcomm _ _ _ _ (by decide)]
  · dsimp only at h ⊢
    split_ifs at h ⊢ with h2
    · exact absurd h2 h
    dsimp only
    simp only [set_hs_same]
    obtain ⟨a, b, c⟩ := pending_connect_init_fields
      ((headset_set_state env (bt_start env w dev (.rfcomm_connect (w.hs dev).rfcomm_ch)).1 dev
        HEADSET_STATE_CONNECT_IN_PROGRESS).hs dev)
      HEADSET_STATE_CONNECTED
    refine ⟨?_, a, ?_⟩
    · rw [b, headset_set_state_state]
    · rw [c, headset_set_state_rfcomm _ _ _ _ (by decide), bt_start_hs]

/-- C17: `Connect()` accepted (a null reply, the answer being owed) on a
Disconnected session without a control channel leaves the session in
ConnectInProgress, still without a control channel, with a pending operation
holding the caller. For every such session, when the RFCOMM connect stage
completes with an error the session ends in Disconnected with no control
channel and no pending operation, the signals emitted are exactly one
Disconnected, and the replies sent are exactly one, the
ConnectionAttemptFailed error to the caller. -/
theorem rfcomm_connect_error_fails_caller (env : Env) (w : World) (dev msg : Nat)
    (hst : (w.hs dev).state = HEADSET_STATE_DISCONNECTED)
    (hch : (w.hs dev).rfcomm = none)
    (hacc : (hs_connect env w dev msg).2 = none) :
    (((hs_connect env w dev msg).1.hs dev).state = HEADSET_STATE_CONNECT_IN_PROGRESS ∧
      ((hs_connect env w dev msg).1.hs dev).rfcomm = none ∧
      ∃ p, ((hs_connect env w dev msg).1.hs dev).pending = some p ∧ p.msg = some msg) ∧
    ∀ (v : World) (chan : Nat) (err : Int) (p : pending_connect),
      (v.hs dev).state = HEADSET_STATE_CONNECT_IN_PROGRESS → (v.hs dev).rfcomm = none →
      (v.hs dev).pending = some p → p.msg = some msg → err < 0 →
      ((rfcomm_connect_cb env v chan err dev).hs dev).state = HEADSET_STATE_DISCONNECTED ∧
      ((rfcomm_connect_cb env v chan err dev).hs dev).rfcomm = none ∧
      ((rfcomm_connect_cb env v chan err dev).hs dev).tmp_rfcomm = none ∧
      ((rfcomm_connect_cb env v chan err dev).hs dev).pending = none ∧
      signals_of (emitted v (rfcomm_connect_cb env v chan err dev))
        = [(dev, Signal.Disconnected, none)] ∧
      replies_of (emitted v (rfcomm_connect_cb env v chan err dev))
        = [(msg, Reply.error DBusError.ConnectionAttemptFailed)] := by
  constructor
  · unfold hs_connect at hacc ⊢
    dsimp only at hacc ⊢
    rw [hst] at hacc ⊢
    simp only [reduceCtorEq, if_false] at hacc ⊢
    rw [if_neg (by decide)] at hacc ⊢
    split_ifs at hacc ⊢ with h1 h2
    obtain ⟨a, ⟨q, b⟩, c⟩ := rfcomm_connect_accepted env w dev h2
    rw [update_pending_some _ dev _ q (by simpa using b)]
    simp only [set_hs_same, set_hs_set_hs]
    exact ⟨a, by rw [c, hch], _, rfl, rfl⟩
  · intro v chan err p hs hr hp hm he
    have e2 := reply_and_finalize v dev (.error .ConnectionAttemptFailed) p hp
    have hres : rfcomm_connect_cb env v chan err dev
        = headset_set_state env
            (World.set_hs
              { v with trace := v.trace ++
                  completion_events dev p (.error .ConnectionAttemptFailed) }
              dev { v.hs dev with pending := none })
            dev HEADSET_STATE_DISCONNECTED := by
      unfold rfcomm_connect_cb
      rw [if_pos he]
      unfold rfcomm_connect_failed
      dsimp only
      rw [e2]
      simp [hr]
    have hne : ((World.set_hs
        { v with trace := v.trace ++
            completion_events dev p (.error .ConnectionAttemptFailed) }
        dev { v.hs dev with pending := none }).hs dev).state ≠ HEADSET_STATE_DISCONNECTED := by
      simp [hs]
    obtain ⟨⟨l, r, t1, t2⟩, s1, _, s3, s4, _⟩ := set_state_disconnected_eq env _ dev hne
    have hcb := completion_events_read dev p (.error .ConnectionAttemptFailed)
    have n := no_coordination_only_wrote l t2
    have ht := emitted_append v _
      (completion_events dev p (.error .ConnectionAttemptFailed) ++
        Out.signal dev Signal.Disconnected none ::
          Out.tel_call (TelRequest.event_reporting_req 0) ::
            (l ++ [Out.tel_ret (TelRequest.event_reporting_req 0) r]))
      (by rw [t1]; simp only [set_hs_trace, List.append_assoc])
    rw [hres]
    refine ⟨s1, s3, s4, ?_, ?_, ?_⟩
    · rw [headset_set_state_pending]
      simp
    · rw [ht]
      simp [signals_of_append, hcb.2.2.1, signals_of, signals_of_only_wrote l t2]
    · rw [ht]
      simp [replies_of_append, hcb.2.1, replies_of, n.2.1, hm]

theorem rfcomm_connect_error_fails_caller_witness :
    ((world_init true).hs 0).state = HEADSET_STATE_DISCONNECTED ∧
    ((world_init true).hs 0).rfcomm = none ∧
    (hs_connect env_ok (world_init true) 0 5).2 = none ∧
    ((hs_connect env_ok (world_init true) 0 5).1.hs 0).state
      = HEADSET_STATE_CONNECT_IN_PROGRESS ∧
    ((hs_connect env_ok (world_init true) 0 5).1.hs 0).pending
      = some { msg := some 5, call := none, io := none, err := 0,
               target_state := HEADSET_STATE_CONNECTED, callbacks := [] } ∧
    (-111 : Int) < 0 ∧
    ((rfcomm_connect_cb env_ok (hs_connect env_ok (world_init true) 0 5).1 2 (-111) 0).hs 0).state
      = HEADSET_STATE_DISCONNECTED ∧
    ((rfcomm_connect_cb env_ok (hs_connect env_ok (world_init true) 0 5).1 2 (-111) 0).hs 0).rfcomm
      = none ∧
    ((rfcomm_connect_cb env_ok (hs_connect env_ok (world_init true) 0 5).1 2 (-111) 0).hs
        0).tmp_rfcomm = none ∧
    ((rfcomm_connect_cb env_ok (hs_connect env_ok (world_init true) 0 5).1 2 (-111) 0).hs
        0).pending = none ∧
    signals_of (emitted (hs_connect env_ok (world_init true) 0 5).1
        (rfcomm_connect_cb env_ok (hs_connect env_ok (world_init true) 0 5).1 2 (-111) 0))
      = [(0, Signal.Disconnected, none)] ∧
    replies_of (emitted (hs_connect env_ok (world_init true) 0 5).1
        (rfcomm_connect_cb env_ok (hs_connect env_ok (world_init true) 0 5).1 2 (-111) 0))
      = [(5, Reply.error DBusError.ConnectionAttemptFailed)] :=
  ⟨by decide, by decide, by decide, by decide, by decide, by decide,
    (rfcomm_connect_error_fails_caller env_ok (world_init true) 0 5
      (by decide) (by decide) (by decide)).2
      (hs_connect env_ok (world_init true) 0 5).1 2 (-111)
      { msg := some 5, call := none, io := none, err := 0,
        target_state := HEADSET_STATE_CONNECTED, callbacks := [] }
      (by decide) (by decide) (by decide) (by decide) (by decide)⟩


theorem split_max_field (n : Nat) (a rest cur : List Nat) (ha : 44 ∉ a) :
    split_max 44 (n + 2) cur (a ++ 44 :: rest)
      = (cur.reverse ++ a) :: split_max 44 (n + 1) [] rest := by
  induction a generalizing cur with
  | nil => simp [split_max]
  | cons x r ih =>
    have hx : x ≠ 44 := fun h => ha (by simp [h])
    have hr : 44 ∉ r := fun h => ha (by simp [h])
    rw [List.cons_append, split_max, if_neg hx, ih _ hr]
    simp

theorem split_max_last (n : Nat) (a cur : List Nat) (ha : 44 ∉ a) :
    split_max 44 (n + 2) cur a = [cur.reverse ++ a] := by
  induction a generalizing cur with
  | nil => simp [split_max]
  | cons x r ih =>
    have hx : x ≠ 44 := fun h => ha (by simp [h])
    have hr : 44 ∉ r := fun h => ha (by simp [h])
    rw [split_max, if_neg hx, ih _ hr]
    simp

/-- Four comma-separated fields without a comma inside are the four tokens. -/
theorem g_strsplit_four (a b c d : List Nat) (ha : 44 ∉ a) (hb : 44 ∉ b) (hc : 44 ∉ c)
    (hd : 44 ∉ d) :
    g_strsplit (a ++ 44 :: (b ++ 44 :: (c ++ 44 :: d))) 5 = [a, b, c, d] := by
  unfold g_strsplit
  rw [if_neg (by simp), split_max_field 3 _ _ _ ha, split_max_field 2 _ _ _ hb,
    split_max_field 1 _ _ _ hc, split_max_last 0 _ _ hd]
  simp

theorem set_indicator_features (ag : AG) (i : Nat) (v : Int) :
    (set_indicator ag i v).features = ag.features := by
  unfold set_indicator
  split <;> rfl

theorem telephony_event_ind_features (env : Env) (w : World) (i : Nat) :
    (telephony_event_ind env w i).1.ag.features = w.ag.features := by
  unfold telephony_event_ind
  split
  · rfl
  · split_ifs
    · rfl
    · rfl
    · unfold buffer_event
      split
      · show (read_indicator w i).ag.features = w.ag.features
        rw [(read_indicator_frame w i).2.1]
      · rfl
    · rw [(headset_send_frame env _ _ _).2.1, (read_indicator_frame w i).2.1]

theorem tel_events_features (env : Env) (evs : List (Nat × Int)) (w : World) :
    (tel_events env evs w).ag.features = w.ag.features := by
  induction evs generalizing w with
  | nil => rfl
  | cons e r ih =>
    simp only [tel_events]
    rw [ih, telephony_event_ind_features, set_indicator_features]

theorem telephony_req_features (env : Env) (w : World) (req : TelRequest) :
    (telephony_req env w req).1.ag.features = w.ag.features := by
  unfold telephony_req
  simp only [World.emit]
  rw [tel_events_features]

/-- The SCO stage requested without a waiter on a Connected session whose
pending operation aims at Playing, the transport accepting the request. -/
theorem sco_connect_started (env : Env) (u : World) (dev : Nat) (p : pending_connect)
    (hst : (u.hs dev).state = HEADSET_STATE_CONNECTED) (hp : (u.hs dev).pending = some p)
    (ht : p.target_state = HEADSET_STATE_PLAYING) (hbt : 0 ≤ env.bt u.nbt) :
    sco_connect env u dev none
      = (World.set_hs (World.emit { u with nbt := u.nbt + 1 } (.stage dev .sco_connect)) dev
          { u.hs dev with state := HEADSET_STATE_PLAY_IN_PROGRESS }, 0, none) := by
  have hb : ¬ env.bt u.nbt < 0 := not_lt.mpr hbt
  have e1 : bt_start env u dev .sco_connect
      = (World.emit { u with nbt := u.nbt + 1 } (.stage dev .sco_connect), env.bt u.nbt) := by
    unfold bt_start
    simp [hb]
  have e2 : headset_set_state env
      (World.emit { u with nbt := u.nbt + 1 } (.stage dev .sco_connect)) dev
      HEADSET_STATE_PLAY_IN_PROGRESS
      = World.set_hs (World.emit { u with nbt := u.nbt + 1 } (.stage dev .sco_connect)) dev
          { u.hs dev with state := HEADSET_STATE_PLAY_IN_PROGRESS } := by
    unfold headset_set_state
    rw [if_neg (by simp [World.emit, hst])]
    rfl
  unfold sco_connect
  rw [if_neg (by simp [hst]), e1]
  dsimp only
  rw [if_neg hb, e2]
  simp only [set_hs_same, set_hs_set_hs]
  unfold pending_connect_init
  simp [hp, ht]

/-- The completion of the Service Level Connection of a session in
ConnectInProgress whose pending operation `p` holds the caller `m`. -/
theorem hfp_slc_complete_spec (env : Env) (v : World) (dev m : Nat) (p : pending_connect)
    (hst : (v.hs dev).state = HEADSET_STATE_CONNECT_IN_PROGRESS)
    (hp : (v.hs dev).pending = some p) (hm : p.msg = some m) :
    (p.target_state = HEADSET_STATE_CONNECTED →
      (hfp_slc_complete env v dev).trace
        = v.trace ++ (Out.signal dev .Connected none ::
            Out.reply m (.method_return []) ::
            p.callbacks.map (fun cb =>
              Out.callback cb.cb (if p.err ≠ 0 then none else some dev) cb.cb_data)) ∧
      ((hfp_slc_complete env v dev).hs dev).state = HEADSET_STATE_CONNECTED ∧
      ((hfp_slc_complete env v dev).hs dev).pending = none) ∧
    (p.target_state = HEADSET_STATE_PLAYING → (∀ n, 0 ≤ env.bt n) →
      (hfp_slc_complete env v dev).trace
        = v.trace ++ [Out.signal dev .Connected none, Out.reply m (.method_return []),
            Out.stage dev .sco_connect] ∧
      ((hfp_slc_complete env v dev).hs dev).state = HEADSET_STATE_PLAY_IN_PROGRESS ∧
      ((hfp_slc_complete env v dev).hs dev).pending = some { p with err := 0 }) := by
  obtain ⟨t, s, _⟩ := set_state_connected_eq env v dev (by rw [hst]; decide)
  rw [hst] at t
  rw [if_pos (by decide)] at t
  have hp1 : ((headset_set_state env v dev HEADSET_STATE_CONNECTED).hs dev).pending = some p := by
    rw [headset_set_state_pending, hp]
  have e2 := reply_and_finalize (headset_set_state env v dev HEADSET_STATE_CONNECTED) dev
    (.method_return []) p hp1
  have e3 := reply_pending_some (headset_set_state env v dev HEADSET_STATE_CONNECTED) dev
    (.method_return []) p hp1
  rw [hm] at e3
  dsimp only at e3
  constructor
  · intro ht
    have hres : hfp_slc_complete env v dev
        = pending_connect_finalize
            (reply_pending (headset_set_state env v dev HEADSET_STATE_CONNECTED) dev
              (.method_return [])) dev := by
      unfold hfp_slc_complete
      dsimp only
      rw [hp1]
      dsimp only
      rw [if_pos ht]
    rw [hres, e2]
    refine ⟨?_, ?_, ?_⟩
    · simp [t, completion_events, hm]
    · simpa using s
    · simp
  · intro ht hbt
    have hne : p.target_state ≠ HEADSET_STATE_CONNECTED := by rw [ht]; decide
    have e4 := sco_connect_started env
      ((headset_set_state env v dev HEADSET_STATE_CONNECTED).emit
        (.reply m (.method_return []))) dev p
      (by simpa [World.emit] using s) (by simpa [World.emit] using hp1) ht (hbt _)
    have hres : hfp_slc_complete env v dev
        = update_pending
            (sco_connect env
              ((headset_set_state env v dev HEADSET_STATE_CONNECTED).emit
                (.reply m (.method_return []))) dev none).1 dev
            (fun q => { q with err := 0 }) := by
      unfold hfp_slc_complete
      dsimp only
      rw [hp1]
      dsimp only
      rw [if_neg hne, e3, e4]
      simp
    rw [hres, e4]
    dsimp only
    rw [update_pending_some _ dev _ p (by simpa [World.emit] using hp1)]
    refine ⟨?_, ?_, ?_⟩
    · simp [World.emit, t]
    · simp
    · simp

/-- A valid `AT+CMER` line on a session in ConnectInProgress, with no three-way
calling in the feature mask and the writes succeeding: the handler completes
the Service Level Connection from a world `v` that differs from `w` in what the
back-end did and in the `OK` written. -/
theorem event_reporting_reaches_slc (env : Env) (w : World) (dev : Nat)
    (mode keyp disp ind : List Nat)
    (hst : (w.hs dev).state = HEADSET_STATE_CONNECT_IN_PROGRESS)
    (hch : (w.hs dev).rfcomm ≠ none)
    (hfe : w.ag.features &&& env.three_way = 0)
    (hwr : ∀ n, env.wr n = none)
    (hmode : mode ≠ [] ∧ 44 ∉ mode) (hkeyp : keyp ≠ [] ∧ 44 ∉ keyp)
    (hdisp : disp ≠ [] ∧ 44 ∉ disp) (hind : ind ≠ [] ∧ 44 ∉ ind)
    (hv : atoi ind = 0 ∨ atoi ind = 1) :
    ∃ v l, event_reporting env w dev
        (bytes "AT+CMER=" ++ (mode ++ 44 :: (keyp ++ 44 :: (disp ++ 44 :: ind))))
        = (hfp_slc_complete env v dev, 0) ∧
      v.hs = w.hs ∧ v.trace = w.trace ++ l ∧ signals_of l = [] ∧ no_coordination l := by
  have hb : bytes "AT+CMER=" = [65, 84, 43, 67, 77, 69, 82, 61] := by decide
  have hlen : ¬ (bytes "AT+CMER=" ++ (mode ++ 44 :: (keyp ++ 44 :: (disp ++ 44 :: ind)))).length
      < 13 := by
    have h1 := List.length_pos.mpr hmode.1
    have h2 := List.length_pos.mpr hind.1
    rw [hb]
    simp only [List.length_append, List.length_cons, List.length_nil]
    omega
  have hdrop : (bytes "AT+CMER=" ++ (mode ++ 44 :: (keyp ++ 44 :: (disp ++ 44 :: ind)))).drop 8
      = mode ++ 44 :: (keyp ++ 44 :: (disp ++ 44 :: ind)) := by
    rw [hb]
    rfl
  have htok := g_strsplit_four mode keyp disp ind hmode.2 hkeyp.2 hdisp.2 hind.2
  obtain ⟨f1, _, l, f3, f4⟩ := telephony_req_frame env
    { w with ag := { w.ag with er_mode := atoi mode, er_ind := atoi ind } }
    (.event_reporting_req (atoi ind))
  have f5 := telephony_req_features env
    { w with ag := { w.ag with er_mode := atoi mode, er_ind := atoi ind } }
    (.event_reporting_req (atoi ind))
  have hsend := headset_send_ok env
    (telephony_req env
      { w with ag := { w.ag with er_mode := atoi mode, er_ind := atoi ind } }
      (.event_reporting_req (atoi ind))).1 dev rsp_OK
    (by rw [f1]; exact hch) (hwr _)
  refine ⟨World.emit
      { (telephony_req env
          { w with ag := { w.ag with er_mode := atoi mode, er_ind := atoi ind } }
          (.event_reporting_req (atoi ind))).1 with
        nsend := (telephony_req env
          { w with ag := { w.ag with er_mode := atoi mode, er_ind := atoi ind } }
          (.event_reporting_req (atoi ind))).1.nsend + 1 }
      (.wrote dev rsp_OK),
    (Out.tel_call (.event_reporting_req (atoi ind)) ::
      (l ++ [Out.tel_ret (.event_reporting_req (atoi ind))
        (telephony_req env
          { w with ag := { w.ag with er_mode := atoi mode, er_ind := atoi ind } }
          (.event_reporting_req (atoi ind))).2])) ++ [Out.wrote dev rsp_OK],
    ?_, f1, ?_, ?_, ?_⟩
  · unfold event_reporting
    rw [if_neg hlen, hdrop, htok]
    simp only [List.length_cons, List.length_nil, List.getD_cons_zero, List.getD_cons_succ]
    rw [if_neg (by decide), if_pos hv, hsend]
    simp only [World.emit, f1, f5]
    rw [if_neg (by decide), if_neg (by simp [hst]), if_neg (by simp [hfe])]
  · simp only [World.emit, f3]
    rw [List.append_assoc]
  · simp [signals_of_append, signals_of, signals_of_only_wrote l f4]
  · have n := no_coordination_only_wrote l f4
    refine no_coordination_append _ _ ?_ ⟨rfl, rfl, rfl⟩
    exact no_coordination_append [_] _ ⟨rfl, rfl, rfl⟩
      (no_coordination_append _ [_] n ⟨rfl, rfl, rfl⟩)

/-- C16, amended: a session in ConnectInProgress with the control channel
open whose pending operation `p` holds a `Connect()` caller `m`, the feature
mask of the AG lacking three-way calling, the writes succeeding. The line
`AT+CMER=<mode>,<keyp>,<disp>,<ind>` with non-empty fields and `ind` read as 0
or 1 returns 0. If the target of `p` is Connected, exactly one signal is
emitted, Connected, exactly one reply is sent, the success reply to `m`, no
stage is started, the session is Connected and the pending operation is
destroyed. If the target of `p` is Playing and the transport accepts the stage
request, the same signal and reply are produced, exactly one stage is started,
the SCO connect, the session is PlayInProgress and still holds the pending
operation towards Playing. -/
theorem event_reporting_completes_slc (env : Env) (w : World) (dev m : Nat)
    (mode keyp disp ind : List Nat) (p : pending_connect)
    (hst : (w.hs dev).state = HEADSET_STATE_CONNECT_IN_PROGRESS)
    (hp : (w.hs dev).pending = some p) (hm : p.msg = some m)
    (hch : (w.hs dev).rfcomm ≠ none)
    (hfe : w.ag.features &&& env.three_way = 0)
    (hwr : ∀ n, env.wr n = none)
    (hmode : mode ≠ [] ∧ 44 ∉ mode) (hkeyp : keyp ≠ [] ∧ 44 ∉ keyp)
    (hdisp : disp ≠ [] ∧ 44 ∉ disp) (hind : ind ≠ [] ∧ 44 ∉ ind)
    (hv : atoi ind = 0 ∨ atoi ind = 1) :
    (event_reporting env w dev
      (bytes "AT+CMER=" ++ (mode ++ 44 :: (keyp ++ 44 :: (disp ++ 44 :: ind))))).2 = 0 ∧
    (p.target_state = HEADSET_STATE_CONNECTED →
      signals_of (emitted w (event_reporting env w dev
        (bytes "AT+CMER=" ++ (mode ++ 44 :: (keyp ++ 44 :: (disp ++ 44 :: ind))))).1)
        = [(dev, Signal.Connected, none)] ∧
      replies_of (emitted w (event_reporting env w dev
        (bytes "AT+CMER=" ++ (mode ++ 44 :: (keyp ++ 44 :: (disp ++ 44 :: ind))))).1)
        = [(m, Reply.method_return [])] ∧
      stages_of (emitted w (event_reporting env w dev
        (bytes "AT+CMER=" ++ (mode ++ 44 :: (keyp ++ 44 :: (disp ++ 44 :: ind))))).1) = [] ∧
      ((event_reporting env w dev
        (bytes "AT+CMER=" ++ (mode ++ 44 :: (keyp ++ 44 :: (disp ++ 44 :: ind))))).1.hs dev).state
        = HEADSET_STATE_CONNECTED ∧
      ((event_reporting env w dev
        (bytes "AT+CMER=" ++ (mode ++ 44 :: (keyp ++ 44 :: (disp ++ 44 :: ind))))).1.hs
          dev).pending = none) ∧
    (p.target_state = HEADSET_STATE_PLAYING → (∀ n, 0 ≤ env.bt n) →
      signals_of (emitted w (event_reporting env w dev
        (bytes "AT+CMER=" ++ (mode ++ 44 :: (keyp ++ 44 :: (disp ++ 44 :: ind))))).1)
        = [(dev, Signal.Connected, none)] ∧
      replies_of (emitted w (event_reporting env w dev
        (bytes "AT+CMER=" ++ (mode ++ 44 :: (keyp ++ 44 :: (disp ++ 44 :: ind))))).1)
        = [(m, Reply.method_return [])] ∧
      stages_of (emitted w (event_reporting env w dev
        (bytes "AT+CMER=" ++ (mode ++ 44 :: (keyp ++ 44 :: (disp ++ 44 :: ind))))).1)
        = [(dev, Stage.sco_connect)] ∧
      ((event_reporting env w dev
        (bytes "AT+CMER=" ++ (mode ++ 44 :: (keyp ++ 44 :: (disp ++ 44 :: ind))))).1.hs dev).state
        = HEADSET_STATE_PLAY_IN_PROGRESS ∧
      ∃ q, ((event_reporting env w dev
        (bytes "AT+CMER=" ++ (mode ++ 44 :: (keyp ++ 44 :: (disp ++ 44 :: ind))))).1.hs
          dev).pending = some q ∧ q.target_state = HEADSET_STATE_PLAYING) := by
  obtain ⟨v, l, e, h1, h2, h3, h4, h5, h6⟩ := event_reporting_reaches_slc env w dev mode keyp
    disp ind hst hch hfe hwr hmode hkeyp hdisp hind hv
  obtain ⟨c, d⟩ := hfp_slc_complete_spec env v dev m p (by rw [h1]; exact hst)
    (by rw [h1]; exact hp) hm
  rw [e]
  refine ⟨rfl, ?_, ?_⟩
  · intro ht
    obtain ⟨t, s, q⟩ := c ht
    have ht := emitted_append w (hfp_slc_complete env v dev) _
      (by rw [t, h2, List.append_assoc])
    dsimp only
    rw [ht]
    refine ⟨?_, ?_, ?_, s, q⟩
    · simp [signals_of_append, h3, signals_of, signals_of_map_callback]
    · simp [replies_of_append, h5, replies_of, replies_of_map_callback]
    · simp [stages_of_append, h6, stages_of, stages_of_map_callback]
  · intro ht hbt
    obtain ⟨t, s, q⟩ := d ht hbt
    have ht1 := emitted_append w (hfp_slc_complete env v dev) _
      (by rw [t, h2, List.append_assoc])
    dsimp only
    rw [ht1]
    refine ⟨?_, ?_, ?_, s, _, q, ht⟩
    · simp [signals_of_append, h3, signals_of]
    · simp [replies_of_append, h5, replies_of]
    · simp [stages_of_append, h6, stages_of]

theorem event_reporting_completes_slc_witness :
    (((w_slc HEADSET_STATE_PLAYING).hs 0).state = HEADSET_STATE_CONNECT_IN_PROGRESS ∧
      ((w_slc HEADSET_STATE_PLAYING).hs 0).pending = some (pending_one HEADSET_STATE_PLAYING) ∧
      (pending_one HEADSET_STATE_PLAYING).msg = some 5 ∧
      ((w_slc HEADSET_STATE_PLAYING).hs 0).rfcomm ≠ none ∧
      (w_slc HEADSET_STATE_PLAYING).ag.features &&& env_ok.three_way = 0 ∧
      atoi (bytes "1") = 1 ∧
      (event_reporting env_ok (w_slc HEADSET_STATE_PLAYING) 0 (bytes "AT+CMER=3,0,0,1")).2 = 0 ∧
      stages_of (emitted (w_slc HEADSET_STATE_PLAYING)
        (event_reporting env_ok (w_slc HEADSET_STATE_PLAYING) 0 (bytes "AT+CMER=3,0,0,1")).1)
        = [(0, Stage.sco_connect)] ∧
      ((event_reporting env_ok (w_slc HEADSET_STATE_PLAYING) 0
        (bytes "AT+CMER=3,0,0,1")).1.hs 0).state = HEADSET_STATE_PLAY_IN_PROGRESS) ∧
    (((w_slc HEADSET_STATE_CONNECTED).hs 0).pending
        = some (pending_one HEADSET_STATE_CONNECTED) ∧
      signals_of (emitted (w_slc HEADSET_STATE_CONNECTED)
        (event_reporting env_ok (w_slc HEADSET_STATE_CONNECTED) 0 (bytes "AT+CMER=3,0,0,1")).1)
        = [(0, Signal.Connected, none)] ∧
      replies_of (emitted (w_slc HEADSET_STATE_CONNECTED)
        (event_reporting env_ok (w_slc HEADSET_STATE_CONNECTED) 0 (bytes "AT+CMER=3,0,0,1")).1)
        = [(5, Reply.method_return [])] ∧
      stages_of (emitted (w_slc HEADSET_STATE_CONNECTED)
        (event_reporting env_ok (w_slc HEADSET_STATE_CONNECTED) 0 (bytes "AT+CMER=3,0,0,1")).1)
        = [] ∧
      ((event_reporting env_ok (w_slc HEADSET_STATE_CONNECTED) 0
        (bytes "AT+CMER=3,0,0,1")).1.hs 0).state = HEADSET_STATE_CONNECTED ∧
      ((event_reporting env_ok (w_slc HEADSET_STATE_CONNECTED) 0
        (bytes "AT+CMER=3,0,0,1")).1.hs 0).pending = none) :=
  ⟨⟨by decide, by decide, by decide, by decide, by decide, by decide,
    (event_reporting_completes_slc env_ok (w_slc HEADSET_STATE_PLAYING) 0 5
      (bytes "3") (bytes "0") (bytes "0") (bytes "1") (pending_one HEADSET_STATE_PLAYING)
      (by decide) (by decide) (by decide) (by decide) (by decide) (fun _ => rfl)
      (by decide) (by decide) (by decide) (by decide) (by decide)).1,
    ((event_reporting_completes_slc env_ok (w_slc HEADSET_STATE_PLAYING) 0 5
      (bytes "3") (bytes "0") (bytes "0") (bytes "1") (pending_one HEADSET_STATE_PLAYING)
      (by decide) (by decide) (by decide) (by decide) (by decide) (fun _ => rfl)
      (by decide) (by decide) (by decide) (by decide) (by decide)).2.2 (by decide)
      (fun _ => Int.le_refl 0)).2.2.1,
    ((event_reporting_completes_slc env_ok (w_slc HEADSET_STATE_PLAYING) 0 5
      (bytes "3") (bytes "0") (bytes "0") (bytes "1") (pending_one HEADSET_STATE_PLAYING)
      (by decide) (by decide) (by decide) (by decide) (by decide) (fun _ => rfl)
      (by decide) (by decide) (by decide) (by decide) (by decide)).2.2 (by decide)
      (fun _ => Int.le_refl 0)).2.2.2.1⟩,
   ⟨by decide,
    (event_reporting_completes_slc env_ok (w_slc HEADSET_STATE_CONNECTED) 0 5
      (bytes "3") (bytes "0") (bytes "0") (bytes "1") (pending_one HEADSET_STATE_CONNECTED)
      (by decide) (by decide) (by decide) (by decide) (by decide) (fun _ => rfl)
      (by decide) (by decide) (by decide) (by decide) (by decide)).2.1 (by decide)⟩⟩

/-- C16, counterexample: device 0 in HFP mode is in ConnectInProgress with the
control channel open, its pending operation holds the `Connect()` caller
(message 5) and a waiter and aims at Playing, the feature mask lacks three-way
calling and every write succeeds, but the transport refuses the stage request.
The line `AT+CMER=3,0,0,1` returns 0, OK is written, Connected is emitted and
the success reply is sent to the caller; yet no stage is started and the
session is Connected, not PlayInProgress: the pending operation is destroyed
and its waiter is notified with a null device. -/
theorem event_reporting_stage_refused :
    ((w_slc HEADSET_STATE_PLAYING).hs 0).state = HEADSET_STATE_CONNECT_IN_PROGRESS ∧
    ((w_slc HEADSET_STATE_PLAYING).hs 0).hfp_active = true ∧
    ((w_slc HEADSET_STATE_PLAYING).hs 0).pending = some (pending_one HEADSET_STATE_PLAYING) ∧
    (w_slc HEADSET_STATE_PLAYING).ag.features &&& env_no_stage.three_way = 0 ∧
    (event_reporting env_no_stage (w_slc HEADSET_STATE_PLAYING) 0
      (bytes "AT+CMER=3,0,0,1")).2 = 0 ∧
    emitted (w_slc HEADSET_STATE_PLAYING)
      (event_reporting env_no_stage (w_slc HEADSET_STATE_PLAYING) 0
        (bytes "AT+CMER=3,0,0,1")).1
      = [Out.tel_call (.event_reporting_req 1), Out.tel_ret (.event_reporting_req 1) 0,
         Out.wrote 0 rsp_OK, Out.signal 0 .Connected none,
         Out.reply 5 (.method_return []), Out.callback 7 none 9] ∧
    ((event_reporting env_no_stage (w_slc HEADSET_STATE_PLAYING) 0
      (bytes "AT+CMER=3,0,0,1")).1.hs 0).state = HEADSET_STATE_CONNECTED ∧
    ((event_reporting env_no_stage (w_slc HEADSET_STATE_PLAYING) 0
      (bytes "AT+CMER=3,0,0,1")).1.hs 0).pending = none := by
  decide


/-! ## Validation errors of the control surface -/

/-- C22: a request of the control surface answered synchronously with one of
NotConnected, InProgress, AlreadyConnected, NotAvailable, NotReady and
InvalidArgument leaves the whole world as it was (every session, the AG, the
selection, the trace: no signal, nothing written), for `Connect`,
`Disconnect`, `Play`, `Stop`, `IndicateCall`, `CancelCall` and the gain
setters. These answers are given: by `Connect` in ConnectInProgress
(InProgress), in a higher state (AlreadyConnected), and in Disconnected for a
session with an HFP record while telephony is not ready (NotReady); by
`Disconnect` in Disconnected; by `Play` in every state other than Connected,
and in every state when SCO is routed over HCI; by `Stop` below
PlayInProgress; by `IndicateCall`, `CancelCall` and the gain setters below
Connected; by the gain setters for a value above 15; by the gain getters,
which never change anything, below Connected or with the gain unset. -/
theorem validation_errors_change_nothing (env : Env) (w : World) (dev : Nat) (e : DBusError)
    (he : e = .NotConnected ∨ e = .InProgress ∨ e = .AlreadyConnected ∨ e = .NotAvailable ∨
      e = .NotReady ∨ e = .InvalidArgument) :
    ((∀ msg, (hs_connect env w dev msg).2 = some (.error e) → (hs_connect env w dev msg).1 = w) ∧
      ((hs_disconnect env w dev).2 = some (.error e) → (hs_disconnect env w dev).1 = w) ∧
      (∀ msg, (hs_play env w dev msg).2 = some (.error e) → (hs_play env w dev msg).1 = w) ∧
      ((hs_stop env w dev).2 = some (.error e) → (hs_stop env w dev).1 = w) ∧
      ((hs_ring env w dev).2 = some (.error e) → (hs_ring env w dev).1 = w) ∧
      ((hs_cancel_call w dev).2 = some (.error e) → (hs_cancel_call w dev).1 = w) ∧
      (∀ arg type, (hs_set_gain env w dev arg type).2 = some (.error e) →
        (hs_set_gain env w dev arg type).1 = w)) ∧
    (((w.hs dev).state = HEADSET_STATE_CONNECT_IN_PROGRESS →
        ∀ msg, hs_connect env w dev msg = (w, some (.error .InProgress))) ∧
      (HEADSET_STATE_CONNECT_IN_PROGRESS.toNat < (w.hs dev).state.toNat →
        ∀ msg, hs_connect env w dev msg = (w, some (.error .AlreadyConnected))) ∧
      ((w.hs dev).state = HEADSET_STATE_DISCONNECTED → (w.hs dev).hfp_handle ≠ 0 →
        w.ag.telephony_ready = false →
        ∀ msg, hs_connect env w dev msg = (w, some (.error .NotReady))) ∧
      ((w.hs dev).state = HEADSET_STATE_DISCONNECTED →
        hs_disconnect env w dev = (w, some (.error .NotConnected))) ∧
      ((w.hs dev).state ≠ HEADSET_STATE_CONNECTED ∨ w.sco_hci = true →
        ∀ msg, hs_play env w dev msg = (w, some (.error .NotConnected)) ∨
          hs_play env w dev msg = (w, some (.error .InProgress)) ∨
          hs_play env w dev msg = (w, some (.error .AlreadyConnected)) ∨
          hs_play env w dev msg = (w, some (.error .NotAvailable))) ∧
      ((w.hs dev).state.toNat < HEADSET_STATE_PLAY_IN_PROGRESS.toNat →
        hs_stop env w dev = (w, some (.error .NotConnected))) ∧
      ((w.hs dev).state.toNat < HEADSET_STATE_CONNECTED.toNat →
        hs_ring env w dev = (w, some (.error .NotConnected)) ∧
        hs_cancel_call w dev = (w, some (.error .NotConnected)) ∧
        ∀ arg type, hs_set_gain env w dev arg type = (w, some (.error .NotConnected))) ∧
      (HEADSET_STATE_CONNECTED.toNat ≤ (w.hs dev).state.toNat →
        ∀ gain type, 15 < gain →
          hs_set_gain env w dev (some gain) type = (w, some (.error .InvalidArgument))) ∧
      ((w.hs dev).state.toNat < HEADSET_STATE_CONNECTED.toNat ∨ (w.hs dev).sp_gain < 0 →
        hs_get_speaker_gain w dev = .error .NotAvailable) ∧
      ((w.hs dev).state.toNat < HEADSET_STATE_CONNECTED.toNat ∨ (w.hs dev).mic_gain < 0 →
        hs_get_mic_gain w dev = .error .NotAvailable)) := by
  refine ⟨⟨?_, ?_, ?_, ?_, ?_, ?_, ?_⟩, ?_, ?_, ?_, ?_, ?_, ?_, ?_, ?_, ?_, ?_⟩
  · intro msg h
    unfold hs_connect at h ⊢
    dsimp only at h ⊢
    split_ifs at h ⊢ <;> first
      | rfl
      | (simp only [Option.some.injEq, Reply.error.injEq, reduceCtorEq] at h <;>
         (subst h; simp at he))
  · intro h
    unfold hs_disconnect at h ⊢
    split_ifs at h ⊢ <;> first
      | rfl
      | (simp only [Option.some.injEq, Reply.error.injEq, reduceCtorEq] at h)
  · intro msg h
    unfold hs_play at h ⊢
    split_ifs at h ⊢
    · rfl
    · cases hst : (w.hs dev).state <;> rw [hst] at h <;> dsimp only at h ⊢
      split_ifs at h ⊢
      all_goals
        simp only [Option.some.injEq, Reply.error.injEq, reduceCtorEq] at h <;>
        (subst h; simp at he)
  · intro h
    unfold hs_stop at h ⊢
    split_ifs at h ⊢
    · rfl
    · simp at h
  · intro h
    unfold hs_ring at h ⊢
    dsimp only at h ⊢
    split_ifs at h ⊢ <;> first
      | rfl
      | (simp only [Option.some.injEq, Reply.error.injEq, reduceCtorEq] at h <;>
         (subst h; simp at he))
  · intro h
    unfold hs_cancel_call at h ⊢
    split_ifs at h ⊢
    · rfl
    · simp at h
  · intro arg type h
    unfold hs_set_gain at h ⊢
    cases arg with
    | none =>
      dsimp only at h ⊢
      split_ifs at h ⊢ <;> rfl
    | some gain =>
      dsimp only at h ⊢
      split_ifs at h ⊢ <;> first
        | rfl
        | (simp only [Option.some.injEq, Reply.error.injEq, reduceCtorEq] at h <;>
           (subst h; simp at he))
        | (simp only [Option.some.injEq, reduceCtorEq] at h)
  · intro hst msg
    simp [hs_connect, hst]
  · intro hst msg
    have hne : (w.hs dev).state ≠ HEADSET_STATE_CONNECT_IN_PROGRESS := by
      intro hc
      rw [hc] at hst
      exact absurd hst (by decide)
    unfold hs_connect
    dsimp only
    rw [if_neg hne, if_pos hst]
  · intro hst hh ht msg
    unfold hs_connect
    dsimp only
    rw [hst, if_neg (by decide), if_neg (by decide), if_pos ⟨hh, ht⟩]
  · intro hst
    unfold hs_disconnect
    rw [if_pos hst]
  · intro hc msg
    unfold hs_play
    by_cases hh : w.sco_hci = true
    · rw [if_pos hh]
      exact Or.inr (Or.inr (Or.inr rfl))
    · rw [if_neg hh]
      have hne : (w.hs dev).state ≠ HEADSET_STATE_CONNECTED := hc.resolve_right hh
      cases hst : (w.hs dev).state
      · exact Or.inl rfl
      · exact Or.inl rfl
      · exact absurd hst hne
      · exact Or.inr (Or.inl rfl)
      · exact Or.inr (Or.inr (Or.inl rfl))
  · intro hst
    unfold hs_stop
    rw [if_pos hst]
  · intro hst
    refine ⟨?_, ?_, ?_⟩
    · unfold hs_ring
      dsimp only
      rw [if_pos hst]
    · unfold hs_cancel_call
      rw [if_pos hst]
    · intro arg type
      unfold hs_set_gain
      dsimp only
      rw [if_pos hst]
  · intro hst gain type hg
    unfold hs_set_gain
    dsimp only
    rw [if_neg (not_lt.mpr hst), if_pos hg]
  · intro h
    unfold hs_get_speaker_gain
    dsimp only
    rw [if_pos h]
  · intro h
    unfold hs_get_mic_gain
    dsimp only
    rw [if_pos h]

theorem validation_errors_change_nothing_witness :
    (DBusError.NotConnected = DBusError.NotConnected ∨
      DBusError.NotConnected = DBusError.InProgress ∨
      DBusError.NotConnected = DBusError.AlreadyConnected ∨
      DBusError.NotConnected = DBusError.NotAvailable ∨
      DBusError.NotConnected = DBusError.NotReady ∨
      DBusError.NotConnected = DBusError.InvalidArgument) ∧
    (hs_stop env_ok w_conn 0).2 = some (.error .NotConnected) ∧
    (hs_stop env_ok w_conn 0).1 = w_conn ∧
    (w_conn.hs 1).state.toNat < HEADSET_STATE_CONNECTED.toNat ∧
    hs_ring env_ok w_conn 1 = (w_conn, some (.error .NotConnected)) :=
  ⟨Or.inl rfl, by decide,
    (validation_errors_change_nothing env_ok w_conn 0 .NotConnected (Or.inl rfl)).1.2.2.2.1
      (by decide),
    by decide,
    ((validation_errors_change_nothing env_ok w_conn 1 .NotConnected (Or.inl rfl)).2.2.2.2.2.2.2.1
      (by decide)).1⟩


/-! ## The target of a pending operation -/

theorem raised_init (h : headset) (t : headset_state_t) : raised h (pending_connect_init h t) t := by
  unfold raised pending_connect_init target_of
  cases hp : h.pending with
  | none => exact ⟨_, rfl, by simp⟩
  | some p =>
    dsimp only
    split_ifs with hlt
    · exact ⟨_, rfl, by simp [Nat.le_of_lt hlt]⟩
    · exact ⟨p, hp, by simp [Nat.le_of_not_lt hlt]⟩

theorem raised_cb_new (h : headset) (t : headset_state_t) (f u : Nat) :
    raised h (connect_cb_new h t f u).1 t := by
  obtain ⟨q, hq, ht⟩ := raised_init h t
  unfold connect_cb_new
  dsimp only
  rw [hq]
  exact ⟨_, rfl, ht⟩

theorem raised_target (h h1 : headset) (t : headset_state_t) (hr : raised h h1 t) :
    target_of h1 = max (target_of h) t.toNat := by
  obtain ⟨q, hq, ht⟩ := hr
  unfold target_of at ht ⊢
  rw [hq]
  exact ht

theorem raised_twice (h h1 h2 : headset) (t : headset_state_t) (a : raised h h1 t)
    (b : raised h1 h2 t) : raised h h2 t := by
  have e := raised_target h h1 t a
  obtain ⟨q, hq, ht⟩ := b
  exact ⟨q, hq, by rw [ht, e, max_assoc, max_self]⟩

theorem raised_congr (h0 h h1 : headset) (t : headset_state_t) (e : target_of h0 = target_of h)
    (a : raised h h1 t) : raised h0 h1 t := by
  obtain ⟨q, hq, ht⟩ := a
  exact ⟨q, hq, by rw [ht, e]⟩

theorem target_of_set_state (env : Env) (w : World) (dev : Nat) (s : headset_state_t) :
    target_of ((headset_set_state env w dev s).hs dev) = target_of (w.hs dev) := by
  unfold target_of
  rw [headset_set_state_pending]

theorem raised_le (h h1 : headset) (t : headset_state_t) (a : raised h h1 t) :
    target_of h ≤ target_of h1 := by
  rw [raised_target h h1 t a]
  exact le_max_left _ _

/-- After a transition of the device, initializing the pending operation and,
with a callback, registering the waiter. -/
theorem raised_after_transition (env : Env) (w : World) (dev : Nat) (s t : headset_state_t)
    (cb : Option (Nat × Nat)) :
    raised (w.hs dev)
      (match cb with
       | some c =>
         (connect_cb_new
           (pending_connect_init ((headset_set_state env w dev s).hs dev) t) t c.1 c.2).1
       | none => pending_connect_init ((headset_set_state env w dev s).hs dev) t) t := by
  have a := raised_init ((headset_set_state env w dev s).hs dev) t
  cases cb with
  | none => exact raised_congr _ _ _ _ (target_of_set_state env w dev s).symm a
  | some c =>
    exact raised_congr _ _ _ _ (target_of_set_state env w dev s).symm
      (raised_twice _ _ _ _ a (raised_cb_new _ t c.1 c.2))

theorem rfcomm_connect_target (env : Env) (w : World) (dev : Nat) (cb : Option (Nat × Nat)) :
    target_of (w.hs dev) ≤ target_of ((rfcomm_connect env w dev cb).1.hs dev) ∧
    (0 ≤ (rfcomm_connect env w dev cb).2.1 →
      raised (w.hs dev) ((rfcomm_connect env w dev cb).1.hs dev) HEADSET_STATE_CONNECTED) := by
  have key : (rfcomm_connect env w dev cb).1.hs dev = w.hs dev ∧
        (rfcomm_connect env w dev cb).2.1 < 0 ∨
      raised (w.hs dev) ((rfcomm_connect env w dev cb).1.hs dev) HEADSET_STATE_CONNECTED := by
    have a := raised_after_transition env w dev HEADSET_STATE_CONNECT_IN_PROGRESS
      HEADSET_STATE_CONNECTED cb
    unfold rfcomm_connect
    split_ifs with h1
    · right
      unfold get_records
      cases cb with
      | none =>
        dsimp only at a ⊢
        rw [bt_start_hs]
        simpa using a
      | some c =>
        dsimp only at a ⊢
        rw [bt_start_hs]
        simpa using a
    · dsimp only
      split_ifs with h2
      · left
        exact ⟨by rw [bt_start_hs], h2⟩
      · right
        have b := raised_after_transition env
          (bt_start env w dev (.rfcomm_connect (w.hs dev).rfcomm_ch)).1 dev
          HEADSET_STATE_CONNECT_IN_PROGRESS HEADSET_STATE_CONNECTED cb
        rw [bt_start_hs] at b
        cases cb with
        | none => simpa using b
        | some c => simpa using b
  rcases key with ⟨e, f⟩ | r
  · exact ⟨by rw [e], fun h => absurd f (not_lt.mpr h)⟩
  · exact ⟨raised_le _ _ _ r, fun _ => r⟩

theorem sco_connect_target (env : Env) (w : World) (dev : Nat) (cb : Option (Nat × Nat)) :
    target_of (w.hs dev) ≤ target_of ((sco_connect env w dev cb).1.hs dev) ∧
    (0 ≤ (sco_connect env w dev cb).2.1 →
      raised (w.hs dev) ((sco_connect env w dev cb).1.hs dev) HEADSET_STATE_PLAYING) := by
  have key : (sco_connect env w dev cb).1.hs dev = w.hs dev ∧
        (sco_connect env w dev cb).2.1 < 0 ∨
      raised (w.hs dev) ((sco_connect env w dev cb).1.hs dev) HEADSET_STATE_PLAYING := by
    unfold sco_connect
    split_ifs with h1
    · left
      exact ⟨rfl, (by decide : (-EINVAL : Int) < 0)⟩
    · dsimp only
      split_ifs with h2
      · left
        exact ⟨by rw [bt_start_hs], h2⟩
      · right
        have b := raised_after_transition env (bt_start env w dev .sco_connect).1 dev
          HEADSET_STATE_PLAY_IN_PROGRESS HEADSET_STATE_PLAYING cb
        rw [bt_start_hs] at b
        cases cb with
        | none => simpa using b
        | some c => simpa using b
  rcases key with ⟨e, f⟩ | r
  · exact ⟨by rw [e], fun h => absurd f (not_lt.mpr h)⟩
  · exact ⟨raised_le _ _ _ r, fun _ => r⟩

theorem target_of_le (h : headset) : target_of h ≤ HEADSET_STATE_PLAYING.toNat := by
  unfold target_of
  cases h.pending with
  | none => exact Nat.zero_le _
  | some p =>
    show p.target_state.toNat ≤ HEADSET_STATE_PLAYING.toNat
    cases p.target_state <;> decide

theorem raised_playing (h h1 : headset) (q : pending_connect) (hq : h1.pending = some q)
    (ht : q.target_state = HEADSET_STATE_PLAYING) : raised h h1 HEADSET_STATE_PLAYING :=
  ⟨q, hq, by rw [ht, max_eq_right (target_of_le h)]⟩

/-- Setting the target of an existing pending operation to Playing. -/
theorem raised_update_playing (h : headset) (v : World) (dev : Nat) (t : headset_state_t)
    (a : raised h (v.hs dev) t) :
    raised h ((update_pending v dev
      (fun p => { p with target_state := HEADSET_STATE_PLAYING })).hs dev)
      HEADSET_STATE_PLAYING := by
  obtain ⟨q, hq, _⟩ := a
  rw [update_pending_some v dev _ q hq]
  exact raised_playing _ _ { q with target_state := HEADSET_STATE_PLAYING } (by simp) rfl

theorem headset_request_stream_target (env : Env) (w : World) (dev f u : Nat) :
    target_of (w.hs dev) ≤ target_of ((headset_request_stream env w dev f u).1.hs dev) ∧
    ((headset_request_stream env w dev f u).2 ≠ 0 →
      raised (w.hs dev) ((headset_request_stream env w dev f u).1.hs dev)
        HEADSET_STATE_PLAYING) := by
  have key : target_of (w.hs dev) ≤ target_of ((headset_request_stream env w dev f u).1.hs dev) ∧
        (headset_request_stream env w dev f u).2 = 0 ∨
      raised (w.hs dev) ((headset_request_stream env w dev f u).1.hs dev)
        HEADSET_STATE_PLAYING := by
    obtain ⟨w1, hw1, e⟩ : ∃ w1 : World,
        w1 = (if (w.hs dev).dc_timer ≠ 0 then w.set_hs dev { w.hs dev with dc_timer := 0 }
              else w) ∧
        target_of (w1.hs dev) = target_of (w.hs dev) := by
      refine ⟨_, rfl, ?_⟩
      split_ifs
      · simp [target_of]
      · rfl
    unfold headset_request_stream
    dsimp only
    by_cases h1 : (w.hs dev).rfcomm.isSome = true ∧ (w.hs dev).sco.isSome = true
    · rw [if_pos h1]
      right
      simpa using raised_cb_new (w.hs dev) HEADSET_STATE_PLAYING f u
    · rw [if_neg h1, ← hw1]
      split_ifs with h2 h3 h4 h5
      · right
        simpa using raised_congr _ _ _ _ e.symm
          (raised_cb_new (w1.hs dev) HEADSET_STATE_PLAYING f u)
      · left
        exact ⟨by rw [← e]; exact (rfcomm_connect_target env w1 dev _).1, rfl⟩
      · right
        have a := (rfcomm_connect_target env w1 dev (some (f, u))).2 (not_lt.mp h4)
        refine raised_congr _ _ _ _ e.symm (raised_update_playing _ _ dev HEADSET_STATE_CONNECTED ?_)
        simpa using a
      · left
        exact ⟨by rw [← e]; exact (sco_connect_target env w1 dev _).1, rfl⟩
      · right
        have a := (sco_connect_target env w1 dev (some (f, u))).2 (not_lt.mp h5)
        exact raised_congr _ _ _ _ e.symm (raised_update_playing _ _ dev HEADSET_STATE_PLAYING a)
  rcases key with ⟨e, f0⟩ | r
  · exact ⟨e, fun h => absurd f0 h⟩
  · exact ⟨raised_le _ _ _ r, fun _ => r⟩

theorem toNat_inj (a b : headset_state_t) (h : a.toNat = b.toNat) : a = b := by
  cases a <;> cases b <;> first | rfl | exact absurd h (by decide)

theorem request_run_target (env : Env) (w : World) (dev : Nat) (r : request) :
    target_of (w.hs dev) ≤ target_of ((r.run env w dev).1.hs dev) ∧
    ((r.run env w dev).2 = true →
      raised (w.hs dev) ((r.run env w dev).1.hs dev) r.requested) := by
  cases r with
  | init t =>
    have a : raised (w.hs dev) ((request.run env w dev (.init t)).1.hs dev) t := by
      simpa [request.run] using raised_init (w.hs dev) t
    exact ⟨raised_le _ _ _ a, fun _ => a⟩
  | cb_new t f u =>
    have a : raised (w.hs dev) ((request.run env w dev (.cb_new t f u)).1.hs dev) t := by
      simpa [request.run] using raised_cb_new (w.hs dev) t f u
    exact ⟨raised_le _ _ _ a, fun _ => a⟩
  | rfcomm cb =>
    obtain ⟨a, b⟩ := rfcomm_connect_target env w dev cb
    exact ⟨a, fun h => b (by simpa [request.run] using h)⟩
  | sco cb =>
    obtain ⟨a, b⟩ := sco_connect_target env w dev cb
    exact ⟨a, fun h => b (by simpa [request.run] using h)⟩
  | stream f u =>
    obtain ⟨a, b⟩ := headset_request_stream_target env w dev f u
    exact ⟨a, fun h => b (by simpa [request.run] using h)⟩

theorem run_requests_target (env : Env) (dev : Nat) (rs : List request) (w : World) :
    target_of (w.hs dev) ≤ target_of ((run_requests env dev rs w).hs dev) := by
  induction rs generalizing w with
  | nil => exact le_refl _
  | cons r rs ih =>
    exact le_trans (request_run_target env w dev r).1 (ih _)

/-- C21: for each of the calls that create or join the pending operation of a
device (`pending_connect_init`, `connect_cb_new`, `rfcomm_connect`,
`sco_connect`, `headset_request_stream`), the target never gets lower, taken
or not (a session without a pending operation counting as 0); when the request
is taken, the session has a pending operation whose target is the maximum of
the previous target and the requested state, so the requested state when the
operation is new. Along every sequence of such calls the target never gets
lower. -/
theorem target_state_is_maximum (env : Env) (w : World) (dev : Nat) (r : request) :
    target_of (w.hs dev) ≤ target_of ((r.run env w dev).1.hs dev) ∧
    ((r.run env w dev).2 = true →
      ∃ q, ((r.run env w dev).1.hs dev).pending = some q ∧
        q.target_state.toNat = max (target_of (w.hs dev)) r.requested.toNat) ∧
    ((w.hs dev).pending = none → (r.run env w dev).2 = true →
      ∃ q, ((r.run env w dev).1.hs dev).pending = some q ∧ q.target_state = r.requested) ∧
    ∀ rs : List request,
      target_of (w.hs dev) ≤ target_of ((run_requests env dev rs w).hs dev) := by
  obtain ⟨a, b⟩ := request_run_target env w dev r
  refine ⟨a, b, ?_, fun rs => run_requests_target env dev rs w⟩
  intro hn ht
  obtain ⟨q, hq, hm⟩ := b ht
  refine ⟨q, hq, toNat_inj _ _ ?_⟩
  rw [hm]
  simp [target_of, hn]

theorem target_state_is_maximum_witness :
    ((world_init false).hs 0).pending = none ∧
    (request.run env_hsp (world_init false) 0 (.stream 7 9)).2 = true ∧
    ∃ q, ((request.run env_hsp (world_init false) 0 (.stream 7 9)).1.hs 0).pending = some q ∧
      q.target_state = (request.stream 7 9).requested :=
  ⟨by decide, by decide,
    (target_state_is_maximum env_hsp (world_init false) 0 (.stream 7 9)).2.2.1
      (by decide) (by decide)⟩


/-! ## Play and the audio routing -/

/-- The SCO stage requested without a waiter on a Connected session, the
transport accepting the request. -/
theorem sco_connect_accepted (env : Env) (u : World) (dev : Nat)
    (hst : (u.hs dev).state = HEADSET_STATE_CONNECTED) (hbt : 0 ≤ env.bt u.nbt) :
    sco_connect env u dev none
      = (World.set_hs (World.emit { u with nbt := u.nbt + 1 } (.stage dev .sco_connect)) dev
          (pending_connect_init { u.hs dev with state := HEADSET_STATE_PLAY_IN_PROGRESS }
            HEADSET_STATE_PLAYING), 0, none) := by
  have hb : ¬ env.bt u.nbt < 0 := not_lt.mpr hbt
  have e1 : bt_start env u dev .sco_connect
      = (World.emit { u with nbt := u.nbt + 1 } (.stage dev .sco_connect), env.bt u.nbt) := by
    unfold bt_start
    simp [hb]
  have e2 : headset_set_state env
      (World.emit { u with nbt := u.nbt + 1 } (.stage dev .sco_connect)) dev
      HEADSET_STATE_PLAY_IN_PROGRESS
      = World.set_hs (World.emit { u with nbt := u.nbt + 1 } (.stage dev .sco_connect)) dev
          { u.hs dev with state := HEADSET_STATE_PLAY_IN_PROGRESS } := by
    unfold headset_set_state
    rw [if_neg (by simp [World.emit, hst])]
    rfl
  unfold sco_connect
  rw [if_neg (by simp [hst]), e1]
  dsimp only
  rw [if_neg hb, e2]
  simp only [set_hs_same, set_hs_set_hs]

/-- The SCO stage requested on a Connected session, the transport refusing. -/
theorem sco_connect_refused (env : Env) (u : World) (dev : Nat) (cb : Option (Nat × Nat))
    (hst : (u.hs dev).state = HEADSET_STATE_CONNECTED) (hbt : env.bt u.nbt < 0) :
    sco_connect env u dev cb = ({ u with nbt := u.nbt + 1 }, env.bt u.nbt, none) := by
  unfold sco_connect bt_start
  simp [hst, hbt]

/-- C23, amended: while SCO is routed over HCI (`sco_hci` set, the value at
start-up, which `headset_config_init` clears only for `SCORouting=PCM`),
`Play()` is answered NotAvailable in every state and the world is as before:
no stage, no pending operation, no change of state. With the flag clear it is
answered NotConnected in Disconnected and ConnectInProgress, InProgress in
PlayInProgress and AlreadyConnected in Playing, the world as before. With the
flag clear in Connected, when the transport accepts the request the SCO stage
is started (the only thing done to the collaborators), the session is
PlayInProgress and its pending operation holds the caller with target
Playing, the reply being owed; when the transport refuses, the answer is
Failed, no stage is started and the session stays Connected with the pending
operation it had. -/
theorem hs_play_routing (env : Env) (w : World) (dev msg : Nat) :
    ((∀ b, (world_init b).sco_hci = true) ∧
      ∀ config, (headset_config_init w config).1.sco_hci
        = (if config = some (some (bytes "PCM")) then false
           else if config = some (some (bytes "HCI")) then true else w.sco_hci)) ∧
    (w.sco_hci = true → hs_play env w dev msg = (w, some (.error .NotAvailable))) ∧
    (w.sco_hci = false →
      ((w.hs dev).state = HEADSET_STATE_DISCONNECTED ∨
          (w.hs dev).state = HEADSET_STATE_CONNECT_IN_PROGRESS →
        hs_play env w dev msg = (w, some (.error .NotConnected))) ∧
      ((w.hs dev).state = HEADSET_STATE_PLAY_IN_PROGRESS →
        hs_play env w dev msg = (w, some (.error .InProgress))) ∧
      ((w.hs dev).state = HEADSET_STATE_PLAYING →
        hs_play env w dev msg = (w, some (.error .AlreadyConnected))) ∧
      ((w.hs dev).state = HEADSET_STATE_CONNECTED →
        (0 ≤ env.bt w.nbt →
          (hs_play env w dev msg).2 = none ∧
          emitted w (hs_play env w dev msg).1 = [Out.stage dev .sco_connect] ∧
          ((hs_play env w dev msg).1.hs dev).state = HEADSET_STATE_PLAY_IN_PROGRESS ∧
          ∃ q, ((hs_play env w dev msg).1.hs dev).pending = some q ∧ q.msg = some msg ∧
            q.target_state = HEADSET_STATE_PLAYING) ∧
        (env.bt w.nbt < 0 →
          (hs_play env w dev msg).2 = some (.error .Failed) ∧
          emitted w (hs_play env w dev msg).1 = [] ∧
          (hs_play env w dev msg).1.hs = w.hs))) := by
  refine ⟨⟨fun _ => rfl, ?_⟩, ?_, ?_⟩
  · intro config
    unfold headset_config_init
    rcases config with _ | _ | str
    · simp
    · simp
    · dsimp only
      split_ifs <;> simp_all
  · intro h
    unfold hs_play
    rw [if_pos h]
  · intro h
    have hf : ¬ w.sco_hci = true := by simp [h]
    refine ⟨?_, ?_, ?_, ?_⟩
    · rintro (hs | hs) <;> (unfold hs_play; rw [if_neg hf, hs])
    · intro hs
      unfold hs_play
      rw [if_neg hf, hs]
    · intro hs
      unfold hs_play
      rw [if_neg hf, hs]
    · intro hs
      constructor
      · intro hbt
        have e := sco_connect_accepted env w dev hs hbt
        obtain ⟨⟨q, hq⟩, hst, _⟩ := pending_connect_init_fields
          { w.hs dev with state := HEADSET_STATE_PLAY_IN_PROGRESS } HEADSET_STATE_PLAYING
        obtain ⟨q1, hq1, ht⟩ := raised_init
          { w.hs dev with state := HEADSET_STATE_PLAY_IN_PROGRESS } HEADSET_STATE_PLAYING
        have hqq : q1 = q := Option.some.inj (hq1.symm.trans hq)
        subst hqq
        have htq : q1.target_state = HEADSET_STATE_PLAYING := by
          apply toNat_inj
          rw [ht]
          exact max_eq_right (target_of_le _)
        have hres : hs_play env w dev msg
            = (World.set_hs (World.emit { w with nbt := w.nbt + 1 } (.stage dev .sco_connect)) dev
                { pending_connect_init { w.hs dev with state := HEADSET_STATE_PLAY_IN_PROGRESS }
                    HEADSET_STATE_PLAYING with pending := some { q1 with msg := some msg } },
               none) := by
          unfold hs_play
          rw [if_neg hf, hs]
          dsimp only
          rw [e]
          dsimp only
          rw [if_neg (by decide), update_pending_some _ dev _ q1 (by simpa using hq)]
          simp [set_hs_set_hs]
        rw [hres]
        refine ⟨rfl, ?_, ?_, { q1 with msg := some msg }, by simp, rfl, htq⟩
        · exact emitted_append w _ _ (by simp [World.emit])
        · simpa using hst
      · intro hbt
        have e := sco_connect_refused env w dev none hs hbt
        have hres : hs_play env w dev msg
            = ({ w with nbt := w.nbt + 1 }, some (.error .Failed)) := by
          unfold hs_play
          rw [if_neg hf, hs]
          dsimp only
          rw [e]
          dsimp only
          rw [if_pos hbt]
        rw [hres]
        exact ⟨rfl, emitted_append w _ [] (by simp), rfl⟩

theorem hs_play_routing_witness :
    (w_conn.sco_hci = true ∧ hs_play env_ok w_conn 0 5 = (w_conn, some (.error .NotAvailable))) ∧
    (w_conn_pcm.sco_hci = false ∧ (w_conn_pcm.hs 0).state = HEADSET_STATE_CONNECTED ∧
      0 ≤ env_ok.bt w_conn_pcm.nbt ∧
      (hs_play env_ok w_conn_pcm 0 5).2 = none ∧
      emitted w_conn_pcm (hs_play env_ok w_conn_pcm 0 5).1 = [Out.stage 0 .sco_connect] ∧
      ((hs_play env_ok w_conn_pcm 0 5).1.hs 0).state = HEADSET_STATE_PLAY_IN_PROGRESS ∧
      ∃ q, ((hs_play env_ok w_conn_pcm 0 5).1.hs 0).pending = some q ∧ q.msg = some 5 ∧
        q.target_state = HEADSET_STATE_PLAYING) :=
  ⟨⟨by decide, (hs_play_routing env_ok w_conn 0 5).2.1 (by decide)⟩,
    by decide, by decide, by decide,
    ((hs_play_routing env_ok w_conn_pcm 0 5).2.2 (by decide)).2.2.2 (by decide) |>.1
      (by decide)⟩

/-- C23, counterexample: SCO is routed over PCM (`sco_hci` clear) and device 0
is Connected, but the transport refuses the stage request. `Play()` is
answered Failed; no stage is started and the session stays Connected without
a pending operation. -/
theorem hs_play_stage_refused :
    w_conn_pcm.sco_hci = false ∧
    (w_conn_pcm.hs 0).state = HEADSET_STATE_CONNECTED ∧
    (hs_play env_no_stage w_conn_pcm 0 5).2 = some (.error .Failed) ∧
    stages_of (hs_play env_no_stage w_conn_pcm 0 5).1.trace = [] ∧
    ((hs_play env_no_stage w_conn_pcm 0 5).1.hs 0).state = HEADSET_STATE_CONNECTED ∧
    ((hs_play env_no_stage w_conn_pcm 0 5).1.hs 0).pending = none := by
  decide


/-! ## The range of the stored gains -/

theorem gains_ok_set_sp (h : headset) (g : Int) (hk : gains_ok h) (h0 : 0 ≤ g) (h1 : g ≤ 15) :
    gains_ok { h with sp_gain := g } :=
  ⟨Or.inr ⟨h0, h1⟩, hk.2⟩

theorem gains_ok_set_mic (h : headset) (g : Int) (hk : gains_ok h) (h0 : 0 ≤ g) (h1 : g ≤ 15) :
    gains_ok { h with mic_gain := g } :=
  ⟨hk.1, Or.inr ⟨h0, h1⟩⟩

theorem gains_ok_of_hs (v v1 : World) (e : v1.hs = v.hs) (hk : ∀ d, gains_ok (v.hs d)) :
    ∀ d, gains_ok (v1.hs d) := by
  intro d
  rw [e]
  exact hk d

theorem gains_ok_set_hs (v : World) (dev : Nat) (h : headset) (hk : ∀ d, gains_ok (v.hs d))
    (hh : gains_ok h) : ∀ d, gains_ok ((v.set_hs dev h).hs d) := by
  intro d
  by_cases hd : d = dev
  · subst hd
    simpa using hh
  · rw [set_hs_other _ _ _ _ hd]
    exact hk d

theorem gains_ok_send (env : Env) (v : World) (dev : Nat) (rsp : List Nat)
    (hk : ∀ d, gains_ok (v.hs d)) : ∀ d, gains_ok ((headset_send env v dev rsp).1.hs d) :=
  gains_ok_of_hs _ _ (headset_send_frame env v dev rsp).1 hk

theorem gains_ok_hs_set_gain (env : Env) (w : World) (dev : Nat) (arg : Option Nat) (type : Nat)
    (hk : ∀ d, gains_ok (w.hs d)) : ∀ d, gains_ok ((hs_set_gain env w dev arg type).1.hs d) := by
  unfold hs_set_gain
  cases arg with
  | none =>
    dsimp only
    split_ifs <;> exact hk
  | some gain =>
    dsimp only
    split_ifs with h1 h2 h3 h4 h5 h6 h7 h8
    all_goals first
      | exact hk
      | exact gains_ok_send env w dev _ hk
      | (refine gains_ok_set_hs _ dev _ hk (gains_ok_set_sp _ _ (hk dev) ?_ ?_) <;> omega)
      | (refine gains_ok_set_hs _ dev _ hk (gains_ok_set_mic _ _ (hk dev) ?_ ?_) <;> omega)
      | (refine gains_ok_set_hs _ dev _ (gains_ok_send env w dev _ hk)
          (gains_ok_set_sp _ _ (gains_ok_send env w dev _ hk dev) ?_ ?_) <;> omega)
      | (refine gains_ok_set_hs _ dev _ (gains_ok_send env w dev _ hk)
          (gains_ok_set_mic _ _ (gains_ok_send env w dev _ hk dev) ?_ ?_) <;> omega)

theorem gains_ok_signal_gain_setting (env : Env) (w : World) (dev : Nat) (buf : List Nat)
    (hk : ∀ d, gains_ok (w.hs d)) :
    ∀ d, gains_ok ((signal_gain_setting env w dev buf).1.hs d) := by
  have h0 : (0 : Int) ≤ strtol (buf.drop 7) % 2 ^ 16 := Int.emod_nonneg _ (by norm_num)
  unfold signal_gain_setting
  dsimp only
  split_ifs with h1 h2 h3 h4 h5 h6
  all_goals first
    | exact hk
    | exact gains_ok_send env w dev _ hk
    | exact gains_ok_send env _ dev _
        (gains_ok_set_hs _ dev _ hk (gains_ok_set_sp _ _ (hk dev) h0 (not_lt.mp h2)))
    | exact gains_ok_send env _ dev _
        (gains_ok_set_hs _ dev _ hk (gains_ok_set_mic _ _ (hk dev) h0 (not_lt.mp h2)))

/-- A line that starts with `AT+VG` is handled by `signal_gain_setting`. -/
theorem handle_event_AT_VG (env : Env) (w : World) (dev : Nat) (rest : List Nat) :
    handle_event env w dev (bytes "AT+VG" ++ rest)
      = signal_gain_setting env w dev (bytes "AT+VG" ++ rest) := by
  have a : bytes "ATA" = [65, 84, 65] := by decide
  have d : bytes "ATD" = [65, 84, 68] := by decide
  unfold handle_event event_callbacks
  rw [a, d, bytes_AT_VG]
  simp [handle_event_loop, List.isPrefixOf]

theorem gains_ok_set_state (env : Env) (w : World) (dev : Nat) (s : headset_state_t)
    (hk : ∀ d, gains_ok (w.hs d)) : ∀ d, gains_ok ((headset_set_state env w dev s).hs d) := by
  intro d
  by_cases hd : d = dev
  · subst hd
    have k := (headset_set_state_kept env w d s).1
    simp only [kept_fields, Prod.mk.injEq] at k
    unfold gains_ok
    rw [k.2.2.1, k.2.2.2.1]
    exact hk d
  · rw [headset_set_state_other env w dev d s hd]
    exact hk d

theorem gains_ok_step (env : Env) (w : World) (s : gain_step) (hk : ∀ d, gains_ok (w.hs d)) :
    ∀ d, gains_ok ((s.run env w).hs d) := by
  cases s with
  | set_speaker dev arg => exact gains_ok_hs_set_gain env w dev arg _ hk
  | set_mic dev arg => exact gains_ok_hs_set_gain env w dev arg _ hk
  | line dev rest =>
    show ∀ d, gains_ok ((handle_event env w dev (bytes "AT+VG" ++ rest)).1.hs d)
    rw [handle_event_AT_VG]
    exact gains_ok_signal_gain_setting env w dev _ hk
  | transition dev state => exact gains_ok_set_state env w dev state hk

theorem gains_ok_run (env : Env) (steps : List gain_step) (w : World)
    (hk : ∀ d, gains_ok (w.hs d)) : ∀ d, gains_ok ((run_gain_steps env steps w).hs d) := by
  induction steps generalizing w with
  | nil => exact hk
  | cons s r ih => exact ih _ (gains_ok_step env w s hk)

theorem gain_getter_spec (state : headset_state_t) (g : Int) (hk : gain_ok g) :
    ((if state.toNat < HEADSET_STATE_CONNECTED.toNat ∨ g < 0 then Reply.error .NotAvailable
        else Reply.method_return [(g % 2 ^ 16).toNat]) = Reply.error .NotAvailable ↔
      state.toNat < HEADSET_STATE_CONNECTED.toNat ∨ g = -1) ∧
    ((if state.toNat < HEADSET_STATE_CONNECTED.toNat ∨ g < 0 then Reply.error .NotAvailable
        else Reply.method_return [(g % 2 ^ 16).toNat]) ≠ Reply.error .NotAvailable →
      ∃ n : Nat, n ≤ 15 ∧ (n : Int) = g ∧
        (if state.toNat < HEADSET_STATE_CONNECTED.toNat ∨ g < 0 then Reply.error .NotAvailable
          else Reply.method_return [(g % 2 ^ 16).toNat]) = Reply.method_return [n]) := by
  have hneg : g < 0 ↔ g = -1 := by
    rcases hk with h | ⟨h0, _⟩
    · subst h
      simp
    · constructor
      · intro h
        omega
      · intro h
        omega
  constructor
  · rw [← hneg]
    split_ifs with h
    · simp [h]
    · simp [h]
  · intro hne
    split_ifs at hne ⊢ with h
    · exact absurd rfl hne
    · have h0 : 0 ≤ g := by
        by_contra hc
        exact h (Or.inr (by omega))
      have h15 : g ≤ 15 := by
        rcases hk with h1 | ⟨_, h1⟩
        · omega
        · exact h1
      refine ⟨g.toNat, by omega, Int.toNat_of_nonneg h0, ?_⟩
      rw [Int.emod_eq_of_lt h0 (by omega)]

/-- C24: in every world reached from start-up by `SetSpeakerGain`,
`SetMicrophoneGain` with any argument, inbound lines that start with `AT+VG`
and state transitions, on any devices in any order, each stored gain of every
session is -1 or in 0..15. There `GetSpeakerGain` is answered NotAvailable
exactly when the session is below Connected or the speaker gain is -1, and
otherwise returns the stored gain, a value in 0..15; and the same for
`GetMicrophoneGain` and the microphone gain. -/
theorem stored_gains_in_range (env : Env) (b : Bool) (steps : List gain_step) (dev : Nat) :
    gains_ok ((run_gain_steps env steps (world_init b)).hs dev) ∧
    ((hs_get_speaker_gain (run_gain_steps env steps (world_init b)) dev
          = Reply.error .NotAvailable ↔
        ((run_gain_steps env steps (world_init b)).hs dev).state.toNat
            < HEADSET_STATE_CONNECTED.toNat ∨
          ((run_gain_steps env steps (world_init b)).hs dev).sp_gain = -1) ∧
      (hs_get_speaker_gain (run_gain_steps env steps (world_init b)) dev
          ≠ Reply.error .NotAvailable →
        ∃ n : Nat, n ≤ 15 ∧
          (n : Int) = ((run_gain_steps env steps (world_init b)).hs dev).sp_gain ∧
          hs_get_speaker_gain (run_gain_steps env steps (world_init b)) dev
            = Reply.method_return [n])) ∧
    ((hs_get_mic_gain (run_gain_steps env steps (world_init b)) dev
          = Reply.error .NotAvailable ↔
        ((run_gain_steps env steps (world_init b)).hs dev).state.toNat
            < HEADSET_STATE_CONNECTED.toNat ∨
          ((run_gain_steps env steps (world_init b)).hs dev).mic_gain = -1) ∧
      (hs_get_mic_gain (run_gain_steps env steps (world_init b)) dev
          ≠ Reply.error .NotAvailable →
        ∃ n : Nat, n ≤ 15 ∧
          (n : Int) = ((run_gain_steps env steps (world_init b)).hs dev).mic_gain ∧
          hs_get_mic_gain (run_gain_steps env steps (world_init b)) dev
            = Reply.method_return [n])) := by
  have hk := gains_ok_run env steps (world_init b)
    (fun _ => ⟨Or.inl rfl, Or.inl rfl⟩) dev
  exact ⟨hk, gain_getter_spec _ _ hk.1, gain_getter_spec _ _ hk.2⟩

theorem stored_gains_in_range_witness :
    ((run_gain_steps env_ok
        [.transition 0 HEADSET_STATE_CONNECTED, .set_speaker 0 (some 7),
         .line 0 (bytes "M=12"), .set_mic 0 (some 16), .line 0 (bytes "S=99")]
        (world_init true)).hs 0).sp_gain = 7 ∧
    ((run_gain_steps env_ok
        [.transition 0 HEADSET_STATE_CONNECTED, .set_speaker 0 (some 7),
         .line 0 (bytes "M=12"), .set_mic 0 (some 16), .line 0 (bytes "S=99")]
        (world_init true)).hs 0).mic_gain = 12 ∧
    gains_ok ((run_gain_steps env_ok
        [.transition 0 HEADSET_STATE_CONNECTED, .set_speaker 0 (some 7),
         .line 0 (bytes "M=12"), .set_mic 0 (some 16), .line 0 (bytes "S=99")]
        (world_init true)).hs 0) :=
  ⟨by decide, by decide,
    (stored_gains_in_range env_ok true
      [.transition 0 HEADSET_STATE_CONNECTED, .set_speaker 0 (some 7),
       .line 0 (bytes "M=12"), .set_mic 0 (some 16), .line 0 (bytes "S=99")] 0).1⟩


/-! ## The indicator event queue -/

theorem buffer_event_loop_skip (index val : Int) (q r : List ev_slot)
    (hq : ∀ s ∈ q, s.index ≠ 0) :
    buffer_event_loop index val (q ++ r)
      = (buffer_event_loop index val r).map (fun r1 => q ++ r1) := by
  induction q with
  | nil => simp
  | cons s t ih =>
    have hs : s.index ≠ 0 := hq s (List.mem_cons_self _ _)
    have ht : ∀ x ∈ t, x.index ≠ 0 := fun x hx => hq x (List.mem_cons_of_mem _ hx)
    rw [List.cons_append, buffer_event_loop, if_neg hs, ih ht]
    cases buffer_event_loop index val r <;> simp

theorem buffer_event_loop_full (index val : Int) (l : List ev_slot)
    (h : ∀ s ∈ l, s.index ≠ 0) : buffer_event_loop index val l = none := by
  induction l with
  | nil => rfl
  | cons s t ih =>
    rw [buffer_event_loop, if_neg (h s (List.mem_cons_self _ _)),
      ih (fun x hx => h x (List.mem_cons_of_mem _ hx))]
    rfl

/-- C27: the queue `ag.ev_buf` has `EV_BUF_SIZE = 4` slots. `buffer_event(index)`
stores the event, with the current value of the indicator, in the first free
slot (the first slot whose index is 0), whatever follows that slot, and
returns 0; when no slot is free it returns `-ENOSPC` and leaves the whole world
as it was. The first free slot is not always after the queued events: `ATA`
queues three events, `flush_events` frees slot 0 after writing it and returns
when the second write fails, which leaves two events queued behind a free
slot; the next event is stored in slot 0, before the two older ones, and the
next flush writes it first. -/
theorem buffer_event_first_free_slot (w : World) (index : Nat) :
    EV_BUF_SIZE = 4 ∧
    (∀ pre s post, w.ag.ev_buf = pre ++ s :: post → (∀ x ∈ pre, x.index ≠ 0) → s.index = 0 →
      buffer_event w index
        = ({ read_indicator w index with ag := { w.ag with
              ev_buf := pre ++ ⟨(index : Int) + 1, indicator_val w.ag index⟩ :: post } }, 0) ∧
      (index < w.ag.indicators.length → read_indicator w index = w) ∧
      ((index : Int) + 1 ≠ 0)) ∧
    ((∀ x ∈ w.ag.ev_buf, x.index ≠ 0) → buffer_event w index = (w, -ENOSPC)) ∧
    (w_hfp_two.ag.ev_buf = [⟨0, 0⟩, ⟨0, 0⟩, ⟨0, 0⟩, ⟨0, 0⟩] ∧
      flush_failed.trace
        = [Out.tel_call .answer_call_req, Out.tel_ret .answer_call_req 0,
           Out.wrote 0 (bytes "\r\n+CIEV:1,1\r\n"), Out.wrote 0 [], Out.wrote 0 rsp_OK] ∧
      flush_failed.ag.ev_buf = [⟨0, 1⟩, ⟨2, 1⟩, ⟨2, 0⟩, ⟨0, 0⟩] ∧
      flush_failed.fault = false ∧
      buffer_event flush_failed 0
        = ({ flush_failed with ag := { flush_failed.ag with
              ev_buf := [⟨1, 1⟩, ⟨2, 1⟩, ⟨2, 0⟩, ⟨0, 0⟩] } }, 0) ∧
      emitted flush_failed (handle_event env_flush_fails flush_failed 0 (bytes "AT+CHUP")).1
        = [Out.tel_call .terminate_call_req, Out.tel_ret .terminate_call_req 0,
           Out.wrote 0 (bytes "\r\n+CIEV:1,0\r\n"), Out.wrote 0 (bytes "\r\n+CIEV:2,1\r\n"),
           Out.wrote 0 (bytes "\r\n+CIEV:2,0\r\n"), Out.signal 0 .CallTerminated none,
           Out.wrote 0 rsp_OK_nr]) := by
  refine ⟨rfl, ?_, ?_, ?_⟩
  · intro pre s post hbuf hpre hs
    refine ⟨?_, read_indicator_inside w index, by omega⟩
    unfold buffer_event
    rw [hbuf, buffer_event_loop_skip _ _ pre _ hpre, buffer_event_loop, if_pos hs]
    simp [(read_indicator_frame w index).2.1]
  · intro h
    unfold buffer_event
    rw [buffer_event_loop_full _ _ _ h]
  · refine ⟨by decide, by decide, by decide, by decide, ?_, by decide⟩
    rfl

theorem buffer_event_first_free_slot_witness :
    (flush_failed.ag.ev_buf = [] ++ ⟨0, 1⟩ :: [⟨2, 1⟩, ⟨2, 0⟩, ⟨0, 0⟩] ∧
      (0 : Nat) < flush_failed.ag.indicators.length) ∧
    (buffer_event flush_failed 0).2 = 0 ∧
    (buffer_event flush_failed 0).1.ag.ev_buf = [⟨1, 1⟩, ⟨2, 1⟩, ⟨2, 0⟩, ⟨0, 0⟩] ∧
    buffer_event
        { w_hfp_two with ag := { w_hfp_two.ag with
            ev_buf := [⟨1, 0⟩, ⟨2, 1⟩, ⟨1, 1⟩, ⟨2, 0⟩] } } 1
      = ({ w_hfp_two with ag := { w_hfp_two.ag with
            ev_buf := [⟨1, 0⟩, ⟨2, 1⟩, ⟨1, 1⟩, ⟨2, 0⟩] } }, -ENOSPC) :=
  ⟨⟨by decide, by decide⟩,
    congrArg Prod.snd (((buffer_event_first_free_slot flush_failed 0).2.1 [] ⟨0, 1⟩
      [⟨2, 1⟩, ⟨2, 0⟩, ⟨0, 0⟩] (by decide) (by simp) rfl).1),
    (congrArg (fun r => r.1.ag.ev_buf) (((buffer_event_first_free_slot flush_failed 0).2.1 []
      ⟨0, 1⟩ [⟨2, 1⟩, ⟨2, 0⟩, ⟨0, 0⟩] (by decide) (by simp) rfl).1)).trans (by decide),
    (buffer_event_first_free_slot
      { w_hfp_two with ag := { w_hfp_two.ag with
          ev_buf := [⟨1, 0⟩, ⟨2, 1⟩, ⟨1, 1⟩, ⟨2, 0⟩] } } 1).2.2.1 (by decide)⟩


/-! ## Buffered events are flushed as they would have been sent -/

theorem set_indicator_fields (ag : AG) (i : Nat) (v : Int) :
    (set_indicator ag i v).er_ind = ag.er_ind ∧
    (set_indicator ag i v).ev_buf_active = ag.ev_buf_active ∧
    (set_indicator ag i v).ev_buf = ag.ev_buf := by
  unfold set_indicator
  split <;> exact ⟨rfl, rfl, rfl⟩

theorem set_indicator_congr (a b : AG) (i : Nat) (v : Int) (h : a.indicators = b.indicators) :
    (set_indicator a i v).indicators = (set_indicator b i v).indicators := by
  unfold set_indicator
  rw [h]
  split <;> simp [h]

theorem indicator_val_congr (a b : AG) (i : Nat) (h : a.indicators = b.indicators) :
    indicator_val a i = indicator_val b i := by
  unfold indicator_val
  rw [h]

theorem queued_slots_congr (a b : AG) (evs : List (Nat × Int)) (h : a.indicators = b.indicators) :
    queued_slots a evs = queued_slots b evs := by
  induction evs generalizing a b with
  | nil => rfl
  | cons e r ih =>
    have h1 := set_indicator_congr a b e.1 e.2 h
    simp only [queued_slots]
    rw [indicator_val_congr _ _ e.1 h1, ih _ _ h1]

theorem ciev_lines_spec_congr (d : Nat) (a b : AG) (evs : List (Nat × Int))
    (h : a.indicators = b.indicators) : ciev_lines_spec d a evs = ciev_lines_spec d b evs := by
  induction evs generalizing a b with
  | nil => rfl
  | cons e r ih =>
    have h1 := set_indicator_congr a b e.1 e.2 h
    simp only [ciev_lines_spec]
    rw [indicator_val_congr _ _ e.1 h1, ih _ _ h1]

theorem queued_slots_lines (d : Nat) (ag : AG) (evs : List (Nat × Int)) :
    (queued_slots ag evs).map (fun s => Out.wrote d (rsp_CIEV s.index s.val))
      = ciev_lines_spec d ag evs := by
  induction evs generalizing ag with
  | nil => rfl
  | cons e r ih => simp [queued_slots, ciev_lines_spec, ih]

theorem queued_slots_index (ag : AG) (evs : List (Nat × Int)) :
    ∀ s ∈ queued_slots ag evs, s.index ≠ 0 := by
  induction evs generalizing ag with
  | nil => simp [queued_slots]
  | cons e r ih =>
    intro s hs
    simp only [queued_slots, List.mem_cons] at hs
    rcases hs with h | h
    · subst h
      show (e.1 : Int) + 1 ≠ 0
      omega
    · exact ih _ s h

theorem queued_slots_length (ag : AG) (evs : List (Nat × Int)) :
    (queued_slots ag evs).length = evs.length := by
  induction evs generalizing ag with
  | nil => rfl
  | cons e r ih => simp [queued_slots, ih]

/-- In buffering mode an event is stored in the first free slot. -/
theorem telephony_event_ind_buffers (env : Env) (v : World) (d i : Nat) (q t : List ev_slot)
    (s : ev_slot) (hact : v.active_telephony_device = some d)
    (hhfp : (v.hs d).hfp_active = true) (her : v.ag.er_ind ≠ 0)
    (hb : v.ag.ev_buf_active = true) (hbuf : v.ag.ev_buf = q ++ s :: t)
    (hq : ∀ x ∈ q, x.index ≠ 0) (hs : s.index = 0) :
    telephony_event_ind env v i
      = ({ read_indicator v i with ag := { v.ag with
            ev_buf := q ++ ⟨(i : Int) + 1, indicator_val v.ag i⟩ :: t } }, 0) := by
  unfold telephony_event_ind
  rw [hact]
  dsimp only
  rw [if_neg (by simp [hhfp]), if_neg her, if_pos hb]
  unfold buffer_event
  rw [hbuf, buffer_event_loop_skip _ _ q _ hq, buffer_event_loop, if_pos hs]
  simp [(read_indicator_frame v i).2.1]

theorem tel_events_buffered (env : Env) (d : Nat) (evs : List (Nat × Int)) :
    ∀ (v : World) (ag0 : AG) (q free : List ev_slot),
      v.active_telephony_device = some d → (v.hs d).hfp_active = true → v.ag.er_ind ≠ 0 →
      v.ag.ev_buf_active = true → v.ag.indicators = ag0.indicators →
      v.ag.ev_buf = q ++ free → (∀ s ∈ q, s.index ≠ 0) → (∀ s ∈ free, s.index = 0) →
      evs.length ≤ free.length →
      (tel_events env evs v).trace = v.trace ∧ (tel_events env evs v).hs = v.hs ∧
      (tel_events env evs v).active_telephony_device = some d ∧
      (tel_events env evs v).ag.ev_buf = q ++ queued_slots ag0 evs ++ free.drop evs.length := by
  induction evs with
  | nil =>
    intro v ag0 q free hact _ _ _ _ hbuf _ _ _
    simp [tel_events, queued_slots, hact, hbuf]
  | cons e r ih =>
    intro v ag0 q free hact hhfp her hb hind hbuf hq hfree hlen
    cases free with
    | nil => simp at hlen
    | cons s t =>
      obtain ⟨f1, f2, f3⟩ := set_indicator_fields v.ag e.1 e.2
      have hi := set_indicator_congr v.ag ag0 e.1 e.2 hind
      have step := telephony_event_ind_buffers env
        { v with ag := set_indicator v.ag e.1 e.2 } d e.1 q t s hact hhfp
        (by simpa [f1] using her) (by simpa [f2] using hb) (by simpa [f3] using hbuf) hq
        (hfree s (List.mem_cons_self _ _))
      obtain ⟨r1, _, r3, r4, _⟩ := read_indicator_frame
        { v with ag := set_indicator v.ag e.1 e.2 } e.1
      obtain ⟨a1, a2, a3, a4⟩ := ih
        { read_indicator { v with ag := set_indicator v.ag e.1 e.2 } e.1 with
          ag := { set_indicator v.ag e.1 e.2 with
            ev_buf := q ++ ⟨(e.1 : Int) + 1, indicator_val (set_indicator v.ag e.1 e.2) e.1⟩ :: t } }
        (set_indicator ag0 e.1 e.2)
        (q ++ [⟨(e.1 : Int) + 1, indicator_val (set_indicator v.ag e.1 e.2) e.1⟩]) t
        (r3.trans hact) (by rw [show _ = (read_indicator _ e.1).hs from rfl, r1]; exact hhfp)
        (by simpa [f1] using her) (by simpa [f2] using hb) hi (by simp)
        (by
          intro x hx
          rcases List.mem_append.mp hx with h | h
          · exact hq x h
          · simp only [List.mem_singleton] at h
            subst h
            show (e.1 : Int) + 1 ≠ 0
            omega)
        (fun x hx => hfree x (List.mem_cons_of_mem _ hx))
        (by simpa using hlen)
      simp only [tel_events]
      rw [step]
      refine ⟨a1.trans r4, a2.trans r1, a3, ?_⟩
      rw [a4]
      simp [queued_slots, indicator_val_congr _ _ e.1 hi]
theorem getD_append_cons (pre rest : List ev_slot) (s d : ev_slot) :
    (pre ++ s :: rest).getD pre.length d = s := by
  induction pre with
  | nil => rfl
  | cons a t ih => simpa using ih
theorem set_append_cons (pre rest : List ev_slot) (s x : ev_slot) :
    (pre ++ s :: rest).set pre.length x = pre ++ x :: rest := by
  simp

/-- The loop of `flush_events` at slot `i`, the slots before it being `pre`:
the queued events `q` are written in order and their slots freed. -/
theorem flush_events_loop_sends (env : Env) (d : Nat) (hwr : ∀ n, env.wr n = none)
    (q : List ev_slot) :
    ∀ (n i : Nat) (v : World) (pre free : List ev_slot),
      (v.hs d).rfcomm ≠ none → v.ag.ev_buf = pre ++ (q ++ free) → pre.length = i →
      (∀ s ∈ q, s.index ≠ 0) → (∀ s ∈ free, s.index = 0) → n = q.length + free.length →
      (flush_events_loop env d n i v).2 = 0 ∧
      (flush_events_loop env d n i v).1.trace
        = v.trace ++ q.map (fun s => Out.wrote d (rsp_CIEV s.index s.val)) ∧
      (flush_events_loop env d n i v).1.ag.ev_buf
        = pre ++ (q.map (fun s => { s with index := 0 }) ++ free) := by
  induction q with
  | nil =>
    intro n i v pre free _ hbuf hi _ hfree hn
    cases n with
    | zero => simpa [flush_events_loop] using hbuf
    | succ k =>
      cases free with
      | nil => simp at hn
      | cons s t =>
        have hs : s.index = 0 := hfree s (List.mem_cons_self _ _)
        have hg : v.ag.ev_buf.getD i ⟨0, 0⟩ = s := by
          rw [hbuf, ← hi]
          exact getD_append_cons pre t s _
        unfold flush_events_loop
        dsimp only
        rw [hg, if_pos hs]
        simpa using hbuf
  | cons s q ih =>
    intro n i v pre free hch hbuf hi hq hfree hn
    cases n with
    | zero =>
      simp only [List.length_cons] at hn
      omega
    | succ k =>
      have hs : s.index ≠ 0 := hq s (List.mem_cons_self _ _)
      have hg : v.ag.ev_buf.getD i ⟨0, 0⟩ = s := by
        rw [hbuf, ← hi]
        exact getD_append_cons pre (q ++ free) s _
      have hsend := headset_send_ok env v d (rsp_CIEV s.index s.val) hch (hwr _)
      obtain ⟨a1, a2, a3⟩ := ih k (i + 1)
        { World.emit { v with nsend := v.nsend + 1 } (.wrote d (rsp_CIEV s.index s.val)) with
          ag := { v.ag with ev_buf := v.ag.ev_buf.set i { s with index := 0 } } }
        (pre ++ [{ s with index := 0 }]) free
        (by simpa [World.emit] using hch)
        (by
          show v.ag.ev_buf.set i { s with index := 0 } = _
          rw [hbuf, ← hi, List.cons_append, set_append_cons]
          simp)
        (by simp [hi])
        (fun x hx => hq x (List.mem_cons_of_mem _ hx)) hfree
        (by simp at hn; omega)
      unfold flush_events_loop
      dsimp only
      rw [hg, if_neg hs, hsend]
      dsimp only
      rw [if_neg (by decide)]
      refine ⟨a1, ?_, ?_⟩
      · exact a2.trans (by simp [World.emit])
      · exact a3.trans (by simp)

/-- With buffering off an event is written at once. -/
theorem telephony_event_ind_sends (env : Env) (v : World) (d i : Nat)
    (hwr : ∀ n, env.wr n = none) (hact : v.active_telephony_device = some d)
    (hhfp : (v.hs d).hfp_active = true) (her : v.ag.er_ind ≠ 0)
    (hb : v.ag.ev_buf_active = false) (hch : (v.hs d).rfcomm ≠ none) :
    telephony_event_ind env v i
      = (World.emit { read_indicator v i with nsend := v.nsend + 1 }
          (.wrote d (rsp_CIEV ((i : Int) + 1) (indicator_val v.ag i))), 0) := by
  obtain ⟨r1, _, _, _, r5, _⟩ := read_indicator_frame v i
  have hsend := headset_send_ok env (read_indicator v i) d
    (rsp_CIEV ((i : Int) + 1) (indicator_val v.ag i)) (by rw [r1]; exact hch) (hwr _)
  unfold telephony_event_ind
  rw [hact]
  dsimp only
  rw [if_neg (by simp [hhfp]), if_neg her, if_neg (by simp [hb]), hsend, r5]

theorem tel_events_immediate (env : Env) (d : Nat) (hwr : ∀ n, env.wr n = none)
    (evs : List (Nat × Int)) :
    ∀ (v : World) (ag0 : AG),
      v.active_telephony_device = some d → (v.hs d).hfp_active = true → v.ag.er_ind ≠ 0 →
      v.ag.ev_buf_active = false → (v.hs d).rfcomm ≠ none →
      v.ag.indicators = ag0.indicators →
      (tel_events env evs v).trace = v.trace ++ ciev_lines_spec d ag0 evs := by
  induction evs with
  | nil =>
    intro v ag0 _ _ _ _ _ _
    simp [tel_events, ciev_lines_spec]
  | cons e r ih =>
    intro v ag0 hact hhfp her hb hch hind
    obtain ⟨f1, f2, f3⟩ := set_indicator_fields v.ag e.1 e.2
    have hi := set_indicator_congr v.ag ag0 e.1 e.2 hind
    have step := telephony_event_ind_sends env
      { v with ag := set_indicator v.ag e.1 e.2 } d e.1 hwr hact hhfp
      (by simpa [f1] using her) (by simpa [f2] using hb) hch
    obtain ⟨r1, r2, r3, r4, _⟩ := read_indicator_frame
      { v with ag := set_indicator v.ag e.1 e.2 } e.1
    have a := ih
      (World.emit { read_indicator { v with ag := set_indicator v.ag e.1 e.2 } e.1 with
          nsend := v.nsend + 1 }
        (.wrote d (rsp_CIEV ((e.1 : Int) + 1) (indicator_val (set_indicator v.ag e.1 e.2) e.1))))
      (set_indicator ag0 e.1 e.2) (r3.trans hact)
      (by
        show ((read_indicator _ e.1).hs d).hfp_active = true
        rw [r1]
        exact hhfp)
      (by
        show (read_indicator _ e.1).ag.er_ind ≠ 0
        rw [r2]
        simpa [f1] using her)
      (by
        show (read_indicator _ e.1).ag.ev_buf_active = false
        rw [r2]
        simpa [f2] using hb)
      (by
        show ((read_indicator _ e.1).hs d).rfcomm ≠ none
        rw [r1]
        exact hch)
      (by
        show (read_indicator _ e.1).ag.indicators = _
        rw [r2]
        exact hi)
    simp only [tel_events]
    rw [step]
    refine a.trans ?_
    show (read_indicator _ e.1).trace ++ [_] ++ _ = _
    rw [r4]
    simp [ciev_lines_spec, indicator_val_congr _ _ e.1 hi]

theorem ciev_lines_spec_length (d : Nat) (ag : AG) (evs : List (Nat × Int)) :
    (ciev_lines_spec d ag evs).length = evs.length := by
  rw [← queued_slots_lines, List.length_map, queued_slots_length]

/-- C25: the active device `d` is in HFP mode with its control channel open,
indicator reporting is enabled, every write succeeds and the event queue is
empty (every slot free). When at most `EV_BUF_SIZE` events are reported in
buffering mode, nothing is written while they are buffered, and
`flush_events` then returns 0, writes exactly one line
`"\r\n+CIEV:<i+1>,<v>\r\n"` per event in the order reported, `v` being the
value the indicator had when the event was reported, and leaves every slot of
the queue free. These are exactly the lines `telephony_event_ind` writes for
the same events with buffering off. -/
theorem flush_events_refines (env : Env) (w : World) (d : Nat) (evs : List (Nat × Int))
    (hact : w.active_telephony_device = some d) (hhfp : (w.hs d).hfp_active = true)
    (her : w.ag.er_ind ≠ 0) (hch : (w.hs d).rfcomm ≠ none) (hwr : ∀ n, env.wr n = none)
    (hlen : w.ag.ev_buf.length = EV_BUF_SIZE) (hempty : ∀ s ∈ w.ag.ev_buf, s.index = 0)
    (hk : evs.length ≤ EV_BUF_SIZE) :
    (tel_events env evs { w with ag := { w.ag with ev_buf_active := true } }).trace = w.trace ∧
    (flush_events env
      (tel_events env evs { w with ag := { w.ag with ev_buf_active := true } })).2 = 0 ∧
    (flush_events env
      (tel_events env evs { w with ag := { w.ag with ev_buf_active := true } })).1.trace
      = w.trace ++ ciev_lines_spec d w.ag evs ∧
    (∀ s ∈ (flush_events env
      (tel_events env evs { w with ag := { w.ag with ev_buf_active := true } })).1.ag.ev_buf,
      s.index = 0) ∧
    (tel_events env evs { w with ag := { w.ag with ev_buf_active := false } }).trace
      = w.trace ++ ciev_lines_spec d w.ag evs ∧
    (ciev_lines_spec d w.ag evs).length = evs.length := by
  obtain ⟨a1, a2, a3, a4⟩ := tel_events_buffered env d evs
    { w with ag := { w.ag with ev_buf_active := true } } w.ag [] w.ag.ev_buf
    hact hhfp her rfl rfl rfl (by simp) hempty (by rw [hlen]; exact hk)
  obtain ⟨b1, b2, b3⟩ := flush_events_loop_sends env d hwr (queued_slots w.ag evs)
    EV_BUF_SIZE 0 (tel_events env evs { w with ag := { w.ag with ev_buf_active := true } })
    [] (w.ag.ev_buf.drop evs.length)
    (by rw [a2]; exact hch) (by simpa using a4) rfl (queued_slots_index _ _)
    (fun s hs => hempty s (List.mem_of_mem_drop hs))
    (by rw [queued_slots_length, List.length_drop, hlen]; omega)
  have c := tel_events_immediate env d hwr evs
    { w with ag := { w.ag with ev_buf_active := false } } w.ag hact hhfp her rfl hch rfl
  have hf : flush_events env
      (tel_events env evs { w with ag := { w.ag with ev_buf_active := true } })
      = flush_events_loop env d EV_BUF_SIZE 0
          (tel_events env evs { w with ag := { w.ag with ev_buf_active := true } }) := by
    unfold flush_events
    rw [a3]
  rw [hf]
  refine ⟨a1, b1, ?_, ?_, c, ciev_lines_spec_length d w.ag evs⟩
  · rw [b2, a1, queued_slots_lines]
  · intro s hs
    rw [b3] at hs
    simp only [List.nil_append, List.mem_append, List.mem_map] at hs
    rcases hs with ⟨x, _, hx⟩ | h
    · rw [← hx]
    · exact hempty s (List.mem_of_mem_drop h)

theorem flush_events_refines_witness :
    (w_hfp.active_telephony_device = some 0 ∧ (w_hfp.hs 0).hfp_active = true ∧
      w_hfp.ag.er_ind ≠ 0 ∧ (w_hfp.hs 0).rfcomm ≠ none ∧ (∀ n, env_ok.wr n = none) ∧
      w_hfp.ag.ev_buf.length = EV_BUF_SIZE ∧ (∀ s ∈ w_hfp.ag.ev_buf, s.index = 0) ∧
      [((0 : Nat), (1 : Int)), (0, 0), (0, 1)].length ≤ EV_BUF_SIZE) ∧
    ciev_lines_spec 0 w_hfp.ag [(0, 1), (0, 0), (0, 1)]
      = [Out.wrote 0 (bytes "\r\n+CIEV:1,1\r\n"), Out.wrote 0 (bytes "\r\n+CIEV:1,0\r\n"),
         Out.wrote 0 (bytes "\r\n+CIEV:1,1\r\n")] ∧
    (tel_events env_ok [(0, 1), (0, 0), (0, 1)]
      { w_hfp with ag := { w_hfp.ag with ev_buf_active := true } }).trace = w_hfp.trace ∧
    (flush_events env_ok
      (tel_events env_ok [(0, 1), (0, 0), (0, 1)]
        { w_hfp with ag := { w_hfp.ag with ev_buf_active := true } })).1.trace
      = w_hfp.trace ++ ciev_lines_spec 0 w_hfp.ag [(0, 1), (0, 0), (0, 1)] ∧
    (tel_events env_ok [(0, 1), (0, 0), (0, 1)]
      { w_hfp with ag := { w_hfp.ag with ev_buf_active := false } }).trace
      = w_hfp.trace ++ ciev_lines_spec 0 w_hfp.ag [(0, 1), (0, 0), (0, 1)] :=
  ⟨⟨by decide, by decide, by decide, by decide, fun _ => rfl, by decide, by decide,
      by decide⟩,
    by decide,
    (flush_events_refines env_ok w_hfp 0 [(0, 1), (0, 0), (0, 1)] (by decide) (by decide)
      (by decide) (by decide) (fun _ => rfl) (by decide) (by decide) (by decide)).1,
    (flush_events_refines env_ok w_hfp 0 [(0, 1), (0, 0), (0, 1)] (by decide) (by decide)
      (by decide) (by decide) (fun _ => rfl) (by decide) (by decide) (by decide)).2.2.1,
    (flush_events_refines env_ok w_hfp 0 [(0, 1), (0, 0), (0, 1)] (by decide) (by decide)
      (by decide) (by decide) (fun _ => rfl) (by decide) (by decide) (by decide)).2.2.2.2.1⟩


/-! ## Entering Playing -/

/-- C29: a session that is not Playing, with its control channel open and the
writes succeeding, enters Playing through `headset_set_state`. What is done to
the collaborators is exactly: the Playing signal, once; then the line
`"\r\n+VGS=<sp_gain>\r\n"` if and only if `sp_gain >= 0`; then the line
`"\r\n+VGM=<mic_gain>\r\n"` if and only if `mic_gain >= 0`. Nothing is written
when both gains are unset, and the stored gains are unchanged. -/
theorem headset_set_state_playing_gains (env : Env) (w : World) (dev : Nat)
    (hst : (w.hs dev).state ≠ HEADSET_STATE_PLAYING) (hch : (w.hs dev).rfcomm ≠ none)
    (hwr : ∀ n, env.wr n = none) :
    emitted w (headset_set_state env w dev HEADSET_STATE_PLAYING)
      = [Out.signal dev .Playing none] ++
        (if 0 ≤ (w.hs dev).sp_gain then
          [Out.wrote dev (bytes "\r\n+VGS=" ++ fmt_u (w.hs dev).sp_gain.toNat ++ bytes "\r\n")]
         else []) ++
        (if 0 ≤ (w.hs dev).mic_gain then
          [Out.wrote dev (bytes "\r\n+VGM=" ++ fmt_u (w.hs dev).mic_gain.toNat ++ bytes "\r\n")]
         else []) ∧
    ((headset_set_state env w dev HEADSET_STATE_PLAYING).hs dev).state = HEADSET_STATE_PLAYING ∧
    ((headset_set_state env w dev HEADSET_STATE_PLAYING).hs dev).sp_gain = (w.hs dev).sp_gain ∧
    ((headset_set_state env w dev HEADSET_STATE_PLAYING).hs dev).mic_gain
      = (w.hs dev).mic_gain := by
  have k := (headset_set_state_kept env w dev HEADSET_STATE_PLAYING).1
  simp only [kept_fields, Prod.mk.injEq] at k
  refine ⟨?_, headset_set_state_state env w dev _, k.2.2.1, k.2.2.2.1⟩
  apply emitted_append
  unfold headset_set_state
  rw [if_neg hst]
  unfold headset_set_state_entry
  simp only [set_hs_trace]
  by_cases h1 : 0 ≤ (w.hs dev).sp_gain <;> by_cases h2 : 0 ≤ (w.hs dev).mic_gain
  all_goals
    simp [h1, h2, headset_send_ok, hch, hwr, World.emit]

theorem headset_set_state_playing_gains_witness :
    (((w_conn.set_hs 0 { headset_in HEADSET_STATE_PLAY_IN_PROGRESS with sp_gain := 7 }).hs 0).state
        ≠ HEADSET_STATE_PLAYING ∧
      ((w_conn.set_hs 0 { headset_in HEADSET_STATE_PLAY_IN_PROGRESS with sp_gain := 7 }).hs
        0).rfcomm ≠ none ∧ (∀ n, env_ok.wr n = none)) ∧
    emitted (w_conn.set_hs 0 { headset_in HEADSET_STATE_PLAY_IN_PROGRESS with sp_gain := 7 })
      (headset_set_state env_ok
        (w_conn.set_hs 0 { headset_in HEADSET_STATE_PLAY_IN_PROGRESS with sp_gain := 7 }) 0
        HEADSET_STATE_PLAYING)
      = [Out.signal 0 .Playing none, Out.wrote 0 (bytes "\r\n+VGS=7\r\n")] :=
  ⟨⟨by decide, by decide, fun _ => rfl⟩,
    (headset_set_state_playing_gains env_ok
      (w_conn.set_hs 0 { headset_in HEADSET_STATE_PLAY_IN_PROGRESS with sp_gain := 7 }) 0
      (by decide) (by decide) (fun _ => rfl)).1⟩


/-! ## Divergences from the specification: event reporting and responses -/

/-- C30: device 0 had enabled indicator reporting (`ag.er_ind = 1`) and enters
Disconnected: the Disconnected signal is emitted, the back-end is asked to
stop reporting and the selection is cleared, but `ag.er_ind` is still 1.
Device 1 then connects in HFP mode and completes its Service Level Connection
without ever sending `AT+CMER`; an indicator event reported then is written to
it as a `+CIEV` line. The same event on the same session is dropped when
`ag.er_ind` has its initial value 0. -/
theorem disconnected_keeps_indicator_reporting :
    w_hfp.ag.er_ind = 1 ∧
    (w_hfp_left.hs 0).state = HEADSET_STATE_DISCONNECTED ∧
    w_hfp_left.trace
      = [Out.signal 0 .Disconnected none, Out.tel_call (.event_reporting_req 0),
         Out.tel_ret (.event_reporting_req 0) 0] ∧
    w_hfp_left.active_telephony_device = none ∧
    w_hfp_left.ag.er_ind = 1 ∧
    ((w_next_connected.hs 1).state = HEADSET_STATE_CONNECTED ∧
      w_next_connected.active_telephony_device = some 1 ∧
      emitted w_hfp_left w_next_connected
        = [Out.wrote 1 (bytes "\r\n+CHLD:(0,1,1x,2,2x,3,4)\r\n"), Out.wrote 1 rsp_OK,
           Out.signal 1 .Connected none]) ∧
    emitted w_next_connected (telephony_event_ind env_ok w_next_connected 0).1
      = [Out.wrote 1 (bytes "\r\n+CIEV:1,0\r\n")] ∧
    telephony_event_ind env_ok
        { w_next_connected with ag := { w_next_connected.ag with er_ind := ag_init.er_ind } } 0
      = ({ w_next_connected with ag := { w_next_connected.ag with er_ind := ag_init.er_ind } },
          -EINVAL) := by
  refine ⟨by decide, by decide, by decide, by decide, by decide, by decide, by decide, ?_⟩
  rfl


/-! ## Buffering mode after a telephony operation -/

theorem telephony_event_ind_ev_buf_active (env : Env) (w : World) (i : Nat) :
    (telephony_event_ind env w i).1.ag.ev_buf_active = w.ag.ev_buf_active := by
  unfold telephony_event_ind
  split
  · rfl
  · split_ifs
    · rfl
    · rfl
    · unfold buffer_event
      split
      · show (read_indicator w i).ag.ev_buf_active = w.ag.ev_buf_active
        rw [(read_indicator_frame w i).2.1]
      · rfl
    · rw [(headset_send_frame env _ _ _).2.1, (read_indicator_frame w i).2.1]

theorem tel_events_ev_buf_active (env : Env) (evs : List (Nat × Int)) (w : World) :
    (tel_events env evs w).ag.ev_buf_active = w.ag.ev_buf_active := by
  induction evs generalizing w with
  | nil => rfl
  | cons e r ih =>
    simp only [tel_events]
    rw [ih, telephony_event_ind_ev_buf_active]
    exact (set_indicator_fields w.ag e.1 e.2).2.1

theorem telephony_req_ev_buf_active (env : Env) (w : World) (req : TelRequest) :
    (telephony_req env w req).1.ag.ev_buf_active = w.ag.ev_buf_active := by
  unfold telephony_req
  simp only [World.emit]
  rw [tel_events_ev_buf_active]

theorem telephony_req_ret (env : Env) (w : World) (req : TelRequest) :
    (telephony_req env w req).2 = (env.tel w.ntel req).ret := rfl

theorem headset_send_ev_buf_active (env : Env) (w : World) (dev : Nat) (rsp : List Nat) :
    (headset_send env w dev rsp).1.ag.ev_buf_active = w.ag.ev_buf_active := by
  rw [(headset_send_frame env w dev rsp).2.1]

/-- C26: after `answer_call`, `terminate_call`, `last_dialed_number` and
`dial_number` return, `ag.ev_buf_active` is TRUE exactly when the telephony
request failed: the AG leaves buffering mode only on success. After a failed
`ATA` an indicator event reported outside any operation is queued and nothing
is written; after a successful `ATA` the same event is written at once. -/
theorem failed_request_stays_in_buffering_mode (env : Env) (w : World) (dev : Nat)
    (buf : List Nat) :
    (answer_call env w dev buf).1.ag.ev_buf_active
      = decide ((env.tel w.ntel .answer_call_req).ret < 0) ∧
    (terminate_call env w dev buf).1.ag.ev_buf_active
      = decide ((env.tel w.ntel .terminate_call_req).ret < 0) ∧
    (last_dialed_number env w dev buf).1.ag.ev_buf_active
      = decide ((env.tel w.ntel .last_dialed_number_req).ret < 0) ∧
    (dial_number env w dev buf).1.ag.ev_buf_active
      = decide ((env.tel w.ntel (.dial_number_req (buf.drop 3))).ret < 0) ∧
    ((handle_event env_tel_fails w_hfp 0 (bytes "ATA")).1.ag.ev_buf_active = true ∧
      emitted (handle_event env_tel_fails w_hfp 0 (bytes "ATA")).1
        (telephony_event_ind env_tel_fails
          (handle_event env_tel_fails w_hfp 0 (bytes "ATA")).1 0).1 = [] ∧
      (telephony_event_ind env_tel_fails
          (handle_event env_tel_fails w_hfp 0 (bytes "ATA")).1 0).1.ag.ev_buf
        = [⟨1, 0⟩, ⟨0, 0⟩, ⟨0, 0⟩, ⟨0, 0⟩] ∧
      (handle_event env_ok w_hfp 0 (bytes "ATA")).1.ag.ev_buf_active = false ∧
      emitted (handle_event env_ok w_hfp 0 (bytes "ATA")).1
        (telephony_event_ind env_ok (handle_event env_ok w_hfp 0 (bytes "ATA")).1 0).1
        = [Out.wrote 0 (bytes "\r\n+CIEV:1,0\r\n")]) := by
  refine ⟨?_, ?_, ?_, ?_, by decide⟩
  · unfold answer_call
    dsimp only
    rw [telephony_req_ret]
    split_ifs with h
    · rw [headset_send_ev_buf_active, telephony_req_ev_buf_active]
      simpa using h
    · rw [headset_send_ev_buf_active]
      unfold clear_ph_number clear_ring_timer
      split_ifs <;> simpa using h
  · unfold terminate_call
    dsimp only
    rw [telephony_req_ret]
    split_ifs with h
    · rw [headset_send_ev_buf_active, telephony_req_ev_buf_active]
      simpa using h
    · rw [headset_send_ev_buf_active]
      unfold clear_ring_timer clear_ph_number
      split_ifs <;> simpa [World.emit] using h
  · unfold last_dialed_number
    dsimp only
    rw [telephony_req_ret]
    split_ifs with h
    · rw [headset_send_ev_buf_active, telephony_req_ev_buf_active]
      simpa using h
    · rw [headset_send_ev_buf_active]
      simpa using h
  · unfold dial_number
    dsimp only
    rw [telephony_req_ret]
    split_ifs with h
    · rw [headset_send_ev_buf_active, telephony_req_ev_buf_active]
      simpa using h
    · rw [headset_send_ev_buf_active]
      simpa using h

/-! ## The terminator of the final response -/

/-- C28: the lines `AT+CHUP`, `AT+BTRH?`, `AT+BLDN`, `ATD123;`, `AT+VTS=1` and
`AT+CNUM`, each handled successfully, end with the response `"\r\nOK\n\r"`,
whose last two bytes are LF CR and not CR LF, whereas `ATA` ends with
`"\r\nOK\r\n"`. -/
theorem final_response_terminator_swapped :
    (rsp_OK = [13, 10, 79, 75, 13, 10] ∧ rsp_OK_nr = [13, 10, 79, 75, 10, 13]) ∧
    ((handle_event env_ok w_hfp 0 (bytes "ATA")).2 = 0 ∧
      (handle_event env_ok w_hfp 0 (bytes "ATA")).1.trace.getLast?
        = some (Out.wrote 0 [13, 10, 79, 75, 13, 10])) ∧
    ((handle_event env_ok w_hfp 0 (bytes "AT+CHUP")).2 = 0 ∧
      (handle_event env_ok w_hfp 0 (bytes "AT+CHUP")).1.trace.getLast?
        = some (Out.wrote 0 [13, 10, 79, 75, 10, 13])) ∧
    ((handle_event env_ok w_hfp 0 (bytes "AT+BTRH?")).2 = 0 ∧
      (handle_event env_ok w_hfp 0 (bytes "AT+BTRH?")).1.trace.getLast?
        = some (Out.wrote 0 [13, 10, 79, 75, 10, 13])) ∧
    ((handle_event env_ok w_hfp 0 (bytes "AT+BLDN")).2 = 0 ∧
      (handle_event env_ok w_hfp 0 (bytes "AT+BLDN")).1.trace.getLast?
        = some (Out.wrote 0 [13, 10, 79, 75, 10, 13])) ∧
    ((handle_event env_ok w_hfp 0 (bytes "ATD123;")).2 = 0 ∧
      (handle_event env_ok w_hfp 0 (bytes "ATD123;")).1.trace.getLast?
        = some (Out.wrote 0 [13, 10, 79, 75, 10, 13])) ∧
    ((handle_event env_ok w_hfp 0 (bytes "AT+VTS=1")).2 = 0 ∧
      (handle_event env_ok w_hfp 0 (bytes "AT+VTS=1")).1.trace.getLast?
        = some (Out.wrote 0 [13, 10, 79, 75, 10, 13])) ∧
    ((handle_event env_ok w_hfp 0 (bytes "AT+CNUM")).2 = 0 ∧
      (handle_event env_ok w_hfp 0 (bytes "AT+CNUM")).1.trace.getLast?
        = some (Out.wrote 0 [13, 10, 79, 75, 10, 13])) := by
  decide


/-! ## Divergences from the specification: stages and pending operations -/

/-- C31: on the Connected device 0, `Play()` starts the SCO connect; `Stop()`
returns the session to Connected and neither aborts that stage nor destroys
the pending operation; `Play()` again starts a second SCO connect while the
first one has not completed. Likewise `Connect()`, `Disconnect()`, `Connect()`
on the Disconnected device 0 starts two discoveries. No completion ran in
between: two stages of the session are in flight. -/
theorem stop_leaves_stage_in_flight :
    (play_requested.2 = none ∧ stages_of play_requested.1.trace = [(0, Stage.sco_connect)] ∧
      (play_requested.1.hs 0).state = HEADSET_STATE_PLAY_IN_PROGRESS) ∧
    (play_stopped.2 = some (.method_return []) ∧
      (play_stopped.1.hs 0).state = HEADSET_STATE_CONNECTED ∧
      (play_stopped.1.hs 0).pending = (play_requested.1.hs 0).pending ∧
      (play_stopped.1.hs 0).pending ≠ none) ∧
    (play_requested_again.2 = none ∧
      play_requested_again.1.trace = [Out.stage 0 .sco_connect, Out.stage 0 .sco_connect] ∧
      (play_requested_again.1.hs 0).state = HEADSET_STATE_PLAY_IN_PROGRESS) ∧
    (connect_requested.2 = none ∧
      stages_of connect_requested.1.trace = [(0, Stage.search_service)]) ∧
    (connect_dropped.2 = some (.method_return []) ∧
      (connect_dropped.1.hs 0).state = HEADSET_STATE_DISCONNECTED ∧
      (connect_dropped.1.hs 0).pending ≠ none) ∧
    (connect_requested_again.2 = none ∧
      stages_of connect_requested_again.1.trace
        = [(0, Stage.search_service), (0, Stage.search_service)] ∧
      callbacks_of connect_requested_again.1.trace = [] ∧
      replies_of connect_requested_again.1.trace = []) := by
  decide

/-- C32: device 0 in HFP mode is in ConnectInProgress and its pending
operation holds the `Connect()` caller (message 5) and the waiter of a stream
request, the target being Playing. The line `AT+CMER=3,0,0,1` completes the
Service Level Connection: the success reply is sent to the caller and the SCO
connect starts, the pending operation still holding the message. When the SCO
connect completes, the caller is sent a second reply: a second success reply
if it succeeds, the ConnectionAttemptFailed error if it fails. -/
theorem connect_caller_replied_twice :
    ((w_slc HEADSET_STATE_PLAYING).hs 0).pending = some (pending_one HEADSET_STATE_PLAYING) ∧
    replies_of (handle_event env_ok (w_slc HEADSET_STATE_PLAYING) 0
      (bytes "AT+CMER=3,0,0,1")).1.trace = [(5, Reply.method_return [])] ∧
    stages_of (handle_event env_ok (w_slc HEADSET_STATE_PLAYING) 0
      (bytes "AT+CMER=3,0,0,1")).1.trace = [(0, Stage.sco_connect)] ∧
    ((handle_event env_ok (w_slc HEADSET_STATE_PLAYING) 0
      (bytes "AT+CMER=3,0,0,1")).1.hs 0).pending = some (pending_one HEADSET_STATE_PLAYING) ∧
    replies_of (sco_connect_cb env_ok
      (handle_event env_ok (w_slc HEADSET_STATE_PLAYING) 0 (bytes "AT+CMER=3,0,0,1")).1
      2 0 0).trace
      = [(5, Reply.method_return []), (5, Reply.method_return [])] ∧
    replies_of (sco_connect_cb env_ok
      (handle_event env_ok (w_slc HEADSET_STATE_PLAYING) 0 (bytes "AT+CMER=3,0,0,1")).1
      2 (-111) 0).trace
      = [(5, Reply.method_return []), (5, Reply.error .ConnectionAttemptFailed)] ∧
    ((sco_connect_cb env_ok
      (handle_event env_ok (w_slc HEADSET_STATE_PLAYING) 0 (bytes "AT+CMER=3,0,0,1")).1
      2 0 0).hs 0).pending = none := by
  decide

/-- C33: on the Connected device 0, `Play()` starts the SCO connect;
`Disconnect()` then moves the session to Disconnected and releases the control
channel but keeps the pending operation; when the SCO connect then succeeds
the session becomes Playing (the Playing signal is emitted) although it has no
control channel. -/
theorem playing_without_control_channel :
    (play_requested.1.hs 0).state = HEADSET_STATE_PLAY_IN_PROGRESS ∧
    (play_requested.1.hs 0).rfcomm ≠ none ∧
    (play_disconnected.2 = some (.method_return []) ∧
      (play_disconnected.1.hs 0).state = HEADSET_STATE_DISCONNECTED ∧
      (play_disconnected.1.hs 0).rfcomm = none ∧
      (play_disconnected.1.hs 0).pending ≠ none) ∧
    (play_disconnected_sco_up.hs 0).state = HEADSET_STATE_PLAYING ∧
    (play_disconnected_sco_up.hs 0).rfcomm = none ∧
    (play_disconnected_sco_up.hs 0).sco = some 2 ∧
    emitted play_disconnected.1 play_disconnected_sco_up
      = [Out.reply 5 (.method_return []), Out.signal 0 .Playing none] := by
  decide

/-- C35: for `AT+BTRH=1` and `AT+BTRH=2` the telephony request is called with
0, and for `AT+BTRH=-3` with 1: the value passed is the result of the
comparison `atoi(&buf[8]) < 0`, not the number. When the request returns 0 the
final response follows, when it fails only ERROR is written. The query writes
`+BTRH:<rh>` first exactly when `ag.rh >= 0`. -/
theorem response_and_hold_passes_comparison :
    (handle_event env_ok w_hfp 0 (bytes "AT+BTRH=1")).1.trace
      = [Out.tel_call (.response_and_hold_req 0), Out.tel_ret (.response_and_hold_req 0) 0,
         Out.wrote 0 rsp_OK_nr] ∧
    (handle_event env_ok w_hfp 0 (bytes "AT+BTRH=2")).1.trace
      = [Out.tel_call (.response_and_hold_req 0), Out.tel_ret (.response_and_hold_req 0) 0,
         Out.wrote 0 rsp_OK_nr] ∧
    (handle_event env_ok w_hfp 0 (bytes "AT+BTRH=-3")).1.trace
      = [Out.tel_call (.response_and_hold_req 1), Out.tel_ret (.response_and_hold_req 1) 0,
         Out.wrote 0 rsp_OK_nr] ∧
    (handle_event env_tel_fails w_hfp 0 (bytes "AT+BTRH=1")).1.trace
      = [Out.tel_call (.response_and_hold_req 0), Out.tel_ret (.response_and_hold_req 0) (-1),
         Out.wrote 0 rsp_ERROR] ∧
    (w_hfp.ag.rh = -1 ∧
      (handle_event env_ok w_hfp 0 (bytes "AT+BTRH?")).1.trace = [Out.wrote 0 rsp_OK_nr]) ∧
    (handle_event env_ok { w_hfp with ag := { w_hfp.ag with rh := 1 } } 0
      (bytes "AT+BTRH?")).1.trace
      = [Out.wrote 0 (bytes "\r\n+BTRH:1\r\n"), Out.wrote 0 rsp_OK_nr] := by
  decide

/-- C36: the discovery cannot be started on the Disconnected device 0, whose
RFCOMM channel is unknown. `Connect()` is answered ConnectAttemptFailed, but
the session is left in ConnectInProgress with a pending operation, and a later
`Connect()` is answered InProgress. `headset_request_stream` returns 0, but
the session is left in ConnectInProgress with a pending operation that holds
the waiter. -/
theorem failed_discovery_leaves_connect_in_progress :
    ((world_init true).hs 0).state = HEADSET_STATE_DISCONNECTED ∧
    ((world_init true).hs 0).pending = none ∧
    ((hs_connect env_no_stage (world_init true) 0 5).2
        = some (.error .ConnectAttemptFailed) ∧
      (hs_connect env_no_stage (world_init true) 0 5).1.trace = [] ∧
      ((hs_connect env_no_stage (world_init true) 0 5).1.hs 0).state
        = HEADSET_STATE_CONNECT_IN_PROGRESS ∧
      ((hs_connect env_no_stage (world_init true) 0 5).1.hs 0).pending
        = some { msg := none, call := none, io := none, err := 0,
                 target_state := HEADSET_STATE_CONNECTED, callbacks := [] } ∧
      (hs_connect env_ok (hs_connect env_no_stage (world_init true) 0 5).1 0 6).2
        = some (.error .InProgress)) ∧
    ((headset_request_stream env_no_stage (world_init true) 0 7 9).2 = 0 ∧
      ((headset_request_stream env_no_stage (world_init true) 0 7 9).1.hs 0).state
        = HEADSET_STATE_CONNECT_IN_PROGRESS ∧
      ((headset_request_stream env_no_stage (world_init true) 0 7 9).1.hs 0).pending
        = some { msg := none, call := none, io := none, err := 0,
                 target_state := HEADSET_STATE_CONNECTED, callbacks := [⟨1, 7, 9⟩] }) := by
  decide

/-- C37: a stream request on the Disconnected device 0 starts the discovery
and then the RFCOMM connect; its waiter, the only one, is cancelled while the
RFCOMM connect is in flight: the pending operation is destroyed and the
session enters Disconnected, the stage is not aborted. When the stage
completes, `rfcomm_connect_cb` finds no pending operation and its assignment
`p->io = NULL` dereferences a null pointer. -/
theorem completion_after_cancel_finds_no_pending :
    (stream_discovered.hs 0).state = HEADSET_STATE_CONNECT_IN_PROGRESS ∧
    (stream_discovered.hs 0).pending.map pending_connect.callbacks = some [⟨1, 7, 9⟩] ∧
    stages_of stream_discovered.trace
      = [(0, Stage.search_service), (0, Stage.rfcomm_connect 3)] ∧
    ((headset_cancel_stream env_hsp stream_discovered 0 1).2 = true ∧
      ((headset_cancel_stream env_hsp stream_discovered 0 1).1.hs 0).pending = none ∧
      ((headset_cancel_stream env_hsp stream_discovered 0 1).1.hs 0).state
        = HEADSET_STATE_DISCONNECTED ∧
      (headset_cancel_stream env_hsp stream_discovered 0 1).1.fault = false) ∧
    (rfcomm_connect_cb env_hsp (headset_cancel_stream env_hsp stream_discovered 0 1).1
      1 0 0).fault = true ∧
    (rfcomm_connect_cb env_hsp (headset_cancel_stream env_hsp stream_discovered 0 1).1
      1 (-111) 0).fault = true := by
  decide


/-! ## The Service Level Connection with three-way calling -/

theorem handle_event_AT_CMER (env : Env) (w : World) (dev : Nat) (rest : List Nat) :
    handle_event env w dev (bytes "AT+CMER" ++ rest)
      = event_reporting env w dev (bytes "AT+CMER" ++ rest) := by
  have a : bytes "ATA" = [65, 84, 65] := by decide
  have d : bytes "ATD" = [65, 84, 68] := by decide
  have b : bytes "AT+BRSF" = [65, 84, 43, 66, 82, 83, 70] := by decide
  have c : bytes "AT+CIND" = [65, 84, 43, 67, 73, 78, 68] := by decide
  have e : bytes "AT+CMER" = [65, 84, 43, 67, 77, 69, 82] := by decide
  unfold handle_event event_callbacks
  rw [a, d, bytes_AT_VG, b, c, e]
  simp [handle_event_loop, List.isPrefixOf]

theorem handle_event_AT_CHLD (env : Env) (w : World) (dev : Nat) (rest : List Nat) :
    handle_event env w dev (bytes "AT+CHLD" ++ rest)
      = call_hold env w dev (bytes "AT+CHLD" ++ rest) := by
  have a : bytes "ATA" = [65, 84, 65] := by decide
  have d : bytes "ATD" = [65, 84, 68] := by decide
  have b : bytes "AT+BRSF" = [65, 84, 43, 66, 82, 83, 70] := by decide
  have c : bytes "AT+CIND" = [65, 84, 43, 67, 73, 78, 68] := by decide
  have e : bytes "AT+CMER" = [65, 84, 43, 67, 77, 69, 82] := by decide
  have f : bytes "AT+CHLD" = [65, 84, 43, 67, 72, 76, 68] := by decide
  unfold handle_event event_callbacks
  rw [a, d, bytes_AT_VG, b, c, e, f]
  simp [handle_event_loop, List.isPrefixOf]

/-- The handler of `AT+CMER` leaves every session as it was unless it
completes the Service Level Connection. -/
theorem event_reporting_hs (env : Env) (w : World) (dev : Nat) (buf : List Nat)
    (h : (w.hs dev).state ≠ HEADSET_STATE_CONNECT_IN_PROGRESS ∨
      w.ag.features &&& env.three_way ≠ 0) :
    (event_reporting env w dev buf).1.hs = w.hs := by
  unfold event_reporting
  dsimp only
  split_ifs with h1 h2 h3 h4 h5 h6
  · rfl
  · rfl
  · rw [(headset_send_frame env _ dev _).1, (telephony_req_frame env _ _).1]
  · rw [(headset_send_frame env _ dev _).1, (telephony_req_frame env _ _).1]
  · rw [(headset_send_frame env _ dev _).1, (telephony_req_frame env _ _).1]
  · exfalso
    rw [(headset_send_frame env _ dev _).1, (telephony_req_frame env _ _).1] at h5
    rw [(headset_send_frame env _ dev _).2.1, telephony_req_features] at h6
    rcases h with h | h
    · exact h (not_not.mp h5)
    · exact h (not_not.mp h6)
  · rfl

theorem call_hold_hs (env : Env) (w : World) (dev : Nat) (buf : List Nat)
    (h : (w.hs dev).state ≠ HEADSET_STATE_CONNECT_IN_PROGRESS) :
    (call_hold env w dev buf).1.hs = w.hs := by
  unfold call_hold
  dsimp only
  split_ifs with h1 h2 h3
  · rw [(headset_send_frame env _ dev _).1]
  · rw [(headset_send_frame env _ dev _).1, (headset_send_frame env _ dev _).1]
  · rw [(headset_send_frame env _ dev _).1, (headset_send_frame env _ dev _).1]
  · exfalso
    rw [(headset_send_frame env _ dev _).1, (headset_send_frame env _ dev _).1] at h3
    exact h (not_not.mp h3)

/-- A valid `AT+CMER` line on a session in ConnectInProgress, the feature mask
holding three-way calling and the writes succeeding: the handler returns 0
after the `OK` and does nothing else. -/
theorem event_reporting_deferred (env : Env) (w : World) (dev : Nat)
    (mode keyp disp ind : List Nat)
    (hch : (w.hs dev).rfcomm ≠ none)
    (hfe : w.ag.features &&& env.three_way ≠ 0)
    (hwr : ∀ n, env.wr n = none)
    (hmode : mode ≠ [] ∧ 44 ∉ mode) (hkeyp : keyp ≠ [] ∧ 44 ∉ keyp)
    (hdisp : disp ≠ [] ∧ 44 ∉ disp) (hind : ind ≠ [] ∧ 44 ∉ ind)
    (hv : atoi ind = 0 ∨ atoi ind = 1) :
    ∃ l, (event_reporting env w dev
        (bytes "AT+CMER=" ++ (mode ++ 44 :: (keyp ++ 44 :: (disp ++ 44 :: ind))))).2 = 0 ∧
      (event_reporting env w dev
        (bytes "AT+CMER=" ++ (mode ++ 44 :: (keyp ++ 44 :: (disp ++ 44 :: ind))))).1.trace
        = w.trace ++ ((Out.tel_call (.event_reporting_req (atoi ind)) ::
            (l ++ [Out.tel_ret (.event_reporting_req (atoi ind))
              (env.tel w.ntel (.event_reporting_req (atoi ind))).ret])) ++
            [Out.wrote dev rsp_OK]) ∧
      only_wrote l := by
  have hb : bytes "AT+CMER=" = [65, 84, 43, 67, 77, 69, 82, 61] := by decide
  have hlen : ¬ (bytes "AT+CMER=" ++ (mode ++ 44 :: (keyp ++ 44 :: (disp ++ 44 :: ind)))).length
      < 13 := by
    have h1 := List.length_pos.mpr hmode.1
    have h2 := List.length_pos.mpr hind.1
    rw [hb]
    simp only [List.length_append, List.length_cons, List.length_nil]
    omega
  have hdrop : (bytes "AT+CMER=" ++ (mode ++ 44 :: (keyp ++ 44 :: (disp ++ 44 :: ind)))).drop 8
      = mode ++ 44 :: (keyp ++ 44 :: (disp ++ 44 :: ind)) := by
    rw [hb]
    rfl
  have htok := g_strsplit_four mode keyp disp ind hmode.2 hkeyp.2 hdisp.2 hind.2
  obtain ⟨f1, _, l, f3, f4⟩ := telephony_req_frame env
    { w with ag := { w.ag with er_mode := atoi mode, er_ind := atoi ind } }
    (.event_reporting_req (atoi ind))
  have f5 := telephony_req_features env
    { w with ag := { w.ag with er_mode := atoi mode, er_ind := atoi ind } }
    (.event_reporting_req (atoi ind))
  have hsend := headset_send_ok env
    (telephony_req env
      { w with ag := { w.ag with er_mode := atoi mode, er_ind := atoi ind } }
      (.event_reporting_req (atoi ind))).1 dev rsp_OK
    (by rw [f1]; exact hch) (hwr _)
  have hres : event_reporting env w dev
      (bytes "AT+CMER=" ++ (mode ++ 44 :: (keyp ++ 44 :: (disp ++ 44 :: ind))))
      = (World.emit
          { (telephony_req env
              { w with ag := { w.ag with er_mode := atoi mode, er_ind := atoi ind } }
              (.event_reporting_req (atoi ind))).1 with
            nsend := (telephony_req env
              { w with ag := { w.ag with er_mode := atoi mode, er_ind := atoi ind } }
              (.event_reporting_req (atoi ind))).1.nsend + 1 }
          (.wrote dev rsp_OK), 0) := by
    unfold event_reporting
    rw [if_neg hlen, hdrop, htok]
    simp only [List.length_cons, List.length_nil, List.getD_cons_zero, List.getD_cons_succ]
    rw [if_neg (by decide), if_pos hv, hsend]
    simp only [World.emit, f1, f5]
    rw [if_neg (by decide)]
    split_ifs
    · rfl
    · rfl
  rw [hres]
  refine ⟨l, rfl, ?_, f4⟩
  simp only [World.emit, f3, List.append_assoc]
  rfl

/-- The completion of the Service Level Connection of a session in
ConnectInProgress that has no pending operation, or one towards Connected. -/
theorem hfp_slc_complete_connected (env : Env) (v : World) (dev : Nat)
    (hst : (v.hs dev).state = HEADSET_STATE_CONNECT_IN_PROGRESS) :
    ((v.hs dev).pending = none →
      (hfp_slc_complete env v dev).trace = v.trace ++ [Out.signal dev .Connected none] ∧
      ((hfp_slc_complete env v dev).hs dev).state = HEADSET_STATE_CONNECTED ∧
      ((hfp_slc_complete env v dev).hs dev).pending = none) ∧
    (∀ p, (v.hs dev).pending = some p → p.target_state = HEADSET_STATE_CONNECTED →
      (hfp_slc_complete env v dev).trace
        = v.trace ++ (Out.signal dev .Connected none ::
            completion_events dev p (.method_return [])) ∧
      ((hfp_slc_complete env v dev).hs dev).state = HEADSET_STATE_CONNECTED ∧
      ((hfp_slc_complete env v dev).hs dev).pending = none) := by
  obtain ⟨t, s, _⟩ := set_state_connected_eq env v dev (by rw [hst]; decide)
  rw [hst] at t
  rw [if_pos (by decide)] at t
  constructor
  · intro hp
    have hp1 : ((headset_set_state env v dev HEADSET_STATE_CONNECTED).hs dev).pending = none := by
      rw [headset_set_state_pending, hp]
    have hres : hfp_slc_complete env v dev
        = headset_set_state env v dev HEADSET_STATE_CONNECTED := by
      unfold hfp_slc_complete
      dsimp only
      rw [hp1]
    rw [hres]
    exact ⟨t, s, hp1⟩
  · intro p hp ht
    have hp1 : ((headset_set_state env v dev HEADSET_STATE_CONNECTED).hs dev).pending
        = some p := by
      rw [headset_set_state_pending, hp]
    have e2 := reply_and_finalize (headset_set_state env v dev HEADSET_STATE_CONNECTED) dev
      (.method_return []) p hp1
    have hres : hfp_slc_complete env v dev
        = pending_connect_finalize
            (reply_pending (headset_set_state env v dev HEADSET_STATE_CONNECTED) dev
              (.method_return [])) dev := by
      unfold hfp_slc_complete
      dsimp only
      rw [hp1]
      dsimp only
      rw [if_pos ht]
    rw [hres, e2]
    refine ⟨?_, ?_, ?_⟩
    · simp [t]
    · simpa using s
    · simp

theorem headset_set_state_connected_nbt (env : Env) (v : World) (dev : Nat) :
    (headset_set_state env v dev HEADSET_STATE_CONNECTED).nbt = v.nbt := by
  unfold headset_set_state headset_set_state_entry close_sco
  dsimp only
  split_ifs <;> (try split) <;> (try split_ifs) <;> rfl

theorem reply_pending_frame (u : World) (dev : Nat) (r : Reply) (p : pending_connect)
    (hp : (u.hs dev).pending = some p) :
    (reply_pending u dev r).hs = u.hs ∧ (reply_pending u dev r).nbt = u.nbt ∧
    (reply_pending u dev r).trace = u.trace ++ (p.msg.map (fun m => Out.reply m r)).toList := by
  rw [reply_pending_some u dev r p hp]
  cases p.msg with
  | none => exact ⟨rfl, rfl, by simp⟩
  | some m => exact ⟨rfl, rfl, by simp [World.emit]⟩

/-- The completion of the Service Level Connection of a session in
ConnectInProgress whose pending operation aims beyond Connected: the caller,
if any, is replied to and the SCO connect is requested. -/
theorem hfp_slc_complete_beyond (env : Env) (v : World) (dev : Nat) (p : pending_connect)
    (hst : (v.hs dev).state = HEADSET_STATE_CONNECT_IN_PROGRESS)
    (hp : (v.hs dev).pending = some p) (ht : p.target_state ≠ HEADSET_STATE_CONNECTED) :
    (0 ≤ env.bt v.nbt →
      (hfp_slc_complete env v dev).trace
        = v.trace ++ (Out.signal dev .Connected none ::
            ((p.msg.map (fun m => Out.reply m (.method_return []))).toList ++
              [Out.stage dev .sco_connect])) ∧
      ((hfp_slc_complete env v dev).hs dev).state = HEADSET_STATE_PLAY_IN_PROGRESS ∧
      ((hfp_slc_complete env v dev).hs dev).pending ≠ none) ∧
    (env.bt v.nbt < 0 →
      (hfp_slc_complete env v dev).trace
        = v.trace ++ (Out.signal dev .Connected none ::
            completion_events dev { p with err := env.bt v.nbt } (.method_return [])) ∧
      ((hfp_slc_complete env v dev).hs dev).state = HEADSET_STATE_CONNECTED ∧
      ((hfp_slc_complete env v dev).hs dev).pending = none) := by
  obtain ⟨t, s, _⟩ := set_state_connected_eq env v dev (by rw [hst]; decide)
  rw [hst] at t
  rw [if_pos (by decide)] at t
  have hn := headset_set_state_connected_nbt env v dev
  have hp1 : ((headset_set_state env v dev HEADSET_STATE_CONNECTED).hs dev).pending = some p := by
    rw [headset_set_state_pending, hp]
  obtain ⟨f1, f2, f3⟩ := reply_pending_frame
    (headset_set_state env v dev HEADSET_STATE_CONNECTED) dev (.method_return []) p hp1
  have hres : hfp_slc_complete env v dev
      = (let r := sco_connect env
            (reply_pending (headset_set_state env v dev HEADSET_STATE_CONNECTED) dev
              (.method_return [])) dev none
         let w3 := update_pending r.1 dev (fun q => { q with err := r.2.1 })
         if r.2.1 < 0 then pending_connect_finalize w3 dev else w3) := by
    unfold hfp_slc_complete
    dsimp only
    rw [hp1]
    dsimp only
    rw [if_neg ht]
  generalize reply_pending (headset_set_state env v dev HEADSET_STATE_CONNECTED) dev
    (.method_return []) = u at f1 f2 f3 hres
  have hsu : (u.hs dev).state = HEADSET_STATE_CONNECTED := by rw [f1]; exact s
  have hpu : (u.hs dev).pending = some p := by rw [f1]; exact hp1
  have hnu : u.nbt = v.nbt := f2.trans hn
  have htu : u.trace = v.trace ++ (Out.signal dev .Connected none ::
      (p.msg.map (fun m => Out.reply m (.method_return []))).toList) := by
    rw [f3, t]
    simp
  constructor
  · intro hbt
    have e4 := sco_connect_accepted env u dev hsu (by rw [hnu]; exact hbt)
    obtain ⟨⟨q, hq⟩, g2, _⟩ := pending_connect_init_fields
      { u.hs dev with state := HEADSET_STATE_PLAY_IN_PROGRESS } HEADSET_STATE_PLAYING
    rw [hres, e4]
    dsimp only
    rw [if_neg (by decide), update_pending_some _ dev _ q (by simpa using hq)]
    refine ⟨?_, ?_, ?_⟩
    · simp [World.emit, htu]
    · simpa using g2
    · simp
  · intro hbt
    have e4 := sco_connect_refused env u dev none hsu (by rw [hnu]; exact hbt)
    rw [hnu] at e4
    rw [hres, e4]
    dsimp only
    rw [if_pos hbt, update_pending_some _ dev _ p (by simpa using hpu)]
    rw [pending_connect_finalize_eq _ dev { p with err := env.bt v.nbt } (by simp)]
    refine ⟨?_, ?_, ?_⟩
    · simp [htu, completion_events]
      cases p.msg <;> simp
    · simpa using hsu
    · simp

/-- The handler of `AT+CHLD` on a session in ConnectInProgress with the
control channel open and the writes succeeding: the option list and `OK` are
written and the Service Level Connection is completed. -/
theorem call_hold_reaches_slc (env : Env) (w : World) (dev : Nat) (buf : List Nat)
    (hst : (w.hs dev).state = HEADSET_STATE_CONNECT_IN_PROGRESS)
    (hch : (w.hs dev).rfcomm ≠ none) (hwr : ∀ n, env.wr n = none) :
    ∃ v, call_hold env w dev buf = (hfp_slc_complete env v dev, 0) ∧ v.hs = w.hs ∧
      v.trace = w.trace ++ [Out.wrote dev (bytes "\r\n+CHLD:(0,1,1x,2,2x,3,4)\r\n"),
        Out.wrote dev rsp_OK] ∧ v.nbt = w.nbt := by
  have s1 := headset_send_ok env w dev (bytes "\r\n+CHLD:(0,1,1x,2,2x,3,4)\r\n") hch (hwr _)
  have s2 := headset_send_ok env
    (World.emit { w with nsend := w.nsend + 1 }
      (.wrote dev (bytes "\r\n+CHLD:(0,1,1x,2,2x,3,4)\r\n"))) dev rsp_OK
    (by simpa [World.emit] using hch) (hwr _)
  refine ⟨World.emit
      { World.emit { w with nsend := w.nsend + 1 }
          (.wrote dev (bytes "\r\n+CHLD:(0,1,1x,2,2x,3,4)\r\n")) with
        nsend := w.nsend + 1 + 1 }
      (.wrote dev rsp_OK), ?_, rfl, by simp [World.emit], rfl⟩
  unfold call_hold
  dsimp only
  rw [s1]
  dsimp only
  rw [if_neg (by decide), s2]
  dsimp only
  rw [if_neg (by decide), if_neg (by simpa [World.emit] using hst)]
  rfl

/-- C34: a session in ConnectInProgress with the control channel open, the
writes succeeding. When the feature mask of the AG holds three-way calling, a
valid `AT+CMER=<mode>,<keyp>,<disp>,<ind>` with `ind` read as 0 or 1 returns 0,
the last thing written being `OK`, and leaves every session as it was (still
ConnectInProgress, the pending operation untouched); no signal, reply,
callback or stage is produced. A line that starts with `AT+CHLD` is answered
with the option list and `OK` and then completes the Service Level Connection,
whatever the pending operation and the transport: the session enters
Connected, the Connected signal being the only signal emitted, and it ends in
Connected or in PlayInProgress. With no pending operation, or one towards
Connected (whose caller is replied to and whose waiters are notified), the
session ends Connected without a pending operation. With a pending operation
that aims beyond Connected (a stream request, with or without a caller) the
caller, if any, is replied to and the SCO connect is requested from Connected:
when the transport accepts it the stage starts and the session is
PlayInProgress; when it refuses, the waiters are notified of the failure and
the session ends Connected without a pending operation. In every state other
than ConnectInProgress the handlers of `AT+CMER` and `AT+CHLD` leave every
session as it was, for every line. -/
theorem three_way_defers_slc (env : Env) (w : World) (dev : Nat)
    (mode keyp disp ind rest : List Nat) :
    ((w.hs dev).state = HEADSET_STATE_CONNECT_IN_PROGRESS → (w.hs dev).rfcomm ≠ none →
      w.ag.features &&& env.three_way ≠ 0 → (∀ n, env.wr n = none) →
      (mode ≠ [] ∧ 44 ∉ mode) → (keyp ≠ [] ∧ 44 ∉ keyp) → (disp ≠ [] ∧ 44 ∉ disp) →
      (ind ≠ [] ∧ 44 ∉ ind) → (atoi ind = 0 ∨ atoi ind = 1) →
      (handle_event env w dev
        (bytes "AT+CMER=" ++ (mode ++ 44 :: (keyp ++ 44 :: (disp ++ 44 :: ind))))).2 = 0 ∧
      (handle_event env w dev
        (bytes "AT+CMER=" ++ (mode ++ 44 :: (keyp ++ 44 :: (disp ++ 44 :: ind))))).1.hs = w.hs ∧
      (emitted w (handle_event env w dev
        (bytes "AT+CMER=" ++ (mode ++ 44 :: (keyp ++ 44 :: (disp ++ 44 :: ind))))).1).getLast?
        = some (Out.wrote dev rsp_OK) ∧
      signals_of (emitted w (handle_event env w dev
        (bytes "AT+CMER=" ++ (mode ++ 44 :: (keyp ++ 44 :: (disp ++ 44 :: ind))))).1) = [] ∧
      no_coordination (emitted w (handle_event env w dev
        (bytes "AT+CMER=" ++ (mode ++ 44 :: (keyp ++ 44 :: (disp ++ 44 :: ind))))).1)) ∧
    ((w.hs dev).state = HEADSET_STATE_CONNECT_IN_PROGRESS → (w.hs dev).rfcomm ≠ none →
      (∀ n, env.wr n = none) →
      (handle_event env w dev (bytes "AT+CHLD" ++ rest)).2 = 0 ∧
      (∃ l, emitted w (handle_event env w dev (bytes "AT+CHLD" ++ rest)).1
          = [Out.wrote dev (bytes "\r\n+CHLD:(0,1,1x,2,2x,3,4)\r\n"), Out.wrote dev rsp_OK,
             Out.signal dev .Connected none] ++ l ∧ signals_of l = []) ∧
      (((handle_event env w dev (bytes "AT+CHLD" ++ rest)).1.hs dev).state
          = HEADSET_STATE_CONNECTED ∨
        ((handle_event env w dev (bytes "AT+CHLD" ++ rest)).1.hs dev).state
          = HEADSET_STATE_PLAY_IN_PROGRESS) ∧
      ((w.hs dev).pending = none →
        emitted w (handle_event env w dev (bytes "AT+CHLD" ++ rest)).1
          = [Out.wrote dev (bytes "\r\n+CHLD:(0,1,1x,2,2x,3,4)\r\n"), Out.wrote dev rsp_OK,
             Out.signal dev .Connected none] ∧
        ((handle_event env w dev (bytes "AT+CHLD" ++ rest)).1.hs dev).state
          = HEADSET_STATE_CONNECTED ∧
        ((handle_event env w dev (bytes "AT+CHLD" ++ rest)).1.hs dev).pending = none) ∧
      (∀ p, (w.hs dev).pending = some p → p.target_state = HEADSET_STATE_CONNECTED →
        emitted w (handle_event env w dev (bytes "AT+CHLD" ++ rest)).1
          = [Out.wrote dev (bytes "\r\n+CHLD:(0,1,1x,2,2x,3,4)\r\n"), Out.wrote dev rsp_OK,
             Out.signal dev .Connected none] ++ completion_events dev p (.method_return []) ∧
        ((handle_event env w dev (bytes "AT+CHLD" ++ rest)).1.hs dev).state
          = HEADSET_STATE_CONNECTED ∧
        ((handle_event env w dev (bytes "AT+CHLD" ++ rest)).1.hs dev).pending = none) ∧
      (∀ p, (w.hs dev).pending = some p → p.target_state ≠ HEADSET_STATE_CONNECTED →
        0 ≤ env.bt w.nbt →
        emitted w (handle_event env w dev (bytes "AT+CHLD" ++ rest)).1
          = [Out.wrote dev (bytes "\r\n+CHLD:(0,1,1x,2,2x,3,4)\r\n"), Out.wrote dev rsp_OK,
             Out.signal dev .Connected none] ++
            ((p.msg.map (fun m => Out.reply m (.method_return []))).toList ++
              [Out.stage dev .sco_connect]) ∧
        ((handle_event env w dev (bytes "AT+CHLD" ++ rest)).1.hs dev).state
          = HEADSET_STATE_PLAY_IN_PROGRESS ∧
        ((handle_event env w dev (bytes "AT+CHLD" ++ rest)).1.hs dev).pending ≠ none) ∧
      (∀ p, (w.hs dev).pending = some p → p.target_state ≠ HEADSET_STATE_CONNECTED →
        env.bt w.nbt < 0 →
        emitted w (handle_event env w dev (bytes "AT+CHLD" ++ rest)).1
          = [Out.wrote dev (bytes "\r\n+CHLD:(0,1,1x,2,2x,3,4)\r\n"), Out.wrote dev rsp_OK,
             Out.signal dev .Connected none] ++
            completion_events dev { p with err := env.bt w.nbt } (.method_return []) ∧
        ((handle_event env w dev (bytes "AT+CHLD" ++ rest)).1.hs dev).state
          = HEADSET_STATE_CONNECTED ∧
        ((handle_event env w dev (bytes "AT+CHLD" ++ rest)).1.hs dev).pending = none)) ∧
    ((w.hs dev).state ≠ HEADSET_STATE_CONNECT_IN_PROGRESS →
      ∀ buf, (event_reporting env w dev buf).1.hs = w.hs ∧
        (call_hold env w dev buf).1.hs = w.hs) := by
  refine ⟨?_, ?_, ?_⟩
  · intro _ hch hfe hwr hmode hkeyp hdisp hind hv
    have hb : bytes "AT+CMER=" = bytes "AT+CMER" ++ [61] := by decide
    have hd : handle_event env w dev
        (bytes "AT+CMER=" ++ (mode ++ 44 :: (keyp ++ 44 :: (disp ++ 44 :: ind))))
        = event_reporting env w dev
          (bytes "AT+CMER=" ++ (mode ++ 44 :: (keyp ++ 44 :: (disp ++ 44 :: ind)))) := by
      rw [hb, List.append_assoc]
      exact handle_event_AT_CMER env w dev _
    obtain ⟨l, r0, t, ow⟩ := event_reporting_deferred env w dev mode keyp disp ind hch hfe hwr
      hmode hkeyp hdisp hind hv
    have n := no_coordination_only_wrote l ow
    rw [hd]
    refine ⟨r0, event_reporting_hs env w dev _ (Or.inr hfe), ?_, ?_, ?_⟩
    · rw [emitted_append w _ _ t, List.getLast?_concat]
    · rw [emitted_append w _ _ t]
      simp [signals_of_append, signals_of, signals_of_only_wrote l ow]
    · rw [emitted_append w _ _ t]
      refine no_coordination_append _ _ ?_ ⟨rfl, rfl, rfl⟩
      exact no_coordination_append [_] _ ⟨rfl, rfl, rfl⟩
        (no_coordination_append _ [_] n ⟨rfl, rfl, rfl⟩)
  · intro hst hch hwr
    obtain ⟨v, e, hv, tv, nv⟩ := call_hold_reaches_slc env w dev (bytes "AT+CHLD" ++ rest)
      hst hch hwr
    obtain ⟨c1, c2⟩ := hfp_slc_complete_connected env v dev (by rw [hv]; exact hst)
    rw [handle_event_AT_CHLD, e]
    have k1 : (w.hs dev).pending = none →
        emitted w (hfp_slc_complete env v dev, (0 : Int)).1
          = [Out.wrote dev (bytes "\r\n+CHLD:(0,1,1x,2,2x,3,4)\r\n"), Out.wrote dev rsp_OK,
             Out.signal dev .Connected none] ∧
        (((hfp_slc_complete env v dev, (0 : Int)).1.hs dev).state = HEADSET_STATE_CONNECTED) ∧
        ((hfp_slc_complete env v dev, (0 : Int)).1.hs dev).pending = none := by
      intro hp
      obtain ⟨t, s, q⟩ := c1 (by rw [hv]; exact hp)
      exact ⟨emitted_append w _ _ (by rw [t, tv]; simp), s, q⟩
    have k2 : ∀ p, (w.hs dev).pending = some p → p.target_state = HEADSET_STATE_CONNECTED →
        emitted w (hfp_slc_complete env v dev, (0 : Int)).1
          = [Out.wrote dev (bytes "\r\n+CHLD:(0,1,1x,2,2x,3,4)\r\n"), Out.wrote dev rsp_OK,
             Out.signal dev .Connected none] ++ completion_events dev p (.method_return []) ∧
        (((hfp_slc_complete env v dev, (0 : Int)).1.hs dev).state = HEADSET_STATE_CONNECTED) ∧
        ((hfp_slc_complete env v dev, (0 : Int)).1.hs dev).pending = none := by
      intro p hp ht
      obtain ⟨t, s, q⟩ := c2 p (by rw [hv]; exact hp) ht
      exact ⟨emitted_append w _ _ (by rw [t, tv]; simp), s, q⟩
    have k3 : ∀ p, (w.hs dev).pending = some p → p.target_state ≠ HEADSET_STATE_CONNECTED →
        0 ≤ env.bt w.nbt →
        emitted w (hfp_slc_complete env v dev, (0 : Int)).1
          = [Out.wrote dev (bytes "\r\n+CHLD:(0,1,1x,2,2x,3,4)\r\n"), Out.wrote dev rsp_OK,
             Out.signal dev .Connected none] ++
            ((p.msg.map (fun m => Out.reply m (.method_return []))).toList ++
              [Out.stage dev .sco_connect]) ∧
        (((hfp_slc_complete env v dev, (0 : Int)).1.hs dev).state
          = HEADSET_STATE_PLAY_IN_PROGRESS) ∧
        ((hfp_slc_complete env v dev, (0 : Int)).1.hs dev).pending ≠ none := by
      intro p hp ht hbt
      obtain ⟨t, s, q⟩ := (hfp_slc_complete_beyond env v dev p (by rw [hv]; exact hst)
        (by rw [hv]; exact hp) ht).1 (by rw [nv]; exact hbt)
      exact ⟨emitted_append w _ _ (by rw [t, tv]; simp), s, q⟩
    have k4 : ∀ p, (w.hs dev).pending = some p → p.target_state ≠ HEADSET_STATE_CONNECTED →
        env.bt w.nbt < 0 →
        emitted w (hfp_slc_complete env v dev, (0 : Int)).1
          = [Out.wrote dev (bytes "\r\n+CHLD:(0,1,1x,2,2x,3,4)\r\n"), Out.wrote dev rsp_OK,
             Out.signal dev .Connected none] ++
            completion_events dev { p with err := env.bt w.nbt } (.method_return []) ∧
        (((hfp_slc_complete env v dev, (0 : Int)).1.hs dev).state = HEADSET_STATE_CONNECTED) ∧
        ((hfp_slc_complete env v dev, (0 : Int)).1.hs dev).pending = none := by
      intro p hp ht hbt
      obtain ⟨t, s, q⟩ := (hfp_slc_complete_beyond env v dev p (by rw [hv]; exact hst)
        (by rw [hv]; exact hp) ht).2 (by rw [nv]; exact hbt)
      rw [nv] at t
      exact ⟨emitted_append w _ _ (by rw [t, tv]; simp), s, q⟩
    refine ⟨rfl, ?_, ?_, k1, k2, k3, k4⟩
    · cases hp : (w.hs dev).pending with
      | none => exact ⟨[], by rw [(k1 hp).1]; simp, rfl⟩
      | some p =>
        by_cases ht : p.target_state = HEADSET_STATE_CONNECTED
        · exact ⟨_, (k2 p hp ht).1, (completion_events_read dev p _).2.2.1⟩
        · by_cases hbt : env.bt w.nbt < 0
          · exact ⟨_, (k4 p hp ht hbt).1, (completion_events_read dev _ _).2.2.1⟩
          · refine ⟨_, (k3 p hp ht (not_lt.mp hbt)).1, ?_⟩
            rw [signals_of_append]
            cases p.msg <;> rfl
    · cases hp : (w.hs dev).pending with
      | none => exact Or.inl (k1 hp).2.1
      | some p =>
        by_cases ht : p.target_state = HEADSET_STATE_CONNECTED
        · exact Or.inl (k2 p hp ht).2.1
        · by_cases hbt : env.bt w.nbt < 0
          · exact Or.inl (k4 p hp ht hbt).2.1
          · exact Or.inr (k3 p hp ht (not_lt.mp hbt)).2.1
  · intro hst buf
    exact ⟨event_reporting_hs env w dev buf (Or.inl hst), call_hold_hs env w dev buf hst⟩

theorem three_way_defers_slc_witness :
    ((w_slc_three_way.hs 0).state = HEADSET_STATE_CONNECT_IN_PROGRESS ∧
      (w_slc_three_way.hs 0).rfcomm ≠ none ∧
      w_slc_three_way.ag.features &&& env_ok.three_way ≠ 0 ∧ (∀ n, env_ok.wr n = none) ∧
      atoi (bytes "1") = 1) ∧
    ((handle_event env_ok w_slc_three_way 0 (bytes "AT+CMER=3,0,0,1")).2 = 0 ∧
      (handle_event env_ok w_slc_three_way 0 (bytes "AT+CMER=3,0,0,1")).1.hs
        = w_slc_three_way.hs) ∧
    (((handle_event env_ok w_slc_three_way 0 (bytes "AT+CMER=3,0,0,1")).1.hs 0).pending
        = some (pending_one HEADSET_STATE_CONNECTED) ∧
      ((handle_event env_ok
        (handle_event env_ok w_slc_three_way 0 (bytes "AT+CMER=3,0,0,1")).1 0
        (bytes "AT+CHLD=?")).1.hs 0).state = HEADSET_STATE_CONNECTED ∧
      ((handle_event env_ok
        (handle_event env_ok w_slc_three_way 0 (bytes "AT+CMER=3,0,0,1")).1 0
        (bytes "AT+CHLD=?")).1.hs 0).pending = none) ∧
    (((w_slc_stream.hs 0).state = HEADSET_STATE_CONNECT_IN_PROGRESS ∧
        (w_slc_stream.hs 0).pending
          = some { msg := none, call := none, io := none, err := 0,
                   target_state := HEADSET_STATE_PLAYING, callbacks := [⟨1, 7, 9⟩] }) ∧
      (emitted w_slc_stream (handle_event env_ok w_slc_stream 0 (bytes "AT+CHLD=?")).1
          = [Out.wrote 0 (bytes "\r\n+CHLD:(0,1,1x,2,2x,3,4)\r\n"), Out.wrote 0 rsp_OK,
             Out.signal 0 .Connected none, Out.stage 0 .sco_connect] ∧
        ((handle_event env_ok w_slc_stream 0 (bytes "AT+CHLD=?")).1.hs 0).state
          = HEADSET_STATE_PLAY_IN_PROGRESS) ∧
      (emitted w_slc_stream (handle_event env_no_stage w_slc_stream 0 (bytes "AT+CHLD=?")).1
          = [Out.wrote 0 (bytes "\r\n+CHLD:(0,1,1x,2,2x,3,4)\r\n"), Out.wrote 0 rsp_OK,
             Out.signal 0 .Connected none, Out.callback 7 none 9] ∧
        ((handle_event env_no_stage w_slc_stream 0 (bytes "AT+CHLD=?")).1.hs 0).state
          = HEADSET_STATE_CONNECTED)) :=
  ⟨⟨by decide, by decide, by decide, fun _ => rfl, by decide⟩,
    ⟨((three_way_defers_slc env_ok w_slc_three_way 0 (bytes "3") (bytes "0") (bytes "0")
        (bytes "1") []).1 (by decide) (by decide) (by decide) (fun _ => rfl) (by decide)
        (by decide) (by decide) (by decide) (by decide)).1,
     ((three_way_defers_slc env_ok w_slc_three_way 0 (bytes "3") (bytes "0") (bytes "0")
        (bytes "1") []).1 (by decide) (by decide) (by decide) (fun _ => rfl) (by decide)
        (by decide) (by decide) (by decide) (by decide)).2.1⟩,
    ⟨by decide,
      (((three_way_defers_slc env_ok
          (handle_event env_ok w_slc_three_way 0 (bytes "AT+CMER=3,0,0,1")).1 0 [] [] [] []
          (bytes "=?")).2.1 (by decide) (by decide) (fun _ => rfl)).2.2.2.2.1
        (pending_one HEADSET_STATE_CONNECTED) (by decide) (by decide)).2⟩,
    ⟨by decide, by decide⟩,
    (fun h => ⟨h.1, h.2.1⟩)
      ((((three_way_defers_slc env_ok w_slc_stream 0 [] [] [] [] (bytes "=?")).2.1
        (by decide) (by decide) (fun _ => rfl)).2.2.2.2.2.1)
        { msg := none, call := none, io := none, err := 0,
          target_state := HEADSET_STATE_PLAYING, callbacks := [⟨1, 7, 9⟩] }
        (by decide) (by decide) (by decide)),
    (fun h => ⟨h.1, h.2.1⟩)
      ((((three_way_defers_slc env_no_stage w_slc_stream 0 [] [] [] [] (bytes "=?")).2.1
        (by decide) (by decide) (fun _ => rfl)).2.2.2.2.2.2)
        { msg := none, call := none, io := none, err := 0,
          target_state := HEADSET_STATE_PLAYING, callbacks := [⟨1, 7, 9⟩] }
        (by decide) (by decide) (by decide))⟩


/-! ## Locks -/

theorem testBit_of_lt_32 (m i : Nat) (hm : m < 2 ^ 32) (hi : 32 ≤ i) : m.testBit i = false :=
  Nat.testBit_eq_false_of_lt (lt_of_lt_of_le hm (Nat.pow_le_pow_right (by norm_num) hi))

theorem testBit_lock_complement (l i : Nat) :
    (lock_complement l).testBit i = (decide (i < 32) ^^ l.testBit i) := by
  unfold lock_complement
  have h : (4294967295 : Nat) = 2 ^ 32 - 1 := by norm_num
  rw [Nat.testBit_xor, h, Nat.testBit_two_pow_sub_one]

/-- The statement `hs->lock &= ~lock` clears the bits of `lock`. -/
theorem testBit_clear (m l i : Nat) (hm : m < 2 ^ 32) :
    (m &&& lock_complement l).testBit i = (m.testBit i && !l.testBit i) := by
  rw [Nat.testBit_and, testBit_lock_complement]
  by_cases hi : i < 32
  · simp [hi]
  · rw [testBit_of_lt_32 m i hm (not_lt.mp hi)]
    simp

theorem lock_then_clear (m l : Nat) (hm : m < 2 ^ 32) (hl : l < 2 ^ 32) (hd : m &&& l = 0) :
    (m ||| l) &&& lock_complement l = m := by
  have hml : m ||| l < 2 ^ 32 := Nat.or_lt_two_pow hm hl
  apply Nat.eq_of_testBit_eq
  intro i
  rw [testBit_clear _ _ _ hml, Nat.testBit_or]
  have hz : (m &&& l).testBit i = false := by rw [hd]; exact Nat.zero_testBit i
  rw [Nat.testBit_and] at hz
  cases hmi : m.testBit i <;> cases hli : l.testBit i <;> simp_all

theorem or_and_self_eq (m l : Nat) : (m ||| l) &&& l = l := by
  apply Nat.eq_of_testBit_eq
  intro i
  rw [Nat.testBit_and, Nat.testBit_or]
  cases m.testBit i <;> cases l.testBit i <;> rfl

theorem headset_set_state_lock (env : Env) (w : World) (dev : Nat) (s : headset_state_t) :
    ((headset_set_state env w dev s).hs dev).lock = (w.hs dev).lock := by
  have k := (headset_set_state_kept env w dev s).1
  simp only [kept_fields, Prod.mk.injEq] at k
  exact k.2.2.2.2.2.2.2.2.2.2.2.2.2.2

theorem headset_unlock_lock (env : Env) (w : World) (dev l : Nat)
    (h : (w.hs dev).lock &&& l ≠ 0) :
    ((headset_unlock env w dev l).1.hs dev).lock = (w.hs dev).lock &&& lock_complement l := by
  unfold headset_unlock
  dsimp only
  rw [if_neg h]
  split_ifs <;> simp [headset_set_state_lock]

/-- C39: for a lock mask and an argument `l` of 32 bits. `headset_lock(dev, l)`
returns TRUE exactly when `mask & l = 0`, and then the mask becomes
`mask | l` and nothing else changes; otherwise it returns FALSE and nothing
changes. `headset_unlock(dev, l)` returns FALSE exactly when `mask & l = 0`,
and then nothing changes; otherwise the bits of `l` are cleared in the mask.
For `l` disjoint from the mask, `headset_lock(dev, l)` followed by
`headset_unlock(dev, l)` restores the mask. When the mask is non-zero after an
unlock, the unlock changes nothing but the mask: no state transition, no
disconnect, no timer. -/
theorem headset_lock_unlock (env : Env) (w : World) (dev l : Nat)
    (hm : (w.hs dev).lock < 2 ^ 32) (hl : l < 2 ^ 32) :
    (((headset_lock w dev l).2 = true ↔ (w.hs dev).lock &&& l = 0) ∧
      ((w.hs dev).lock &&& l = 0 →
        headset_lock w dev l
          = (w.set_hs dev { w.hs dev with lock := (w.hs dev).lock ||| l }, true)) ∧
      ((w.hs dev).lock &&& l ≠ 0 → headset_lock w dev l = (w, false))) ∧
    (((headset_unlock env w dev l).2 = false ↔ (w.hs dev).lock &&& l = 0) ∧
      ((w.hs dev).lock &&& l = 0 → headset_unlock env w dev l = (w, false)) ∧
      ((w.hs dev).lock &&& l ≠ 0 →
        ((headset_unlock env w dev l).1.hs dev).lock
          = (w.hs dev).lock &&& lock_complement l ∧
        ∀ i, ((headset_unlock env w dev l).1.hs dev).lock.testBit i
          = ((w.hs dev).lock.testBit i && !l.testBit i))) ∧
    ((w.hs dev).lock &&& l = 0 →
      ((headset_unlock env (headset_lock w dev l).1 dev l).1.hs dev).lock = (w.hs dev).lock) ∧
    ((w.hs dev).lock &&& l ≠ 0 → (w.hs dev).lock &&& lock_complement l ≠ 0 →
      headset_unlock env w dev l
        = (w.set_hs dev { w.hs dev with lock := (w.hs dev).lock &&& lock_complement l },
            true)) := by
  have lk1 : (w.hs dev).lock &&& l = 0 →
      headset_lock w dev l
        = (w.set_hs dev { w.hs dev with lock := (w.hs dev).lock ||| l }, true) := by
    intro h
    unfold headset_lock
    dsimp only
    rw [if_neg (by simp [h])]
  have lk2 : (w.hs dev).lock &&& l ≠ 0 → headset_lock w dev l = (w, false) := by
    intro h
    unfold headset_lock
    dsimp only
    rw [if_pos h]
  have ul1 : (w.hs dev).lock &&& l = 0 → headset_unlock env w dev l = (w, false) := by
    intro h
    unfold headset_unlock
    dsimp only
    rw [if_pos h]
  have ul2 : (w.hs dev).lock &&& l ≠ 0 → (headset_unlock env w dev l).2 = true := by
    intro h
    unfold headset_unlock
    dsimp only
    rw [if_neg h]
    split_ifs <;> rfl
  refine ⟨⟨?_, lk1, lk2⟩, ⟨?_, ul1, ?_⟩, ?_, ?_⟩
  · by_cases h : (w.hs dev).lock &&& l = 0
    · simp [lk1 h, h]
    · simp [lk2 h, h]
  · by_cases h : (w.hs dev).lock &&& l = 0
    · simp [ul1 h, h]
    · simp [ul2 h, h]
  · intro h
    have e := headset_unlock_lock env w dev l h
    refine ⟨e, fun i => ?_⟩
    rw [e, testBit_clear _ _ _ hm]
  · intro h
    rw [lk1 h]
    by_cases hz : l = 0
    · subst hz
      rw [(show headset_unlock env
          (w.set_hs dev { w.hs dev with lock := (w.hs dev).lock ||| 0 }) dev 0 = (_, false) from by
        unfold headset_unlock
        dsimp only
        rw [if_pos (by simp)])]
      simp
    · rw [headset_unlock_lock env _ dev l (by simpa [or_and_self_eq] using hz)]
      simpa using lock_then_clear _ _ hm hl h
  · intro h hnz
    unfold headset_unlock
    dsimp only
    rw [if_neg h, if_pos (by simpa using hnz)]

theorem headset_lock_unlock_witness :
    ((w_playing.hs 0).lock < 2 ^ 32 ∧ (1 : Nat) < 2 ^ 32 ∧ (w_playing.hs 0).lock &&& 1 = 0) ∧
    (headset_lock w_playing 0 1).2 = true ∧
    ((headset_lock w_playing 0 1).1.hs 0).lock = 1 ∧
    ((headset_unlock env_ok (headset_lock w_playing 0 1).1 0 1).1.hs 0).lock
      = (w_playing.hs 0).lock :=
  ⟨⟨by decide, by decide, by decide⟩,
    (headset_lock_unlock env_ok w_playing 0 1 (by decide) (by decide)).1.1.mpr (by decide),
    by decide,
    (headset_lock_unlock env_ok w_playing 0 1 (by decide) (by decide)).2.2.1 (by decide)⟩


/-! ## The Mediapad driver: binding a key -/

theorem table_set_get (t : List (List Nat)) (row col v : Nat) (hr : row < t.length)
    (hc : col < (t.getD row []).length) :
    table_set t row col v = some (t.set row ((t.getD row []).set col v)) ∧
    table_get (t.set row ((t.getD row []).set col v)) row col = some v := by
  refine ⟨by unfold table_set; rw [if_pos hc], ?_⟩
  unfold table_get
  rw [if_neg (by omega)]
  have hc2 : col < (t[row]?.getD []).length := by
    rw [← List.getD_eq_getElem?_getD]; exact hc
  simp [List.getD_eq_getElem?_getD, List.getElem?_set_self hr, List.getElem?_set_self hc2]

theorem shaped_row (km : mp_keymaps) (hk : km.shaped) (row : Nat) (hrow : row < 2) :
    row < km.mp_keymap.length ∧ (km.mp_keymap.getD row []).length = 16 ∧
    row < km.mp_keymap_m.length ∧ (km.mp_keymap_m.getD row []).length = 8 := by
  obtain ⟨a, b, c, d⟩ := hk
  have h1 : row < km.mp_keymap.length := by omega
  have h2 : row < km.mp_keymap_m.length := by omega
  refine ⟨h1, ?_, h2, ?_⟩
  · rw [List.getD_eq_getElem?_getD, List.getElem?_eq_getElem h1]
    exact b _ (List.getElem_mem h1)
  · rw [List.getD_eq_getElem?_getD, List.getElem?_eq_getElem h2]
    exact d _ (List.getElem_mem h2)

theorem table_get_set_other (t : List (List Nat)) (row col v row2 : Nat) (col2 : Int)
    (h : row2 ≠ row ∨ col2 ≠ col) :
    table_get (t.set row ((t.getD row []).set col v)) row2 col2 = table_get t row2 col2 := by
  unfold table_get
  split_ifs with hneg
  · rfl
  · by_cases hr : row2 = row
    · subst hr
      have hc : col ≠ col2.toNat := by
        rcases h with h | h
        · exact absurd rfl h
        · intro e; apply h; omega
      by_cases hl : row2 < t.length
      · simp [List.getD_eq_getElem?_getD, List.getElem?_set_self hl, List.getElem?_set_ne hc,
          List.getElem?_eq_getElem hl]
      · rw [List.set_eq_of_length_le (by omega)]
    · have hr2 : row ≠ row2 := fun e => hr e.symm
      simp [List.getD_eq_getElem?_getD, List.getElem?_set_ne hr2]

theorem translate_key_plain (km : mp_keymaps) (mode s : Nat) (h1 : 0x54 ≤ s) (h2 : s ≤ 0x63) :
    translate_key km mode s
      = table_get km.mp_keymap (if mode ≠ 0 then 1 else 0) ((s - 0x54 : Nat) : Int) := by
  unfold translate_key
  have e : ((s : Int) % 256) = s := by omega
  have a : ¬ ((s : Int) > 0x82) := by omega
  have b : ¬ ((s : Int) > 0x63) := by omega
  have c : (s : Int) - 0x54 = ((s - 0x54 : Nat) : Int) := by omega
  simp only [e, a, b, if_false, c]
  simp

theorem bind_key_plain (km : mp_keymaps) (hk : km.shaped) (mode k s : Nat)
    (h1 : 0x54 ≤ s) (h2 : s ≤ 0x62) :
    mp_bind_key_update km s mode k
      = some { mp_keymap := km.mp_keymap.set (if mode ≠ 0 then 1 else 0)
                ((km.mp_keymap.getD (if mode ≠ 0 then 1 else 0) []).set (s - 0x54) (k % 256)),
               mp_keymap_m := km.mp_keymap_m } := by
  have hrow : (if mode ≠ 0 then 1 else 0 : Nat) < 2 := by split_ifs <;> omega
  obtain ⟨r1, r2, -, -⟩ := shaped_row km hk _ hrow
  unfold mp_bind_key_update
  have a : ¬ (s > 0x82) := by omega
  have b : s < 0x63 := by omega
  have c : (s + 2 ^ 32 - 0x54) % 2 ^ 32 = s - 0x54 := by omega
  simp only [a, b, if_false, if_true, c]
  rw [(table_set_get km.mp_keymap _ (s - 0x54) (k % 256) r1 (by rw [r2]; omega)).1]
  rfl

theorem translate_key_media (km : mp_keymaps) (mode : Nat) :
    translate_key km mode MP_KEY_MEDIA = table_get km.mp_keymap_m (if mode ≠ 0 then 1 else 0) 0 ∧
    translate_key km mode MP_KEY_FFWD = table_get km.mp_keymap_m (if mode ≠ 0 then 1 else 0) 1 ∧
    translate_key km mode MP_KEY_STOP = table_get km.mp_keymap_m (if mode ≠ 0 then 1 else 0) 2 ∧
    translate_key km mode MP_KEY_PLAY = table_get km.mp_keymap_m (if mode ≠ 0 then 1 else 0) 3 ∧
    translate_key km mode MP_KEY_MUTE = table_get km.mp_keymap_m (if mode ≠ 0 then 1 else 0) 4 ∧
    translate_key km mode MP_KEY_VOLUP = table_get km.mp_keymap_m (if mode ≠ 0 then 1 else 0) 5 ∧
    translate_key km mode MP_KEY_VOLDOWN
      = table_get km.mp_keymap_m (if mode ≠ 0 then 1 else 0) 6 := by
  refine ⟨?_, ?_, ?_, ?_, ?_, ?_, ?_⟩ <;>
    simp [translate_key, MP_KEY_MEDIA, MP_KEY_FFWD, MP_KEY_STOP, MP_KEY_PLAY, MP_KEY_MUTE,
      MP_KEY_VOLUP, MP_KEY_VOLDOWN]

theorem translate_key_rew (km : mp_keymaps) (mode : Nat) :
    translate_key km mode MP_KEY_REW = some KEY_UNKNOWN := by
  simp [translate_key, MP_KEY_MEDIA, MP_KEY_FFWD, MP_KEY_STOP, MP_KEY_PLAY, MP_KEY_MUTE,
      MP_KEY_VOLUP, MP_KEY_VOLDOWN, MP_KEY_REW]

theorem bind_key_unhandled (km : mp_keymaps) (mode k : Nat) :
    mp_bind_key_update km 0x63 mode k = some km ∧
    mp_bind_key_update km MP_KEY_REW mode k = some km := by
  constructor <;>
    simp [mp_bind_key_update, MP_KEY_MEDIA, MP_KEY_FFWD, MP_KEY_STOP, MP_KEY_PLAY, MP_KEY_MUTE,
      MP_KEY_VOLUP, MP_KEY_VOLDOWN, MP_KEY_REW]

theorem bind_key_media (km : mp_keymaps) (hk : km.shaped) (mode k i : Nat) (hi : i < 8) :
    table_set km.mp_keymap_m (if mode ≠ 0 then 1 else 0) i (k % 256)
      = some (km.mp_keymap_m.set (if mode ≠ 0 then 1 else 0)
          ((km.mp_keymap_m.getD (if mode ≠ 0 then 1 else 0) []).set i (k % 256))) ∧
    table_get (km.mp_keymap_m.set (if mode ≠ 0 then 1 else 0)
          ((km.mp_keymap_m.getD (if mode ≠ 0 then 1 else 0) []).set i (k % 256)))
        (if mode ≠ 0 then 1 else 0) i = some (k % 256) := by
  have hrow : (if mode ≠ 0 then 1 else 0 : Nat) < 2 := by split_ifs <;> omega
  obtain ⟨-, -, r1, r2⟩ := shaped_row km hk _ hrow
  exact table_set_get km.mp_keymap_m _ i (k % 256) r1 (by rw [r2]; exact hi)

theorem translate_key_other_plain (km : mp_keymaps) (mode s v mode2 s2 : Nat) (h1 : 0x54 ≤ s)
    (h : s2 ≠ s ∨ (if mode2 ≠ 0 then 1 else 0 : Nat) ≠ (if mode ≠ 0 then 1 else 0)) :
    translate_key
        { mp_keymap := km.mp_keymap.set (if mode ≠ 0 then 1 else 0)
            ((km.mp_keymap.getD (if mode ≠ 0 then 1 else 0) []).set (s - 0x54) v),
          mp_keymap_m := km.mp_keymap_m } mode2 s2
      = translate_key km mode2 s2 := by
  unfold translate_key
  dsimp only
  simp only [ne_eq, Nat.cast_eq_zero]
  rw [table_get_set_other]
  rcases h with h | h
  · right; omega
  · left; exact h

theorem translate_key_other_media (km : mp_keymaps) (mode v mode2 s2 s i : Nat) (hs2 : s2 < 256)
    (hs : (s, i) ∈ [(MP_KEY_MEDIA, 0), (MP_KEY_FFWD, 1), (MP_KEY_STOP, 2), (MP_KEY_PLAY, 3),
      (MP_KEY_MUTE, 4), (MP_KEY_VOLUP, 5), (MP_KEY_VOLDOWN, 6)])
    (h : s2 ≠ s ∨ (if mode2 ≠ 0 then 1 else 0 : Nat) ≠ (if mode ≠ 0 then 1 else 0)) :
    translate_key
        { mp_keymap := km.mp_keymap,
          mp_keymap_m := km.mp_keymap_m.set (if mode ≠ 0 then 1 else 0)
            ((km.mp_keymap_m.getD (if mode ≠ 0 then 1 else 0) []).set i v) } mode2 s2
      = translate_key km mode2 s2 := by
  unfold translate_key
  dsimp only
  simp only [ne_eq, Nat.cast_eq_zero]
  simp only [List.mem_cons, List.mem_singleton, List.not_mem_nil, or_false, Prod.mk.injEq] at hs
  simp only [MP_KEY_MEDIA, MP_KEY_FFWD, MP_KEY_STOP, MP_KEY_PLAY, MP_KEY_MUTE,
      MP_KEY_VOLUP, MP_KEY_VOLDOWN] at hs ⊢
  generalize (if mode2 = 0 then 0 else 1 : Nat) = r2 at h ⊢
  generalize (if mode = 0 then 0 else 1 : Nat) = r at h ⊢
  generalize (if ¬ mode2 = 0 then 1 else 0 : Nat) = r2 at h ⊢
  generalize (if ¬ mode = 0 then 1 else 0 : Nat) = r at h ⊢
  split_ifs <;> dsimp only <;> first
    | rfl
    | (apply table_get_set_other
       rcases h with h | h
       · right; omega
       · left; exact h)

/-- The else branch of `mp_dbus_bind_key` as it is written, for tables of the
declared shape and a key value `k < 256`: for the scancodes `0x54 .. 0x62` and
the media scancodes `MEDIA`, `FFWD`, `STOP`, `PLAY`, `MUTE`, `VOLUP`, `VOLDOWN`
the update makes `translate_key(mode, s)` return `k` and leaves every other
translation unchanged, writing inside the rows; for `0x63` (the update is
guarded by `scancode < 0x63` while `translate_key` reads the table up to
`0x63`) and for `MP_KEY_REW` (in neither `switch`) it changes nothing. -/
theorem bind_key_update_spec (km : mp_keymaps) (hk : km.shaped) (mode k : Nat)
    (hkk : k < 256) :
    (∀ s : Nat, (0x54 ≤ s ∧ s ≤ 0x62) ∨ s ∈ [MP_KEY_MEDIA, MP_KEY_FFWD, MP_KEY_STOP,
        MP_KEY_PLAY, MP_KEY_MUTE, MP_KEY_VOLUP, MP_KEY_VOLDOWN] →
      ∃ km2, mp_bind_key_update km s mode k = some km2 ∧
        translate_key km2 mode s = some k ∧
        ∀ mode2 s2 : Nat, s2 < 256 →
          s2 ≠ s ∨ (if mode2 ≠ 0 then 1 else 0 : Nat) ≠ (if mode ≠ 0 then 1 else 0) →
          translate_key km2 mode2 s2 = translate_key km mode2 s2) ∧
    (mp_bind_key_update km 0x63 mode k = some km ∧
      translate_key km mode 0x63
        = (km.mp_keymap.getD (if mode ≠ 0 then 1 else 0) []).get? 15) ∧
    (mp_bind_key_update km MP_KEY_REW mode k = some km ∧
      ∀ km2 : mp_keymaps, translate_key km2 mode MP_KEY_REW = some KEY_UNKNOWN) := by
  have hv : k % 256 = k := Nat.mod_eq_of_lt hkk
  refine ⟨?_, ⟨(bind_key_unhandled km mode k).1, ?_⟩,
    ⟨(bind_key_unhandled km mode k).2, fun km2 => translate_key_rew km2 mode⟩⟩
  · intro s hs
    have hrow : (if mode ≠ 0 then 1 else 0 : Nat) < 2 := by split_ifs <;> omega
    obtain ⟨r1, r2, r3, r4⟩ := shaped_row km hk _ hrow
    rcases hs with ⟨h1, h2⟩ | hs
    · refine ⟨_, bind_key_plain km hk mode k s h1 h2, ?_, ?_⟩
      · rw [translate_key_plain _ mode s h1 (by omega)]
        exact ((table_set_get km.mp_keymap _ (s - 0x54) (k % 256) r1
          (by rw [r2]; omega)).2).trans (by rw [hv])
      · intro mode2 s2 _ h
        exact translate_key_other_plain km mode s (k % 256) mode2 s2 h1 h
    · have key : ∀ i : Nat, i < 8 →
          (s, i) ∈ [(MP_KEY_MEDIA, 0), (MP_KEY_FFWD, 1), (MP_KEY_STOP, 2), (MP_KEY_PLAY, 3),
            (MP_KEY_MUTE, 4), (MP_KEY_VOLUP, 5), (MP_KEY_VOLDOWN, 6)] →
          mp_bind_key_update km s mode k
            = (table_set km.mp_keymap_m (if mode ≠ 0 then 1 else 0) i (k % 256)).map
                (fun m => { mp_keymap := km.mp_keymap, mp_keymap_m := m }) →
          (∀ km2 : mp_keymaps, translate_key km2 mode s
            = table_get km2.mp_keymap_m (if mode ≠ 0 then 1 else 0) i) →
          ∃ km2, mp_bind_key_update km s mode k = some km2 ∧
            translate_key km2 mode s = some k ∧
            ∀ mode2 s2 : Nat, s2 < 256 →
              s2 ≠ s ∨ (if mode2 ≠ 0 then 1 else 0 : Nat) ≠ (if mode ≠ 0 then 1 else 0) →
              translate_key km2 mode2 s2 = translate_key km mode2 s2 := by
        intro i hi hmem hb ht
        obtain ⟨a, b⟩ := bind_key_media km hk mode k i hi
        refine ⟨_, hb.trans (by rw [a]; rfl), ?_, ?_⟩
        · rw [ht]; exact b.trans (by rw [hv])
        · intro mode2 s2 hs2 h
          exact translate_key_other_media km mode (k % 256) mode2 s2 s i hs2 hmem h
      simp only [List.mem_cons, List.mem_singleton, List.not_mem_nil, or_false] at hs
      rcases hs with rfl | rfl | rfl | rfl | rfl | rfl | rfl
      · exact key 0 (by decide) (by decide)
          (by simp [mp_bind_key_update, MP_KEY_MEDIA, MP_KEY_FFWD, MP_KEY_STOP, MP_KEY_PLAY,
            MP_KEY_MUTE, MP_KEY_VOLUP, MP_KEY_VOLDOWN]
              generalize table_set _ _ _ _ = o
              cases o <;> rfl)
          (fun km2 => (translate_key_media km2 mode).1)
      · exact key 1 (by decide) (by decide)
          (by simp [mp_bind_key_update, MP_KEY_MEDIA, MP_KEY_FFWD, MP_KEY_STOP, MP_KEY_PLAY,
            MP_KEY_MUTE, MP_KEY_VOLUP, MP_KEY_VOLDOWN]
              generalize table_set _ _ _ _ = o
              cases o <;> rfl)
          (fun km2 => (translate_key_media km2 mode).2.1)
      · exact key 2 (by decide) (by decide)
          (by simp [mp_bind_key_update, MP_KEY_MEDIA, MP_KEY_FFWD, MP_KEY_STOP, MP_KEY_PLAY,
            MP_KEY_MUTE, MP_KEY_VOLUP, MP_KEY_VOLDOWN]
              generalize table_set _ _ _ _ = o
              cases o <;> rfl)
          (fun km2 => (translate_key_media km2 mode).2.2.1)
      · exact key 3 (by decide) (by decide)
          (by simp [mp_bind_key_update, MP_KEY_MEDIA, MP_KEY_FFWD, MP_KEY_STOP, MP_KEY_PLAY,
            MP_KEY_MUTE, MP_KEY_VOLUP, MP_KEY_VOLDOWN]
              generalize table_set _ _ _ _ = o
              cases o <;> rfl)
          (fun km2 => (translate_key_media km2 mode).2.2.2.1)
      · exact key 4 (by decide) (by decide)
          (by simp [mp_bind_key_update, MP_KEY_MEDIA, MP_KEY_FFWD, MP_KEY_STOP, MP_KEY_PLAY,
            MP_KEY_MUTE, MP_KEY_VOLUP, MP_KEY_VOLDOWN]
              generalize table_set _ _ _ _ = o
              cases o <;> rfl)
          (fun km2 => (translate_key_media km2 mode).2.2.2.2.1)
      · exact key 5 (by decide) (by decide)
          (by simp [mp_bind_key_update, MP_KEY_MEDIA, MP_KEY_FFWD, MP_KEY_STOP, MP_KEY_PLAY,
            MP_KEY_MUTE, MP_KEY_VOLUP, MP_KEY_VOLDOWN]
              generalize table_set _ _ _ _ = o
              cases o <;> rfl)
          (fun km2 => (translate_key_media km2 mode).2.2.2.2.2.1)
      · exact key 6 (by decide) (by decide)
          (by simp [mp_bind_key_update, MP_KEY_MEDIA, MP_KEY_FFWD, MP_KEY_STOP, MP_KEY_PLAY,
            MP_KEY_MUTE, MP_KEY_VOLUP, MP_KEY_VOLDOWN]
              generalize table_set _ _ _ _ = o
              cases o <;> rfl)
          (fun km2 => (translate_key_media km2 mode).2.2.2.2.2.2)
  · have h := translate_key_plain km mode 0x63 (by decide) (by decide)
    have e : ((0x63 : Nat) : Int) = 0x63 := rfl
    rw [e] at h
    rw [h]
    simp [table_get]

/-- C40: `mp_dbus_bind_key` binds nothing. Its call of `dbus_message_get_args`
passes the address of `key` where the third type code belongs (the sibling
calls pass each type code before its destination), so for the message
`BindKey(s, mode, k)` of three `UINT32` arguments the third type never matches
(the address of a `uint32_t` is a multiple of 4, the type code is 117), the
error is set and the else branch does not run: the keymaps are as before,
whatever the scancode, and no call returns changed keymaps. With the type codes
in the order of the sibling calls the same message is read. On the initial
tables `translate_key(0, 0x54)` is therefore still `KEY_KPSLASH` after
`BindKey(0x54, 0, 30)`. Besides, `translate_key(mode, MP_KEY_REW)` is
`KEY_UNKNOWN` whatever the tables hold, and the else branch as written changes
nothing for the scancodes `0x63` and `MP_KEY_REW`. -/
theorem bind_key_never_binds (km : mp_keymaps) (s mode k key_addr : Nat) :
    (∀ msg km2, mp_dbus_bind_key km msg key_addr = some km2 → km2 = km) ∧
    (key_addr % 4 = 0 →
      dbus_message_get_args
          [(DBUS_TYPE_UINT32, s), (DBUS_TYPE_UINT32, mode), (DBUS_TYPE_UINT32, k)]
          [DBUS_TYPE_UINT32, DBUS_TYPE_UINT32, key_addr] = none ∧
      mp_dbus_bind_key km
          [(DBUS_TYPE_UINT32, s), (DBUS_TYPE_UINT32, mode), (DBUS_TYPE_UINT32, k)] key_addr
        = some km) ∧
    dbus_message_get_args
        [(DBUS_TYPE_UINT32, s), (DBUS_TYPE_UINT32, mode), (DBUS_TYPE_UINT32, k)]
        [DBUS_TYPE_UINT32, DBUS_TYPE_UINT32, DBUS_TYPE_UINT32] = some [s, mode, k] ∧
    (translate_key mp_keymaps_init 0 0x54 = some 98 ∧ (98 : Nat) ≠ 30) ∧
    (∀ km2 : mp_keymaps, translate_key km2 mode MP_KEY_REW = some KEY_UNKNOWN) ∧
    (mp_bind_key_update km 0x63 mode k = some km ∧
      mp_bind_key_update km MP_KEY_REW mode k = some km) := by
  refine ⟨?_, ?_, ?_, ⟨by decide, by decide⟩, fun km2 => translate_key_rew km2 mode,
    bind_key_unhandled km mode k⟩
  · intro msg km2 h
    unfold mp_dbus_bind_key at h
    split at h
    · exact (Option.some.inj h).symm
    · cases h
  · intro ha
    have hne : DBUS_TYPE_UINT32 ≠ key_addr := by
      intro e
      rw [← e] at ha
      exact absurd ha (by decide)
    have hg : dbus_message_get_args
        [(DBUS_TYPE_UINT32, s), (DBUS_TYPE_UINT32, mode), (DBUS_TYPE_UINT32, k)]
        [DBUS_TYPE_UINT32, DBUS_TYPE_UINT32, key_addr] = none := by
      simp [dbus_message_get_args, hne]
    refine ⟨hg, ?_⟩
    unfold mp_dbus_bind_key
    rw [hg]
  · simp [dbus_message_get_args]

theorem bind_key_never_binds_witness :
    ((2147226160 : Nat) % 4 = 0) ∧
    mp_dbus_bind_key mp_keymaps_init
        [(DBUS_TYPE_UINT32, 0x54), (DBUS_TYPE_UINT32, 0), (DBUS_TYPE_UINT32, 30)] 2147226160
      = some mp_keymaps_init ∧
    translate_key mp_keymaps_init 0 0x54 = some 98 :=
  ⟨by decide,
    ((bind_key_never_binds mp_keymaps_init 0x54 0 30 2147226160).2.1 (by decide)).2,
    (bind_key_never_binds mp_keymaps_init 0x54 0 30 2147226160).2.2.2.1.1⟩


/-! ## The framer cursor stays inside the input buffer -/

theorem cursor_ok_congr (h h2 : headset) (e : cursor h2 = cursor h) (hc : cursor_ok h) :
    cursor_ok h2 := by
  simp only [cursor, Prod.mk.injEq] at e
  obtain ⟨e1, e2, e3⟩ := e
  unfold cursor_ok at hc ⊢
  rw [e1, e2, e3]
  exact hc

theorem cursor_ok_of_kept (v v1 : World) (hk : cursors_kept v v1)
    (h : ∀ d, cursor_ok (v.hs d)) : ∀ d, cursor_ok (v1.hs d) :=
  fun d => cursor_ok_congr _ _ (hk d) (h d)

theorem cursor_ok_headset_new (b : Bool) : cursor_ok (headset_new b) := by
  refine ⟨?_, le_refl _, le_refl _, ?_⟩
  · show (List.replicate BUF_SIZE 0).length = BUF_SIZE
    exact List.length_replicate _ _
  · show (0 : Int) + 0 ≤ (BUF_SIZE : Int) - 1
    simp [BUF_SIZE]

theorem cursor_ok_set_state (env : Env) (w : World) (dev : Nat) (s : headset_state_t)
    (h : ∀ d, cursor_ok (w.hs d)) : ∀ d, cursor_ok ((headset_set_state env w dev s).hs d) := by
  by_cases hs : s = HEADSET_STATE_DISCONNECTED
  · subst hs
    intro d
    by_cases hd : d = dev
    · subst hd
      by_cases hst : (w.hs d).state = HEADSET_STATE_DISCONNECTED
      · simp only [headset_set_state, if_pos hst]
        exact h d
      · obtain ⟨_, _, _, _, _, ds, dl, _⟩ := set_state_disconnected_eq env w d hst
        have k := (headset_set_state_kept env w d HEADSET_STATE_DISCONNECTED).1
        simp only [kept_fields, Prod.mk.injEq] at k
        unfold cursor_ok
        rw [k.2.1, ds, dl]
        exact ⟨(h d).1, le_refl _, le_refl _, by simp [BUF_SIZE]⟩
    · rw [headset_set_state_other env w dev d _ hd]
      exact h d
  · exact cursor_ok_of_kept _ _ (cursors_kept_set_state env w dev s hs) h

theorem memcpy_at_length (buf src : List Nat) (off : Nat) (h : off + src.length ≤ buf.length) :
    (memcpy_at buf off src).length = buf.length := by
  unfold memcpy_at
  simp only [List.length_append, List.length_take, List.length_drop]
  omega

theorem strchr_before_nul (l : List Nat) (c : Nat) (hc : c ≠ NUL) (k n : Nat)
    (hn : l.get? n = some NUL) (h : strchr l c = some k) : k < n := by
  induction l generalizing k n with
  | nil => simp [strchr] at h
  | cons x r ih =>
    unfold strchr at h
    split_ifs at h with h1 h2
    · cases n with
      | zero =>
        simp at hn
        exact absurd (h1.symm.trans hn) hc
      | succ m =>
        simp at h
        omega
    · cases hr : strchr r c with
      | none => simp [hr] at h
      | some j =>
        simp [hr] at h
        cases n with
        | zero =>
          simp at hn
          exact absurd hn h2
        | succ m =>
          have := ih j m (by simpa using hn) hr
          omega

/-- What the free-space check of `rfcomm_io_cb` guarantees for a cursor inside
the buffer: the copy and the NUL write are inside `buf`, and a carriage return
found by `strchr` lies among the `data_length` bytes counted after the copy. -/
theorem io_bounds (h : headset) (hc : cursor_ok h) (data : List Nat)
    (hfree : ¬ (((BUF_SIZE : Int) - h.data_start - h.data_length - 1) % 2 ^ 64 < data.length)) :
    (0 ≤ h.data_start ∧ 0 ≤ h.data_length ∧
      h.data_start + (h.data_length + data.length) < BUF_SIZE) ∧
    h.data_start.toNat + data.length ≤ h.buf.length ∧
    (h.data_start + (h.data_length + data.length)).toNat < h.buf.length ∧
    ((memcpy_at h.buf h.data_start.toNat data).set
      (h.data_start + (h.data_length + data.length)).toNat NUL).length = BUF_SIZE ∧
    ∀ k, strchr (((memcpy_at h.buf h.data_start.toNat data).set
        (h.data_start + (h.data_length + data.length)).toNat NUL).drop h.data_start.toNat) CR
          = some k →
      1 + (k : Int) ≤ h.data_length + data.length := by
  obtain ⟨hl, hs0, hd0, hsum⟩ := hc
  have hB : BUF_SIZE = 1024 := rfl
  have hp : (2 : Int) ^ 64 = 18446744073709551616 := by norm_num
  rw [hp, hB] at hfree
  rw [hB] at hsum hl
  have hfit : h.data_start + (h.data_length + data.length) ≤ 1023 := by
    push_cast at hfree hsum
    omega
  have hcopy : h.data_start.toNat + data.length ≤ h.buf.length := by omega
  have hnul : (h.data_start + (h.data_length + data.length)).toNat < h.buf.length := by omega
  have hlen : ((memcpy_at h.buf h.data_start.toNat data).set
      (h.data_start + (h.data_length + data.length)).toNat NUL).length = BUF_SIZE := by
    rw [List.length_set, memcpy_at_length _ _ _ hcopy, hl]
    exact hB.symm
  refine ⟨⟨hs0, hd0, by rw [hB]; push_cast; omega⟩, hcopy, hnul, hlen, ?_⟩
  intro k hk
  have hget : (((memcpy_at h.buf h.data_start.toNat data).set
        (h.data_start + (h.data_length + data.length)).toNat NUL).drop h.data_start.toNat).get?
        (h.data_length + data.length).toNat = some NUL := by
    rw [List.get?_eq_getElem?, List.getElem?_drop]
    have e : h.data_start.toNat + (h.data_length + data.length).toNat
        = (h.data_start + (h.data_length + data.length)).toNat := by omega
    rw [e, List.getElem?_set_self]
    rw [memcpy_at_length _ _ _ hcopy]
    exact hnul
  have := strchr_before_nul _ CR (by decide) k _ hget hk
  omega

/-- The end of `rfcomm_io_cb`: the line is dispatched and the cursor moves
past the `cmd_len` bytes consumed. -/
theorem cursor_ok_consume (env : Env) (w2 : World) (dev : Nat) (line : List Nat) (cmd_len : Int)
    (hall : ∀ d, d ≠ dev → cursor_ok (w2.hs d))
    (hbuf : (w2.hs dev).buf.length = BUF_SIZE)
    (h0 : 0 ≤ (w2.hs dev).data_start) (h1 : 0 ≤ cmd_len)
    (h2 : cmd_len ≤ (w2.hs dev).data_length)
    (h3 : (w2.hs dev).data_start + (w2.hs dev).data_length ≤ (BUF_SIZE : Int) - 1) :
    ∀ d, cursor_ok (((dispatch_line env w2 dev line).set_hs dev
      { (dispatch_line env w2 dev line).hs dev with
        data_start :=
          if ((dispatch_line env w2 dev line).hs dev).data_length - cmd_len = 0 then 0
          else ((dispatch_line env w2 dev line).hs dev).data_start + cmd_len,
        data_length := ((dispatch_line env w2 dev line).hs dev).data_length - cmd_len }).hs d) := by
  have hk := cursors_kept_dispatch_line env w2 dev line
  intro d
  by_cases hd : d = dev
  · subst hd
    rw [set_hs_same]
    have e := hk d
    simp only [cursor, Prod.mk.injEq] at e
    obtain ⟨e1, e2, e3⟩ := e
    unfold cursor_ok
    dsimp only
    rw [e1, e2, e3]
    refine ⟨hbuf, ?_, by omega, ?_⟩
    · split_ifs <;> omega
    · split_ifs <;> omega
  · rw [set_hs_other _ _ _ _ hd]
    exact cursor_ok_congr _ _ (hk d) (hall d hd)

/-- One call of `rfcomm_io_cb` keeps every cursor inside its buffer. -/
theorem cursor_ok_rfcomm_io_cb (env : Env) (w : World) (cond : Nat) (rd : Option (List Nat))
    (dev : Nat) (h : ∀ d, cursor_ok (w.hs d)) :
    ∀ d, cursor_ok ((rfcomm_io_cb env w cond rd dev).1.hs d) := by
  unfold rfcomm_io_cb
  by_cases h1 : cond &&& G_IO_NVAL ≠ 0
  · rw [if_pos h1]
    exact h
  rw [if_neg h1]
  by_cases h2 : cond &&& (G_IO_ERR ||| G_IO_HUP) ≠ 0
  · rw [if_pos h2]
    exact cursor_ok_set_state env w dev _ h
  rw [if_neg h2]
  cases rd with
  | none => exact h
  | some data =>
    dsimp only
    by_cases hfree : ((BUF_SIZE : Int) - (w.hs dev).data_start - (w.hs dev).data_length - 1)
        % 2 ^ 64 < data.length
    · rw [if_pos hfree]
      exact cursor_ok_set_state env w dev _ h
    rw [if_neg hfree]
    obtain ⟨hin, hcopy, hnul, hlen, hcr⟩ := io_bounds (w.hs dev) (h dev) data hfree
    rw [if_pos hin]
    split
    · intro d
      by_cases hd : d = dev
      · subst hd
        rw [set_hs_same]
        have h3 := hin.2.2
        refine ⟨hlen, hin.1, ?_, ?_⟩
        · show 0 ≤ (w.hs d).data_length + (data.length : Int)
          omega
        · show (w.hs d).data_start + ((w.hs d).data_length + (data.length : Int))
            ≤ (BUF_SIZE : Int) - 1
          omega
      · rw [set_hs_other _ _ _ _ hd]
        exact h d
    · rename_i k hk
      have hk2 := hcr k hk
      refine cursor_ok_consume env _ dev _ (1 + (k : Int)) ?_ ?_ ?_ ?_ ?_ ?_
      · intro d hd
        rw [set_hs_other _ _ _ _ hd, set_hs_other _ _ _ _ hd]
        exact h d
      · rw [set_hs_same]
        dsimp only
        rw [List.length_set]
        exact hlen
      · rw [set_hs_same, set_hs_same]
        exact hin.1
      · omega
      · rw [set_hs_same, set_hs_same]
        exact hk2
      · rw [set_hs_same, set_hs_same]
        have h3 := hin.2.2
        show (w.hs dev).data_start + ((w.hs dev).data_length + (data.length : Int))
            ≤ (BUF_SIZE : Int) - 1
        omega

theorem cursor_ok_run_io (env : Env) (calls : List (Nat × Nat × Option (List Nat))) (w : World)
    (h : ∀ d, cursor_ok (w.hs d)) : ∀ d, cursor_ok ((run_io env w calls).hs d) := by
  induction calls generalizing w with
  | nil => exact h
  | cons c r ih => exact ih _ (cursor_ok_rfcomm_io_cb env w c.2.1 c.2.2 c.1 h)

/-- C38: started from cursors inside their buffers (an empty input buffer is
one), after any sequence of `rfcomm_io_cb` calls, whatever the condition and
the outcome of the read, every session has `buf` of `BUF_SIZE` bytes,
`0 ≤ data_start`, `0 ≤ data_length` and
`data_start + data_length ≤ BUF_SIZE - 1`. In the state reached, for every
chunk that passes the free-space check: the chunk copy at `data_start` and the
NUL write at `data_start + data_length` fall inside `buf`, a carriage return
found by `strchr` gives a command length `1 + k` of at most the new
`data_length`, and a call that finds no carriage return only stores the chunk
and the new `data_length`, without leaving the buffer. -/
theorem framer_cursor_in_bounds (env : Env) (w : World)
    (calls : List (Nat × Nat × Option (List Nat))) (h0 : ∀ d, cursor_ok (w.hs d)) :
    (∀ d, cursor_ok ((run_io env w calls).hs d)) ∧
    ∀ (dev : Nat) (data : List Nat),
      ¬ (((BUF_SIZE : Int) - ((run_io env w calls).hs dev).data_start
          - ((run_io env w calls).hs dev).data_length - 1) % 2 ^ 64 < data.length) →
      ((run_io env w calls).hs dev).data_start.toNat + data.length
        ≤ ((run_io env w calls).hs dev).buf.length ∧
      (((run_io env w calls).hs dev).data_start
        + (((run_io env w calls).hs dev).data_length + data.length)).toNat
        < ((run_io env w calls).hs dev).buf.length ∧
      (∀ k, strchr (((memcpy_at ((run_io env w calls).hs dev).buf
            ((run_io env w calls).hs dev).data_start.toNat data).set
          (((run_io env w calls).hs dev).data_start
            + (((run_io env w calls).hs dev).data_length + data.length)).toNat NUL).drop
          ((run_io env w calls).hs dev).data_start.toNat) CR = some k →
        1 + (k : Int) ≤ ((run_io env w calls).hs dev).data_length + data.length) ∧
      ∀ cond, cond &&& G_IO_NVAL = 0 → cond &&& (G_IO_ERR ||| G_IO_HUP) = 0 →
        strchr (((memcpy_at ((run_io env w calls).hs dev).buf
            ((run_io env w calls).hs dev).data_start.toNat data).set
          (((run_io env w calls).hs dev).data_start
            + (((run_io env w calls).hs dev).data_length + data.length)).toNat NUL).drop
          ((run_io env w calls).hs dev).data_start.toNat) CR = none →
        rfcomm_io_cb env (run_io env w calls) cond (some data) dev
          = ((run_io env w calls).set_hs dev
              { (run_io env w calls).hs dev with
                buf := (memcpy_at ((run_io env w calls).hs dev).buf
                    ((run_io env w calls).hs dev).data_start.toNat data).set
                  (((run_io env w calls).hs dev).data_start
                    + (((run_io env w calls).hs dev).data_length + data.length)).toNat NUL,
                data_length := ((run_io env w calls).hs dev).data_length + data.length },
             true) := by
  have hall := cursor_ok_run_io env calls w h0
  refine ⟨hall, ?_⟩
  generalize run_io env w calls = v at hall
  intro dev data hfree
  obtain ⟨hin, hcopy, hnul, _, hcr⟩ := io_bounds (v.hs dev) (hall dev) data hfree
  refine ⟨hcopy, hnul, hcr, ?_⟩
  intro cond hnval herr hnone
  unfold rfcomm_io_cb
  simp only [hnval, herr, ne_eq, not_true_eq_false, if_false, if_neg hfree, if_pos hin, hnone]

theorem framer_cursor_in_bounds_witness :
    cursor_ok ((world_init false).hs 0) ∧
    cursor_ok ((run_io env_ok (world_init false)
      [(0, G_IO_IN, some (bytes "AT+CKPD=200\r")), (0, G_IO_IN, some (bytes "AT"))]).hs 0) ∧
    ((run_io env_ok (world_init false)
      [(0, G_IO_IN, some (bytes "AT+CKPD=200\r")), (0, G_IO_IN, some (bytes "AT"))]).hs 0).data_start
        = 0 ∧
    ((run_io env_ok (world_init false)
      [(0, G_IO_IN, some (bytes "AT+CKPD=200\r")), (0, G_IO_IN, some (bytes "AT"))]).hs 0).data_length
        = 2 :=
  ⟨cursor_ok_headset_new false,
    (framer_cursor_in_bounds env_ok (world_init false)
      [(0, G_IO_IN, some (bytes "AT+CKPD=200\r")), (0, G_IO_IN, some (bytes "AT"))]
      (fun _ => cursor_ok_headset_new false)).1 0,
    by decide, by decide⟩

end Headset
